import Mathlib

/-!
# Camellia block cipher (`camellia.c`, version 1.2.0): embedding and verification

The C translation unit is embedded shallowly.  A `u32` is a natural number kept
below `2 ^ 32`; every operation of the source that can leave that range (a left
shift, an addition) is followed by an explicit truncation `u32`.  A byte buffer
(`unsigned char *`) is a `List Nat` of bytes, a `u32` array is the function from
the index to the word stored there.  Macros that assign to several of their
arguments become functions returning the new values of those arguments.

The namespace `Ref` holds the algorithm as RFC 3713 writes it, on 64- and 128-bit
numbers, with none of the tables or macros of the source; the optimised schedule and
round macro of the source are proved to compute it.
-/

namespace Camellia


/-! ## Machine words -/

/-- Truncation of a number to the 32 bits of a `u32` (`unsigned int`). -/
def u32 (x : Nat) : Nat := x % 4294967296

/-- Truncation of a number to the 8 bits of a `u8` (`unsigned char`). -/
def u8 (x : Nat) : Nat := x % 256

/-- The operator `~` on a `u32`: every one of the 32 bits is flipped. -/
def NOT32 (x : Nat) : Nat := x ^^^ 0xFFFFFFFF

/-- A `u32` array: `a.word i` is the word `a[i]`. -/
structure Words where
  word : Nat → Nat

/-- The assignment `a[i] = v`. -/
def store (a : Words) (i v : Nat) : Words := { word := fun j => if j = i then v else a.word j }

/-! ## Key constants -/

def CAMELLIA_SIGMA1L : Nat := 0xA09E667F
def CAMELLIA_SIGMA1R : Nat := 0x3BCC908B
def CAMELLIA_SIGMA2L : Nat := 0xB67AE858
def CAMELLIA_SIGMA2R : Nat := 0x4CAA73B2
def CAMELLIA_SIGMA3L : Nat := 0xC6EF372F
def CAMELLIA_SIGMA3R : Nat := 0xE94F82BE
def CAMELLIA_SIGMA4L : Nat := 0x54FF53A5
def CAMELLIA_SIGMA4R : Nat := 0xF1D36F1C
def CAMELLIA_SIGMA5L : Nat := 0x10E527FA
def CAMELLIA_SIGMA5R : Nat := 0xDE682D1D
def CAMELLIA_SIGMA6L : Nat := 0xB05688C2
def CAMELLIA_SIGMA6R : Nat := 0xB3E6C1FD

/-! ## Macros -/

/-- Macro `GETU32(pt)` (portable branch) for the pointer `pt = buf + off`: the
four bytes at `off .. off + 3` read as one big-endian word.  The two
compiler-specific branches (`SWAP` of an unaligned load) read the same word. -/
def GETU32 (buf : List Nat) (off : Nat) : Nat :=
  u32 (u32 (buf.getD off 0) <<< 24)
    ^^^ u32 (u32 (buf.getD (off + 1) 0) <<< 16)
    ^^^ u32 (u32 (buf.getD (off + 2) 0) <<< 8)
    ^^^ u32 (buf.getD (off + 3) 0)

/-- Macro `PUTU32(ct, st)` (portable branch) for the pointer `ct = buf + off`:
the buffer after the four byte stores. -/
def PUTU32 (buf : List Nat) (off : Nat) (st : Nat) : List Nat :=
  (((buf.set off (u8 (st >>> 24))).set (off + 1) (u8 (st >>> 16))).set
    (off + 2) (u8 (st >>> 8))).set (off + 3) (u8 st)

/-- Macro `CamelliaSubkeyL(INDEX)`: `subkey[(INDEX)*2]`. -/
def CamelliaSubkeyL (subkey : Words) (INDEX : Nat) : Nat := subkey.word (INDEX * 2)

/-- Macro `CamelliaSubkeyR(INDEX)`: `subkey[(INDEX)*2 + 1]`. -/
def CamelliaSubkeyR (subkey : Words) (INDEX : Nat) : Nat := subkey.word (INDEX * 2 + 1)

/-- Macro `CAMELLIA_RR8(x)`: `((x) >> 8) + ((x) << 24)` on a `u32`. -/
def CAMELLIA_RR8 (x : Nat) : Nat := u32 ((x >>> 8) + u32 (x <<< 24))

/-- Macro `CAMELLIA_RL1(x)`: `((x) << 1) + ((x) >> 31)` on a `u32`. -/
def CAMELLIA_RL1 (x : Nat) : Nat := u32 (u32 (x <<< 1) + (x >>> 31))

/-- Macro `CAMELLIA_RL8(x)`: `((x) << 8) + ((x) >> 24)` on a `u32`. -/
def CAMELLIA_RL8 (x : Nat) : Nat := u32 (u32 (x <<< 8) + (x >>> 24))

/-- Four `u32` variables `ll, lr, rl, rr` that the macros update together. -/
structure Quad where
  ll : Nat
  lr : Nat
  rl : Nat
  rr : Nat
deriving DecidableEq, Repr

/-- Macro `CAMELLIA_ROLDQ(ll, lr, rl, rr, w0, w1, bits)`: the new values of
`ll, lr, rl, rr` (`w0` keeps the old `ll`). -/
def CAMELLIA_ROLDQ (q : Quad) (bits : Nat) : Quad :=
  let w0 := q.ll
  let ll := u32 (u32 (q.ll <<< bits) + (q.lr >>> (32 - bits)))
  let lr := u32 (u32 (q.lr <<< bits) + (q.rl >>> (32 - bits)))
  let rl := u32 (u32 (q.rl <<< bits) + (q.rr >>> (32 - bits)))
  let rr := u32 (u32 (q.rr <<< bits) + (w0 >>> (32 - bits)))
  { ll := ll, lr := lr, rl := rl, rr := rr }

/-- Macro `CAMELLIA_ROLDQo32(ll, lr, rl, rr, w0, w1, bits)`: the new values of
`ll, lr, rl, rr` (`w0`, `w1` keep the old `ll`, `lr`). -/
def CAMELLIA_ROLDQo32 (q : Quad) (bits : Nat) : Quad :=
  let w0 := q.ll
  let w1 := q.lr
  let ll := u32 (u32 (q.lr <<< (bits - 32)) + (q.rl >>> (64 - bits)))
  let lr := u32 (u32 (q.rl <<< (bits - 32)) + (q.rr >>> (64 - bits)))
  let rl := u32 (u32 (q.rr <<< (bits - 32)) + (w0 >>> (64 - bits)))
  let rr := u32 (u32 (w0 <<< (bits - 32)) + (w1 >>> (64 - bits)))
  { ll := ll, lr := lr, rl := rl, rr := rr }

/-! ## Substitution tables -/

/-- Table `camellia_sp1110` (256 entries of type u32). -/
def camellia_sp1110 : List Nat := [
    0x70707000,0x82828200,0x2c2c2c00,0xececec00,
    0xb3b3b300,0x27272700,0xc0c0c000,0xe5e5e500,
    0xe4e4e400,0x85858500,0x57575700,0x35353500,
    0xeaeaea00,0x0c0c0c00,0xaeaeae00,0x41414100,
    0x23232300,0xefefef00,0x6b6b6b00,0x93939300,
    0x45454500,0x19191900,0xa5a5a500,0x21212100,
    0xededed00,0x0e0e0e00,0x4f4f4f00,0x4e4e4e00,
    0x1d1d1d00,0x65656500,0x92929200,0xbdbdbd00,
    0x86868600,0xb8b8b800,0xafafaf00,0x8f8f8f00,
    0x7c7c7c00,0xebebeb00,0x1f1f1f00,0xcecece00,
    0x3e3e3e00,0x30303000,0xdcdcdc00,0x5f5f5f00,
    0x5e5e5e00,0xc5c5c500,0x0b0b0b00,0x1a1a1a00,
    0xa6a6a600,0xe1e1e100,0x39393900,0xcacaca00,
    0xd5d5d500,0x47474700,0x5d5d5d00,0x3d3d3d00,
    0xd9d9d900,0x01010100,0x5a5a5a00,0xd6d6d600,
    0x51515100,0x56565600,0x6c6c6c00,0x4d4d4d00,
    0x8b8b8b00,0x0d0d0d00,0x9a9a9a00,0x66666600,
    0xfbfbfb00,0xcccccc00,0xb0b0b000,0x2d2d2d00,
    0x74747400,0x12121200,0x2b2b2b00,0x20202000,
    0xf0f0f000,0xb1b1b100,0x84848400,0x99999900,
    0xdfdfdf00,0x4c4c4c00,0xcbcbcb00,0xc2c2c200,
    0x34343400,0x7e7e7e00,0x76767600,0x05050500,
    0x6d6d6d00,0xb7b7b700,0xa9a9a900,0x31313100,
    0xd1d1d100,0x17171700,0x04040400,0xd7d7d700,
    0x14141400,0x58585800,0x3a3a3a00,0x61616100,
    0xdedede00,0x1b1b1b00,0x11111100,0x1c1c1c00,
    0x32323200,0x0f0f0f00,0x9c9c9c00,0x16161600,
    0x53535300,0x18181800,0xf2f2f200,0x22222200,
    0xfefefe00,0x44444400,0xcfcfcf00,0xb2b2b200,
    0xc3c3c300,0xb5b5b500,0x7a7a7a00,0x91919100,
    0x24242400,0x08080800,0xe8e8e800,0xa8a8a800,
    0x60606000,0xfcfcfc00,0x69696900,0x50505000,
    0xaaaaaa00,0xd0d0d000,0xa0a0a000,0x7d7d7d00,
    0xa1a1a100,0x89898900,0x62626200,0x97979700,
    0x54545400,0x5b5b5b00,0x1e1e1e00,0x95959500,
    0xe0e0e000,0xffffff00,0x64646400,0xd2d2d200,
    0x10101000,0xc4c4c400,0x00000000,0x48484800,
    0xa3a3a300,0xf7f7f700,0x75757500,0xdbdbdb00,
    0x8a8a8a00,0x03030300,0xe6e6e600,0xdadada00,
    0x09090900,0x3f3f3f00,0xdddddd00,0x94949400,
    0x87878700,0x5c5c5c00,0x83838300,0x02020200,
    0xcdcdcd00,0x4a4a4a00,0x90909000,0x33333300,
    0x73737300,0x67676700,0xf6f6f600,0xf3f3f300,
    0x9d9d9d00,0x7f7f7f00,0xbfbfbf00,0xe2e2e200,
    0x52525200,0x9b9b9b00,0xd8d8d800,0x26262600,
    0xc8c8c800,0x37373700,0xc6c6c600,0x3b3b3b00,
    0x81818100,0x96969600,0x6f6f6f00,0x4b4b4b00,
    0x13131300,0xbebebe00,0x63636300,0x2e2e2e00,
    0xe9e9e900,0x79797900,0xa7a7a700,0x8c8c8c00,
    0x9f9f9f00,0x6e6e6e00,0xbcbcbc00,0x8e8e8e00,
    0x29292900,0xf5f5f500,0xf9f9f900,0xb6b6b600,
    0x2f2f2f00,0xfdfdfd00,0xb4b4b400,0x59595900,
    0x78787800,0x98989800,0x06060600,0x6a6a6a00,
    0xe7e7e700,0x46464600,0x71717100,0xbababa00,
    0xd4d4d400,0x25252500,0xababab00,0x42424200,
    0x88888800,0xa2a2a200,0x8d8d8d00,0xfafafa00,
    0x72727200,0x07070700,0xb9b9b900,0x55555500,
    0xf8f8f800,0xeeeeee00,0xacacac00,0x0a0a0a00,
    0x36363600,0x49494900,0x2a2a2a00,0x68686800,
    0x3c3c3c00,0x38383800,0xf1f1f100,0xa4a4a400,
    0x40404000,0x28282800,0xd3d3d300,0x7b7b7b00,
    0xbbbbbb00,0xc9c9c900,0x43434300,0xc1c1c100,
    0x15151500,0xe3e3e300,0xadadad00,0xf4f4f400,
    0x77777700,0xc7c7c700,0x80808000,0x9e9e9e00
]

/-- Table `camellia_sp0222` (256 entries of type u32). -/
def camellia_sp0222 : List Nat := [
    0x00e0e0e0,0x00050505,0x00585858,0x00d9d9d9,
    0x00676767,0x004e4e4e,0x00818181,0x00cbcbcb,
    0x00c9c9c9,0x000b0b0b,0x00aeaeae,0x006a6a6a,
    0x00d5d5d5,0x00181818,0x005d5d5d,0x00828282,
    0x00464646,0x00dfdfdf,0x00d6d6d6,0x00272727,
    0x008a8a8a,0x00323232,0x004b4b4b,0x00424242,
    0x00dbdbdb,0x001c1c1c,0x009e9e9e,0x009c9c9c,
    0x003a3a3a,0x00cacaca,0x00252525,0x007b7b7b,
    0x000d0d0d,0x00717171,0x005f5f5f,0x001f1f1f,
    0x00f8f8f8,0x00d7d7d7,0x003e3e3e,0x009d9d9d,
    0x007c7c7c,0x00606060,0x00b9b9b9,0x00bebebe,
    0x00bcbcbc,0x008b8b8b,0x00161616,0x00343434,
    0x004d4d4d,0x00c3c3c3,0x00727272,0x00959595,
    0x00ababab,0x008e8e8e,0x00bababa,0x007a7a7a,
    0x00b3b3b3,0x00020202,0x00b4b4b4,0x00adadad,
    0x00a2a2a2,0x00acacac,0x00d8d8d8,0x009a9a9a,
    0x00171717,0x001a1a1a,0x00353535,0x00cccccc,
    0x00f7f7f7,0x00999999,0x00616161,0x005a5a5a,
    0x00e8e8e8,0x00242424,0x00565656,0x00404040,
    0x00e1e1e1,0x00636363,0x00090909,0x00333333,
    0x00bfbfbf,0x00989898,0x00979797,0x00858585,
    0x00686868,0x00fcfcfc,0x00ececec,0x000a0a0a,
    0x00dadada,0x006f6f6f,0x00535353,0x00626262,
    0x00a3a3a3,0x002e2e2e,0x00080808,0x00afafaf,
    0x00282828,0x00b0b0b0,0x00747474,0x00c2c2c2,
    0x00bdbdbd,0x00363636,0x00222222,0x00383838,
    0x00646464,0x001e1e1e,0x00393939,0x002c2c2c,
    0x00a6a6a6,0x00303030,0x00e5e5e5,0x00444444,
    0x00fdfdfd,0x00888888,0x009f9f9f,0x00656565,
    0x00878787,0x006b6b6b,0x00f4f4f4,0x00232323,
    0x00484848,0x00101010,0x00d1d1d1,0x00515151,
    0x00c0c0c0,0x00f9f9f9,0x00d2d2d2,0x00a0a0a0,
    0x00555555,0x00a1a1a1,0x00414141,0x00fafafa,
    0x00434343,0x00131313,0x00c4c4c4,0x002f2f2f,
    0x00a8a8a8,0x00b6b6b6,0x003c3c3c,0x002b2b2b,
    0x00c1c1c1,0x00ffffff,0x00c8c8c8,0x00a5a5a5,
    0x00202020,0x00898989,0x00000000,0x00909090,
    0x00474747,0x00efefef,0x00eaeaea,0x00b7b7b7,
    0x00151515,0x00060606,0x00cdcdcd,0x00b5b5b5,
    0x00121212,0x007e7e7e,0x00bbbbbb,0x00292929,
    0x000f0f0f,0x00b8b8b8,0x00070707,0x00040404,
    0x009b9b9b,0x00949494,0x00212121,0x00666666,
    0x00e6e6e6,0x00cecece,0x00ededed,0x00e7e7e7,
    0x003b3b3b,0x00fefefe,0x007f7f7f,0x00c5c5c5,
    0x00a4a4a4,0x00373737,0x00b1b1b1,0x004c4c4c,
    0x00919191,0x006e6e6e,0x008d8d8d,0x00767676,
    0x00030303,0x002d2d2d,0x00dedede,0x00969696,
    0x00262626,0x007d7d7d,0x00c6c6c6,0x005c5c5c,
    0x00d3d3d3,0x00f2f2f2,0x004f4f4f,0x00191919,
    0x003f3f3f,0x00dcdcdc,0x00797979,0x001d1d1d,
    0x00525252,0x00ebebeb,0x00f3f3f3,0x006d6d6d,
    0x005e5e5e,0x00fbfbfb,0x00696969,0x00b2b2b2,
    0x00f0f0f0,0x00313131,0x000c0c0c,0x00d4d4d4,
    0x00cfcfcf,0x008c8c8c,0x00e2e2e2,0x00757575,
    0x00a9a9a9,0x004a4a4a,0x00575757,0x00848484,
    0x00111111,0x00454545,0x001b1b1b,0x00f5f5f5,
    0x00e4e4e4,0x000e0e0e,0x00737373,0x00aaaaaa,
    0x00f1f1f1,0x00dddddd,0x00595959,0x00141414,
    0x006c6c6c,0x00929292,0x00545454,0x00d0d0d0,
    0x00787878,0x00707070,0x00e3e3e3,0x00494949,
    0x00808080,0x00505050,0x00a7a7a7,0x00f6f6f6,
    0x00777777,0x00939393,0x00868686,0x00838383,
    0x002a2a2a,0x00c7c7c7,0x005b5b5b,0x00e9e9e9,
    0x00eeeeee,0x008f8f8f,0x00010101,0x003d3d3d
]

/-- Table `camellia_sp3033` (256 entries of type u32). -/
def camellia_sp3033 : List Nat := [
    0x38003838,0x41004141,0x16001616,0x76007676,
    0xd900d9d9,0x93009393,0x60006060,0xf200f2f2,
    0x72007272,0xc200c2c2,0xab00abab,0x9a009a9a,
    0x75007575,0x06000606,0x57005757,0xa000a0a0,
    0x91009191,0xf700f7f7,0xb500b5b5,0xc900c9c9,
    0xa200a2a2,0x8c008c8c,0xd200d2d2,0x90009090,
    0xf600f6f6,0x07000707,0xa700a7a7,0x27002727,
    0x8e008e8e,0xb200b2b2,0x49004949,0xde00dede,
    0x43004343,0x5c005c5c,0xd700d7d7,0xc700c7c7,
    0x3e003e3e,0xf500f5f5,0x8f008f8f,0x67006767,
    0x1f001f1f,0x18001818,0x6e006e6e,0xaf00afaf,
    0x2f002f2f,0xe200e2e2,0x85008585,0x0d000d0d,
    0x53005353,0xf000f0f0,0x9c009c9c,0x65006565,
    0xea00eaea,0xa300a3a3,0xae00aeae,0x9e009e9e,
    0xec00ecec,0x80008080,0x2d002d2d,0x6b006b6b,
    0xa800a8a8,0x2b002b2b,0x36003636,0xa600a6a6,
    0xc500c5c5,0x86008686,0x4d004d4d,0x33003333,
    0xfd00fdfd,0x66006666,0x58005858,0x96009696,
    0x3a003a3a,0x09000909,0x95009595,0x10001010,
    0x78007878,0xd800d8d8,0x42004242,0xcc00cccc,
    0xef00efef,0x26002626,0xe500e5e5,0x61006161,
    0x1a001a1a,0x3f003f3f,0x3b003b3b,0x82008282,
    0xb600b6b6,0xdb00dbdb,0xd400d4d4,0x98009898,
    0xe800e8e8,0x8b008b8b,0x02000202,0xeb00ebeb,
    0x0a000a0a,0x2c002c2c,0x1d001d1d,0xb000b0b0,
    0x6f006f6f,0x8d008d8d,0x88008888,0x0e000e0e,
    0x19001919,0x87008787,0x4e004e4e,0x0b000b0b,
    0xa900a9a9,0x0c000c0c,0x79007979,0x11001111,
    0x7f007f7f,0x22002222,0xe700e7e7,0x59005959,
    0xe100e1e1,0xda00dada,0x3d003d3d,0xc800c8c8,
    0x12001212,0x04000404,0x74007474,0x54005454,
    0x30003030,0x7e007e7e,0xb400b4b4,0x28002828,
    0x55005555,0x68006868,0x50005050,0xbe00bebe,
    0xd000d0d0,0xc400c4c4,0x31003131,0xcb00cbcb,
    0x2a002a2a,0xad00adad,0x0f000f0f,0xca00caca,
    0x70007070,0xff00ffff,0x32003232,0x69006969,
    0x08000808,0x62006262,0x00000000,0x24002424,
    0xd100d1d1,0xfb00fbfb,0xba00baba,0xed00eded,
    0x45004545,0x81008181,0x73007373,0x6d006d6d,
    0x84008484,0x9f009f9f,0xee00eeee,0x4a004a4a,
    0xc300c3c3,0x2e002e2e,0xc100c1c1,0x01000101,
    0xe600e6e6,0x25002525,0x48004848,0x99009999,
    0xb900b9b9,0xb300b3b3,0x7b007b7b,0xf900f9f9,
    0xce00cece,0xbf00bfbf,0xdf00dfdf,0x71007171,
    0x29002929,0xcd00cdcd,0x6c006c6c,0x13001313,
    0x64006464,0x9b009b9b,0x63006363,0x9d009d9d,
    0xc000c0c0,0x4b004b4b,0xb700b7b7,0xa500a5a5,
    0x89008989,0x5f005f5f,0xb100b1b1,0x17001717,
    0xf400f4f4,0xbc00bcbc,0xd300d3d3,0x46004646,
    0xcf00cfcf,0x37003737,0x5e005e5e,0x47004747,
    0x94009494,0xfa00fafa,0xfc00fcfc,0x5b005b5b,
    0x97009797,0xfe00fefe,0x5a005a5a,0xac00acac,
    0x3c003c3c,0x4c004c4c,0x03000303,0x35003535,
    0xf300f3f3,0x23002323,0xb800b8b8,0x5d005d5d,
    0x6a006a6a,0x92009292,0xd500d5d5,0x21002121,
    0x44004444,0x51005151,0xc600c6c6,0x7d007d7d,
    0x39003939,0x83008383,0xdc00dcdc,0xaa00aaaa,
    0x7c007c7c,0x77007777,0x56005656,0x05000505,
    0x1b001b1b,0xa400a4a4,0x15001515,0x34003434,
    0x1e001e1e,0x1c001c1c,0xf800f8f8,0x52005252,
    0x20002020,0x14001414,0xe900e9e9,0xbd00bdbd,
    0xdd00dddd,0xe400e4e4,0xa100a1a1,0xe000e0e0,
    0x8a008a8a,0xf100f1f1,0xd600d6d6,0x7a007a7a,
    0xbb00bbbb,0xe300e3e3,0x40004040,0x4f004f4f
]

/-- Table `camellia_sp4404` (256 entries of type u32). -/
def camellia_sp4404 : List Nat := [
    0x70700070,0x2c2c002c,0xb3b300b3,0xc0c000c0,
    0xe4e400e4,0x57570057,0xeaea00ea,0xaeae00ae,
    0x23230023,0x6b6b006b,0x45450045,0xa5a500a5,
    0xeded00ed,0x4f4f004f,0x1d1d001d,0x92920092,
    0x86860086,0xafaf00af,0x7c7c007c,0x1f1f001f,
    0x3e3e003e,0xdcdc00dc,0x5e5e005e,0x0b0b000b,
    0xa6a600a6,0x39390039,0xd5d500d5,0x5d5d005d,
    0xd9d900d9,0x5a5a005a,0x51510051,0x6c6c006c,
    0x8b8b008b,0x9a9a009a,0xfbfb00fb,0xb0b000b0,
    0x74740074,0x2b2b002b,0xf0f000f0,0x84840084,
    0xdfdf00df,0xcbcb00cb,0x34340034,0x76760076,
    0x6d6d006d,0xa9a900a9,0xd1d100d1,0x04040004,
    0x14140014,0x3a3a003a,0xdede00de,0x11110011,
    0x32320032,0x9c9c009c,0x53530053,0xf2f200f2,
    0xfefe00fe,0xcfcf00cf,0xc3c300c3,0x7a7a007a,
    0x24240024,0xe8e800e8,0x60600060,0x69690069,
    0xaaaa00aa,0xa0a000a0,0xa1a100a1,0x62620062,
    0x54540054,0x1e1e001e,0xe0e000e0,0x64640064,
    0x10100010,0x00000000,0xa3a300a3,0x75750075,
    0x8a8a008a,0xe6e600e6,0x09090009,0xdddd00dd,
    0x87870087,0x83830083,0xcdcd00cd,0x90900090,
    0x73730073,0xf6f600f6,0x9d9d009d,0xbfbf00bf,
    0x52520052,0xd8d800d8,0xc8c800c8,0xc6c600c6,
    0x81810081,0x6f6f006f,0x13130013,0x63630063,
    0xe9e900e9,0xa7a700a7,0x9f9f009f,0xbcbc00bc,
    0x29290029,0xf9f900f9,0x2f2f002f,0xb4b400b4,
    0x78780078,0x06060006,0xe7e700e7,0x71710071,
    0xd4d400d4,0xabab00ab,0x88880088,0x8d8d008d,
    0x72720072,0xb9b900b9,0xf8f800f8,0xacac00ac,
    0x36360036,0x2a2a002a,0x3c3c003c,0xf1f100f1,
    0x40400040,0xd3d300d3,0xbbbb00bb,0x43430043,
    0x15150015,0xadad00ad,0x77770077,0x80800080,
    0x82820082,0xecec00ec,0x27270027,0xe5e500e5,
    0x85850085,0x35350035,0x0c0c000c,0x41410041,
    0xefef00ef,0x93930093,0x19190019,0x21210021,
    0x0e0e000e,0x4e4e004e,0x65650065,0xbdbd00bd,
    0xb8b800b8,0x8f8f008f,0xebeb00eb,0xcece00ce,
    0x30300030,0x5f5f005f,0xc5c500c5,0x1a1a001a,
    0xe1e100e1,0xcaca00ca,0x47470047,0x3d3d003d,
    0x01010001,0xd6d600d6,0x56560056,0x4d4d004d,
    0x0d0d000d,0x66660066,0xcccc00cc,0x2d2d002d,
    0x12120012,0x20200020,0xb1b100b1,0x99990099,
    0x4c4c004c,0xc2c200c2,0x7e7e007e,0x05050005,
    0xb7b700b7,0x31310031,0x17170017,0xd7d700d7,
    0x58580058,0x61610061,0x1b1b001b,0x1c1c001c,
    0x0f0f000f,0x16160016,0x18180018,0x22220022,
    0x44440044,0xb2b200b2,0xb5b500b5,0x91910091,
    0x08080008,0xa8a800a8,0xfcfc00fc,0x50500050,
    0xd0d000d0,0x7d7d007d,0x89890089,0x97970097,
    0x5b5b005b,0x95950095,0xffff00ff,0xd2d200d2,
    0xc4c400c4,0x48480048,0xf7f700f7,0xdbdb00db,
    0x03030003,0xdada00da,0x3f3f003f,0x94940094,
    0x5c5c005c,0x02020002,0x4a4a004a,0x33330033,
    0x67670067,0xf3f300f3,0x7f7f007f,0xe2e200e2,
    0x9b9b009b,0x26260026,0x37370037,0x3b3b003b,
    0x96960096,0x4b4b004b,0xbebe00be,0x2e2e002e,
    0x79790079,0x8c8c008c,0x6e6e006e,0x8e8e008e,
    0xf5f500f5,0xb6b600b6,0xfdfd00fd,0x59590059,
    0x98980098,0x6a6a006a,0x46460046,0xbaba00ba,
    0x25250025,0x42420042,0xa2a200a2,0xfafa00fa,
    0x07070007,0x55550055,0xeeee00ee,0x0a0a000a,
    0x49490049,0x68680068,0x38380038,0xa4a400a4,
    0x28280028,0x7b7b007b,0xc9c900c9,0xc1c100c1,
    0xe3e300e3,0xf4f400f4,0xc7c700c7,0x9e9e009e
]
/-- Macro `CAMELLIA_SP1110(INDEX)`. -/
def CAMELLIA_SP1110 (INDEX : Nat) : Nat := camellia_sp1110.getD INDEX 0

/-- Macro `CAMELLIA_SP0222(INDEX)`. -/
def CAMELLIA_SP0222 (INDEX : Nat) : Nat := camellia_sp0222.getD INDEX 0

/-- Macro `CAMELLIA_SP3033(INDEX)`. -/
def CAMELLIA_SP3033 (INDEX : Nat) : Nat := camellia_sp3033.getD INDEX 0

/-- Macro `CAMELLIA_SP4404(INDEX)`. -/
def CAMELLIA_SP4404 (INDEX : Nat) : Nat := camellia_sp4404.getD INDEX 0

/-- Macro `CAMELLIA_F(xl, xr, kl, kr, yl, yr, il, ir, t0, t1)`: the values it
leaves in `(yl, yr)`. -/
def CAMELLIA_F (xl xr kl kr : Nat) : Nat × Nat :=
  let il := xl ^^^ kl
  let ir := xr ^^^ kr
  let t0 := il >>> 16
  let t1 := ir >>> 16
  let yl := CAMELLIA_SP1110 (ir &&& 0xff)
    ^^^ CAMELLIA_SP0222 ((t1 >>> 8) &&& 0xff)
    ^^^ CAMELLIA_SP3033 (t1 &&& 0xff)
    ^^^ CAMELLIA_SP4404 ((ir >>> 8) &&& 0xff)
  let yr := CAMELLIA_SP1110 ((t0 >>> 8) &&& 0xff)
    ^^^ CAMELLIA_SP0222 (t0 &&& 0xff)
    ^^^ CAMELLIA_SP3033 ((il >>> 8) &&& 0xff)
    ^^^ CAMELLIA_SP4404 (il &&& 0xff)
  let yl := yl ^^^ yr
  let yr := CAMELLIA_RR8 yr
  let yr := yr ^^^ yl
  (yl, yr)

/-- Macro `CAMELLIA_FLS(ll, lr, rl, rr, kll, klr, krl, krr, t0, t1, t2, t3)`:
the new values of `ll, lr, rl, rr`. -/
def CAMELLIA_FLS (q : Quad) (kll klr krl krr : Nat) : Quad :=
  let t0 := kll
  let t0 := t0 &&& q.ll
  let lr := q.lr ^^^ CAMELLIA_RL1 t0
  let t1 := klr
  let t1 := t1 ||| lr
  let ll := q.ll ^^^ t1
  let t2 := krr
  let t2 := t2 ||| q.rr
  let rl := q.rl ^^^ t2
  let t3 := krl
  let t3 := t3 &&& rl
  let rr := q.rr ^^^ CAMELLIA_RL1 t3
  { ll := ll, lr := lr, rl := rl, rr := rr }

/-- Macro `CAMELLIA_ROUNDSM(xl, xr, kl, kr, yl, yr, il, ir, t0, t1)`: the new
values of `(yl, yr)`; `xl` and `xr` are only read. -/
def CAMELLIA_ROUNDSM (xl xr kl kr yl yr : Nat) : Nat × Nat :=
  let ir := CAMELLIA_SP1110 (xr &&& 0xff)
    ^^^ CAMELLIA_SP0222 ((xr >>> 24) &&& 0xff)
    ^^^ CAMELLIA_SP3033 ((xr >>> 16) &&& 0xff)
    ^^^ CAMELLIA_SP4404 ((xr >>> 8) &&& 0xff)
  let il := CAMELLIA_SP1110 ((xl >>> 24) &&& 0xff)
    ^^^ CAMELLIA_SP0222 ((xl >>> 16) &&& 0xff)
    ^^^ CAMELLIA_SP3033 ((xl >>> 8) &&& 0xff)
    ^^^ CAMELLIA_SP4404 (xl &&& 0xff)
  let il := il ^^^ kl
  let ir := ir ^^^ kr
  let ir := ir ^^^ il
  let il := CAMELLIA_RR8 il
  let il := il ^^^ ir
  let yl := yl ^^^ ir
  let yr := yr ^^^ il
  (yl, yr)

/-! ## Key schedule -/

/-- The two scratch arrays `subL[]` and `subR[]` of a key schedule. -/
structure Scratch where
  subL : Words
  subR : Words

/-- Macro `subl(x)`: `subL[(x)]`. -/
def subl (s : Scratch) (x : Nat) : Nat := s.subL.word x

/-- Macro `subr(x)`: `subR[(x)]`. -/
def subr (s : Scratch) (x : Nat) : Nat := s.subR.word x

/-- The statement `subl(x) = l;`. -/
def setL (s : Scratch) (x l : Nat) : Scratch := { s with subL := store s.subL x l }

/-- The statement `subr(x) = r;`. -/
def setR (s : Scratch) (x r : Nat) : Scratch := { s with subR := store s.subR x r }

/-- The statements `subl(x) = l; subr(x) = r;`. -/
def setLR (s : Scratch) (x l r : Nat) : Scratch := setR (setL s x l) x r

/-- The statements `subl(x) ^= l; subr(x) ^= r;`. -/
def xorLR (s : Scratch) (x l r : Nat) : Scratch :=
  setR (setL s x (subl s x ^^^ l)) x (subr s x ^^^ r)

/-- The scratch arrays at function entry (locals; every element is written
before it is read). -/
def Scratch.init : Scratch := { subL := { word := fun _ => 0 }, subR := { word := fun _ => 0 } }

/-- Bytes `key[off .. off+15]` loaded as `kll, klr, krl, krr`. -/
def loadQuad (key : List Nat) (off : Nat) : Quad :=
  { ll := GETU32 key off, lr := GETU32 key (off + 4),
    rl := GETU32 key (off + 8), rr := GETU32 key (off + 12) }

/-- `camellia_setup128`, section "generate KL dependent subkeys". -/
def setup128_KL (k : Quad) (s : Scratch) : Scratch :=
  let s := setLR s 0 k.ll k.lr
  let s := setLR s 1 k.rl k.rr
  let k := CAMELLIA_ROLDQ k 15
  let s := setLR s 4 k.ll k.lr
  let s := setLR s 5 k.rl k.rr
  let k := CAMELLIA_ROLDQ k 30
  let s := setLR s 10 k.ll k.lr
  let s := setLR s 11 k.rl k.rr
  let k := CAMELLIA_ROLDQ k 15
  let s := setLR s 13 k.rl k.rr
  let k := CAMELLIA_ROLDQ k 17
  let s := setLR s 16 k.ll k.lr
  let s := setLR s 17 k.rl k.rr
  let k := CAMELLIA_ROLDQ k 17
  let s := setLR s 18 k.ll k.lr
  let s := setLR s 19 k.rl k.rr
  let k := CAMELLIA_ROLDQ k 17
  let s := setLR s 22 k.ll k.lr
  let s := setLR s 23 k.rl k.rr
  s

/-- `camellia_setup128`, section "generate KA": the values of
`kll, klr, krl, krr` after it. -/
def setup128_KA (s : Scratch) : Quad :=
  let kll := subl s 0
  let klr := subr s 0
  let krl := subl s 1
  let krr := subr s 1
  let w := CAMELLIA_F kll klr CAMELLIA_SIGMA1L CAMELLIA_SIGMA1R
  let krl := krl ^^^ w.1
  let krr := krr ^^^ w.2
  let kl := CAMELLIA_F krl krr CAMELLIA_SIGMA2L CAMELLIA_SIGMA2R
  let kr := CAMELLIA_F kl.1 kl.2 CAMELLIA_SIGMA3L CAMELLIA_SIGMA3R
  let krl := kr.1 ^^^ w.1
  let krr := kr.2 ^^^ w.2
  let w := CAMELLIA_F krl krr CAMELLIA_SIGMA4L CAMELLIA_SIGMA4R
  let kll := kl.1 ^^^ w.1
  let klr := kl.2 ^^^ w.2
  { ll := kll, lr := klr, rl := krl, rr := krr }

/-- `camellia_setup128`, section "generate KA dependent subkeys". -/
def setup128_KAsub (k : Quad) (s : Scratch) : Scratch :=
  let s := setLR s 2 k.ll k.lr
  let s := setLR s 3 k.rl k.rr
  let k := CAMELLIA_ROLDQ k 15
  let s := setLR s 6 k.ll k.lr
  let s := setLR s 7 k.rl k.rr
  let k := CAMELLIA_ROLDQ k 15
  let s := setLR s 8 k.ll k.lr
  let s := setLR s 9 k.rl k.rr
  let k := CAMELLIA_ROLDQ k 15
  let s := setLR s 12 k.ll k.lr
  let k := CAMELLIA_ROLDQ k 15
  let s := setLR s 14 k.ll k.lr
  let s := setLR s 15 k.rl k.rr
  let k := CAMELLIA_ROLDQo32 k 34
  let s := setLR s 20 k.ll k.lr
  let s := setLR s 21 k.rl k.rr
  let k := CAMELLIA_ROLDQ k 17
  let s := setLR s 24 k.ll k.lr
  let s := setLR s 25 k.rl k.rr
  s

/-- The statements `subl(x) ^= subl(1); subr(x) ^= subr(1);` that absorb the
current `kw2` into scratch pair `x`. -/
def kw2_xor (s : Scratch) (x : Nat) : Scratch := xorLR s x (subl s 1) (subr s 1)

/-- The statements
`subl(1) ^= subr(1) & ~subr(x); dw = subl(1) & subl(x), subr(1) ^= CAMELLIA_RL1(dw);`
that carry the absorbed `kw2` across the FL layer keyed by scratch pair `x`. -/
def kw2_step (s : Scratch) (x : Nat) : Scratch :=
  let s := setL s 1 (subl s 1 ^^^ (subr s 1 &&& NOT32 (subr s x)))
  let dw := subl s 1 &&& subl s x
  setR s 1 (subr s 1 ^^^ CAMELLIA_RL1 dw)

/-- The statements `subl(x) ^= kw4l; subr(x) ^= kw4r;` that absorb the current
`kw4` into scratch pair `x`. -/
def kw4_xor (s : Scratch) (kw4 : Nat × Nat) (x : Nat) : Scratch := xorLR s x kw4.1 kw4.2

/-- The statements
`kw4l ^= kw4r & ~subr(x); dw = kw4l & subl(x), kw4r ^= CAMELLIA_RL1(dw);`:
the new `(kw4l, kw4r)`. -/
def kw4_step (s : Scratch) (kw4 : Nat × Nat) (x : Nat) : Nat × Nat :=
  let kw4l := kw4.1 ^^^ (kw4.2 &&& NOT32 (subr s x))
  let dw := kw4l &&& subl s x
  let kw4r := kw4.2 ^^^ CAMELLIA_RL1 dw
  (kw4l, kw4r)

/-- `camellia_setup128`, section "absorb kw2 to other subkeys". -/
def setup128_kw2 (s : Scratch) : Scratch :=
  let s := kw2_xor s 3
  let s := kw2_xor s 5
  let s := kw2_xor s 7
  let s := kw2_step s 9
  let s := kw2_xor s 11
  let s := kw2_xor s 13
  let s := kw2_xor s 15
  let s := kw2_step s 17
  let s := kw2_xor s 19
  let s := kw2_xor s 21
  let s := kw2_xor s 23
  let s := kw2_xor s 24
  s

/-- `camellia_setup128`, section "absorb kw4 to other subkeys". -/
def setup128_kw4 (s : Scratch) : Scratch :=
  let kw4 := (subl s 25, subr s 25)
  let s := kw4_xor s kw4 22
  let s := kw4_xor s kw4 20
  let s := kw4_xor s kw4 18
  let kw4 := kw4_step s kw4 16
  let s := kw4_xor s kw4 14
  let s := kw4_xor s kw4 12
  let s := kw4_xor s kw4 10
  let kw4 := kw4_step s kw4 8
  let s := kw4_xor s kw4 6
  let s := kw4_xor s kw4 4
  let s := kw4_xor s kw4 2
  let s := kw4_xor s kw4 0
  s

/-- The statements `CamelliaSubkeyL(i) = l; CamelliaSubkeyR(i) = r;`. -/
def setSubkey (subkey : Words) (i l r : Nat) : Words :=
  store (store subkey (i * 2) l) (i * 2 + 1) r

/-- The statements
`tl = subl(a) ^ (subr(a) & ~subr(x)); dw = tl & subl(x), tr = subr(a) ^ CAMELLIA_RL1(dw);`:
the values of `(tl, tr)`. -/
def fl_fold (s : Scratch) (a x : Nat) : Nat × Nat :=
  let tl := subl s a ^^^ (subr s a &&& NOT32 (subr s x))
  let dw := tl &&& subl s x
  let tr := subr s a ^^^ CAMELLIA_RL1 dw
  (tl, tr)

/-- `camellia_setup128`, section "key XOR is end of F-function": the stores
into the key table. -/
def setup128_emit (s : Scratch) (subkey : Words) : Words :=
  let subkey := setSubkey subkey 0 (subl s 0 ^^^ subl s 2) (subr s 0 ^^^ subr s 2)
  let subkey := setSubkey subkey 2 (subl s 3) (subr s 3)
  let subkey := setSubkey subkey 3 (subl s 2 ^^^ subl s 4) (subr s 2 ^^^ subr s 4)
  let subkey := setSubkey subkey 4 (subl s 3 ^^^ subl s 5) (subr s 3 ^^^ subr s 5)
  let subkey := setSubkey subkey 5 (subl s 4 ^^^ subl s 6) (subr s 4 ^^^ subr s 6)
  let subkey := setSubkey subkey 6 (subl s 5 ^^^ subl s 7) (subr s 5 ^^^ subr s 7)
  let t := fl_fold s 10 8
  let subkey := setSubkey subkey 7 (subl s 6 ^^^ t.1) (subr s 6 ^^^ t.2)
  let subkey := setSubkey subkey 8 (subl s 8) (subr s 8)
  let subkey := setSubkey subkey 9 (subl s 9) (subr s 9)
  let t := fl_fold s 7 9
  let subkey := setSubkey subkey 10 (t.1 ^^^ subl s 11) (t.2 ^^^ subr s 11)
  let subkey := setSubkey subkey 11 (subl s 10 ^^^ subl s 12) (subr s 10 ^^^ subr s 12)
  let subkey := setSubkey subkey 12 (subl s 11 ^^^ subl s 13) (subr s 11 ^^^ subr s 13)
  let subkey := setSubkey subkey 13 (subl s 12 ^^^ subl s 14) (subr s 12 ^^^ subr s 14)
  let subkey := setSubkey subkey 14 (subl s 13 ^^^ subl s 15) (subr s 13 ^^^ subr s 15)
  let t := fl_fold s 18 16
  let subkey := setSubkey subkey 15 (subl s 14 ^^^ t.1) (subr s 14 ^^^ t.2)
  let subkey := setSubkey subkey 16 (subl s 16) (subr s 16)
  let subkey := setSubkey subkey 17 (subl s 17) (subr s 17)
  let t := fl_fold s 15 17
  let subkey := setSubkey subkey 18 (t.1 ^^^ subl s 19) (t.2 ^^^ subr s 19)
  let subkey := setSubkey subkey 19 (subl s 18 ^^^ subl s 20) (subr s 18 ^^^ subr s 20)
  let subkey := setSubkey subkey 20 (subl s 19 ^^^ subl s 21) (subr s 19 ^^^ subr s 21)
  let subkey := setSubkey subkey 21 (subl s 20 ^^^ subl s 22) (subr s 20 ^^^ subr s 22)
  let subkey := setSubkey subkey 22 (subl s 21 ^^^ subl s 23) (subr s 21 ^^^ subr s 23)
  let subkey := setSubkey subkey 23 (subl s 22) (subr s 22)
  let subkey := setSubkey subkey 24 (subl s 24 ^^^ subl s 23) (subr s 24 ^^^ subr s 23)
  subkey

/-- The statements
`dw = CamelliaSubkeyL(i) ^ CamelliaSubkeyR(i), dw = CAMELLIA_RL8(dw);`
`CamelliaSubkeyR(i) = CamelliaSubkeyL(i) ^ dw, CamelliaSubkeyL(i) = dw;`. -/
def invP_step (subkey : Words) (i : Nat) : Words :=
  let dw := CamelliaSubkeyL subkey i ^^^ CamelliaSubkeyR subkey i
  let dw := CAMELLIA_RL8 dw
  let subkey := store subkey (i * 2 + 1) (CamelliaSubkeyL subkey i ^^^ dw)
  store subkey (i * 2) dw

/-- `camellia_setup128`, section "apply the inverse of the last half of
P-function": the same four statements for each listed subkey pair, in the
order of the source. -/
def setup128_invP (subkey : Words) : Words :=
  [2, 3, 4, 5, 6, 7, 10, 11, 12, 13, 14, 15, 18, 19, 20, 21, 22, 23].foldl invP_step subkey

/-- Function `camellia_setup128(key, subkey)`: the key table after the call. -/
def camellia_setup128 (key : List Nat) (subkey : Words) : Words :=
  let k := loadQuad key 0
  let s := setup128_KL k Scratch.init
  let ka := setup128_KA s
  let s := setup128_KAsub ka s
  let s := setup128_kw2 s
  let s := setup128_kw4 s
  let subkey := setup128_emit s subkey
  setup128_invP subkey

/-- `camellia_setup256`, section "generate KL dependent subkeys". -/
def setup256_KL (k : Quad) (s : Scratch) : Scratch :=
  let s := setLR s 0 k.ll k.lr
  let s := setLR s 1 k.rl k.rr
  let k := CAMELLIA_ROLDQo32 k 45
  let s := setLR s 12 k.ll k.lr
  let s := setLR s 13 k.rl k.rr
  let k := CAMELLIA_ROLDQ k 15
  let s := setLR s 16 k.ll k.lr
  let s := setLR s 17 k.rl k.rr
  let k := CAMELLIA_ROLDQ k 17
  let s := setLR s 22 k.ll k.lr
  let s := setLR s 23 k.rl k.rr
  let k := CAMELLIA_ROLDQo32 k 34
  let s := setLR s 30 k.ll k.lr
  let s := setLR s 31 k.rl k.rr
  s

/-- `camellia_setup256`, section "generate KR dependent subkeys": the scratch
arrays and the values of `krll, krlr, krrl, krrr` after it. -/
def setup256_KR (kr : Quad) (s : Scratch) : Scratch × Quad :=
  let kr := CAMELLIA_ROLDQ kr 15
  let s := setLR s 4 kr.ll kr.lr
  let s := setLR s 5 kr.rl kr.rr
  let kr := CAMELLIA_ROLDQ kr 15
  let s := setLR s 8 kr.ll kr.lr
  let s := setLR s 9 kr.rl kr.rr
  let kr := CAMELLIA_ROLDQ kr 30
  let s := setLR s 18 kr.ll kr.lr
  let s := setLR s 19 kr.rl kr.rr
  let kr := CAMELLIA_ROLDQo32 kr 34
  let s := setLR s 26 kr.ll kr.lr
  let s := setLR s 27 kr.rl kr.rr
  let kr := CAMELLIA_ROLDQo32 kr 34
  (s, kr)

/-- `camellia_setup256`, section "generate KA": the values of
`kll, klr, krl, krr` after it (`kr` holds `krll, krlr, krrl, krrr`). -/
def setup256_KA (s : Scratch) (kr : Quad) : Quad :=
  let kll := subl s 0 ^^^ kr.ll
  let klr := subr s 0 ^^^ kr.lr
  let krl := subl s 1 ^^^ kr.rl
  let krr := subr s 1 ^^^ kr.rr
  let w := CAMELLIA_F kll klr CAMELLIA_SIGMA1L CAMELLIA_SIGMA1R
  let krl := krl ^^^ w.1
  let krr := krr ^^^ w.2
  let kl := CAMELLIA_F krl krr CAMELLIA_SIGMA2L CAMELLIA_SIGMA2R
  let kll := kl.1 ^^^ kr.ll
  let klr := kl.2 ^^^ kr.lr
  let y := CAMELLIA_F kll klr CAMELLIA_SIGMA3L CAMELLIA_SIGMA3R
  let krl := y.1 ^^^ (w.1 ^^^ kr.rl)
  let krr := y.2 ^^^ (w.2 ^^^ kr.rr)
  let w := CAMELLIA_F krl krr CAMELLIA_SIGMA4L CAMELLIA_SIGMA4R
  let kll := kll ^^^ w.1
  let klr := klr ^^^ w.2
  { ll := kll, lr := klr, rl := krl, rr := krr }

/-- `camellia_setup256`, section "generate KB": the values of
`krll, krlr, krrl, krrr` after it (`k` holds `kll, klr, krl, krr`, that is KA). -/
def setup256_KB (k : Quad) (kr : Quad) : Quad :=
  let krll := kr.ll ^^^ k.ll
  let krlr := kr.lr ^^^ k.lr
  let krrl := kr.rl ^^^ k.rl
  let krrr := kr.rr ^^^ k.rr
  let w := CAMELLIA_F krll krlr CAMELLIA_SIGMA5L CAMELLIA_SIGMA5R
  let krrl := krrl ^^^ w.1
  let krrr := krrr ^^^ w.2
  let w := CAMELLIA_F krrl krrr CAMELLIA_SIGMA6L CAMELLIA_SIGMA6R
  let krll := krll ^^^ w.1
  let krlr := krlr ^^^ w.2
  { ll := krll, lr := krlr, rl := krrl, rr := krrr }

/-- `camellia_setup256`, section "generate KA dependent subkeys". -/
def setup256_KAsub (k : Quad) (s : Scratch) : Scratch :=
  let k := CAMELLIA_ROLDQ k 15
  let s := setLR s 6 k.ll k.lr
  let s := setLR s 7 k.rl k.rr
  let k := CAMELLIA_ROLDQ k 30
  let s := setLR s 14 k.ll k.lr
  let s := setLR s 15 k.rl k.rr
  let s := setLR s 24 k.lr k.rl
  let s := setLR s 25 k.rr k.ll
  let k := CAMELLIA_ROLDQo32 k 49
  let s := setLR s 28 k.ll k.lr
  let s := setLR s 29 k.rl k.rr
  s

/-- `camellia_setup256`, section "generate KB dependent subkeys" (`kr` holds
`krll, krlr, krrl, krrr`, that is KB). -/
def setup256_KBsub (kr : Quad) (s : Scratch) : Scratch :=
  let s := setLR s 2 kr.ll kr.lr
  let s := setLR s 3 kr.rl kr.rr
  let kr := CAMELLIA_ROLDQ kr 30
  let s := setLR s 10 kr.ll kr.lr
  let s := setLR s 11 kr.rl kr.rr
  let kr := CAMELLIA_ROLDQ kr 30
  let s := setLR s 20 kr.ll kr.lr
  let s := setLR s 21 kr.rl kr.rr
  let kr := CAMELLIA_ROLDQo32 kr 51
  let s := setLR s 32 kr.ll kr.lr
  let s := setLR s 33 kr.rl kr.rr
  s

/-- `camellia_setup256`, section "absorb kw2 to other subkeys". -/
def setup256_kw2 (s : Scratch) : Scratch :=
  let s := kw2_xor s 3
  let s := kw2_xor s 5
  let s := kw2_xor s 7
  let s := kw2_step s 9
  let s := kw2_xor s 11
  let s := kw2_xor s 13
  let s := kw2_xor s 15
  let s := kw2_step s 17
  let s := kw2_xor s 19
  let s := kw2_xor s 21
  let s := kw2_xor s 23
  let s := kw2_step s 25
  let s := kw2_xor s 27
  let s := kw2_xor s 29
  let s := kw2_xor s 31
  let s := kw2_xor s 32
  s

/-- `camellia_setup256`, section "absorb kw4 to other subkeys". -/
def setup256_kw4 (s : Scratch) : Scratch :=
  let kw4 := (subl s 33, subr s 33)
  let s := kw4_xor s kw4 30
  let s := kw4_xor s kw4 28
  let s := kw4_xor s kw4 26
  let kw4 := kw4_step s kw4 24
  let s := kw4_xor s kw4 22
  let s := kw4_xor s kw4 20
  let s := kw4_xor s kw4 18
  let kw4 := kw4_step s kw4 16
  let s := kw4_xor s kw4 14
  let s := kw4_xor s kw4 12
  let s := kw4_xor s kw4 10
  let kw4 := kw4_step s kw4 8
  let s := kw4_xor s kw4 6
  let s := kw4_xor s kw4 4
  let s := kw4_xor s kw4 2
  let s := kw4_xor s kw4 0
  s

/-- `camellia_setup256`, section "key XOR is end of F-function": the stores
into the key table. -/
def setup256_emit (s : Scratch) (subkey : Words) : Words :=
  let subkey := setSubkey subkey 0 (subl s 0 ^^^ subl s 2) (subr s 0 ^^^ subr s 2)
  let subkey := setSubkey subkey 2 (subl s 3) (subr s 3)
  let subkey := setSubkey subkey 3 (subl s 2 ^^^ subl s 4) (subr s 2 ^^^ subr s 4)
  let subkey := setSubkey subkey 4 (subl s 3 ^^^ subl s 5) (subr s 3 ^^^ subr s 5)
  let subkey := setSubkey subkey 5 (subl s 4 ^^^ subl s 6) (subr s 4 ^^^ subr s 6)
  let subkey := setSubkey subkey 6 (subl s 5 ^^^ subl s 7) (subr s 5 ^^^ subr s 7)
  let t := fl_fold s 10 8
  let subkey := setSubkey subkey 7 (subl s 6 ^^^ t.1) (subr s 6 ^^^ t.2)
  let subkey := setSubkey subkey 8 (subl s 8) (subr s 8)
  let subkey := setSubkey subkey 9 (subl s 9) (subr s 9)
  let t := fl_fold s 7 9
  let subkey := setSubkey subkey 10 (t.1 ^^^ subl s 11) (t.2 ^^^ subr s 11)
  let subkey := setSubkey subkey 11 (subl s 10 ^^^ subl s 12) (subr s 10 ^^^ subr s 12)
  let subkey := setSubkey subkey 12 (subl s 11 ^^^ subl s 13) (subr s 11 ^^^ subr s 13)
  let subkey := setSubkey subkey 13 (subl s 12 ^^^ subl s 14) (subr s 12 ^^^ subr s 14)
  let subkey := setSubkey subkey 14 (subl s 13 ^^^ subl s 15) (subr s 13 ^^^ subr s 15)
  let t := fl_fold s 18 16
  let subkey := setSubkey subkey 15 (subl s 14 ^^^ t.1) (subr s 14 ^^^ t.2)
  let subkey := setSubkey subkey 16 (subl s 16) (subr s 16)
  let subkey := setSubkey subkey 17 (subl s 17) (subr s 17)
  let t := fl_fold s 15 17
  let subkey := setSubkey subkey 18 (t.1 ^^^ subl s 19) (t.2 ^^^ subr s 19)
  let subkey := setSubkey subkey 19 (subl s 18 ^^^ subl s 20) (subr s 18 ^^^ subr s 20)
  let subkey := setSubkey subkey 20 (subl s 19 ^^^ subl s 21) (subr s 19 ^^^ subr s 21)
  let subkey := setSubkey subkey 21 (subl s 20 ^^^ subl s 22) (subr s 20 ^^^ subr s 22)
  let subkey := setSubkey subkey 22 (subl s 21 ^^^ subl s 23) (subr s 21 ^^^ subr s 23)
  let t := fl_fold s 26 24
  let subkey := setSubkey subkey 23 (subl s 22 ^^^ t.1) (subr s 22 ^^^ t.2)
  let subkey := setSubkey subkey 24 (subl s 24) (subr s 24)
  let subkey := setSubkey subkey 25 (subl s 25) (subr s 25)
  let t := fl_fold s 23 25
  let subkey := setSubkey subkey 26 (t.1 ^^^ subl s 27) (t.2 ^^^ subr s 27)
  let subkey := setSubkey subkey 27 (subl s 26 ^^^ subl s 28) (subr s 26 ^^^ subr s 28)
  let subkey := setSubkey subkey 28 (subl s 27 ^^^ subl s 29) (subr s 27 ^^^ subr s 29)
  let subkey := setSubkey subkey 29 (subl s 28 ^^^ subl s 30) (subr s 28 ^^^ subr s 30)
  let subkey := setSubkey subkey 30 (subl s 29 ^^^ subl s 31) (subr s 29 ^^^ subr s 31)
  let subkey := setSubkey subkey 31 (subl s 30) (subr s 30)
  let subkey := setSubkey subkey 32 (subl s 32 ^^^ subl s 31) (subr s 32 ^^^ subr s 31)
  subkey

/-- `camellia_setup256`, section "apply the inverse of the last half of
P-function": the same four statements for each listed subkey pair, in the
order of the source. -/
def setup256_invP (subkey : Words) : Words :=
  [2, 3, 4, 5, 6, 7, 10, 11, 12, 13, 14, 15, 18, 19, 20, 21, 22, 23,
    26, 27, 28, 29, 30, 31].foldl invP_step subkey

/-- Function `camellia_setup256(key, subkey)`: the key table after the call. -/
def camellia_setup256 (key : List Nat) (subkey : Words) : Words :=
  let k := loadQuad key 0
  let kr := loadQuad key 16
  let s := setup256_KL k Scratch.init
  let skr := setup256_KR kr s
  let ka := setup256_KA skr.1 skr.2
  let kb := setup256_KB ka skr.2
  let s := setup256_KAsub ka skr.1
  let s := setup256_KBsub kb s
  let s := setup256_kw2 s
  let s := setup256_kw4 s
  let subkey := setup256_emit s subkey
  setup256_invP subkey

/-- Byte order of the host, which fixes how `memcpy` lays a `u32` out. -/
inductive ByteOrder where
  | little
  | big
deriving DecidableEq, Repr

/-- The statement `memcpy((unsigned char *)&w, key + off, 4)`: the value of the
`u32` variable `w` afterwards. -/
def memcpy_to_u32 (o : ByteOrder) (key : List Nat) (off : Nat) : Nat :=
  match o with
  | .little =>
      u8 (key.getD off 0) + u8 (key.getD (off + 1) 0) * 256
        + u8 (key.getD (off + 2) 0) * 65536 + u8 (key.getD (off + 3) 0) * 16777216
  | .big =>
      u8 (key.getD off 0) * 16777216 + u8 (key.getD (off + 1) 0) * 65536
        + u8 (key.getD (off + 2) 0) * 256 + u8 (key.getD (off + 3) 0)

/-- The four bytes that `memcpy(dst, (unsigned char *)&w, 4)` copies. -/
def memcpy_from_u32 (o : ByteOrder) (w : Nat) : List Nat :=
  match o with
  | .little => [u8 w, u8 (w >>> 8), u8 (w >>> 16), u8 (w >>> 24)]
  | .big => [u8 (w >>> 24), u8 (w >>> 16), u8 (w >>> 8), u8 w]

/-- The 32-byte buffer `kk` that `camellia_setup192` hands to
`camellia_setup256`. -/
def setup192_kk (o : ByteOrder) (key : List Nat) : List Nat :=
  let krll := memcpy_to_u32 o key 16
  let krlr := memcpy_to_u32 o key 20
  let krrl := NOT32 krll
  let krrr := NOT32 krlr
  key.take 24 ++ memcpy_from_u32 o krrl ++ memcpy_from_u32 o krrr

/-- Function `camellia_setup192(key, subkey)`: the key table after the call. -/
def camellia_setup192 (o : ByteOrder) (key : List Nat) (subkey : Words) : Words :=
  camellia_setup256 (setup192_kk o key) subkey

/-! ## Block transforms -/

/-- The statements `io[0] ^= CamelliaSubkeyL(i); io[1] ^= CamelliaSubkeyR(i);`
(the block `io[0..3]` is held in a `Quad`). -/
def whiten01 (subkey : Words) (i : Nat) (io : Quad) : Quad :=
  { io with ll := io.ll ^^^ CamelliaSubkeyL subkey i, lr := io.lr ^^^ CamelliaSubkeyR subkey i }

/-- The statements `io[2] ^= CamelliaSubkeyL(i); io[3] ^= CamelliaSubkeyR(i);`. -/
def whiten23 (subkey : Words) (i : Nat) (io : Quad) : Quad :=
  { io with rl := io.rl ^^^ CamelliaSubkeyL subkey i, rr := io.rr ^^^ CamelliaSubkeyR subkey i }

/-- The call `CAMELLIA_ROUNDSM(io[0],io[1], CamelliaSubkeyL(i),CamelliaSubkeyR(i),
io[2],io[3],il,ir,t0,t1)`. -/
def round01 (subkey : Words) (i : Nat) (io : Quad) : Quad :=
  let y := CAMELLIA_ROUNDSM io.ll io.lr (CamelliaSubkeyL subkey i) (CamelliaSubkeyR subkey i)
    io.rl io.rr
  { io with rl := y.1, rr := y.2 }

/-- The call `CAMELLIA_ROUNDSM(io[2],io[3], CamelliaSubkeyL(i),CamelliaSubkeyR(i),
io[0],io[1],il,ir,t0,t1)`. -/
def round23 (subkey : Words) (i : Nat) (io : Quad) : Quad :=
  let y := CAMELLIA_ROUNDSM io.rl io.rr (CamelliaSubkeyL subkey i) (CamelliaSubkeyR subkey i)
    io.ll io.lr
  { io with ll := y.1, lr := y.2 }

/-- The call `CAMELLIA_FLS(io[0],io[1],io[2],io[3], CamelliaSubkeyL(i),
CamelliaSubkeyR(i), CamelliaSubkeyL(j),CamelliaSubkeyR(j), t0,t1,il,ir)`. -/
def fls (subkey : Words) (i j : Nat) (io : Quad) : Quad :=
  CAMELLIA_FLS io (CamelliaSubkeyL subkey i) (CamelliaSubkeyR subkey i)
    (CamelliaSubkeyL subkey j) (CamelliaSubkeyR subkey j)

/-- The statements
`t0 = io[0]; t1 = io[1]; io[0] = io[2]; io[1] = io[3]; io[2] = t0; io[3] = t1;`. -/
def swapHalves (io : Quad) : Quad :=
  let t0 := io.ll
  let t1 := io.lr
  { ll := io.rl, lr := io.rr, rl := t0, rr := t1 }

/-- Function `camellia_encrypt128(subkey, io)`: the block `io` after the call. -/
def camellia_encrypt128 (subkey : Words) (io : Quad) : Quad :=
  let io := whiten01 subkey 0 io
  let io := round01 subkey 2 io
  let io := round23 subkey 3 io
  let io := round01 subkey 4 io
  let io := round23 subkey 5 io
  let io := round01 subkey 6 io
  let io := round23 subkey 7 io
  let io := fls subkey 8 9 io
  let io := round01 subkey 10 io
  let io := round23 subkey 11 io
  let io := round01 subkey 12 io
  let io := round23 subkey 13 io
  let io := round01 subkey 14 io
  let io := round23 subkey 15 io
  let io := fls subkey 16 17 io
  let io := round01 subkey 18 io
  let io := round23 subkey 19 io
  let io := round01 subkey 20 io
  let io := round23 subkey 21 io
  let io := round01 subkey 22 io
  let io := round23 subkey 23 io
  let io := whiten23 subkey 24 io
  swapHalves io

/-- Function `camellia_decrypt128(subkey, io)`: the block `io` after the call. -/
def camellia_decrypt128 (subkey : Words) (io : Quad) : Quad :=
  let io := whiten01 subkey 24 io
  let io := round01 subkey 23 io
  let io := round23 subkey 22 io
  let io := round01 subkey 21 io
  let io := round23 subkey 20 io
  let io := round01 subkey 19 io
  let io := round23 subkey 18 io
  let io := fls subkey 17 16 io
  let io := round01 subkey 15 io
  let io := round23 subkey 14 io
  let io := round01 subkey 13 io
  let io := round23 subkey 12 io
  let io := round01 subkey 11 io
  let io := round23 subkey 10 io
  let io := fls subkey 9 8 io
  let io := round01 subkey 7 io
  let io := round23 subkey 6 io
  let io := round01 subkey 5 io
  let io := round23 subkey 4 io
  let io := round01 subkey 3 io
  let io := round23 subkey 2 io
  let io := whiten23 subkey 0 io
  swapHalves io

/-- Function `camellia_encrypt256(subkey, io)`: the block `io` after the call. -/
def camellia_encrypt256 (subkey : Words) (io : Quad) : Quad :=
  let io := whiten01 subkey 0 io
  let io := round01 subkey 2 io
  let io := round23 subkey 3 io
  let io := round01 subkey 4 io
  let io := round23 subkey 5 io
  let io := round01 subkey 6 io
  let io := round23 subkey 7 io
  let io := fls subkey 8 9 io
  let io := round01 subkey 10 io
  let io := round23 subkey 11 io
  let io := round01 subkey 12 io
  let io := round23 subkey 13 io
  let io := round01 subkey 14 io
  let io := round23 subkey 15 io
  let io := fls subkey 16 17 io
  let io := round01 subkey 18 io
  let io := round23 subkey 19 io
  let io := round01 subkey 20 io
  let io := round23 subkey 21 io
  let io := round01 subkey 22 io
  let io := round23 subkey 23 io
  let io := fls subkey 24 25 io
  let io := round01 subkey 26 io
  let io := round23 subkey 27 io
  let io := round01 subkey 28 io
  let io := round23 subkey 29 io
  let io := round01 subkey 30 io
  let io := round23 subkey 31 io
  let io := whiten23 subkey 32 io
  swapHalves io

/-- Function `camellia_decrypt256(subkey, io)`: the block `io` after the call. -/
def camellia_decrypt256 (subkey : Words) (io : Quad) : Quad :=
  let io := whiten01 subkey 32 io
  let io := round01 subkey 31 io
  let io := round23 subkey 30 io
  let io := round01 subkey 29 io
  let io := round23 subkey 28 io
  let io := round01 subkey 27 io
  let io := round23 subkey 26 io
  let io := fls subkey 25 24 io
  let io := round01 subkey 23 io
  let io := round23 subkey 22 io
  let io := round01 subkey 21 io
  let io := round23 subkey 20 io
  let io := round01 subkey 19 io
  let io := round23 subkey 18 io
  let io := fls subkey 17 16 io
  let io := round01 subkey 15 io
  let io := round23 subkey 14 io
  let io := round01 subkey 13 io
  let io := round23 subkey 12 io
  let io := round01 subkey 11 io
  let io := round23 subkey 10 io
  let io := fls subkey 9 8 io
  let io := round01 subkey 7 io
  let io := round23 subkey 6 io
  let io := round01 subkey 5 io
  let io := round23 subkey 4 io
  let io := round01 subkey 3 io
  let io := round23 subkey 2 io
  let io := whiten23 subkey 0 io
  swapHalves io

/-! ## API -/

/-- Function `Camellia_Ekeygen(keyBitLength, rawKey, keyTable)`: the key table
after the call.  The function returns `void`; `o` is the byte order of the
host. -/
def Camellia_Ekeygen (o : ByteOrder) (keyBitLength : Int) (rawKey : List Nat)
    (keyTable : Words) : Words :=
  if keyBitLength = 128 then camellia_setup128 rawKey keyTable
  else if keyBitLength = 192 then camellia_setup192 o rawKey keyTable
  else if keyBitLength = 256 then camellia_setup256 rawKey keyTable
  else keyTable

/-- The loads `tmp[0] = GETU32(src); ... tmp[3] = GETU32(src + 12);`. -/
def loadBlock (src : List Nat) : Quad := loadQuad src 0

/-- The stores `PUTU32(dst, tmp[0]); ... PUTU32(dst + 12, tmp[3]);`: the buffer
`dst` afterwards. -/
def storeBlock (dst : List Nat) (tmp : Quad) : List Nat :=
  PUTU32 (PUTU32 (PUTU32 (PUTU32 dst 0 tmp.ll) 4 tmp.lr) 8 tmp.rl) 12 tmp.rr

/-- The sixteen bytes that `storeBlock` writes: each word big-endian. -/
def blockBytes (tmp : Quad) : List Nat :=
  [u8 (tmp.ll >>> 24), u8 (tmp.ll >>> 16), u8 (tmp.ll >>> 8), u8 tmp.ll,
    u8 (tmp.lr >>> 24), u8 (tmp.lr >>> 16), u8 (tmp.lr >>> 8), u8 tmp.lr,
    u8 (tmp.rl >>> 24), u8 (tmp.rl >>> 16), u8 (tmp.rl >>> 8), u8 tmp.rl,
    u8 (tmp.rr >>> 24), u8 (tmp.rr >>> 16), u8 (tmp.rr >>> 8), u8 tmp.rr]

/-- Function `Camellia_EncryptBlock(keyBitLength, plaintext, keyTable,
ciphertext)`: the buffer `ciphertext` after the call. -/
def Camellia_EncryptBlock (keyBitLength : Int) (plaintext : List Nat) (keyTable : Words)
    (ciphertext : List Nat) : List Nat :=
  let tmp := loadBlock plaintext
  let tmp :=
    if keyBitLength = 128 then camellia_encrypt128 keyTable tmp
    else if keyBitLength = 192 ∨ keyBitLength = 256 then camellia_encrypt256 keyTable tmp
    else tmp
  storeBlock ciphertext tmp

/-- Function `Camellia_DecryptBlock(keyBitLength, ciphertext, keyTable,
plaintext)`: the buffer `plaintext` after the call. -/
def Camellia_DecryptBlock (keyBitLength : Int) (ciphertext : List Nat) (keyTable : Words)
    (plaintext : List Nat) : List Nat :=
  let tmp := loadBlock ciphertext
  let tmp :=
    if keyBitLength = 128 then camellia_decrypt128 keyTable tmp
    else if keyBitLength = 192 ∨ keyBitLength = 256 then camellia_decrypt256 keyTable tmp
    else tmp
  storeBlock plaintext tmp

/-! ## Range predicates -/

/-- The number fits a `u32`. -/
def W32 (x : Nat) : Prop := x < 4294967296

/-- All four words fit a `u32`. -/
def Quad.W32 (q : Quad) : Prop :=
  Camellia.W32 q.ll ∧ Camellia.W32 q.lr ∧ Camellia.W32 q.rl ∧ Camellia.W32 q.rr

/-- Every element of both scratch arrays fits a `u32`. -/
def Scratch.W32 (s : Scratch) : Prop :=
  ∀ i, Camellia.W32 (subl s i) ∧ Camellia.W32 (subr s i)

/-- Both words of every subkey pair listed in `P` fit a `u32`. -/
def PairsW32 (P : List Nat) (subkey : Words) : Prop :=
  ∀ i ∈ P, W32 (CamelliaSubkeyL subkey i) ∧ W32 (CamelliaSubkeyR subkey i)

/-- A buffer of `n` bytes: `n` elements, each below 256. -/
def IsBytes (n : Nat) (buf : List Nat) : Prop :=
  buf.length = n ∧ ∀ b ∈ buf, b < 256

instance (n : Nat) (buf : List Nat) : Decidable (IsBytes n buf) := by
  unfold IsBytes; infer_instance

/-! ## Published test vectors -/

/-- Test vector: the 128-bit key `0123456789abcdeffedcba9876543210`. -/
def kat_key128 : List Nat :=
  [0x01, 0x23, 0x45, 0x67, 0x89, 0xab, 0xcd, 0xef, 0xfe, 0xdc, 0xba, 0x98, 0x76, 0x54, 0x32, 0x10]

/-- Test vector: the 192-bit key `0123456789abcdeffedcba98765432100011223344556677`. -/
def kat_key192 : List Nat :=
  [0x01, 0x23, 0x45, 0x67, 0x89, 0xab, 0xcd, 0xef, 0xfe, 0xdc, 0xba, 0x98, 0x76, 0x54, 0x32, 0x10,
    0x00, 0x11, 0x22, 0x33, 0x44, 0x55, 0x66, 0x77]

/-- Test vector: the 256-bit key
`0123456789abcdeffedcba987654321000112233445566778899aabbccddeeff`. -/
def kat_key256 : List Nat :=
  [0x01, 0x23, 0x45, 0x67, 0x89, 0xab, 0xcd, 0xef, 0xfe, 0xdc, 0xba, 0x98, 0x76, 0x54, 0x32, 0x10,
    0x00, 0x11, 0x22, 0x33, 0x44, 0x55, 0x66, 0x77, 0x88, 0x99, 0xaa, 0xbb, 0xcc, 0xdd, 0xee, 0xff]

/-- Test vector: the plaintext `0123456789abcdeffedcba9876543210`. -/
def kat_plaintext : List Nat :=
  [0x01, 0x23, 0x45, 0x67, 0x89, 0xab, 0xcd, 0xef, 0xfe, 0xdc, 0xba, 0x98, 0x76, 0x54, 0x32, 0x10]

/-- A key table holding zero in every word. -/
def zeroTable : Words := { word := fun _ => 0 }

/-- A 16-byte buffer of zero bytes. -/
def zeroBlock : List Nat := List.replicate 16 0

/-- Two key tables hold the same words in every subkey pair listed in `P`. -/
def AgreeOn (P : List Nat) (S S' : Words) : Prop :=
  ∀ i ∈ P, CamelliaSubkeyL S i = CamelliaSubkeyL S' i ∧ CamelliaSubkeyR S i = CamelliaSubkeyR S' i

/-! ## The API as seen by the caller -/

/-- The call `Camellia_Ekeygen(keyBitLength, rawKey, keyTable)` as the caller sees it:
`some T` when the function returns normally and leaves the key table `T`, `none` when
it reports an error.  The C function has return type `void`, sets no status and has no
exit other than the end of its `switch`, so every path returns normally. -/
def Camellia_Ekeygen_call (o : ByteOrder) (keyBitLength : Int) (rawKey : List Nat)
    (keyTable : Words) : Option Words :=
  some (Camellia_Ekeygen o keyBitLength rawKey keyTable)

/-- A 24-byte key extended to 32 bytes: the key followed by the bitwise complement
(`255 - b` for a byte `b`) of its bytes 16..23. -/
def key192_extended (k : List Nat) : List Nat :=
  k ++ (k.drop 16).map (fun b => 255 - b)

/-! ## The cipher with the schedule not optimised, on 32-bit words

Subkeys are pairs `(left word, right word)`; pair `i` of a scratch array is the
64-bit subkey that the algorithm specification numbers as follows: 0, 1 are `kw1, kw2`,
the last two are `kw3, kw4`, pairs 8, 9, 16, 17 (and 24, 25 for 256-bit keys) are the
`ke` subkeys of the FL layers, the others are the round subkeys in order. -/

/-- Subkey pair `i` of a key table. -/
def pairAt (subkey : Words) (i : Nat) : Nat × Nat :=
  (CamelliaSubkeyL subkey i, CamelliaSubkeyR subkey i)

/-- Scratch pair `i`: `(subl(i), subr(i))`. -/
def scratchPair (s : Scratch) (i : Nat) : Nat × Nat := (subl s i, subr s i)

/-- XOR of two pairs of words. -/
def pxor (a b : Nat × Nat) : Nat × Nat := (a.1 ^^^ b.1, a.2 ^^^ b.2)

/-- A pair is in range when both words fit a `u32`. -/
def PW32 (a : Nat × Nat) : Prop := W32 a.1 ∧ W32 a.2

/-- The map `(al, ar) ↦ (tl, tr)` with `tl = al ^ (ar & ~kr)` and
`tr = ar ^ RL1(tl & kl)`, which the schedules apply to carry a key across the FL
layer keyed by `k` (statements of the form `tl = ...; dw = tl & ..., tr = ...`). -/
def FLfold (k a : Nat × Nat) : Nat × Nat :=
  let tl := a.1 ^^^ (a.2 &&& NOT32 k.2)
  let dw := tl &&& k.1
  (tl, a.2 ^^^ CAMELLIA_RL1 dw)

/-- The stored form of a round subkey `e` after "apply the inverse of the last half
of P-function": `dw = RL8(el ^ er)`, stored pair `(dw, el ^ dw)`. -/
def invPkey (e : Nat × Nat) : Nat × Nat :=
  (CAMELLIA_RL8 (e.1 ^^^ e.2), e.1 ^^^ CAMELLIA_RL8 (e.1 ^^^ e.2))

/-- The state `p` with the pair `a` XORed into `io[0], io[1]` and the pair `b` into
`io[2], io[3]`. -/
def xorQ (p : Quad) (a b : Nat × Nat) : Quad :=
  { ll := p.ll ^^^ a.1, lr := p.lr ^^^ a.2, rl := p.rl ^^^ b.1, rr := p.rr ^^^ b.2 }

/-- A Feistel round of the specification on the right half:
`(io[2], io[3]) ^= F((io[0], io[1]), k)`, with the key mixed in before the S-boxes. -/
def F_round01 (k : Nat × Nat) (io : Quad) : Quad :=
  let f := CAMELLIA_F io.ll io.lr k.1 k.2
  { io with rl := io.rl ^^^ f.1, rr := io.rr ^^^ f.2 }

/-- A Feistel round of the specification on the left half:
`(io[0], io[1]) ^= F((io[2], io[3]), k)`. -/
def F_round23 (k : Nat × Nat) (io : Quad) : Quad :=
  let f := CAMELLIA_F io.rl io.rr k.1 k.2
  { io with ll := io.ll ^^^ f.1, lr := io.lr ^^^ f.2 }

/-- The FL layer of the specification: FL keyed by `ke1` on the left half and
FL⁻¹ keyed by `ke2` on the right half. -/
def FL_layer (ke1 ke2 : Nat × Nat) (io : Quad) : Quad :=
  CAMELLIA_FLS io ke1.1 ke1.2 ke2.1 ke2.2

/-- Camellia-128 encryption of the block `m` with the 26 unoptimised subkey pairs
`K 0 .. K 25`: whitening, 18 rounds with the FL layer after rounds 6 and 12,
whitening, swap of the halves. -/
def plain_encrypt128 (K : Nat → Nat × Nat) (m : Quad) : Quad :=
  let io := xorQ m (K 0) (K 1)
  let io := F_round01 (K 2) io
  let io := F_round23 (K 3) io
  let io := F_round01 (K 4) io
  let io := F_round23 (K 5) io
  let io := F_round01 (K 6) io
  let io := F_round23 (K 7) io
  let io := FL_layer (K 8) (K 9) io
  let io := F_round01 (K 10) io
  let io := F_round23 (K 11) io
  let io := F_round01 (K 12) io
  let io := F_round23 (K 13) io
  let io := F_round01 (K 14) io
  let io := F_round23 (K 15) io
  let io := FL_layer (K 16) (K 17) io
  let io := F_round01 (K 18) io
  let io := F_round23 (K 19) io
  let io := F_round01 (K 20) io
  let io := F_round23 (K 21) io
  let io := F_round01 (K 22) io
  let io := F_round23 (K 23) io
  let io := xorQ io (K 25) (K 24)
  swapHalves io

/-- Camellia-256 encryption of the block `m` with the 34 unoptimised subkey pairs
`K 0 .. K 33`: whitening, 24 rounds with the FL layer after rounds 6, 12 and 18,
whitening, swap of the halves. -/
def plain_encrypt256 (K : Nat → Nat × Nat) (m : Quad) : Quad :=
  let io := xorQ m (K 0) (K 1)
  let io := F_round01 (K 2) io
  let io := F_round23 (K 3) io
  let io := F_round01 (K 4) io
  let io := F_round23 (K 5) io
  let io := F_round01 (K 6) io
  let io := F_round23 (K 7) io
  let io := FL_layer (K 8) (K 9) io
  let io := F_round01 (K 10) io
  let io := F_round23 (K 11) io
  let io := F_round01 (K 12) io
  let io := F_round23 (K 13) io
  let io := F_round01 (K 14) io
  let io := F_round23 (K 15) io
  let io := FL_layer (K 16) (K 17) io
  let io := F_round01 (K 18) io
  let io := F_round23 (K 19) io
  let io := F_round01 (K 20) io
  let io := F_round23 (K 21) io
  let io := F_round01 (K 22) io
  let io := F_round23 (K 23) io
  let io := FL_layer (K 24) (K 25) io
  let io := F_round01 (K 26) io
  let io := F_round23 (K 27) io
  let io := F_round01 (K 28) io
  let io := F_round23 (K 29) io
  let io := F_round01 (K 30) io
  let io := F_round23 (K 31) io
  let io := xorQ io (K 33) (K 32)
  swapHalves io

/-- The optimised subkey pair `i` of the 128-bit schedule in terms of the unoptimised
subkeys `K`: whitening keys folded into the neighbouring round keys, keys carried
across the FL layers with `FLfold`, round keys stored as `invPkey`. -/
def optimised128 (K : Nat → Nat × Nat) (i : Nat) : Nat × Nat :=
  match i with
  | 0 => pxor (K 0) (K 2)
  | 2 => invPkey (pxor (K 1) (K 3))
  | 3 => invPkey (pxor (K 2) (K 4))
  | 4 => invPkey (pxor (K 3) (K 5))
  | 5 => invPkey (pxor (K 4) (K 6))
  | 6 => invPkey (pxor (K 5) (K 7))
  | 7 => invPkey (pxor (K 6) (FLfold (K 8) (K 10)))
  | 8 => K 8
  | 9 => K 9
  | 10 => invPkey (pxor (FLfold (K 9) (K 7)) (K 11))
  | 11 => invPkey (pxor (K 10) (K 12))
  | 12 => invPkey (pxor (K 11) (K 13))
  | 13 => invPkey (pxor (K 12) (K 14))
  | 14 => invPkey (pxor (K 13) (K 15))
  | 15 => invPkey (pxor (K 14) (FLfold (K 16) (K 18)))
  | 16 => K 16
  | 17 => K 17
  | 18 => invPkey (pxor (FLfold (K 17) (K 15)) (K 19))
  | 19 => invPkey (pxor (K 18) (K 20))
  | 20 => invPkey (pxor (K 19) (K 21))
  | 21 => invPkey (pxor (K 20) (K 22))
  | 22 => invPkey (pxor (K 21) (K 23))
  | 23 => invPkey (pxor (K 22) (K 25))
  | 24 => pxor (K 24) (K 23)
  | _ => (0, 0)

/-- The optimised subkey pair `i` of the 256-bit schedule in terms of the unoptimised
subkeys `K`. -/
def optimised256 (K : Nat → Nat × Nat) (i : Nat) : Nat × Nat :=
  match i with
  | 0 => pxor (K 0) (K 2)
  | 2 => invPkey (pxor (K 1) (K 3))
  | 3 => invPkey (pxor (K 2) (K 4))
  | 4 => invPkey (pxor (K 3) (K 5))
  | 5 => invPkey (pxor (K 4) (K 6))
  | 6 => invPkey (pxor (K 5) (K 7))
  | 7 => invPkey (pxor (K 6) (FLfold (K 8) (K 10)))
  | 8 => K 8
  | 9 => K 9
  | 10 => invPkey (pxor (FLfold (K 9) (K 7)) (K 11))
  | 11 => invPkey (pxor (K 10) (K 12))
  | 12 => invPkey (pxor (K 11) (K 13))
  | 13 => invPkey (pxor (K 12) (K 14))
  | 14 => invPkey (pxor (K 13) (K 15))
  | 15 => invPkey (pxor (K 14) (FLfold (K 16) (K 18)))
  | 16 => K 16
  | 17 => K 17
  | 18 => invPkey (pxor (FLfold (K 17) (K 15)) (K 19))
  | 19 => invPkey (pxor (K 18) (K 20))
  | 20 => invPkey (pxor (K 19) (K 21))
  | 21 => invPkey (pxor (K 20) (K 22))
  | 22 => invPkey (pxor (K 21) (K 23))
  | 23 => invPkey (pxor (K 22) (FLfold (K 24) (K 26)))
  | 24 => K 24
  | 25 => K 25
  | 26 => invPkey (pxor (FLfold (K 25) (K 23)) (K 27))
  | 27 => invPkey (pxor (K 26) (K 28))
  | 28 => invPkey (pxor (K 27) (K 29))
  | 29 => invPkey (pxor (K 28) (K 30))
  | 30 => invPkey (pxor (K 29) (K 31))
  | 31 => invPkey (pxor (K 30) (K 33))
  | 32 => pxor (K 32) (K 31)
  | _ => (0, 0)

/-- The inverse of `FLfold k`: `br = ar ^ RL1(kl & al)`, `bl = al ^ (br & ~kr)`. -/
def FLunfold (k a : Nat × Nat) : Nat × Nat :=
  let br := a.2 ^^^ CAMELLIA_RL1 (k.1 &&& a.1)
  (a.1 ^^^ (br &&& NOT32 k.2), br)

/-- Scratch pair `i` after the sections "absorb kw2 to other subkeys" and "absorb kw4
to other subkeys" of `camellia_setup128`, in terms of the pairs `K` before them. -/
def absorbed128 (K : Nat → Nat × Nat) (i : Nat) : Nat × Nat :=
  match i with
  | 0 => pxor (K 0) (FLfold (K 8) (FLfold (K 16) (K 25)))
  | 1 => FLfold (K 17) (FLfold (K 9) (K 1))
  | 2 => pxor (K 2) (FLfold (K 8) (FLfold (K 16) (K 25)))
  | 3 => pxor (K 3) (K 1)
  | 4 => pxor (K 4) (FLfold (K 8) (FLfold (K 16) (K 25)))
  | 5 => pxor (K 5) (K 1)
  | 6 => pxor (K 6) (FLfold (K 8) (FLfold (K 16) (K 25)))
  | 7 => pxor (K 7) (K 1)
  | 10 => pxor (K 10) (FLfold (K 16) (K 25))
  | 11 => pxor (K 11) (FLfold (K 9) (K 1))
  | 12 => pxor (K 12) (FLfold (K 16) (K 25))
  | 13 => pxor (K 13) (FLfold (K 9) (K 1))
  | 14 => pxor (K 14) (FLfold (K 16) (K 25))
  | 15 => pxor (K 15) (FLfold (K 9) (K 1))
  | 18 => pxor (K 18) (K 25)
  | 19 => pxor (K 19) (FLfold (K 17) (FLfold (K 9) (K 1)))
  | 20 => pxor (K 20) (K 25)
  | 21 => pxor (K 21) (FLfold (K 17) (FLfold (K 9) (K 1)))
  | 22 => pxor (K 22) (K 25)
  | 23 => pxor (K 23) (FLfold (K 17) (FLfold (K 9) (K 1)))
  | 24 => pxor (K 24) (FLfold (K 17) (FLfold (K 9) (K 1)))
  | _ => K i

/-- Scratch pair `i` after the sections "absorb kw2 to other subkeys" and "absorb kw4
to other subkeys" of `camellia_setup256`, in terms of the pairs `K` before them. -/
def absorbed256 (K : Nat → Nat × Nat) (i : Nat) : Nat × Nat :=
  match i with
  | 0 => pxor (K 0) (FLfold (K 8) (FLfold (K 16) (FLfold (K 24) (K 33))))
  | 1 => FLfold (K 25) (FLfold (K 17) (FLfold (K 9) (K 1)))
  | 2 => pxor (K 2) (FLfold (K 8) (FLfold (K 16) (FLfold (K 24) (K 33))))
  | 3 => pxor (K 3) (K 1)
  | 4 => pxor (K 4) (FLfold (K 8) (FLfold (K 16) (FLfold (K 24) (K 33))))
  | 5 => pxor (K 5) (K 1)
  | 6 => pxor (K 6) (FLfold (K 8) (FLfold (K 16) (FLfold (K 24) (K 33))))
  | 7 => pxor (K 7) (K 1)
  | 10 => pxor (K 10) (FLfold (K 16) (FLfold (K 24) (K 33)))
  | 11 => pxor (K 11) (FLfold (K 9) (K 1))
  | 12 => pxor (K 12) (FLfold (K 16) (FLfold (K 24) (K 33)))
  | 13 => pxor (K 13) (FLfold (K 9) (K 1))
  | 14 => pxor (K 14) (FLfold (K 16) (FLfold (K 24) (K 33)))
  | 15 => pxor (K 15) (FLfold (K 9) (K 1))
  | 18 => pxor (K 18) (FLfold (K 24) (K 33))
  | 19 => pxor (K 19) (FLfold (K 17) (FLfold (K 9) (K 1)))
  | 20 => pxor (K 20) (FLfold (K 24) (K 33))
  | 21 => pxor (K 21) (FLfold (K 17) (FLfold (K 9) (K 1)))
  | 22 => pxor (K 22) (FLfold (K 24) (K 33))
  | 23 => pxor (K 23) (FLfold (K 17) (FLfold (K 9) (K 1)))
  | 26 => pxor (K 26) (K 33)
  | 27 => pxor (K 27) (FLfold (K 25) (FLfold (K 17) (FLfold (K 9) (K 1))))
  | 28 => pxor (K 28) (K 33)
  | 29 => pxor (K 29) (FLfold (K 25) (FLfold (K 17) (FLfold (K 9) (K 1))))
  | 30 => pxor (K 30) (K 33)
  | 31 => pxor (K 31) (FLfold (K 25) (FLfold (K 17) (FLfold (K 9) (K 1))))
  | 32 => pxor (K 32) (FLfold (K 25) (FLfold (K 17) (FLfold (K 9) (K 1))))
  | _ => K i

/-- Subkey pair `i` stored by the section "key XOR is end of F-function" of
`camellia_setup128`, in terms of the scratch pairs `K` it reads. -/
def emitted128 (K : Nat → Nat × Nat) (i : Nat) : Nat × Nat :=
  match i with
  | 0 => pxor (K 0) (K 2)
  | 2 => K 3
  | 3 => pxor (K 2) (K 4)
  | 4 => pxor (K 3) (K 5)
  | 5 => pxor (K 4) (K 6)
  | 6 => pxor (K 5) (K 7)
  | 7 => pxor (K 6) (FLfold (K 8) (K 10))
  | 8 => K 8
  | 9 => K 9
  | 10 => pxor (FLfold (K 9) (K 7)) (K 11)
  | 11 => pxor (K 10) (K 12)
  | 12 => pxor (K 11) (K 13)
  | 13 => pxor (K 12) (K 14)
  | 14 => pxor (K 13) (K 15)
  | 15 => pxor (K 14) (FLfold (K 16) (K 18))
  | 16 => K 16
  | 17 => K 17
  | 18 => pxor (FLfold (K 17) (K 15)) (K 19)
  | 19 => pxor (K 18) (K 20)
  | 20 => pxor (K 19) (K 21)
  | 21 => pxor (K 20) (K 22)
  | 22 => pxor (K 21) (K 23)
  | 23 => K 22
  | 24 => pxor (K 24) (K 23)
  | _ => (0, 0)

/-- Subkey pair `i` stored by the section "key XOR is end of F-function" of
`camellia_setup256`, in terms of the scratch pairs `K` it reads. -/
def emitted256 (K : Nat → Nat × Nat) (i : Nat) : Nat × Nat :=
  match i with
  | 0 => pxor (K 0) (K 2)
  | 2 => K 3
  | 3 => pxor (K 2) (K 4)
  | 4 => pxor (K 3) (K 5)
  | 5 => pxor (K 4) (K 6)
  | 6 => pxor (K 5) (K 7)
  | 7 => pxor (K 6) (FLfold (K 8) (K 10))
  | 8 => K 8
  | 9 => K 9
  | 10 => pxor (FLfold (K 9) (K 7)) (K 11)
  | 11 => pxor (K 10) (K 12)
  | 12 => pxor (K 11) (K 13)
  | 13 => pxor (K 12) (K 14)
  | 14 => pxor (K 13) (K 15)
  | 15 => pxor (K 14) (FLfold (K 16) (K 18))
  | 16 => K 16
  | 17 => K 17
  | 18 => pxor (FLfold (K 17) (K 15)) (K 19)
  | 19 => pxor (K 18) (K 20)
  | 20 => pxor (K 19) (K 21)
  | 21 => pxor (K 20) (K 22)
  | 22 => pxor (K 21) (K 23)
  | 23 => pxor (K 22) (FLfold (K 24) (K 26))
  | 24 => K 24
  | 25 => K 25
  | 26 => pxor (FLfold (K 25) (K 23)) (K 27)
  | 27 => pxor (K 26) (K 28)
  | 28 => pxor (K 27) (K 29)
  | 29 => pxor (K 28) (K 30)
  | 30 => pxor (K 29) (K 31)
  | 31 => K 30
  | 32 => pxor (K 32) (K 31)
  | _ => (0, 0)

/-! ## The algorithm as the specification writes it (RFC 3713)

Numbers of 128 and 64 bits are natural numbers; `K` is the key and `M` the block read
big-endian.  The definitions follow the pseudo-code of the specification statement by
statement and use none of the tables or macros of `camellia.c`. -/

namespace Ref

def MASK8 : Nat := 0xff
def MASK32 : Nat := 0xffffffff
def MASK64 : Nat := 0xffffffffffffffff
def MASK128 : Nat := 0xffffffffffffffffffffffffffffffff

def Sigma1 : Nat := 0xA09E667F3BCC908B
def Sigma2 : Nat := 0xB67AE8584CAA73B2
def Sigma3 : Nat := 0xC6EF372FE94F82BE
def Sigma4 : Nat := 0x54FF53A5F1D36F1C
def Sigma5 : Nat := 0x10E527FADE682D1D
def Sigma6 : Nat := 0xB05688C2B3E6C1FD

/-- Left circular rotation of an 8-bit operand by `n` bits. -/
def rotl8 (x n : Nat) : Nat := ((x <<< n) ||| (x >>> (8 - n))) &&& MASK8

/-- Left circular rotation of a 32-bit operand by `n` bits. -/
def rotl32 (x n : Nat) : Nat := ((x <<< n) ||| (x >>> (32 - n))) &&& MASK32

/-- Left circular rotation of a 128-bit operand by `n` bits. -/
def rotl128 (x n : Nat) : Nat := ((x <<< n) ||| (x >>> (128 - n))) &&& MASK128

/-- The table SBOX1 of the specification. -/
def SBOX1 : List Nat := [
    112, 130,  44, 236, 179,  39, 192, 229, 228, 133,  87,  53, 234,  12, 174,  65,
     35, 239, 107, 147,  69,  25, 165,  33, 237,  14,  79,  78,  29, 101, 146, 189,
    134, 184, 175, 143, 124, 235,  31, 206,  62,  48, 220,  95,  94, 197,  11,  26,
    166, 225,  57, 202, 213,  71,  93,  61, 217,   1,  90, 214,  81,  86, 108,  77,
    139,  13, 154, 102, 251, 204, 176,  45, 116,  18,  43,  32, 240, 177, 132, 153,
    223,  76, 203, 194,  52, 126, 118,   5, 109, 183, 169,  49, 209,  23,   4, 215,
     20,  88,  58,  97, 222,  27,  17,  28,  50,  15, 156,  22,  83,  24, 242,  34,
    254,  68, 207, 178, 195, 181, 122, 145,  36,   8, 232, 168,  96, 252, 105,  80,
    170, 208, 160, 125, 161, 137,  98, 151,  84,  91,  30, 149, 224, 255, 100, 210,
     16, 196,   0,  72, 163, 247, 117, 219, 138,   3, 230, 218,   9,  63, 221, 148,
    135,  92, 131,   2, 205,  74, 144,  51, 115, 103, 246, 243, 157, 127, 191, 226,
     82, 155, 216,  38, 200,  55, 198,  59, 129, 150, 111,  75,  19, 190,  99,  46,
    233, 121, 167, 140, 159, 110, 188, 142,  41, 245, 249, 182,  47, 253, 180,  89,
    120, 152,   6, 106, 231,  70, 113, 186, 212,  37, 171,  66, 136, 162, 141, 250,
    114,   7, 185,  85, 248, 238, 172,  10,  54,  73,  42, 104,  60,  56, 241, 164,
     64,  40, 211, 123, 187, 201,  67, 193,  21, 227, 173, 244, 119, 199, 128, 158
]

/-- `SBOX1[x]`. -/
def sbox1 (x : Nat) : Nat := SBOX1.getD x 0

/-- `SBOX2[x] = SBOX1[x] <<< 1`. -/
def sbox2 (x : Nat) : Nat := rotl8 (sbox1 x) 1

/-- `SBOX3[x] = SBOX1[x] <<< 7`. -/
def sbox3 (x : Nat) : Nat := rotl8 (sbox1 x) 7

/-- `SBOX4[x] = SBOX1[x <<< 1]`. -/
def sbox4 (x : Nat) : Nat := sbox1 (rotl8 x 1)

/-- The F-function: key mixing, the S-boxes, then the P-function on bytes. -/
def F (F_IN KE : Nat) : Nat :=
  let x := F_IN ^^^ KE
  let t1 := x >>> 56
  let t2 := (x >>> 48) &&& MASK8
  let t3 := (x >>> 40) &&& MASK8
  let t4 := (x >>> 32) &&& MASK8
  let t5 := (x >>> 24) &&& MASK8
  let t6 := (x >>> 16) &&& MASK8
  let t7 := (x >>> 8) &&& MASK8
  let t8 := x &&& MASK8
  let t1 := sbox1 t1
  let t2 := sbox2 t2
  let t3 := sbox3 t3
  let t4 := sbox4 t4
  let t5 := sbox2 t5
  let t6 := sbox3 t6
  let t7 := sbox4 t7
  let t8 := sbox1 t8
  let y1 := t1 ^^^ t3 ^^^ t4 ^^^ t6 ^^^ t7 ^^^ t8
  let y2 := t1 ^^^ t2 ^^^ t4 ^^^ t5 ^^^ t7 ^^^ t8
  let y3 := t1 ^^^ t2 ^^^ t3 ^^^ t5 ^^^ t6 ^^^ t8
  let y4 := t2 ^^^ t3 ^^^ t4 ^^^ t5 ^^^ t6 ^^^ t7
  let y5 := t1 ^^^ t2 ^^^ t6 ^^^ t7 ^^^ t8
  let y6 := t2 ^^^ t3 ^^^ t5 ^^^ t7 ^^^ t8
  let y7 := t3 ^^^ t4 ^^^ t5 ^^^ t6 ^^^ t8
  let y8 := t1 ^^^ t4 ^^^ t5 ^^^ t6 ^^^ t7
  (y1 <<< 56) ||| (y2 <<< 48) ||| (y3 <<< 40) ||| (y4 <<< 32) ||| (y5 <<< 24) ||| (y6 <<< 16)
    ||| (y7 <<< 8) ||| y8

/-- The FL-function. -/
def FL (FL_IN KE : Nat) : Nat :=
  let x1 := FL_IN >>> 32
  let x2 := FL_IN &&& MASK32
  let k1 := KE >>> 32
  let k2 := KE &&& MASK32
  let x2 := x2 ^^^ rotl32 (x1 &&& k1) 1
  let x1 := x1 ^^^ (x2 ||| k2)
  (x1 <<< 32) ||| x2

/-- The FLINV-function, the inverse of FL. -/
def FLINV (FLINV_IN KE : Nat) : Nat :=
  let y1 := FLINV_IN >>> 32
  let y2 := FLINV_IN &&& MASK32
  let k1 := KE >>> 32
  let k2 := KE &&& MASK32
  let y1 := y1 ^^^ (y2 ||| k2)
  let y2 := y2 ^^^ rotl32 (y1 &&& k1) 1
  (y1 <<< 32) ||| y2

/-- The 128-bit value KA derived from KL and KR with Sigma1..Sigma4. -/
def KA (KL KR : Nat) : Nat :=
  let D1 := (KL ^^^ KR) >>> 64
  let D2 := (KL ^^^ KR) &&& MASK64
  let D2 := D2 ^^^ F D1 Sigma1
  let D1 := D1 ^^^ F D2 Sigma2
  let D1 := D1 ^^^ (KL >>> 64)
  let D2 := D2 ^^^ (KL &&& MASK64)
  let D2 := D2 ^^^ F D1 Sigma3
  let D1 := D1 ^^^ F D2 Sigma4
  (D1 <<< 64) ||| D2

/-- The 128-bit value KB derived from KA and KR with Sigma5, Sigma6. -/
def KB (KA KR : Nat) : Nat :=
  let D1 := (KA ^^^ KR) >>> 64
  let D2 := (KA ^^^ KR) &&& MASK64
  let D2 := D2 ^^^ F D1 Sigma5
  let D1 := D1 ^^^ F D2 Sigma6
  (D1 <<< 64) ||| D2

/-- The 64-bit subkeys for a 128-bit key, in the order
`kw1, kw2, k1 .. k6, ke1, ke2, k7 .. k12, ke3, ke4, k13 .. k18, kw3, kw4`. -/
def subkey128 (KL KA : Nat) (i : Nat) : Nat :=
  match i with
  | 0 => rotl128 KL 0 >>> 64
  | 1 => rotl128 KL 0 &&& MASK64
  | 2 => rotl128 KA 0 >>> 64
  | 3 => rotl128 KA 0 &&& MASK64
  | 4 => rotl128 KL 15 >>> 64
  | 5 => rotl128 KL 15 &&& MASK64
  | 6 => rotl128 KA 15 >>> 64
  | 7 => rotl128 KA 15 &&& MASK64
  | 8 => rotl128 KA 30 >>> 64
  | 9 => rotl128 KA 30 &&& MASK64
  | 10 => rotl128 KL 45 >>> 64
  | 11 => rotl128 KL 45 &&& MASK64
  | 12 => rotl128 KA 45 >>> 64
  | 13 => rotl128 KL 60 &&& MASK64
  | 14 => rotl128 KA 60 >>> 64
  | 15 => rotl128 KA 60 &&& MASK64
  | 16 => rotl128 KL 77 >>> 64
  | 17 => rotl128 KL 77 &&& MASK64
  | 18 => rotl128 KL 94 >>> 64
  | 19 => rotl128 KL 94 &&& MASK64
  | 20 => rotl128 KA 94 >>> 64
  | 21 => rotl128 KA 94 &&& MASK64
  | 22 => rotl128 KL 111 >>> 64
  | 23 => rotl128 KL 111 &&& MASK64
  | 24 => rotl128 KA 111 >>> 64
  | 25 => rotl128 KA 111 &&& MASK64
  | _ => 0

/-- The 64-bit subkeys for a 192- or 256-bit key, in the order
`kw1, kw2, k1 .. k6, ke1, ke2, k7 .. k12, ke3, ke4, k13 .. k18, ke5, ke6, k19 .. k24,
kw3, kw4`. -/
def subkey256 (KL KR KA KB : Nat) (i : Nat) : Nat :=
  match i with
  | 0 => rotl128 KL 0 >>> 64
  | 1 => rotl128 KL 0 &&& MASK64
  | 2 => rotl128 KB 0 >>> 64
  | 3 => rotl128 KB 0 &&& MASK64
  | 4 => rotl128 KR 15 >>> 64
  | 5 => rotl128 KR 15 &&& MASK64
  | 6 => rotl128 KA 15 >>> 64
  | 7 => rotl128 KA 15 &&& MASK64
  | 8 => rotl128 KR 30 >>> 64
  | 9 => rotl128 KR 30 &&& MASK64
  | 10 => rotl128 KB 30 >>> 64
  | 11 => rotl128 KB 30 &&& MASK64
  | 12 => rotl128 KL 45 >>> 64
  | 13 => rotl128 KL 45 &&& MASK64
  | 14 => rotl128 KA 45 >>> 64
  | 15 => rotl128 KA 45 &&& MASK64
  | 16 => rotl128 KL 60 >>> 64
  | 17 => rotl128 KL 60 &&& MASK64
  | 18 => rotl128 KR 60 >>> 64
  | 19 => rotl128 KR 60 &&& MASK64
  | 20 => rotl128 KB 60 >>> 64
  | 21 => rotl128 KB 60 &&& MASK64
  | 22 => rotl128 KL 77 >>> 64
  | 23 => rotl128 KL 77 &&& MASK64
  | 24 => rotl128 KA 77 >>> 64
  | 25 => rotl128 KA 77 &&& MASK64
  | 26 => rotl128 KR 94 >>> 64
  | 27 => rotl128 KR 94 &&& MASK64
  | 28 => rotl128 KA 94 >>> 64
  | 29 => rotl128 KA 94 &&& MASK64
  | 30 => rotl128 KL 111 >>> 64
  | 31 => rotl128 KL 111 &&& MASK64
  | 32 => rotl128 KB 111 >>> 64
  | 33 => rotl128 KB 111 &&& MASK64
  | _ => 0

/-- The statement `D2 = D2 ^ F(D1, k)` on the state `(D1, D2)`. -/
def roundD2 (k : Nat) (D : Nat × Nat) : Nat × Nat := (D.1, D.2 ^^^ F D.1 k)

/-- The statement `D1 = D1 ^ F(D2, k)` on the state `(D1, D2)`. -/
def roundD1 (k : Nat) (D : Nat × Nat) : Nat × Nat := (D.1 ^^^ F D.2 k, D.2)

/-- The statements `D1 = FL(D1, ke); D2 = FLINV(D2, ke')`. -/
def flLayer (ke ke' : Nat) (D : Nat × Nat) : Nat × Nat := (FL D.1 ke, FLINV D.2 ke')

/-- Encryption for 128-bit keys: `K` is the key, `M` the plaintext block. -/
def encrypt128 (K M : Nat) : Nat :=
  let KL := K
  let KR := 0
  let sk := subkey128 KL (KA KL KR)
  let D := (M >>> 64, M &&& MASK64)
  let D := (D.1 ^^^ sk 0, D.2 ^^^ sk 1)
  let D := roundD2 (sk 2) D
  let D := roundD1 (sk 3) D
  let D := roundD2 (sk 4) D
  let D := roundD1 (sk 5) D
  let D := roundD2 (sk 6) D
  let D := roundD1 (sk 7) D
  let D := flLayer (sk 8) (sk 9) D
  let D := roundD2 (sk 10) D
  let D := roundD1 (sk 11) D
  let D := roundD2 (sk 12) D
  let D := roundD1 (sk 13) D
  let D := roundD2 (sk 14) D
  let D := roundD1 (sk 15) D
  let D := flLayer (sk 16) (sk 17) D
  let D := roundD2 (sk 18) D
  let D := roundD1 (sk 19) D
  let D := roundD2 (sk 20) D
  let D := roundD1 (sk 21) D
  let D := roundD2 (sk 22) D
  let D := roundD1 (sk 23) D
  let D := (D.1 ^^^ sk 25, D.2 ^^^ sk 24)
  (D.2 <<< 64) ||| D.1

/-- Encryption for 256-bit keys: `K` is the key, `M` the plaintext block. -/
def encrypt256 (K M : Nat) : Nat :=
  let KL := K >>> 128
  let KR := K &&& MASK128
  let ka := KA KL KR
  let sk := subkey256 KL KR ka (KB ka KR)
  let D := (M >>> 64, M &&& MASK64)
  let D := (D.1 ^^^ sk 0, D.2 ^^^ sk 1)
  let D := roundD2 (sk 2) D
  let D := roundD1 (sk 3) D
  let D := roundD2 (sk 4) D
  let D := roundD1 (sk 5) D
  let D := roundD2 (sk 6) D
  let D := roundD1 (sk 7) D
  let D := flLayer (sk 8) (sk 9) D
  let D := roundD2 (sk 10) D
  let D := roundD1 (sk 11) D
  let D := roundD2 (sk 12) D
  let D := roundD1 (sk 13) D
  let D := roundD2 (sk 14) D
  let D := roundD1 (sk 15) D
  let D := flLayer (sk 16) (sk 17) D
  let D := roundD2 (sk 18) D
  let D := roundD1 (sk 19) D
  let D := roundD2 (sk 20) D
  let D := roundD1 (sk 21) D
  let D := roundD2 (sk 22) D
  let D := roundD1 (sk 23) D
  let D := flLayer (sk 24) (sk 25) D
  let D := roundD2 (sk 26) D
  let D := roundD1 (sk 27) D
  let D := roundD2 (sk 28) D
  let D := roundD1 (sk 29) D
  let D := roundD2 (sk 30) D
  let D := roundD1 (sk 31) D
  let D := (D.1 ^^^ sk 33, D.2 ^^^ sk 32)
  (D.2 <<< 64) ||| D.1

/-- The number that a list of bytes spells, most significant byte first. -/
def be_nat (bytes : List Nat) : Nat := bytes.foldl (fun acc b => acc * 256 + b) 0

/-- The 16 bytes of a 128-bit number, most significant byte first. -/
def be_bytes16 (x : Nat) : List Nat :=
  (List.range 16).map (fun i => (x >>> (8 * (15 - i))) &&& MASK8)

end Ref

/-! ## Words and numbers -/

/-- The 64-bit number whose high and low words are the pair `a`. -/
def pack64 (a : Nat × Nat) : Nat := a.1 * 2 ^ 32 + a.2

/-- The 128-bit number whose four words, most significant first, are `q`. -/
def pack128 (q : Quad) : Nat := pack64 (q.ll, q.lr) * 2 ^ 64 + pack64 (q.rl, q.rr)

/-- The 32-bit number whose four bytes, most significant first, are `w, x, y, z`. -/
def bytes4 (w x y z : Nat) : Nat := ((w * 256 + x) * 256 + y) * 256 + z


/-- The two 64-bit halves `(D1, D2)` of a block held as four words. -/
def halves (q : Quad) : Nat × Nat := (pack64 (q.ll, q.lr), pack64 (q.rl, q.rr))

/-! ## Substitution tables of 64-bit words -/

/-- Table `camellia_sp10011110` (256 entries of type u64). -/
def camellia_sp10011110 : List Nat := [
    0x7000007070707000,0x8200008282828200,0x2c00002c2c2c2c00,0xec0000ecececec00,
    0xb30000b3b3b3b300,0x2700002727272700,0xc00000c0c0c0c000,0xe50000e5e5e5e500,
    0xe40000e4e4e4e400,0x8500008585858500,0x5700005757575700,0x3500003535353500,
    0xea0000eaeaeaea00,0x0c00000c0c0c0c00,0xae0000aeaeaeae00,0x4100004141414100,
    0x2300002323232300,0xef0000efefefef00,0x6b00006b6b6b6b00,0x9300009393939300,
    0x4500004545454500,0x1900001919191900,0xa50000a5a5a5a500,0x2100002121212100,
    0xed0000edededed00,0x0e00000e0e0e0e00,0x4f00004f4f4f4f00,0x4e00004e4e4e4e00,
    0x1d00001d1d1d1d00,0x6500006565656500,0x9200009292929200,0xbd0000bdbdbdbd00,
    0x8600008686868600,0xb80000b8b8b8b800,0xaf0000afafafaf00,0x8f00008f8f8f8f00,
    0x7c00007c7c7c7c00,0xeb0000ebebebeb00,0x1f00001f1f1f1f00,0xce0000cececece00,
    0x3e00003e3e3e3e00,0x3000003030303000,0xdc0000dcdcdcdc00,0x5f00005f5f5f5f00,
    0x5e00005e5e5e5e00,0xc50000c5c5c5c500,0x0b00000b0b0b0b00,0x1a00001a1a1a1a00,
    0xa60000a6a6a6a600,0xe10000e1e1e1e100,0x3900003939393900,0xca0000cacacaca00,
    0xd50000d5d5d5d500,0x4700004747474700,0x5d00005d5d5d5d00,0x3d00003d3d3d3d00,
    0xd90000d9d9d9d900,0x0100000101010100,0x5a00005a5a5a5a00,0xd60000d6d6d6d600,
    0x5100005151515100,0x5600005656565600,0x6c00006c6c6c6c00,0x4d00004d4d4d4d00,
    0x8b00008b8b8b8b00,0x0d00000d0d0d0d00,0x9a00009a9a9a9a00,0x6600006666666600,
    0xfb0000fbfbfbfb00,0xcc0000cccccccc00,0xb00000b0b0b0b000,0x2d00002d2d2d2d00,
    0x7400007474747400,0x1200001212121200,0x2b00002b2b2b2b00,0x2000002020202000,
    0xf00000f0f0f0f000,0xb10000b1b1b1b100,0x8400008484848400,0x9900009999999900,
    0xdf0000dfdfdfdf00,0x4c00004c4c4c4c00,0xcb0000cbcbcbcb00,0xc20000c2c2c2c200,
    0x3400003434343400,0x7e00007e7e7e7e00,0x7600007676767600,0x0500000505050500,
    0x6d00006d6d6d6d00,0xb70000b7b7b7b700,0xa90000a9a9a9a900,0x3100003131313100,
    0xd10000d1d1d1d100,0x1700001717171700,0x0400000404040400,0xd70000d7d7d7d700,
    0x1400001414141400,0x5800005858585800,0x3a00003a3a3a3a00,0x6100006161616100,
    0xde0000dededede00,0x1b00001b1b1b1b00,0x1100001111111100,0x1c00001c1c1c1c00,
    0x3200003232323200,0x0f00000f0f0f0f00,0x9c00009c9c9c9c00,0x1600001616161600,
    0x5300005353535300,0x1800001818181800,0xf20000f2f2f2f200,0x2200002222222200,
    0xfe0000fefefefe00,0x4400004444444400,0xcf0000cfcfcfcf00,0xb20000b2b2b2b200,
    0xc30000c3c3c3c300,0xb50000b5b5b5b500,0x7a00007a7a7a7a00,0x9100009191919100,
    0x2400002424242400,0x0800000808080800,0xe80000e8e8e8e800,0xa80000a8a8a8a800,
    0x6000006060606000,0xfc0000fcfcfcfc00,0x6900006969696900,0x5000005050505000,
    0xaa0000aaaaaaaa00,0xd00000d0d0d0d000,0xa00000a0a0a0a000,0x7d00007d7d7d7d00,
    0xa10000a1a1a1a100,0x8900008989898900,0x6200006262626200,0x9700009797979700,
    0x5400005454545400,0x5b00005b5b5b5b00,0x1e00001e1e1e1e00,0x9500009595959500,
    0xe00000e0e0e0e000,0xff0000ffffffff00,0x6400006464646400,0xd20000d2d2d2d200,
    0x1000001010101000,0xc40000c4c4c4c400,0x0000000000000000,0x4800004848484800,
    0xa30000a3a3a3a300,0xf70000f7f7f7f700,0x7500007575757500,0xdb0000dbdbdbdb00,
    0x8a00008a8a8a8a00,0x0300000303030300,0xe60000e6e6e6e600,0xda0000dadadada00,
    0x0900000909090900,0x3f00003f3f3f3f00,0xdd0000dddddddd00,0x9400009494949400,
    0x8700008787878700,0x5c00005c5c5c5c00,0x8300008383838300,0x0200000202020200,
    0xcd0000cdcdcdcd00,0x4a00004a4a4a4a00,0x9000009090909000,0x3300003333333300,
    0x7300007373737300,0x6700006767676700,0xf60000f6f6f6f600,0xf30000f3f3f3f300,
    0x9d00009d9d9d9d00,0x7f00007f7f7f7f00,0xbf0000bfbfbfbf00,0xe20000e2e2e2e200,
    0x5200005252525200,0x9b00009b9b9b9b00,0xd80000d8d8d8d800,0x2600002626262600,
    0xc80000c8c8c8c800,0x3700003737373700,0xc60000c6c6c6c600,0x3b00003b3b3b3b00,
    0x8100008181818100,0x9600009696969600,0x6f00006f6f6f6f00,0x4b00004b4b4b4b00,
    0x1300001313131300,0xbe0000bebebebe00,0x6300006363636300,0x2e00002e2e2e2e00,
    0xe90000e9e9e9e900,0x7900007979797900,0xa70000a7a7a7a700,0x8c00008c8c8c8c00,
    0x9f00009f9f9f9f00,0x6e00006e6e6e6e00,0xbc0000bcbcbcbc00,0x8e00008e8e8e8e00,
    0x2900002929292900,0xf50000f5f5f5f500,0xf90000f9f9f9f900,0xb60000b6b6b6b600,
    0x2f00002f2f2f2f00,0xfd0000fdfdfdfd00,0xb40000b4b4b4b400,0x5900005959595900,
    0x7800007878787800,0x9800009898989800,0x0600000606060600,0x6a00006a6a6a6a00,
    0xe70000e7e7e7e700,0x4600004646464600,0x7100007171717100,0xba0000babababa00,
    0xd40000d4d4d4d400,0x2500002525252500,0xab0000abababab00,0x4200004242424200,
    0x8800008888888800,0xa20000a2a2a2a200,0x8d00008d8d8d8d00,0xfa0000fafafafa00,
    0x7200007272727200,0x0700000707070700,0xb90000b9b9b9b900,0x5500005555555500,
    0xf80000f8f8f8f800,0xee0000eeeeeeee00,0xac0000acacacac00,0x0a00000a0a0a0a00,
    0x3600003636363600,0x4900004949494900,0x2a00002a2a2a2a00,0x6800006868686800,
    0x3c00003c3c3c3c00,0x3800003838383800,0xf10000f1f1f1f100,0xa40000a4a4a4a400,
    0x4000004040404000,0x2800002828282800,0xd30000d3d3d3d300,0x7b00007b7b7b7b00,
    0xbb0000bbbbbbbb00,0xc90000c9c9c9c900,0x4300004343434300,0xc10000c1c1c1c100,
    0x1500001515151500,0xe30000e3e3e3e300,0xad0000adadadad00,0xf40000f4f4f4f400,
    0x7700007777777700,0xc70000c7c7c7c700,0x8000008080808000,0x9e00009e9e9e9e00
]

/-- Table `camellia_sp22000222` (256 entries of type u64). -/
def camellia_sp22000222 : List Nat := [
    0xe0e0000000e0e0e0,0x0505000000050505,0x5858000000585858,0xd9d9000000d9d9d9,
    0x6767000000676767,0x4e4e0000004e4e4e,0x8181000000818181,0xcbcb000000cbcbcb,
    0xc9c9000000c9c9c9,0x0b0b0000000b0b0b,0xaeae000000aeaeae,0x6a6a0000006a6a6a,
    0xd5d5000000d5d5d5,0x1818000000181818,0x5d5d0000005d5d5d,0x8282000000828282,
    0x4646000000464646,0xdfdf000000dfdfdf,0xd6d6000000d6d6d6,0x2727000000272727,
    0x8a8a0000008a8a8a,0x3232000000323232,0x4b4b0000004b4b4b,0x4242000000424242,
    0xdbdb000000dbdbdb,0x1c1c0000001c1c1c,0x9e9e0000009e9e9e,0x9c9c0000009c9c9c,
    0x3a3a0000003a3a3a,0xcaca000000cacaca,0x2525000000252525,0x7b7b0000007b7b7b,
    0x0d0d0000000d0d0d,0x7171000000717171,0x5f5f0000005f5f5f,0x1f1f0000001f1f1f,
    0xf8f8000000f8f8f8,0xd7d7000000d7d7d7,0x3e3e0000003e3e3e,0x9d9d0000009d9d9d,
    0x7c7c0000007c7c7c,0x6060000000606060,0xb9b9000000b9b9b9,0xbebe000000bebebe,
    0xbcbc000000bcbcbc,0x8b8b0000008b8b8b,0x1616000000161616,0x3434000000343434,
    0x4d4d0000004d4d4d,0xc3c3000000c3c3c3,0x7272000000727272,0x9595000000959595,
    0xabab000000ababab,0x8e8e0000008e8e8e,0xbaba000000bababa,0x7a7a0000007a7a7a,
    0xb3b3000000b3b3b3,0x0202000000020202,0xb4b4000000b4b4b4,0xadad000000adadad,
    0xa2a2000000a2a2a2,0xacac000000acacac,0xd8d8000000d8d8d8,0x9a9a0000009a9a9a,
    0x1717000000171717,0x1a1a0000001a1a1a,0x3535000000353535,0xcccc000000cccccc,
    0xf7f7000000f7f7f7,0x9999000000999999,0x6161000000616161,0x5a5a0000005a5a5a,
    0xe8e8000000e8e8e8,0x2424000000242424,0x5656000000565656,0x4040000000404040,
    0xe1e1000000e1e1e1,0x6363000000636363,0x0909000000090909,0x3333000000333333,
    0xbfbf000000bfbfbf,0x9898000000989898,0x9797000000979797,0x8585000000858585,
    0x6868000000686868,0xfcfc000000fcfcfc,0xecec000000ececec,0x0a0a0000000a0a0a,
    0xdada000000dadada,0x6f6f0000006f6f6f,0x5353000000535353,0x6262000000626262,
    0xa3a3000000a3a3a3,0x2e2e0000002e2e2e,0x0808000000080808,0xafaf000000afafaf,
    0x2828000000282828,0xb0b0000000b0b0b0,0x7474000000747474,0xc2c2000000c2c2c2,
    0xbdbd000000bdbdbd,0x3636000000363636,0x2222000000222222,0x3838000000383838,
    0x6464000000646464,0x1e1e0000001e1e1e,0x3939000000393939,0x2c2c0000002c2c2c,
    0xa6a6000000a6a6a6,0x3030000000303030,0xe5e5000000e5e5e5,0x4444000000444444,
    0xfdfd000000fdfdfd,0x8888000000888888,0x9f9f0000009f9f9f,0x6565000000656565,
    0x8787000000878787,0x6b6b0000006b6b6b,0xf4f4000000f4f4f4,0x2323000000232323,
    0x4848000000484848,0x1010000000101010,0xd1d1000000d1d1d1,0x5151000000515151,
    0xc0c0000000c0c0c0,0xf9f9000000f9f9f9,0xd2d2000000d2d2d2,0xa0a0000000a0a0a0,
    0x5555000000555555,0xa1a1000000a1a1a1,0x4141000000414141,0xfafa000000fafafa,
    0x4343000000434343,0x1313000000131313,0xc4c4000000c4c4c4,0x2f2f0000002f2f2f,
    0xa8a8000000a8a8a8,0xb6b6000000b6b6b6,0x3c3c0000003c3c3c,0x2b2b0000002b2b2b,
    0xc1c1000000c1c1c1,0xffff000000ffffff,0xc8c8000000c8c8c8,0xa5a5000000a5a5a5,
    0x2020000000202020,0x8989000000898989,0x0000000000000000,0x9090000000909090,
    0x4747000000474747,0xefef000000efefef,0xeaea000000eaeaea,0xb7b7000000b7b7b7,
    0x1515000000151515,0x0606000000060606,0xcdcd000000cdcdcd,0xb5b5000000b5b5b5,
    0x1212000000121212,0x7e7e0000007e7e7e,0xbbbb000000bbbbbb,0x2929000000292929,
    0x0f0f0000000f0f0f,0xb8b8000000b8b8b8,0x0707000000070707,0x0404000000040404,
    0x9b9b0000009b9b9b,0x9494000000949494,0x2121000000212121,0x6666000000666666,
    0xe6e6000000e6e6e6,0xcece000000cecece,0xeded000000ededed,0xe7e7000000e7e7e7,
    0x3b3b0000003b3b3b,0xfefe000000fefefe,0x7f7f0000007f7f7f,0xc5c5000000c5c5c5,
    0xa4a4000000a4a4a4,0x3737000000373737,0xb1b1000000b1b1b1,0x4c4c0000004c4c4c,
    0x9191000000919191,0x6e6e0000006e6e6e,0x8d8d0000008d8d8d,0x7676000000767676,
    0x0303000000030303,0x2d2d0000002d2d2d,0xdede000000dedede,0x9696000000969696,
    0x2626000000262626,0x7d7d0000007d7d7d,0xc6c6000000c6c6c6,0x5c5c0000005c5c5c,
    0xd3d3000000d3d3d3,0xf2f2000000f2f2f2,0x4f4f0000004f4f4f,0x1919000000191919,
    0x3f3f0000003f3f3f,0xdcdc000000dcdcdc,0x7979000000797979,0x1d1d0000001d1d1d,
    0x5252000000525252,0xebeb000000ebebeb,0xf3f3000000f3f3f3,0x6d6d0000006d6d6d,
    0x5e5e0000005e5e5e,0xfbfb000000fbfbfb,0x6969000000696969,0xb2b2000000b2b2b2,
    0xf0f0000000f0f0f0,0x3131000000313131,0x0c0c0000000c0c0c,0xd4d4000000d4d4d4,
    0xcfcf000000cfcfcf,0x8c8c0000008c8c8c,0xe2e2000000e2e2e2,0x7575000000757575,
    0xa9a9000000a9a9a9,0x4a4a0000004a4a4a,0x5757000000575757,0x8484000000848484,
    0x1111000000111111,0x4545000000454545,0x1b1b0000001b1b1b,0xf5f5000000f5f5f5,
    0xe4e4000000e4e4e4,0x0e0e0000000e0e0e,0x7373000000737373,0xaaaa000000aaaaaa,
    0xf1f1000000f1f1f1,0xdddd000000dddddd,0x5959000000595959,0x1414000000141414,
    0x6c6c0000006c6c6c,0x9292000000929292,0x5454000000545454,0xd0d0000000d0d0d0,
    0x7878000000787878,0x7070000000707070,0xe3e3000000e3e3e3,0x4949000000494949,
    0x8080000000808080,0x5050000000505050,0xa7a7000000a7a7a7,0xf6f6000000f6f6f6,
    0x7777000000777777,0x9393000000939393,0x8686000000868686,0x8383000000838383,
    0x2a2a0000002a2a2a,0xc7c7000000c7c7c7,0x5b5b0000005b5b5b,0xe9e9000000e9e9e9,
    0xeeee000000eeeeee,0x8f8f0000008f8f8f,0x0101000000010101,0x3d3d0000003d3d3d
]

/-- Table `camellia_sp03303033` (256 entries of type u64). -/
def camellia_sp03303033 : List Nat := [
    0x0038380038003838,0x0041410041004141,0x0016160016001616,0x0076760076007676,
    0x00d9d900d900d9d9,0x0093930093009393,0x0060600060006060,0x00f2f200f200f2f2,
    0x0072720072007272,0x00c2c200c200c2c2,0x00abab00ab00abab,0x009a9a009a009a9a,
    0x0075750075007575,0x0006060006000606,0x0057570057005757,0x00a0a000a000a0a0,
    0x0091910091009191,0x00f7f700f700f7f7,0x00b5b500b500b5b5,0x00c9c900c900c9c9,
    0x00a2a200a200a2a2,0x008c8c008c008c8c,0x00d2d200d200d2d2,0x0090900090009090,
    0x00f6f600f600f6f6,0x0007070007000707,0x00a7a700a700a7a7,0x0027270027002727,
    0x008e8e008e008e8e,0x00b2b200b200b2b2,0x0049490049004949,0x00dede00de00dede,
    0x0043430043004343,0x005c5c005c005c5c,0x00d7d700d700d7d7,0x00c7c700c700c7c7,
    0x003e3e003e003e3e,0x00f5f500f500f5f5,0x008f8f008f008f8f,0x0067670067006767,
    0x001f1f001f001f1f,0x0018180018001818,0x006e6e006e006e6e,0x00afaf00af00afaf,
    0x002f2f002f002f2f,0x00e2e200e200e2e2,0x0085850085008585,0x000d0d000d000d0d,
    0x0053530053005353,0x00f0f000f000f0f0,0x009c9c009c009c9c,0x0065650065006565,
    0x00eaea00ea00eaea,0x00a3a300a300a3a3,0x00aeae00ae00aeae,0x009e9e009e009e9e,
    0x00ecec00ec00ecec,0x0080800080008080,0x002d2d002d002d2d,0x006b6b006b006b6b,
    0x00a8a800a800a8a8,0x002b2b002b002b2b,0x0036360036003636,0x00a6a600a600a6a6,
    0x00c5c500c500c5c5,0x0086860086008686,0x004d4d004d004d4d,0x0033330033003333,
    0x00fdfd00fd00fdfd,0x0066660066006666,0x0058580058005858,0x0096960096009696,
    0x003a3a003a003a3a,0x0009090009000909,0x0095950095009595,0x0010100010001010,
    0x0078780078007878,0x00d8d800d800d8d8,0x0042420042004242,0x00cccc00cc00cccc,
    0x00efef00ef00efef,0x0026260026002626,0x00e5e500e500e5e5,0x0061610061006161,
    0x001a1a001a001a1a,0x003f3f003f003f3f,0x003b3b003b003b3b,0x0082820082008282,
    0x00b6b600b600b6b6,0x00dbdb00db00dbdb,0x00d4d400d400d4d4,0x0098980098009898,
    0x00e8e800e800e8e8,0x008b8b008b008b8b,0x0002020002000202,0x00ebeb00eb00ebeb,
    0x000a0a000a000a0a,0x002c2c002c002c2c,0x001d1d001d001d1d,0x00b0b000b000b0b0,
    0x006f6f006f006f6f,0x008d8d008d008d8d,0x0088880088008888,0x000e0e000e000e0e,
    0x0019190019001919,0x0087870087008787,0x004e4e004e004e4e,0x000b0b000b000b0b,
    0x00a9a900a900a9a9,0x000c0c000c000c0c,0x0079790079007979,0x0011110011001111,
    0x007f7f007f007f7f,0x0022220022002222,0x00e7e700e700e7e7,0x0059590059005959,
    0x00e1e100e100e1e1,0x00dada00da00dada,0x003d3d003d003d3d,0x00c8c800c800c8c8,
    0x0012120012001212,0x0004040004000404,0x0074740074007474,0x0054540054005454,
    0x0030300030003030,0x007e7e007e007e7e,0x00b4b400b400b4b4,0x0028280028002828,
    0x0055550055005555,0x0068680068006868,0x0050500050005050,0x00bebe00be00bebe,
    0x00d0d000d000d0d0,0x00c4c400c400c4c4,0x0031310031003131,0x00cbcb00cb00cbcb,
    0x002a2a002a002a2a,0x00adad00ad00adad,0x000f0f000f000f0f,0x00caca00ca00caca,
    0x0070700070007070,0x00ffff00ff00ffff,0x0032320032003232,0x0069690069006969,
    0x0008080008000808,0x0062620062006262,0x0000000000000000,0x0024240024002424,
    0x00d1d100d100d1d1,0x00fbfb00fb00fbfb,0x00baba00ba00baba,0x00eded00ed00eded,
    0x0045450045004545,0x0081810081008181,0x0073730073007373,0x006d6d006d006d6d,
    0x0084840084008484,0x009f9f009f009f9f,0x00eeee00ee00eeee,0x004a4a004a004a4a,
    0x00c3c300c300c3c3,0x002e2e002e002e2e,0x00c1c100c100c1c1,0x0001010001000101,
    0x00e6e600e600e6e6,0x0025250025002525,0x0048480048004848,0x0099990099009999,
    0x00b9b900b900b9b9,0x00b3b300b300b3b3,0x007b7b007b007b7b,0x00f9f900f900f9f9,
    0x00cece00ce00cece,0x00bfbf00bf00bfbf,0x00dfdf00df00dfdf,0x0071710071007171,
    0x0029290029002929,0x00cdcd00cd00cdcd,0x006c6c006c006c6c,0x0013130013001313,
    0x0064640064006464,0x009b9b009b009b9b,0x0063630063006363,0x009d9d009d009d9d,
    0x00c0c000c000c0c0,0x004b4b004b004b4b,0x00b7b700b700b7b7,0x00a5a500a500a5a5,
    0x0089890089008989,0x005f5f005f005f5f,0x00b1b100b100b1b1,0x0017170017001717,
    0x00f4f400f400f4f4,0x00bcbc00bc00bcbc,0x00d3d300d300d3d3,0x0046460046004646,
    0x00cfcf00cf00cfcf,0x0037370037003737,0x005e5e005e005e5e,0x0047470047004747,
    0x0094940094009494,0x00fafa00fa00fafa,0x00fcfc00fc00fcfc,0x005b5b005b005b5b,
    0x0097970097009797,0x00fefe00fe00fefe,0x005a5a005a005a5a,0x00acac00ac00acac,
    0x003c3c003c003c3c,0x004c4c004c004c4c,0x0003030003000303,0x0035350035003535,
    0x00f3f300f300f3f3,0x0023230023002323,0x00b8b800b800b8b8,0x005d5d005d005d5d,
    0x006a6a006a006a6a,0x0092920092009292,0x00d5d500d500d5d5,0x0021210021002121,
    0x0044440044004444,0x0051510051005151,0x00c6c600c600c6c6,0x007d7d007d007d7d,
    0x0039390039003939,0x0083830083008383,0x00dcdc00dc00dcdc,0x00aaaa00aa00aaaa,
    0x007c7c007c007c7c,0x0077770077007777,0x0056560056005656,0x0005050005000505,
    0x001b1b001b001b1b,0x00a4a400a400a4a4,0x0015150015001515,0x0034340034003434,
    0x001e1e001e001e1e,0x001c1c001c001c1c,0x00f8f800f800f8f8,0x0052520052005252,
    0x0020200020002020,0x0014140014001414,0x00e9e900e900e9e9,0x00bdbd00bd00bdbd,
    0x00dddd00dd00dddd,0x00e4e400e400e4e4,0x00a1a100a100a1a1,0x00e0e000e000e0e0,
    0x008a8a008a008a8a,0x00f1f100f100f1f1,0x00d6d600d600d6d6,0x007a7a007a007a7a,
    0x00bbbb00bb00bbbb,0x00e3e300e300e3e3,0x0040400040004040,0x004f4f004f004f4f
]

/-- Table `camellia_sp00444404` (256 entries of type u64). -/
def camellia_sp00444404 : List Nat := [
    0x0000707070700070,0x00002c2c2c2c002c,0x0000b3b3b3b300b3,0x0000c0c0c0c000c0,
    0x0000e4e4e4e400e4,0x0000575757570057,0x0000eaeaeaea00ea,0x0000aeaeaeae00ae,
    0x0000232323230023,0x00006b6b6b6b006b,0x0000454545450045,0x0000a5a5a5a500a5,
    0x0000edededed00ed,0x00004f4f4f4f004f,0x00001d1d1d1d001d,0x0000929292920092,
    0x0000868686860086,0x0000afafafaf00af,0x00007c7c7c7c007c,0x00001f1f1f1f001f,
    0x00003e3e3e3e003e,0x0000dcdcdcdc00dc,0x00005e5e5e5e005e,0x00000b0b0b0b000b,
    0x0000a6a6a6a600a6,0x0000393939390039,0x0000d5d5d5d500d5,0x00005d5d5d5d005d,
    0x0000d9d9d9d900d9,0x00005a5a5a5a005a,0x0000515151510051,0x00006c6c6c6c006c,
    0x00008b8b8b8b008b,0x00009a9a9a9a009a,0x0000fbfbfbfb00fb,0x0000b0b0b0b000b0,
    0x0000747474740074,0x00002b2b2b2b002b,0x0000f0f0f0f000f0,0x0000848484840084,
    0x0000dfdfdfdf00df,0x0000cbcbcbcb00cb,0x0000343434340034,0x0000767676760076,
    0x00006d6d6d6d006d,0x0000a9a9a9a900a9,0x0000d1d1d1d100d1,0x0000040404040004,
    0x0000141414140014,0x00003a3a3a3a003a,0x0000dededede00de,0x0000111111110011,
    0x0000323232320032,0x00009c9c9c9c009c,0x0000535353530053,0x0000f2f2f2f200f2,
    0x0000fefefefe00fe,0x0000cfcfcfcf00cf,0x0000c3c3c3c300c3,0x00007a7a7a7a007a,
    0x0000242424240024,0x0000e8e8e8e800e8,0x0000606060600060,0x0000696969690069,
    0x0000aaaaaaaa00aa,0x0000a0a0a0a000a0,0x0000a1a1a1a100a1,0x0000626262620062,
    0x0000545454540054,0x00001e1e1e1e001e,0x0000e0e0e0e000e0,0x0000646464640064,
    0x0000101010100010,0x0000000000000000,0x0000a3a3a3a300a3,0x0000757575750075,
    0x00008a8a8a8a008a,0x0000e6e6e6e600e6,0x0000090909090009,0x0000dddddddd00dd,
    0x0000878787870087,0x0000838383830083,0x0000cdcdcdcd00cd,0x0000909090900090,
    0x0000737373730073,0x0000f6f6f6f600f6,0x00009d9d9d9d009d,0x0000bfbfbfbf00bf,
    0x0000525252520052,0x0000d8d8d8d800d8,0x0000c8c8c8c800c8,0x0000c6c6c6c600c6,
    0x0000818181810081,0x00006f6f6f6f006f,0x0000131313130013,0x0000636363630063,
    0x0000e9e9e9e900e9,0x0000a7a7a7a700a7,0x00009f9f9f9f009f,0x0000bcbcbcbc00bc,
    0x0000292929290029,0x0000f9f9f9f900f9,0x00002f2f2f2f002f,0x0000b4b4b4b400b4,
    0x0000787878780078,0x0000060606060006,0x0000e7e7e7e700e7,0x0000717171710071,
    0x0000d4d4d4d400d4,0x0000abababab00ab,0x0000888888880088,0x00008d8d8d8d008d,
    0x0000727272720072,0x0000b9b9b9b900b9,0x0000f8f8f8f800f8,0x0000acacacac00ac,
    0x0000363636360036,0x00002a2a2a2a002a,0x00003c3c3c3c003c,0x0000f1f1f1f100f1,
    0x0000404040400040,0x0000d3d3d3d300d3,0x0000bbbbbbbb00bb,0x0000434343430043,
    0x0000151515150015,0x0000adadadad00ad,0x0000777777770077,0x0000808080800080,
    0x0000828282820082,0x0000ecececec00ec,0x0000272727270027,0x0000e5e5e5e500e5,
    0x0000858585850085,0x0000353535350035,0x00000c0c0c0c000c,0x0000414141410041,
    0x0000efefefef00ef,0x0000939393930093,0x0000191919190019,0x0000212121210021,
    0x00000e0e0e0e000e,0x00004e4e4e4e004e,0x0000656565650065,0x0000bdbdbdbd00bd,
    0x0000b8b8b8b800b8,0x00008f8f8f8f008f,0x0000ebebebeb00eb,0x0000cececece00ce,
    0x0000303030300030,0x00005f5f5f5f005f,0x0000c5c5c5c500c5,0x00001a1a1a1a001a,
    0x0000e1e1e1e100e1,0x0000cacacaca00ca,0x0000474747470047,0x00003d3d3d3d003d,
    0x0000010101010001,0x0000d6d6d6d600d6,0x0000565656560056,0x00004d4d4d4d004d,
    0x00000d0d0d0d000d,0x0000666666660066,0x0000cccccccc00cc,0x00002d2d2d2d002d,
    0x0000121212120012,0x0000202020200020,0x0000b1b1b1b100b1,0x0000999999990099,
    0x00004c4c4c4c004c,0x0000c2c2c2c200c2,0x00007e7e7e7e007e,0x0000050505050005,
    0x0000b7b7b7b700b7,0x0000313131310031,0x0000171717170017,0x0000d7d7d7d700d7,
    0x0000585858580058,0x0000616161610061,0x00001b1b1b1b001b,0x00001c1c1c1c001c,
    0x00000f0f0f0f000f,0x0000161616160016,0x0000181818180018,0x0000222222220022,
    0x0000444444440044,0x0000b2b2b2b200b2,0x0000b5b5b5b500b5,0x0000919191910091,
    0x0000080808080008,0x0000a8a8a8a800a8,0x0000fcfcfcfc00fc,0x0000505050500050,
    0x0000d0d0d0d000d0,0x00007d7d7d7d007d,0x0000898989890089,0x0000979797970097,
    0x00005b5b5b5b005b,0x0000959595950095,0x0000ffffffff00ff,0x0000d2d2d2d200d2,
    0x0000c4c4c4c400c4,0x0000484848480048,0x0000f7f7f7f700f7,0x0000dbdbdbdb00db,
    0x0000030303030003,0x0000dadadada00da,0x00003f3f3f3f003f,0x0000949494940094,
    0x00005c5c5c5c005c,0x0000020202020002,0x00004a4a4a4a004a,0x0000333333330033,
    0x0000676767670067,0x0000f3f3f3f300f3,0x00007f7f7f7f007f,0x0000e2e2e2e200e2,
    0x00009b9b9b9b009b,0x0000262626260026,0x0000373737370037,0x00003b3b3b3b003b,
    0x0000969696960096,0x00004b4b4b4b004b,0x0000bebebebe00be,0x00002e2e2e2e002e,
    0x0000797979790079,0x00008c8c8c8c008c,0x00006e6e6e6e006e,0x00008e8e8e8e008e,
    0x0000f5f5f5f500f5,0x0000b6b6b6b600b6,0x0000fdfdfdfd00fd,0x0000595959590059,
    0x0000989898980098,0x00006a6a6a6a006a,0x0000464646460046,0x0000babababa00ba,
    0x0000252525250025,0x0000424242420042,0x0000a2a2a2a200a2,0x0000fafafafa00fa,
    0x0000070707070007,0x0000555555550055,0x0000eeeeeeee00ee,0x00000a0a0a0a000a,
    0x0000494949490049,0x0000686868680068,0x0000383838380038,0x0000a4a4a4a400a4,
    0x0000282828280028,0x00007b7b7b7b007b,0x0000c9c9c9c900c9,0x0000c1c1c1c100c1,
    0x0000e3e3e3e300e3,0x0000f4f4f4f400f4,0x0000c7c7c7c700c7,0x00009e9e9e9e009e
]

/-- Table `camellia_sp02220222` (256 entries of type u64). -/
def camellia_sp02220222 : List Nat := [
    0x00e0e0e000e0e0e0,0x0005050500050505,0x0058585800585858,0x00d9d9d900d9d9d9,
    0x0067676700676767,0x004e4e4e004e4e4e,0x0081818100818181,0x00cbcbcb00cbcbcb,
    0x00c9c9c900c9c9c9,0x000b0b0b000b0b0b,0x00aeaeae00aeaeae,0x006a6a6a006a6a6a,
    0x00d5d5d500d5d5d5,0x0018181800181818,0x005d5d5d005d5d5d,0x0082828200828282,
    0x0046464600464646,0x00dfdfdf00dfdfdf,0x00d6d6d600d6d6d6,0x0027272700272727,
    0x008a8a8a008a8a8a,0x0032323200323232,0x004b4b4b004b4b4b,0x0042424200424242,
    0x00dbdbdb00dbdbdb,0x001c1c1c001c1c1c,0x009e9e9e009e9e9e,0x009c9c9c009c9c9c,
    0x003a3a3a003a3a3a,0x00cacaca00cacaca,0x0025252500252525,0x007b7b7b007b7b7b,
    0x000d0d0d000d0d0d,0x0071717100717171,0x005f5f5f005f5f5f,0x001f1f1f001f1f1f,
    0x00f8f8f800f8f8f8,0x00d7d7d700d7d7d7,0x003e3e3e003e3e3e,0x009d9d9d009d9d9d,
    0x007c7c7c007c7c7c,0x0060606000606060,0x00b9b9b900b9b9b9,0x00bebebe00bebebe,
    0x00bcbcbc00bcbcbc,0x008b8b8b008b8b8b,0x0016161600161616,0x0034343400343434,
    0x004d4d4d004d4d4d,0x00c3c3c300c3c3c3,0x0072727200727272,0x0095959500959595,
    0x00ababab00ababab,0x008e8e8e008e8e8e,0x00bababa00bababa,0x007a7a7a007a7a7a,
    0x00b3b3b300b3b3b3,0x0002020200020202,0x00b4b4b400b4b4b4,0x00adadad00adadad,
    0x00a2a2a200a2a2a2,0x00acacac00acacac,0x00d8d8d800d8d8d8,0x009a9a9a009a9a9a,
    0x0017171700171717,0x001a1a1a001a1a1a,0x0035353500353535,0x00cccccc00cccccc,
    0x00f7f7f700f7f7f7,0x0099999900999999,0x0061616100616161,0x005a5a5a005a5a5a,
    0x00e8e8e800e8e8e8,0x0024242400242424,0x0056565600565656,0x0040404000404040,
    0x00e1e1e100e1e1e1,0x0063636300636363,0x0009090900090909,0x0033333300333333,
    0x00bfbfbf00bfbfbf,0x0098989800989898,0x0097979700979797,0x0085858500858585,
    0x0068686800686868,0x00fcfcfc00fcfcfc,0x00ececec00ececec,0x000a0a0a000a0a0a,
    0x00dadada00dadada,0x006f6f6f006f6f6f,0x0053535300535353,0x0062626200626262,
    0x00a3a3a300a3a3a3,0x002e2e2e002e2e2e,0x0008080800080808,0x00afafaf00afafaf,
    0x0028282800282828,0x00b0b0b000b0b0b0,0x0074747400747474,0x00c2c2c200c2c2c2,
    0x00bdbdbd00bdbdbd,0x0036363600363636,0x0022222200222222,0x0038383800383838,
    0x0064646400646464,0x001e1e1e001e1e1e,0x0039393900393939,0x002c2c2c002c2c2c,
    0x00a6a6a600a6a6a6,0x0030303000303030,0x00e5e5e500e5e5e5,0x0044444400444444,
    0x00fdfdfd00fdfdfd,0x0088888800888888,0x009f9f9f009f9f9f,0x0065656500656565,
    0x0087878700878787,0x006b6b6b006b6b6b,0x00f4f4f400f4f4f4,0x0023232300232323,
    0x0048484800484848,0x0010101000101010,0x00d1d1d100d1d1d1,0x0051515100515151,
    0x00c0c0c000c0c0c0,0x00f9f9f900f9f9f9,0x00d2d2d200d2d2d2,0x00a0a0a000a0a0a0,
    0x0055555500555555,0x00a1a1a100a1a1a1,0x0041414100414141,0x00fafafa00fafafa,
    0x0043434300434343,0x0013131300131313,0x00c4c4c400c4c4c4,0x002f2f2f002f2f2f,
    0x00a8a8a800a8a8a8,0x00b6b6b600b6b6b6,0x003c3c3c003c3c3c,0x002b2b2b002b2b2b,
    0x00c1c1c100c1c1c1,0x00ffffff00ffffff,0x00c8c8c800c8c8c8,0x00a5a5a500a5a5a5,
    0x0020202000202020,0x0089898900898989,0x0000000000000000,0x0090909000909090,
    0x0047474700474747,0x00efefef00efefef,0x00eaeaea00eaeaea,0x00b7b7b700b7b7b7,
    0x0015151500151515,0x0006060600060606,0x00cdcdcd00cdcdcd,0x00b5b5b500b5b5b5,
    0x0012121200121212,0x007e7e7e007e7e7e,0x00bbbbbb00bbbbbb,0x0029292900292929,
    0x000f0f0f000f0f0f,0x00b8b8b800b8b8b8,0x0007070700070707,0x0004040400040404,
    0x009b9b9b009b9b9b,0x0094949400949494,0x0021212100212121,0x0066666600666666,
    0x00e6e6e600e6e6e6,0x00cecece00cecece,0x00ededed00ededed,0x00e7e7e700e7e7e7,
    0x003b3b3b003b3b3b,0x00fefefe00fefefe,0x007f7f7f007f7f7f,0x00c5c5c500c5c5c5,
    0x00a4a4a400a4a4a4,0x0037373700373737,0x00b1b1b100b1b1b1,0x004c4c4c004c4c4c,
    0x0091919100919191,0x006e6e6e006e6e6e,0x008d8d8d008d8d8d,0x0076767600767676,
    0x0003030300030303,0x002d2d2d002d2d2d,0x00dedede00dedede,0x0096969600969696,
    0x0026262600262626,0x007d7d7d007d7d7d,0x00c6c6c600c6c6c6,0x005c5c5c005c5c5c,
    0x00d3d3d300d3d3d3,0x00f2f2f200f2f2f2,0x004f4f4f004f4f4f,0x0019191900191919,
    0x003f3f3f003f3f3f,0x00dcdcdc00dcdcdc,0x0079797900797979,0x001d1d1d001d1d1d,
    0x0052525200525252,0x00ebebeb00ebebeb,0x00f3f3f300f3f3f3,0x006d6d6d006d6d6d,
    0x005e5e5e005e5e5e,0x00fbfbfb00fbfbfb,0x0069696900696969,0x00b2b2b200b2b2b2,
    0x00f0f0f000f0f0f0,0x0031313100313131,0x000c0c0c000c0c0c,0x00d4d4d400d4d4d4,
    0x00cfcfcf00cfcfcf,0x008c8c8c008c8c8c,0x00e2e2e200e2e2e2,0x0075757500757575,
    0x00a9a9a900a9a9a9,0x004a4a4a004a4a4a,0x0057575700575757,0x0084848400848484,
    0x0011111100111111,0x0045454500454545,0x001b1b1b001b1b1b,0x00f5f5f500f5f5f5,
    0x00e4e4e400e4e4e4,0x000e0e0e000e0e0e,0x0073737300737373,0x00aaaaaa00aaaaaa,
    0x00f1f1f100f1f1f1,0x00dddddd00dddddd,0x0059595900595959,0x0014141400141414,
    0x006c6c6c006c6c6c,0x0092929200929292,0x0054545400545454,0x00d0d0d000d0d0d0,
    0x0078787800787878,0x0070707000707070,0x00e3e3e300e3e3e3,0x0049494900494949,
    0x0080808000808080,0x0050505000505050,0x00a7a7a700a7a7a7,0x00f6f6f600f6f6f6,
    0x0077777700777777,0x0093939300939393,0x0086868600868686,0x0083838300838383,
    0x002a2a2a002a2a2a,0x00c7c7c700c7c7c7,0x005b5b5b005b5b5b,0x00e9e9e900e9e9e9,
    0x00eeeeee00eeeeee,0x008f8f8f008f8f8f,0x0001010100010101,0x003d3d3d003d3d3d
]

/-- Table `camellia_sp30333033` (256 entries of type u64). -/
def camellia_sp30333033 : List Nat := [
    0x3800383838003838,0x4100414141004141,0x1600161616001616,0x7600767676007676,
    0xd900d9d9d900d9d9,0x9300939393009393,0x6000606060006060,0xf200f2f2f200f2f2,
    0x7200727272007272,0xc200c2c2c200c2c2,0xab00ababab00abab,0x9a009a9a9a009a9a,
    0x7500757575007575,0x0600060606000606,0x5700575757005757,0xa000a0a0a000a0a0,
    0x9100919191009191,0xf700f7f7f700f7f7,0xb500b5b5b500b5b5,0xc900c9c9c900c9c9,
    0xa200a2a2a200a2a2,0x8c008c8c8c008c8c,0xd200d2d2d200d2d2,0x9000909090009090,
    0xf600f6f6f600f6f6,0x0700070707000707,0xa700a7a7a700a7a7,0x2700272727002727,
    0x8e008e8e8e008e8e,0xb200b2b2b200b2b2,0x4900494949004949,0xde00dedede00dede,
    0x4300434343004343,0x5c005c5c5c005c5c,0xd700d7d7d700d7d7,0xc700c7c7c700c7c7,
    0x3e003e3e3e003e3e,0xf500f5f5f500f5f5,0x8f008f8f8f008f8f,0x6700676767006767,
    0x1f001f1f1f001f1f,0x1800181818001818,0x6e006e6e6e006e6e,0xaf00afafaf00afaf,
    0x2f002f2f2f002f2f,0xe200e2e2e200e2e2,0x8500858585008585,0x0d000d0d0d000d0d,
    0x5300535353005353,0xf000f0f0f000f0f0,0x9c009c9c9c009c9c,0x6500656565006565,
    0xea00eaeaea00eaea,0xa300a3a3a300a3a3,0xae00aeaeae00aeae,0x9e009e9e9e009e9e,
    0xec00ececec00ecec,0x8000808080008080,0x2d002d2d2d002d2d,0x6b006b6b6b006b6b,
    0xa800a8a8a800a8a8,0x2b002b2b2b002b2b,0x3600363636003636,0xa600a6a6a600a6a6,
    0xc500c5c5c500c5c5,0x8600868686008686,0x4d004d4d4d004d4d,0x3300333333003333,
    0xfd00fdfdfd00fdfd,0x6600666666006666,0x5800585858005858,0x9600969696009696,
    0x3a003a3a3a003a3a,0x0900090909000909,0x9500959595009595,0x1000101010001010,
    0x7800787878007878,0xd800d8d8d800d8d8,0x4200424242004242,0xcc00cccccc00cccc,
    0xef00efefef00efef,0x2600262626002626,0xe500e5e5e500e5e5,0x6100616161006161,
    0x1a001a1a1a001a1a,0x3f003f3f3f003f3f,0x3b003b3b3b003b3b,0x8200828282008282,
    0xb600b6b6b600b6b6,0xdb00dbdbdb00dbdb,0xd400d4d4d400d4d4,0x9800989898009898,
    0xe800e8e8e800e8e8,0x8b008b8b8b008b8b,0x0200020202000202,0xeb00ebebeb00ebeb,
    0x0a000a0a0a000a0a,0x2c002c2c2c002c2c,0x1d001d1d1d001d1d,0xb000b0b0b000b0b0,
    0x6f006f6f6f006f6f,0x8d008d8d8d008d8d,0x8800888888008888,0x0e000e0e0e000e0e,
    0x1900191919001919,0x8700878787008787,0x4e004e4e4e004e4e,0x0b000b0b0b000b0b,
    0xa900a9a9a900a9a9,0x0c000c0c0c000c0c,0x7900797979007979,0x1100111111001111,
    0x7f007f7f7f007f7f,0x2200222222002222,0xe700e7e7e700e7e7,0x5900595959005959,
    0xe100e1e1e100e1e1,0xda00dadada00dada,0x3d003d3d3d003d3d,0xc800c8c8c800c8c8,
    0x1200121212001212,0x0400040404000404,0x7400747474007474,0x5400545454005454,
    0x3000303030003030,0x7e007e7e7e007e7e,0xb400b4b4b400b4b4,0x2800282828002828,
    0x5500555555005555,0x6800686868006868,0x5000505050005050,0xbe00bebebe00bebe,
    0xd000d0d0d000d0d0,0xc400c4c4c400c4c4,0x3100313131003131,0xcb00cbcbcb00cbcb,
    0x2a002a2a2a002a2a,0xad00adadad00adad,0x0f000f0f0f000f0f,0xca00cacaca00caca,
    0x7000707070007070,0xff00ffffff00ffff,0x3200323232003232,0x6900696969006969,
    0x0800080808000808,0x6200626262006262,0x0000000000000000,0x2400242424002424,
    0xd100d1d1d100d1d1,0xfb00fbfbfb00fbfb,0xba00bababa00baba,0xed00ededed00eded,
    0x4500454545004545,0x8100818181008181,0x7300737373007373,0x6d006d6d6d006d6d,
    0x8400848484008484,0x9f009f9f9f009f9f,0xee00eeeeee00eeee,0x4a004a4a4a004a4a,
    0xc300c3c3c300c3c3,0x2e002e2e2e002e2e,0xc100c1c1c100c1c1,0x0100010101000101,
    0xe600e6e6e600e6e6,0x2500252525002525,0x4800484848004848,0x9900999999009999,
    0xb900b9b9b900b9b9,0xb300b3b3b300b3b3,0x7b007b7b7b007b7b,0xf900f9f9f900f9f9,
    0xce00cecece00cece,0xbf00bfbfbf00bfbf,0xdf00dfdfdf00dfdf,0x7100717171007171,
    0x2900292929002929,0xcd00cdcdcd00cdcd,0x6c006c6c6c006c6c,0x1300131313001313,
    0x6400646464006464,0x9b009b9b9b009b9b,0x6300636363006363,0x9d009d9d9d009d9d,
    0xc000c0c0c000c0c0,0x4b004b4b4b004b4b,0xb700b7b7b700b7b7,0xa500a5a5a500a5a5,
    0x8900898989008989,0x5f005f5f5f005f5f,0xb100b1b1b100b1b1,0x1700171717001717,
    0xf400f4f4f400f4f4,0xbc00bcbcbc00bcbc,0xd300d3d3d300d3d3,0x4600464646004646,
    0xcf00cfcfcf00cfcf,0x3700373737003737,0x5e005e5e5e005e5e,0x4700474747004747,
    0x9400949494009494,0xfa00fafafa00fafa,0xfc00fcfcfc00fcfc,0x5b005b5b5b005b5b,
    0x9700979797009797,0xfe00fefefe00fefe,0x5a005a5a5a005a5a,0xac00acacac00acac,
    0x3c003c3c3c003c3c,0x4c004c4c4c004c4c,0x0300030303000303,0x3500353535003535,
    0xf300f3f3f300f3f3,0x2300232323002323,0xb800b8b8b800b8b8,0x5d005d5d5d005d5d,
    0x6a006a6a6a006a6a,0x9200929292009292,0xd500d5d5d500d5d5,0x2100212121002121,
    0x4400444444004444,0x5100515151005151,0xc600c6c6c600c6c6,0x7d007d7d7d007d7d,
    0x3900393939003939,0x8300838383008383,0xdc00dcdcdc00dcdc,0xaa00aaaaaa00aaaa,
    0x7c007c7c7c007c7c,0x7700777777007777,0x5600565656005656,0x0500050505000505,
    0x1b001b1b1b001b1b,0xa400a4a4a400a4a4,0x1500151515001515,0x3400343434003434,
    0x1e001e1e1e001e1e,0x1c001c1c1c001c1c,0xf800f8f8f800f8f8,0x5200525252005252,
    0x2000202020002020,0x1400141414001414,0xe900e9e9e900e9e9,0xbd00bdbdbd00bdbd,
    0xdd00dddddd00dddd,0xe400e4e4e400e4e4,0xa100a1a1a100a1a1,0xe000e0e0e000e0e0,
    0x8a008a8a8a008a8a,0xf100f1f1f100f1f1,0xd600d6d6d600d6d6,0x7a007a7a7a007a7a,
    0xbb00bbbbbb00bbbb,0xe300e3e3e300e3e3,0x4000404040004040,0x4f004f4f4f004f4f
]

/-- Table `camellia_sp44044404` (256 entries of type u64). -/
def camellia_sp44044404 : List Nat := [
    0x7070007070700070,0x2c2c002c2c2c002c,0xb3b300b3b3b300b3,0xc0c000c0c0c000c0,
    0xe4e400e4e4e400e4,0x5757005757570057,0xeaea00eaeaea00ea,0xaeae00aeaeae00ae,
    0x2323002323230023,0x6b6b006b6b6b006b,0x4545004545450045,0xa5a500a5a5a500a5,
    0xeded00ededed00ed,0x4f4f004f4f4f004f,0x1d1d001d1d1d001d,0x9292009292920092,
    0x8686008686860086,0xafaf00afafaf00af,0x7c7c007c7c7c007c,0x1f1f001f1f1f001f,
    0x3e3e003e3e3e003e,0xdcdc00dcdcdc00dc,0x5e5e005e5e5e005e,0x0b0b000b0b0b000b,
    0xa6a600a6a6a600a6,0x3939003939390039,0xd5d500d5d5d500d5,0x5d5d005d5d5d005d,
    0xd9d900d9d9d900d9,0x5a5a005a5a5a005a,0x5151005151510051,0x6c6c006c6c6c006c,
    0x8b8b008b8b8b008b,0x9a9a009a9a9a009a,0xfbfb00fbfbfb00fb,0xb0b000b0b0b000b0,
    0x7474007474740074,0x2b2b002b2b2b002b,0xf0f000f0f0f000f0,0x8484008484840084,
    0xdfdf00dfdfdf00df,0xcbcb00cbcbcb00cb,0x3434003434340034,0x7676007676760076,
    0x6d6d006d6d6d006d,0xa9a900a9a9a900a9,0xd1d100d1d1d100d1,0x0404000404040004,
    0x1414001414140014,0x3a3a003a3a3a003a,0xdede00dedede00de,0x1111001111110011,
    0x3232003232320032,0x9c9c009c9c9c009c,0x5353005353530053,0xf2f200f2f2f200f2,
    0xfefe00fefefe00fe,0xcfcf00cfcfcf00cf,0xc3c300c3c3c300c3,0x7a7a007a7a7a007a,
    0x2424002424240024,0xe8e800e8e8e800e8,0x6060006060600060,0x6969006969690069,
    0xaaaa00aaaaaa00aa,0xa0a000a0a0a000a0,0xa1a100a1a1a100a1,0x6262006262620062,
    0x5454005454540054,0x1e1e001e1e1e001e,0xe0e000e0e0e000e0,0x6464006464640064,
    0x1010001010100010,0x0000000000000000,0xa3a300a3a3a300a3,0x7575007575750075,
    0x8a8a008a8a8a008a,0xe6e600e6e6e600e6,0x0909000909090009,0xdddd00dddddd00dd,
    0x8787008787870087,0x8383008383830083,0xcdcd00cdcdcd00cd,0x9090009090900090,
    0x7373007373730073,0xf6f600f6f6f600f6,0x9d9d009d9d9d009d,0xbfbf00bfbfbf00bf,
    0x5252005252520052,0xd8d800d8d8d800d8,0xc8c800c8c8c800c8,0xc6c600c6c6c600c6,
    0x8181008181810081,0x6f6f006f6f6f006f,0x1313001313130013,0x6363006363630063,
    0xe9e900e9e9e900e9,0xa7a700a7a7a700a7,0x9f9f009f9f9f009f,0xbcbc00bcbcbc00bc,
    0x2929002929290029,0xf9f900f9f9f900f9,0x2f2f002f2f2f002f,0xb4b400b4b4b400b4,
    0x7878007878780078,0x0606000606060006,0xe7e700e7e7e700e7,0x7171007171710071,
    0xd4d400d4d4d400d4,0xabab00ababab00ab,0x8888008888880088,0x8d8d008d8d8d008d,
    0x7272007272720072,0xb9b900b9b9b900b9,0xf8f800f8f8f800f8,0xacac00acacac00ac,
    0x3636003636360036,0x2a2a002a2a2a002a,0x3c3c003c3c3c003c,0xf1f100f1f1f100f1,
    0x4040004040400040,0xd3d300d3d3d300d3,0xbbbb00bbbbbb00bb,0x4343004343430043,
    0x1515001515150015,0xadad00adadad00ad,0x7777007777770077,0x8080008080800080,
    0x8282008282820082,0xecec00ececec00ec,0x2727002727270027,0xe5e500e5e5e500e5,
    0x8585008585850085,0x3535003535350035,0x0c0c000c0c0c000c,0x4141004141410041,
    0xefef00efefef00ef,0x9393009393930093,0x1919001919190019,0x2121002121210021,
    0x0e0e000e0e0e000e,0x4e4e004e4e4e004e,0x6565006565650065,0xbdbd00bdbdbd00bd,
    0xb8b800b8b8b800b8,0x8f8f008f8f8f008f,0xebeb00ebebeb00eb,0xcece00cecece00ce,
    0x3030003030300030,0x5f5f005f5f5f005f,0xc5c500c5c5c500c5,0x1a1a001a1a1a001a,
    0xe1e100e1e1e100e1,0xcaca00cacaca00ca,0x4747004747470047,0x3d3d003d3d3d003d,
    0x0101000101010001,0xd6d600d6d6d600d6,0x5656005656560056,0x4d4d004d4d4d004d,
    0x0d0d000d0d0d000d,0x6666006666660066,0xcccc00cccccc00cc,0x2d2d002d2d2d002d,
    0x1212001212120012,0x2020002020200020,0xb1b100b1b1b100b1,0x9999009999990099,
    0x4c4c004c4c4c004c,0xc2c200c2c2c200c2,0x7e7e007e7e7e007e,0x0505000505050005,
    0xb7b700b7b7b700b7,0x3131003131310031,0x1717001717170017,0xd7d700d7d7d700d7,
    0x5858005858580058,0x6161006161610061,0x1b1b001b1b1b001b,0x1c1c001c1c1c001c,
    0x0f0f000f0f0f000f,0x1616001616160016,0x1818001818180018,0x2222002222220022,
    0x4444004444440044,0xb2b200b2b2b200b2,0xb5b500b5b5b500b5,0x9191009191910091,
    0x0808000808080008,0xa8a800a8a8a800a8,0xfcfc00fcfcfc00fc,0x5050005050500050,
    0xd0d000d0d0d000d0,0x7d7d007d7d7d007d,0x8989008989890089,0x9797009797970097,
    0x5b5b005b5b5b005b,0x9595009595950095,0xffff00ffffff00ff,0xd2d200d2d2d200d2,
    0xc4c400c4c4c400c4,0x4848004848480048,0xf7f700f7f7f700f7,0xdbdb00dbdbdb00db,
    0x0303000303030003,0xdada00dadada00da,0x3f3f003f3f3f003f,0x9494009494940094,
    0x5c5c005c5c5c005c,0x0202000202020002,0x4a4a004a4a4a004a,0x3333003333330033,
    0x6767006767670067,0xf3f300f3f3f300f3,0x7f7f007f7f7f007f,0xe2e200e2e2e200e2,
    0x9b9b009b9b9b009b,0x2626002626260026,0x3737003737370037,0x3b3b003b3b3b003b,
    0x9696009696960096,0x4b4b004b4b4b004b,0xbebe00bebebe00be,0x2e2e002e2e2e002e,
    0x7979007979790079,0x8c8c008c8c8c008c,0x6e6e006e6e6e006e,0x8e8e008e8e8e008e,
    0xf5f500f5f5f500f5,0xb6b600b6b6b600b6,0xfdfd00fdfdfd00fd,0x5959005959590059,
    0x9898009898980098,0x6a6a006a6a6a006a,0x4646004646460046,0xbaba00bababa00ba,
    0x2525002525250025,0x4242004242420042,0xa2a200a2a2a200a2,0xfafa00fafafa00fa,
    0x0707000707070007,0x5555005555550055,0xeeee00eeeeee00ee,0x0a0a000a0a0a000a,
    0x4949004949490049,0x6868006868680068,0x3838003838380038,0xa4a400a4a4a400a4,
    0x2828002828280028,0x7b7b007b7b7b007b,0xc9c900c9c9c900c9,0xc1c100c1c1c100c1,
    0xe3e300e3e3e300e3,0xf4f400f4f4f400f4,0xc7c700c7c7c700c7,0x9e9e009e9e9e009e
]

/-- Table `camellia_sp11101110` (256 entries of type u64). -/
def camellia_sp11101110 : List Nat := [
    0x7070700070707000,0x8282820082828200,0x2c2c2c002c2c2c00,0xececec00ececec00,
    0xb3b3b300b3b3b300,0x2727270027272700,0xc0c0c000c0c0c000,0xe5e5e500e5e5e500,
    0xe4e4e400e4e4e400,0x8585850085858500,0x5757570057575700,0x3535350035353500,
    0xeaeaea00eaeaea00,0x0c0c0c000c0c0c00,0xaeaeae00aeaeae00,0x4141410041414100,
    0x2323230023232300,0xefefef00efefef00,0x6b6b6b006b6b6b00,0x9393930093939300,
    0x4545450045454500,0x1919190019191900,0xa5a5a500a5a5a500,0x2121210021212100,
    0xededed00ededed00,0x0e0e0e000e0e0e00,0x4f4f4f004f4f4f00,0x4e4e4e004e4e4e00,
    0x1d1d1d001d1d1d00,0x6565650065656500,0x9292920092929200,0xbdbdbd00bdbdbd00,
    0x8686860086868600,0xb8b8b800b8b8b800,0xafafaf00afafaf00,0x8f8f8f008f8f8f00,
    0x7c7c7c007c7c7c00,0xebebeb00ebebeb00,0x1f1f1f001f1f1f00,0xcecece00cecece00,
    0x3e3e3e003e3e3e00,0x3030300030303000,0xdcdcdc00dcdcdc00,0x5f5f5f005f5f5f00,
    0x5e5e5e005e5e5e00,0xc5c5c500c5c5c500,0x0b0b0b000b0b0b00,0x1a1a1a001a1a1a00,
    0xa6a6a600a6a6a600,0xe1e1e100e1e1e100,0x3939390039393900,0xcacaca00cacaca00,
    0xd5d5d500d5d5d500,0x4747470047474700,0x5d5d5d005d5d5d00,0x3d3d3d003d3d3d00,
    0xd9d9d900d9d9d900,0x0101010001010100,0x5a5a5a005a5a5a00,0xd6d6d600d6d6d600,
    0x5151510051515100,0x5656560056565600,0x6c6c6c006c6c6c00,0x4d4d4d004d4d4d00,
    0x8b8b8b008b8b8b00,0x0d0d0d000d0d0d00,0x9a9a9a009a9a9a00,0x6666660066666600,
    0xfbfbfb00fbfbfb00,0xcccccc00cccccc00,0xb0b0b000b0b0b000,0x2d2d2d002d2d2d00,
    0x7474740074747400,0x1212120012121200,0x2b2b2b002b2b2b00,0x2020200020202000,
    0xf0f0f000f0f0f000,0xb1b1b100b1b1b100,0x8484840084848400,0x9999990099999900,
    0xdfdfdf00dfdfdf00,0x4c4c4c004c4c4c00,0xcbcbcb00cbcbcb00,0xc2c2c200c2c2c200,
    0x3434340034343400,0x7e7e7e007e7e7e00,0x7676760076767600,0x0505050005050500,
    0x6d6d6d006d6d6d00,0xb7b7b700b7b7b700,0xa9a9a900a9a9a900,0x3131310031313100,
    0xd1d1d100d1d1d100,0x1717170017171700,0x0404040004040400,0xd7d7d700d7d7d700,
    0x1414140014141400,0x5858580058585800,0x3a3a3a003a3a3a00,0x6161610061616100,
    0xdedede00dedede00,0x1b1b1b001b1b1b00,0x1111110011111100,0x1c1c1c001c1c1c00,
    0x3232320032323200,0x0f0f0f000f0f0f00,0x9c9c9c009c9c9c00,0x1616160016161600,
    0x5353530053535300,0x1818180018181800,0xf2f2f200f2f2f200,0x2222220022222200,
    0xfefefe00fefefe00,0x4444440044444400,0xcfcfcf00cfcfcf00,0xb2b2b200b2b2b200,
    0xc3c3c300c3c3c300,0xb5b5b500b5b5b500,0x7a7a7a007a7a7a00,0x9191910091919100,
    0x2424240024242400,0x0808080008080800,0xe8e8e800e8e8e800,0xa8a8a800a8a8a800,
    0x6060600060606000,0xfcfcfc00fcfcfc00,0x6969690069696900,0x5050500050505000,
    0xaaaaaa00aaaaaa00,0xd0d0d000d0d0d000,0xa0a0a000a0a0a000,0x7d7d7d007d7d7d00,
    0xa1a1a100a1a1a100,0x8989890089898900,0x6262620062626200,0x9797970097979700,
    0x5454540054545400,0x5b5b5b005b5b5b00,0x1e1e1e001e1e1e00,0x9595950095959500,
    0xe0e0e000e0e0e000,0xffffff00ffffff00,0x6464640064646400,0xd2d2d200d2d2d200,
    0x1010100010101000,0xc4c4c400c4c4c400,0x0000000000000000,0x4848480048484800,
    0xa3a3a300a3a3a300,0xf7f7f700f7f7f700,0x7575750075757500,0xdbdbdb00dbdbdb00,
    0x8a8a8a008a8a8a00,0x0303030003030300,0xe6e6e600e6e6e600,0xdadada00dadada00,
    0x0909090009090900,0x3f3f3f003f3f3f00,0xdddddd00dddddd00,0x9494940094949400,
    0x8787870087878700,0x5c5c5c005c5c5c00,0x8383830083838300,0x0202020002020200,
    0xcdcdcd00cdcdcd00,0x4a4a4a004a4a4a00,0x9090900090909000,0x3333330033333300,
    0x7373730073737300,0x6767670067676700,0xf6f6f600f6f6f600,0xf3f3f300f3f3f300,
    0x9d9d9d009d9d9d00,0x7f7f7f007f7f7f00,0xbfbfbf00bfbfbf00,0xe2e2e200e2e2e200,
    0x5252520052525200,0x9b9b9b009b9b9b00,0xd8d8d800d8d8d800,0x2626260026262600,
    0xc8c8c800c8c8c800,0x3737370037373700,0xc6c6c600c6c6c600,0x3b3b3b003b3b3b00,
    0x8181810081818100,0x9696960096969600,0x6f6f6f006f6f6f00,0x4b4b4b004b4b4b00,
    0x1313130013131300,0xbebebe00bebebe00,0x6363630063636300,0x2e2e2e002e2e2e00,
    0xe9e9e900e9e9e900,0x7979790079797900,0xa7a7a700a7a7a700,0x8c8c8c008c8c8c00,
    0x9f9f9f009f9f9f00,0x6e6e6e006e6e6e00,0xbcbcbc00bcbcbc00,0x8e8e8e008e8e8e00,
    0x2929290029292900,0xf5f5f500f5f5f500,0xf9f9f900f9f9f900,0xb6b6b600b6b6b600,
    0x2f2f2f002f2f2f00,0xfdfdfd00fdfdfd00,0xb4b4b400b4b4b400,0x5959590059595900,
    0x7878780078787800,0x9898980098989800,0x0606060006060600,0x6a6a6a006a6a6a00,
    0xe7e7e700e7e7e700,0x4646460046464600,0x7171710071717100,0xbababa00bababa00,
    0xd4d4d400d4d4d400,0x2525250025252500,0xababab00ababab00,0x4242420042424200,
    0x8888880088888800,0xa2a2a200a2a2a200,0x8d8d8d008d8d8d00,0xfafafa00fafafa00,
    0x7272720072727200,0x0707070007070700,0xb9b9b900b9b9b900,0x5555550055555500,
    0xf8f8f800f8f8f800,0xeeeeee00eeeeee00,0xacacac00acacac00,0x0a0a0a000a0a0a00,
    0x3636360036363600,0x4949490049494900,0x2a2a2a002a2a2a00,0x6868680068686800,
    0x3c3c3c003c3c3c00,0x3838380038383800,0xf1f1f100f1f1f100,0xa4a4a400a4a4a400,
    0x4040400040404000,0x2828280028282800,0xd3d3d300d3d3d300,0x7b7b7b007b7b7b00,
    0xbbbbbb00bbbbbb00,0xc9c9c900c9c9c900,0x4343430043434300,0xc1c1c100c1c1c100,
    0x1515150015151500,0xe3e3e300e3e3e300,0xadadad00adadad00,0xf4f4f400f4f4f400,
    0x7777770077777700,0xc7c7c700c7c7c700,0x8080800080808000,0x9e9e9e009e9e9e00
]
/-! ## Reference notions for the claims about tables, mirroring and the round function -/

/-- The byte that an entry `w` of a table with lane mask `mask` holds in its active
lanes.  The mask has the byte `0x01` in every active lane, so an entry is this byte
times the mask. -/
def activeByte (mask w : Nat) : Nat := w / mask

/-- Linear check that the numbers of a list are pairwise distinct and differ from
those recorded in `acc`, which has bit `x` set for every number `x` seen so far. -/
def distinctFrom : List Nat → Nat → Bool
  | [], _ => true
  | x :: xs, acc => !acc.testBit x && distinctFrom xs (acc ||| 2 ^ x)

/-- A substitution table `T` with lane mask `mask`: 256 pairwise distinct entries, each
holding one byte in every active lane and zero in the others, and that byte, as a
function of the index, is a permutation of `0..255`. -/
def LaneTable (T : List Nat) (mask : Nat) : Prop :=
  T.length = 256 ∧ T.Nodup ∧ (∀ w ∈ T, w = activeByte mask w * mask)
    ∧ (T.map (activeByte mask)).Perm (List.range 256)

/-- The S-box `s1` read off the table: the top byte of `camellia_sp1110[x]`. -/
def s1 (x : Nat) : Nat := CAMELLIA_SP1110 x >>> 24

/-- Right circular rotation of an 8-bit operand by `n` bits. -/
def rotr8 (x n : Nat) : Nat := ((x >>> n) ||| (x <<< (8 - n))) &&& 0xff

/-- Reference for the mirror of a 128-bit-class table: pair 0 is pair 24 of `S`, pair 24
is pair 0 of `S`, pair `i` is pair `25 - i` of `S` for `2 ≤ i ≤ 23`; every other word
is the word of `S`. -/
def reversedPairs128 (S : Words) : Words :=
  { word := fun j =>
      if j / 2 = 0 then S.word (24 * 2 + j % 2)
      else if j / 2 = 24 then S.word (0 * 2 + j % 2)
      else if 2 ≤ j / 2 ∧ j / 2 ≤ 23 then S.word ((25 - j / 2) * 2 + j % 2)
      else S.word j }

/-- Reference for the mirror of a 256-bit-class table: pair 0 is pair 32 of `S`, pair 32
is pair 0 of `S`, pair `i` is pair `33 - i` of `S` for `2 ≤ i ≤ 31`; every other word
is the word of `S`. -/
def reversedPairs256 (S : Words) : Words :=
  { word := fun j =>
      if j / 2 = 0 then S.word (32 * 2 + j % 2)
      else if j / 2 = 32 then S.word (0 * 2 + j % 2)
      else if 2 ≤ j / 2 ∧ j / 2 ≤ 31 then S.word ((33 - j / 2) * 2 + j % 2)
      else S.word j }

/-- The intermediate `A` of `CAMELLIA_F`: the value of `yl` before `yl ^= yr`, the XOR
of the four table words looked up with the bytes of `ir = xr ^ kr`. -/
def CAMELLIA_F_A (xr kr : Nat) : Nat :=
  let ir := xr ^^^ kr
  let t1 := ir >>> 16
  CAMELLIA_SP1110 (ir &&& 0xff)
    ^^^ CAMELLIA_SP0222 ((t1 >>> 8) &&& 0xff)
    ^^^ CAMELLIA_SP3033 (t1 &&& 0xff)
    ^^^ CAMELLIA_SP4404 ((ir >>> 8) &&& 0xff)

/-- The intermediate `B` of `CAMELLIA_F`: the value of `yr` before `yl ^= yr`, the XOR
of the four table words looked up with the bytes of `il = xl ^ kl`. -/
def CAMELLIA_F_B (xl kl : Nat) : Nat :=
  let il := xl ^^^ kl
  let t0 := il >>> 16
  CAMELLIA_SP1110 ((t0 >>> 8) &&& 0xff)
    ^^^ CAMELLIA_SP0222 (t0 &&& 0xff)
    ^^^ CAMELLIA_SP3033 ((il >>> 8) &&& 0xff)
    ^^^ CAMELLIA_SP4404 (il &&& 0xff)

/-! ## The program with every array access and shift checked

Each function of the source that indexes an array or shifts by a variable amount has a
second form, named `..._chk`, that returns `none` as soon as an index is not below the
declared length of its array (`subL[26]`, `subR[26]` in `camellia_setup128`, `subL[34]`,
`subR[34]` in `camellia_setup256`, the 256-entry tables, the caller's buffers) or a shift
of a `u32` in `CAMELLIA_ROLDQ` / `CAMELLIA_ROLDQo32` is not strictly between 0 and 32,
and otherwise returns what the unchecked form computes.  The key table is an array of
`len` words.  The four-word arrays `io[4]` and `tmp[4]` are held in a `Quad`, whose four
fields are the constant indices `0 .. 3` that the source uses on them. -/

/-- Sequencing of checked steps: `f` runs on the result of the step `x`; a failed check
ends the run with `none`. -/
@[noinline] def andThen {α β : Type} (x : Option α) (f : α → Option β) : Option β :=
  match x with
  | none => none
  | some a => f a

/-- `subl(x)` read in a function whose scratch arrays have `n` elements. -/
def subl_chk (n : Nat) (s : Scratch) (x : Nat) : Option Nat :=
  if x < n then some (subl s x) else none

/-- `subr(x)` read in a function whose scratch arrays have `n` elements. -/
def subr_chk (n : Nat) (s : Scratch) (x : Nat) : Option Nat :=
  if x < n then some (subr s x) else none

/-- `subl(x) = l; subr(x) = r;` with scratch arrays of `n` elements. -/
def setLR_chk (n : Nat) (s : Scratch) (x l r : Nat) : Option Scratch :=
  if x < n then some (setLR s x l r) else none

/-- `subl(x) ^= subl(1); subr(x) ^= subr(1);`: elements `x` and `1` are accessed. -/
def kw2_xor_chk (n : Nat) (s : Scratch) (x : Nat) : Option Scratch :=
  if x < n ∧ 1 < n then some (kw2_xor s x) else none

/-- `subl(1) ^= subr(1) & ~subr(x); dw = subl(1) & subl(x), subr(1) ^= CAMELLIA_RL1(dw);`:
elements `1` and `x` are accessed. -/
def kw2_step_chk (n : Nat) (s : Scratch) (x : Nat) : Option Scratch :=
  if 1 < n ∧ x < n then some (kw2_step s x) else none

/-- `subl(x) ^= kw4l; subr(x) ^= kw4r;`: element `x` is accessed. -/
def kw4_xor_chk (n : Nat) (s : Scratch) (kw4 : Nat × Nat) (x : Nat) : Option Scratch :=
  if x < n then some (kw4_xor s kw4 x) else none

/-- `kw4l ^= kw4r & ~subr(x); dw = kw4l & subl(x), kw4r ^= CAMELLIA_RL1(dw);`: element
`x` is accessed. -/
def kw4_step_chk (n : Nat) (s : Scratch) (kw4 : Nat × Nat) (x : Nat) : Option (Nat × Nat) :=
  if x < n then some (kw4_step s kw4 x) else none

/-- `tl = subl(a) ^ (subr(a) & ~subr(x)); dw = tl & subl(x), tr = subr(a) ^ CAMELLIA_RL1(dw);`:
elements `a` and `x` are accessed. -/
def fl_fold_chk (n : Nat) (s : Scratch) (a x : Nat) : Option (Nat × Nat) :=
  if a < n ∧ x < n then some (fl_fold s a x) else none

/-- `CamelliaSubkeyL(i)` read from a key table of `len` words: word `i * 2`. -/
def CamelliaSubkeyL_chk (len : Nat) (subkey : Words) (i : Nat) : Option Nat :=
  if i * 2 < len then some (CamelliaSubkeyL subkey i) else none

/-- `CamelliaSubkeyR(i)` read from a key table of `len` words: word `i * 2 + 1`. -/
def CamelliaSubkeyR_chk (len : Nat) (subkey : Words) (i : Nat) : Option Nat :=
  if i * 2 + 1 < len then some (CamelliaSubkeyR subkey i) else none

/-- `CamelliaSubkeyL(i) = l; CamelliaSubkeyR(i) = r;`: words `i * 2` and `i * 2 + 1`. -/
def setSubkey_chk (len : Nat) (subkey : Words) (i l r : Nat) : Option Words :=
  if i * 2 < len ∧ i * 2 + 1 < len then some (setSubkey subkey i l r) else none

/-- The four statements of `invP_step`: words `i * 2` and `i * 2 + 1` are read and
written. -/
def invP_step_chk (len : Nat) (subkey : Words) (i : Nat) : Option Words :=
  if i * 2 < len ∧ i * 2 + 1 < len then some (invP_step subkey i) else none

/-- `CAMELLIA_SP1110(INDEX)` with the index checked against the table. -/
def CAMELLIA_SP1110_chk (INDEX : Nat) : Option Nat :=
  if INDEX < camellia_sp1110.length then some (CAMELLIA_SP1110 INDEX) else none

/-- `CAMELLIA_SP0222(INDEX)` with the index checked against the table. -/
def CAMELLIA_SP0222_chk (INDEX : Nat) : Option Nat :=
  if INDEX < camellia_sp0222.length then some (CAMELLIA_SP0222 INDEX) else none

/-- `CAMELLIA_SP3033(INDEX)` with the index checked against the table. -/
def CAMELLIA_SP3033_chk (INDEX : Nat) : Option Nat :=
  if INDEX < camellia_sp3033.length then some (CAMELLIA_SP3033 INDEX) else none

/-- `CAMELLIA_SP4404(INDEX)` with the index checked against the table. -/
def CAMELLIA_SP4404_chk (INDEX : Nat) : Option Nat :=
  if INDEX < camellia_sp4404.length then some (CAMELLIA_SP4404 INDEX) else none

/-- `CAMELLIA_F` with its eight table lookups checked. -/
def CAMELLIA_F_chk (xl xr kl kr : Nat) : Option (Nat × Nat) :=
  let il := xl ^^^ kl
  let ir := xr ^^^ kr
  let t0 := il >>> 16
  let t1 := ir >>> 16
  andThen (CAMELLIA_SP1110_chk (ir &&& 0xff)) fun a1 =>
  andThen (CAMELLIA_SP0222_chk ((t1 >>> 8) &&& 0xff)) fun a2 =>
  andThen (CAMELLIA_SP3033_chk (t1 &&& 0xff)) fun a3 =>
  andThen (CAMELLIA_SP4404_chk ((ir >>> 8) &&& 0xff)) fun a4 =>
  let yl := a1 ^^^ a2 ^^^ a3 ^^^ a4
  andThen (CAMELLIA_SP1110_chk ((t0 >>> 8) &&& 0xff)) fun b1 =>
  andThen (CAMELLIA_SP0222_chk (t0 &&& 0xff)) fun b2 =>
  andThen (CAMELLIA_SP3033_chk ((il >>> 8) &&& 0xff)) fun b3 =>
  andThen (CAMELLIA_SP4404_chk (il &&& 0xff)) fun b4 =>
  let yr := b1 ^^^ b2 ^^^ b3 ^^^ b4
  let yl := yl ^^^ yr
  let yr := CAMELLIA_RR8 yr
  let yr := yr ^^^ yl
  some (yl, yr)

/-- `CAMELLIA_ROUNDSM` with its eight table lookups checked. -/
def CAMELLIA_ROUNDSM_chk (xl xr kl kr yl yr : Nat) : Option (Nat × Nat) :=
  andThen (CAMELLIA_SP1110_chk (xr &&& 0xff)) fun a1 =>
  andThen (CAMELLIA_SP0222_chk ((xr >>> 24) &&& 0xff)) fun a2 =>
  andThen (CAMELLIA_SP3033_chk ((xr >>> 16) &&& 0xff)) fun a3 =>
  andThen (CAMELLIA_SP4404_chk ((xr >>> 8) &&& 0xff)) fun a4 =>
  let ir := a1 ^^^ a2 ^^^ a3 ^^^ a4
  andThen (CAMELLIA_SP1110_chk ((xl >>> 24) &&& 0xff)) fun b1 =>
  andThen (CAMELLIA_SP0222_chk ((xl >>> 16) &&& 0xff)) fun b2 =>
  andThen (CAMELLIA_SP3033_chk ((xl >>> 8) &&& 0xff)) fun b3 =>
  andThen (CAMELLIA_SP4404_chk (xl &&& 0xff)) fun b4 =>
  let il := b1 ^^^ b2 ^^^ b3 ^^^ b4
  let il := il ^^^ kl
  let ir := ir ^^^ kr
  let ir := ir ^^^ il
  let il := CAMELLIA_RR8 il
  let il := il ^^^ ir
  let yl := yl ^^^ ir
  let yr := yr ^^^ il
  some (yl, yr)

/-- `CAMELLIA_ROLDQ` with its two shift amounts `bits` and `32 - bits` checked to lie
strictly between 0 and 32. -/
def CAMELLIA_ROLDQ_chk (q : Quad) (bits : Nat) : Option Quad :=
  if (0 < bits ∧ bits < 32) ∧ (0 < 32 - bits ∧ 32 - bits < 32) then
    some (CAMELLIA_ROLDQ q bits)
  else none

/-- `CAMELLIA_ROLDQo32` with its two shift amounts `bits - 32` and `64 - bits` checked to
lie strictly between 0 and 32. -/
def CAMELLIA_ROLDQo32_chk (q : Quad) (bits : Nat) : Option Quad :=
  if (0 < bits - 32 ∧ bits - 32 < 32) ∧ (0 < 64 - bits ∧ 64 - bits < 32) then
    some (CAMELLIA_ROLDQo32 q bits)
  else none

/-- `GETU32(buf + off)`: bytes `off .. off + 3` of the buffer are read. -/
def GETU32_chk (buf : List Nat) (off : Nat) : Option Nat :=
  if off < buf.length ∧ off + 1 < buf.length ∧ off + 2 < buf.length ∧ off + 3 < buf.length then
    some (GETU32 buf off)
  else none

/-- `PUTU32(buf + off, st)`: bytes `off .. off + 3` of the buffer are written. -/
def PUTU32_chk (buf : List Nat) (off : Nat) (st : Nat) : Option (List Nat) :=
  if off < buf.length ∧ off + 1 < buf.length ∧ off + 2 < buf.length ∧ off + 3 < buf.length then
    some (PUTU32 buf off st)
  else none

/-- The four loads of `loadQuad`, checked. -/
def loadQuad_chk (key : List Nat) (off : Nat) : Option Quad :=
  andThen (GETU32_chk key off) fun ll =>
  andThen (GETU32_chk key (off + 4)) fun lr =>
  andThen (GETU32_chk key (off + 8)) fun rl =>
  andThen (GETU32_chk key (off + 12)) fun rr =>
  some { ll := ll, lr := lr, rl := rl, rr := rr }


/-- `camellia_setup128`, section "generate KL dependent subkeys", with every access checked (`subL[26]`, `subR[26]`). -/
def setup128_KL_chk (k : Quad) (s : Scratch) : Option Scratch :=
  andThen (setLR_chk 26 s 0 k.ll k.lr) fun s =>
  andThen (setLR_chk 26 s 1 k.rl k.rr) fun s =>
  andThen (CAMELLIA_ROLDQ_chk k 15) fun k =>
  andThen (setLR_chk 26 s 4 k.ll k.lr) fun s =>
  andThen (setLR_chk 26 s 5 k.rl k.rr) fun s =>
  andThen (CAMELLIA_ROLDQ_chk k 30) fun k =>
  andThen (setLR_chk 26 s 10 k.ll k.lr) fun s =>
  andThen (setLR_chk 26 s 11 k.rl k.rr) fun s =>
  andThen (CAMELLIA_ROLDQ_chk k 15) fun k =>
  andThen (setLR_chk 26 s 13 k.rl k.rr) fun s =>
  andThen (CAMELLIA_ROLDQ_chk k 17) fun k =>
  andThen (setLR_chk 26 s 16 k.ll k.lr) fun s =>
  andThen (setLR_chk 26 s 17 k.rl k.rr) fun s =>
  andThen (CAMELLIA_ROLDQ_chk k 17) fun k =>
  andThen (setLR_chk 26 s 18 k.ll k.lr) fun s =>
  andThen (setLR_chk 26 s 19 k.rl k.rr) fun s =>
  andThen (CAMELLIA_ROLDQ_chk k 17) fun k =>
  andThen (setLR_chk 26 s 22 k.ll k.lr) fun s =>
  andThen (setLR_chk 26 s 23 k.rl k.rr) fun s =>
  some s

/-- `camellia_setup128`, section "generate KA", with every access checked (`subL[26]`, `subR[26]`). -/
def setup128_KA_chk (s : Scratch) : Option Quad :=
  andThen (subl_chk 26 s 0) fun kll =>
  andThen (subr_chk 26 s 0) fun klr =>
  andThen (subl_chk 26 s 1) fun krl =>
  andThen (subr_chk 26 s 1) fun krr =>
  andThen (CAMELLIA_F_chk kll klr CAMELLIA_SIGMA1L CAMELLIA_SIGMA1R) fun w =>
  let krl := krl ^^^ w.1
  let krr := krr ^^^ w.2
  andThen (CAMELLIA_F_chk krl krr CAMELLIA_SIGMA2L CAMELLIA_SIGMA2R) fun kl =>
  andThen (CAMELLIA_F_chk kl.1 kl.2 CAMELLIA_SIGMA3L CAMELLIA_SIGMA3R) fun kr =>
  let krl := kr.1 ^^^ w.1
  let krr := kr.2 ^^^ w.2
  andThen (CAMELLIA_F_chk krl krr CAMELLIA_SIGMA4L CAMELLIA_SIGMA4R) fun w =>
  let kll := kl.1 ^^^ w.1
  let klr := kl.2 ^^^ w.2
  some { ll := kll, lr := klr, rl := krl, rr := krr }

/-- `camellia_setup128`, section "generate KA dependent subkeys", with every access checked (`subL[26]`, `subR[26]`). -/
def setup128_KAsub_chk (k : Quad) (s : Scratch) : Option Scratch :=
  andThen (setLR_chk 26 s 2 k.ll k.lr) fun s =>
  andThen (setLR_chk 26 s 3 k.rl k.rr) fun s =>
  andThen (CAMELLIA_ROLDQ_chk k 15) fun k =>
  andThen (setLR_chk 26 s 6 k.ll k.lr) fun s =>
  andThen (setLR_chk 26 s 7 k.rl k.rr) fun s =>
  andThen (CAMELLIA_ROLDQ_chk k 15) fun k =>
  andThen (setLR_chk 26 s 8 k.ll k.lr) fun s =>
  andThen (setLR_chk 26 s 9 k.rl k.rr) fun s =>
  andThen (CAMELLIA_ROLDQ_chk k 15) fun k =>
  andThen (setLR_chk 26 s 12 k.ll k.lr) fun s =>
  andThen (CAMELLIA_ROLDQ_chk k 15) fun k =>
  andThen (setLR_chk 26 s 14 k.ll k.lr) fun s =>
  andThen (setLR_chk 26 s 15 k.rl k.rr) fun s =>
  andThen (CAMELLIA_ROLDQo32_chk k 34) fun k =>
  andThen (setLR_chk 26 s 20 k.ll k.lr) fun s =>
  andThen (setLR_chk 26 s 21 k.rl k.rr) fun s =>
  andThen (CAMELLIA_ROLDQ_chk k 17) fun k =>
  andThen (setLR_chk 26 s 24 k.ll k.lr) fun s =>
  andThen (setLR_chk 26 s 25 k.rl k.rr) fun s =>
  some s

/-- `camellia_setup128`, section "absorb kw2 to other subkeys", with every access checked (`subL[26]`, `subR[26]`). -/
def setup128_kw2_chk (s : Scratch) : Option Scratch :=
  andThen (kw2_xor_chk 26 s 3) fun s =>
  andThen (kw2_xor_chk 26 s 5) fun s =>
  andThen (kw2_xor_chk 26 s 7) fun s =>
  andThen (kw2_step_chk 26 s 9) fun s =>
  andThen (kw2_xor_chk 26 s 11) fun s =>
  andThen (kw2_xor_chk 26 s 13) fun s =>
  andThen (kw2_xor_chk 26 s 15) fun s =>
  andThen (kw2_step_chk 26 s 17) fun s =>
  andThen (kw2_xor_chk 26 s 19) fun s =>
  andThen (kw2_xor_chk 26 s 21) fun s =>
  andThen (kw2_xor_chk 26 s 23) fun s =>
  andThen (kw2_xor_chk 26 s 24) fun s =>
  some s

/-- `camellia_setup128`, section "absorb kw4 to other subkeys", with every access checked (`subL[26]`, `subR[26]`). -/
def setup128_kw4_chk (s : Scratch) : Option Scratch :=
  andThen (subl_chk 26 s 25) fun l25 =>
  andThen (subr_chk 26 s 25) fun r25 =>
  let kw4 := (l25, r25)
  andThen (kw4_xor_chk 26 s kw4 22) fun s =>
  andThen (kw4_xor_chk 26 s kw4 20) fun s =>
  andThen (kw4_xor_chk 26 s kw4 18) fun s =>
  andThen (kw4_step_chk 26 s kw4 16) fun kw4 =>
  andThen (kw4_xor_chk 26 s kw4 14) fun s =>
  andThen (kw4_xor_chk 26 s kw4 12) fun s =>
  andThen (kw4_xor_chk 26 s kw4 10) fun s =>
  andThen (kw4_step_chk 26 s kw4 8) fun kw4 =>
  andThen (kw4_xor_chk 26 s kw4 6) fun s =>
  andThen (kw4_xor_chk 26 s kw4 4) fun s =>
  andThen (kw4_xor_chk 26 s kw4 2) fun s =>
  andThen (kw4_xor_chk 26 s kw4 0) fun s =>
  some s

/-- `camellia_setup128`, section "key XOR is end of F-function", with every access checked (`subL[26]`, `subR[26]`). -/
def setup128_emit_chk (s : Scratch) (len : Nat) (subkey : Words) : Option Words :=
  andThen (subl_chk 26 s 0) fun l0 =>
  andThen (subl_chk 26 s 2) fun l2 =>
  andThen (subr_chk 26 s 0) fun r0 =>
  andThen (subr_chk 26 s 2) fun r2 =>
  andThen (setSubkey_chk len subkey 0 (l0 ^^^ l2) (r0 ^^^ r2)) fun subkey =>
  andThen (subl_chk 26 s 3) fun l3 =>
  andThen (subr_chk 26 s 3) fun r3 =>
  andThen (setSubkey_chk len subkey 2 (l3) (r3)) fun subkey =>
  andThen (subl_chk 26 s 2) fun l2 =>
  andThen (subl_chk 26 s 4) fun l4 =>
  andThen (subr_chk 26 s 2) fun r2 =>
  andThen (subr_chk 26 s 4) fun r4 =>
  andThen (setSubkey_chk len subkey 3 (l2 ^^^ l4) (r2 ^^^ r4)) fun subkey =>
  andThen (subl_chk 26 s 3) fun l3 =>
  andThen (subl_chk 26 s 5) fun l5 =>
  andThen (subr_chk 26 s 3) fun r3 =>
  andThen (subr_chk 26 s 5) fun r5 =>
  andThen (setSubkey_chk len subkey 4 (l3 ^^^ l5) (r3 ^^^ r5)) fun subkey =>
  andThen (subl_chk 26 s 4) fun l4 =>
  andThen (subl_chk 26 s 6) fun l6 =>
  andThen (subr_chk 26 s 4) fun r4 =>
  andThen (subr_chk 26 s 6) fun r6 =>
  andThen (setSubkey_chk len subkey 5 (l4 ^^^ l6) (r4 ^^^ r6)) fun subkey =>
  andThen (subl_chk 26 s 5) fun l5 =>
  andThen (subl_chk 26 s 7) fun l7 =>
  andThen (subr_chk 26 s 5) fun r5 =>
  andThen (subr_chk 26 s 7) fun r7 =>
  andThen (setSubkey_chk len subkey 6 (l5 ^^^ l7) (r5 ^^^ r7)) fun subkey =>
  andThen (fl_fold_chk 26 s 10 8) fun t =>
  andThen (subl_chk 26 s 6) fun l6 =>
  andThen (subr_chk 26 s 6) fun r6 =>
  andThen (setSubkey_chk len subkey 7 (l6 ^^^ t.1) (r6 ^^^ t.2)) fun subkey =>
  andThen (subl_chk 26 s 8) fun l8 =>
  andThen (subr_chk 26 s 8) fun r8 =>
  andThen (setSubkey_chk len subkey 8 (l8) (r8)) fun subkey =>
  andThen (subl_chk 26 s 9) fun l9 =>
  andThen (subr_chk 26 s 9) fun r9 =>
  andThen (setSubkey_chk len subkey 9 (l9) (r9)) fun subkey =>
  andThen (fl_fold_chk 26 s 7 9) fun t =>
  andThen (subl_chk 26 s 11) fun l11 =>
  andThen (subr_chk 26 s 11) fun r11 =>
  andThen (setSubkey_chk len subkey 10 (t.1 ^^^ l11) (t.2 ^^^ r11)) fun subkey =>
  andThen (subl_chk 26 s 10) fun l10 =>
  andThen (subl_chk 26 s 12) fun l12 =>
  andThen (subr_chk 26 s 10) fun r10 =>
  andThen (subr_chk 26 s 12) fun r12 =>
  andThen (setSubkey_chk len subkey 11 (l10 ^^^ l12) (r10 ^^^ r12)) fun subkey =>
  andThen (subl_chk 26 s 11) fun l11 =>
  andThen (subl_chk 26 s 13) fun l13 =>
  andThen (subr_chk 26 s 11) fun r11 =>
  andThen (subr_chk 26 s 13) fun r13 =>
  andThen (setSubkey_chk len subkey 12 (l11 ^^^ l13) (r11 ^^^ r13)) fun subkey =>
  andThen (subl_chk 26 s 12) fun l12 =>
  andThen (subl_chk 26 s 14) fun l14 =>
  andThen (subr_chk 26 s 12) fun r12 =>
  andThen (subr_chk 26 s 14) fun r14 =>
  andThen (setSubkey_chk len subkey 13 (l12 ^^^ l14) (r12 ^^^ r14)) fun subkey =>
  andThen (subl_chk 26 s 13) fun l13 =>
  andThen (subl_chk 26 s 15) fun l15 =>
  andThen (subr_chk 26 s 13) fun r13 =>
  andThen (subr_chk 26 s 15) fun r15 =>
  andThen (setSubkey_chk len subkey 14 (l13 ^^^ l15) (r13 ^^^ r15)) fun subkey =>
  andThen (fl_fold_chk 26 s 18 16) fun t =>
  andThen (subl_chk 26 s 14) fun l14 =>
  andThen (subr_chk 26 s 14) fun r14 =>
  andThen (setSubkey_chk len subkey 15 (l14 ^^^ t.1) (r14 ^^^ t.2)) fun subkey =>
  andThen (subl_chk 26 s 16) fun l16 =>
  andThen (subr_chk 26 s 16) fun r16 =>
  andThen (setSubkey_chk len subkey 16 (l16) (r16)) fun subkey =>
  andThen (subl_chk 26 s 17) fun l17 =>
  andThen (subr_chk 26 s 17) fun r17 =>
  andThen (setSubkey_chk len subkey 17 (l17) (r17)) fun subkey =>
  andThen (fl_fold_chk 26 s 15 17) fun t =>
  andThen (subl_chk 26 s 19) fun l19 =>
  andThen (subr_chk 26 s 19) fun r19 =>
  andThen (setSubkey_chk len subkey 18 (t.1 ^^^ l19) (t.2 ^^^ r19)) fun subkey =>
  andThen (subl_chk 26 s 18) fun l18 =>
  andThen (subl_chk 26 s 20) fun l20 =>
  andThen (subr_chk 26 s 18) fun r18 =>
  andThen (subr_chk 26 s 20) fun r20 =>
  andThen (setSubkey_chk len subkey 19 (l18 ^^^ l20) (r18 ^^^ r20)) fun subkey =>
  andThen (subl_chk 26 s 19) fun l19 =>
  andThen (subl_chk 26 s 21) fun l21 =>
  andThen (subr_chk 26 s 19) fun r19 =>
  andThen (subr_chk 26 s 21) fun r21 =>
  andThen (setSubkey_chk len subkey 20 (l19 ^^^ l21) (r19 ^^^ r21)) fun subkey =>
  andThen (subl_chk 26 s 20) fun l20 =>
  andThen (subl_chk 26 s 22) fun l22 =>
  andThen (subr_chk 26 s 20) fun r20 =>
  andThen (subr_chk 26 s 22) fun r22 =>
  andThen (setSubkey_chk len subkey 21 (l20 ^^^ l22) (r20 ^^^ r22)) fun subkey =>
  andThen (subl_chk 26 s 21) fun l21 =>
  andThen (subl_chk 26 s 23) fun l23 =>
  andThen (subr_chk 26 s 21) fun r21 =>
  andThen (subr_chk 26 s 23) fun r23 =>
  andThen (setSubkey_chk len subkey 22 (l21 ^^^ l23) (r21 ^^^ r23)) fun subkey =>
  andThen (subl_chk 26 s 22) fun l22 =>
  andThen (subr_chk 26 s 22) fun r22 =>
  andThen (setSubkey_chk len subkey 23 (l22) (r22)) fun subkey =>
  andThen (subl_chk 26 s 24) fun l24 =>
  andThen (subl_chk 26 s 23) fun l23 =>
  andThen (subr_chk 26 s 24) fun r24 =>
  andThen (subr_chk 26 s 23) fun r23 =>
  andThen (setSubkey_chk len subkey 24 (l24 ^^^ l23) (r24 ^^^ r23)) fun subkey =>
  some subkey

/-- `camellia_setup128`, section "apply the inverse of the last half of P-function", with
every access checked. -/
def setup128_invP_chk (len : Nat) (subkey : Words) : Option Words :=
  [2, 3, 4, 5, 6, 7, 10, 11, 12, 13, 14, 15, 18, 19, 20, 21, 22, 23].foldlM (invP_step_chk len) subkey

/-- Function `camellia_setup128(key, subkey)` with every access checked: the key
table of `len` words after the call, or `none`. -/
def camellia_setup128_chk (key : List Nat) (len : Nat) (subkey : Words) : Option Words :=
  andThen (loadQuad_chk key 0) fun k =>
  andThen (setup128_KL_chk k Scratch.init) fun s =>
  andThen (setup128_KA_chk s) fun ka =>
  andThen (setup128_KAsub_chk ka s) fun s =>
  andThen (setup128_kw2_chk s) fun s =>
  andThen (setup128_kw4_chk s) fun s =>
  andThen (setup128_emit_chk s len subkey) fun subkey =>
  setup128_invP_chk len subkey

/-- `camellia_setup256`, section "generate KL dependent subkeys", with every access checked (`subL[34]`, `subR[34]`). -/
def setup256_KL_chk (k : Quad) (s : Scratch) : Option Scratch :=
  andThen (setLR_chk 34 s 0 k.ll k.lr) fun s =>
  andThen (setLR_chk 34 s 1 k.rl k.rr) fun s =>
  andThen (CAMELLIA_ROLDQo32_chk k 45) fun k =>
  andThen (setLR_chk 34 s 12 k.ll k.lr) fun s =>
  andThen (setLR_chk 34 s 13 k.rl k.rr) fun s =>
  andThen (CAMELLIA_ROLDQ_chk k 15) fun k =>
  andThen (setLR_chk 34 s 16 k.ll k.lr) fun s =>
  andThen (setLR_chk 34 s 17 k.rl k.rr) fun s =>
  andThen (CAMELLIA_ROLDQ_chk k 17) fun k =>
  andThen (setLR_chk 34 s 22 k.ll k.lr) fun s =>
  andThen (setLR_chk 34 s 23 k.rl k.rr) fun s =>
  andThen (CAMELLIA_ROLDQo32_chk k 34) fun k =>
  andThen (setLR_chk 34 s 30 k.ll k.lr) fun s =>
  andThen (setLR_chk 34 s 31 k.rl k.rr) fun s =>
  some s

/-- `camellia_setup256`, section "generate KR dependent subkeys", with every access checked (`subL[34]`, `subR[34]`). -/
def setup256_KR_chk (kr : Quad) (s : Scratch) : Option (Scratch × Quad) :=
  andThen (CAMELLIA_ROLDQ_chk kr 15) fun kr =>
  andThen (setLR_chk 34 s 4 kr.ll kr.lr) fun s =>
  andThen (setLR_chk 34 s 5 kr.rl kr.rr) fun s =>
  andThen (CAMELLIA_ROLDQ_chk kr 15) fun kr =>
  andThen (setLR_chk 34 s 8 kr.ll kr.lr) fun s =>
  andThen (setLR_chk 34 s 9 kr.rl kr.rr) fun s =>
  andThen (CAMELLIA_ROLDQ_chk kr 30) fun kr =>
  andThen (setLR_chk 34 s 18 kr.ll kr.lr) fun s =>
  andThen (setLR_chk 34 s 19 kr.rl kr.rr) fun s =>
  andThen (CAMELLIA_ROLDQo32_chk kr 34) fun kr =>
  andThen (setLR_chk 34 s 26 kr.ll kr.lr) fun s =>
  andThen (setLR_chk 34 s 27 kr.rl kr.rr) fun s =>
  andThen (CAMELLIA_ROLDQo32_chk kr 34) fun kr =>
  some (s, kr)

/-- `camellia_setup256`, section "generate KA", with every access checked (`subL[34]`, `subR[34]`). -/
def setup256_KA_chk (s : Scratch) (kr : Quad) : Option Quad :=
  andThen (subl_chk 34 s 0) fun l0 =>
  let kll := l0 ^^^ kr.ll
  andThen (subr_chk 34 s 0) fun r0 =>
  let klr := r0 ^^^ kr.lr
  andThen (subl_chk 34 s 1) fun l1 =>
  let krl := l1 ^^^ kr.rl
  andThen (subr_chk 34 s 1) fun r1 =>
  let krr := r1 ^^^ kr.rr
  andThen (CAMELLIA_F_chk kll klr CAMELLIA_SIGMA1L CAMELLIA_SIGMA1R) fun w =>
  let krl := krl ^^^ w.1
  let krr := krr ^^^ w.2
  andThen (CAMELLIA_F_chk krl krr CAMELLIA_SIGMA2L CAMELLIA_SIGMA2R) fun kl =>
  let kll := kl.1 ^^^ kr.ll
  let klr := kl.2 ^^^ kr.lr
  andThen (CAMELLIA_F_chk kll klr CAMELLIA_SIGMA3L CAMELLIA_SIGMA3R) fun y =>
  let krl := y.1 ^^^ (w.1 ^^^ kr.rl)
  let krr := y.2 ^^^ (w.2 ^^^ kr.rr)
  andThen (CAMELLIA_F_chk krl krr CAMELLIA_SIGMA4L CAMELLIA_SIGMA4R) fun w =>
  let kll := kll ^^^ w.1
  let klr := klr ^^^ w.2
  some { ll := kll, lr := klr, rl := krl, rr := krr }

/-- `camellia_setup256`, section "generate KB", with every access checked (`subL[34]`, `subR[34]`). -/
def setup256_KB_chk (k : Quad) (kr : Quad) : Option Quad :=
  let krll := kr.ll ^^^ k.ll
  let krlr := kr.lr ^^^ k.lr
  let krrl := kr.rl ^^^ k.rl
  let krrr := kr.rr ^^^ k.rr
  andThen (CAMELLIA_F_chk krll krlr CAMELLIA_SIGMA5L CAMELLIA_SIGMA5R) fun w =>
  let krrl := krrl ^^^ w.1
  let krrr := krrr ^^^ w.2
  andThen (CAMELLIA_F_chk krrl krrr CAMELLIA_SIGMA6L CAMELLIA_SIGMA6R) fun w =>
  let krll := krll ^^^ w.1
  let krlr := krlr ^^^ w.2
  some { ll := krll, lr := krlr, rl := krrl, rr := krrr }

/-- `camellia_setup256`, section "generate KA dependent subkeys", with every access checked (`subL[34]`, `subR[34]`). -/
def setup256_KAsub_chk (k : Quad) (s : Scratch) : Option Scratch :=
  andThen (CAMELLIA_ROLDQ_chk k 15) fun k =>
  andThen (setLR_chk 34 s 6 k.ll k.lr) fun s =>
  andThen (setLR_chk 34 s 7 k.rl k.rr) fun s =>
  andThen (CAMELLIA_ROLDQ_chk k 30) fun k =>
  andThen (setLR_chk 34 s 14 k.ll k.lr) fun s =>
  andThen (setLR_chk 34 s 15 k.rl k.rr) fun s =>
  andThen (setLR_chk 34 s 24 k.lr k.rl) fun s =>
  andThen (setLR_chk 34 s 25 k.rr k.ll) fun s =>
  andThen (CAMELLIA_ROLDQo32_chk k 49) fun k =>
  andThen (setLR_chk 34 s 28 k.ll k.lr) fun s =>
  andThen (setLR_chk 34 s 29 k.rl k.rr) fun s =>
  some s

/-- `camellia_setup256`, section "generate KB dependent subkeys", with every access checked (`subL[34]`, `subR[34]`). -/
def setup256_KBsub_chk (kr : Quad) (s : Scratch) : Option Scratch :=
  andThen (setLR_chk 34 s 2 kr.ll kr.lr) fun s =>
  andThen (setLR_chk 34 s 3 kr.rl kr.rr) fun s =>
  andThen (CAMELLIA_ROLDQ_chk kr 30) fun kr =>
  andThen (setLR_chk 34 s 10 kr.ll kr.lr) fun s =>
  andThen (setLR_chk 34 s 11 kr.rl kr.rr) fun s =>
  andThen (CAMELLIA_ROLDQ_chk kr 30) fun kr =>
  andThen (setLR_chk 34 s 20 kr.ll kr.lr) fun s =>
  andThen (setLR_chk 34 s 21 kr.rl kr.rr) fun s =>
  andThen (CAMELLIA_ROLDQo32_chk kr 51) fun kr =>
  andThen (setLR_chk 34 s 32 kr.ll kr.lr) fun s =>
  andThen (setLR_chk 34 s 33 kr.rl kr.rr) fun s =>
  some s

/-- `camellia_setup256`, section "absorb kw2 to other subkeys", with every access checked (`subL[34]`, `subR[34]`). -/
def setup256_kw2_chk (s : Scratch) : Option Scratch :=
  andThen (kw2_xor_chk 34 s 3) fun s =>
  andThen (kw2_xor_chk 34 s 5) fun s =>
  andThen (kw2_xor_chk 34 s 7) fun s =>
  andThen (kw2_step_chk 34 s 9) fun s =>
  andThen (kw2_xor_chk 34 s 11) fun s =>
  andThen (kw2_xor_chk 34 s 13) fun s =>
  andThen (kw2_xor_chk 34 s 15) fun s =>
  andThen (kw2_step_chk 34 s 17) fun s =>
  andThen (kw2_xor_chk 34 s 19) fun s =>
  andThen (kw2_xor_chk 34 s 21) fun s =>
  andThen (kw2_xor_chk 34 s 23) fun s =>
  andThen (kw2_step_chk 34 s 25) fun s =>
  andThen (kw2_xor_chk 34 s 27) fun s =>
  andThen (kw2_xor_chk 34 s 29) fun s =>
  andThen (kw2_xor_chk 34 s 31) fun s =>
  andThen (kw2_xor_chk 34 s 32) fun s =>
  some s

/-- `camellia_setup256`, section "absorb kw4 to other subkeys", with every access checked (`subL[34]`, `subR[34]`). -/
def setup256_kw4_chk (s : Scratch) : Option Scratch :=
  andThen (subl_chk 34 s 33) fun l33 =>
  andThen (subr_chk 34 s 33) fun r33 =>
  let kw4 := (l33, r33)
  andThen (kw4_xor_chk 34 s kw4 30) fun s =>
  andThen (kw4_xor_chk 34 s kw4 28) fun s =>
  andThen (kw4_xor_chk 34 s kw4 26) fun s =>
  andThen (kw4_step_chk 34 s kw4 24) fun kw4 =>
  andThen (kw4_xor_chk 34 s kw4 22) fun s =>
  andThen (kw4_xor_chk 34 s kw4 20) fun s =>
  andThen (kw4_xor_chk 34 s kw4 18) fun s =>
  andThen (kw4_step_chk 34 s kw4 16) fun kw4 =>
  andThen (kw4_xor_chk 34 s kw4 14) fun s =>
  andThen (kw4_xor_chk 34 s kw4 12) fun s =>
  andThen (kw4_xor_chk 34 s kw4 10) fun s =>
  andThen (kw4_step_chk 34 s kw4 8) fun kw4 =>
  andThen (kw4_xor_chk 34 s kw4 6) fun s =>
  andThen (kw4_xor_chk 34 s kw4 4) fun s =>
  andThen (kw4_xor_chk 34 s kw4 2) fun s =>
  andThen (kw4_xor_chk 34 s kw4 0) fun s =>
  some s

/-- `camellia_setup256`, section "key XOR is end of F-function", with every access checked (`subL[34]`, `subR[34]`). -/
def setup256_emit_chk (s : Scratch) (len : Nat) (subkey : Words) : Option Words :=
  andThen (subl_chk 34 s 0) fun l0 =>
  andThen (subl_chk 34 s 2) fun l2 =>
  andThen (subr_chk 34 s 0) fun r0 =>
  andThen (subr_chk 34 s 2) fun r2 =>
  andThen (setSubkey_chk len subkey 0 (l0 ^^^ l2) (r0 ^^^ r2)) fun subkey =>
  andThen (subl_chk 34 s 3) fun l3 =>
  andThen (subr_chk 34 s 3) fun r3 =>
  andThen (setSubkey_chk len subkey 2 (l3) (r3)) fun subkey =>
  andThen (subl_chk 34 s 2) fun l2 =>
  andThen (subl_chk 34 s 4) fun l4 =>
  andThen (subr_chk 34 s 2) fun r2 =>
  andThen (subr_chk 34 s 4) fun r4 =>
  andThen (setSubkey_chk len subkey 3 (l2 ^^^ l4) (r2 ^^^ r4)) fun subkey =>
  andThen (subl_chk 34 s 3) fun l3 =>
  andThen (subl_chk 34 s 5) fun l5 =>
  andThen (subr_chk 34 s 3) fun r3 =>
  andThen (subr_chk 34 s 5) fun r5 =>
  andThen (setSubkey_chk len subkey 4 (l3 ^^^ l5) (r3 ^^^ r5)) fun subkey =>
  andThen (subl_chk 34 s 4) fun l4 =>
  andThen (subl_chk 34 s 6) fun l6 =>
  andThen (subr_chk 34 s 4) fun r4 =>
  andThen (subr_chk 34 s 6) fun r6 =>
  andThen (setSubkey_chk len subkey 5 (l4 ^^^ l6) (r4 ^^^ r6)) fun subkey =>
  andThen (subl_chk 34 s 5) fun l5 =>
  andThen (subl_chk 34 s 7) fun l7 =>
  andThen (subr_chk 34 s 5) fun r5 =>
  andThen (subr_chk 34 s 7) fun r7 =>
  andThen (setSubkey_chk len subkey 6 (l5 ^^^ l7) (r5 ^^^ r7)) fun subkey =>
  andThen (fl_fold_chk 34 s 10 8) fun t =>
  andThen (subl_chk 34 s 6) fun l6 =>
  andThen (subr_chk 34 s 6) fun r6 =>
  andThen (setSubkey_chk len subkey 7 (l6 ^^^ t.1) (r6 ^^^ t.2)) fun subkey =>
  andThen (subl_chk 34 s 8) fun l8 =>
  andThen (subr_chk 34 s 8) fun r8 =>
  andThen (setSubkey_chk len subkey 8 (l8) (r8)) fun subkey =>
  andThen (subl_chk 34 s 9) fun l9 =>
  andThen (subr_chk 34 s 9) fun r9 =>
  andThen (setSubkey_chk len subkey 9 (l9) (r9)) fun subkey =>
  andThen (fl_fold_chk 34 s 7 9) fun t =>
  andThen (subl_chk 34 s 11) fun l11 =>
  andThen (subr_chk 34 s 11) fun r11 =>
  andThen (setSubkey_chk len subkey 10 (t.1 ^^^ l11) (t.2 ^^^ r11)) fun subkey =>
  andThen (subl_chk 34 s 10) fun l10 =>
  andThen (subl_chk 34 s 12) fun l12 =>
  andThen (subr_chk 34 s 10) fun r10 =>
  andThen (subr_chk 34 s 12) fun r12 =>
  andThen (setSubkey_chk len subkey 11 (l10 ^^^ l12) (r10 ^^^ r12)) fun subkey =>
  andThen (subl_chk 34 s 11) fun l11 =>
  andThen (subl_chk 34 s 13) fun l13 =>
  andThen (subr_chk 34 s 11) fun r11 =>
  andThen (subr_chk 34 s 13) fun r13 =>
  andThen (setSubkey_chk len subkey 12 (l11 ^^^ l13) (r11 ^^^ r13)) fun subkey =>
  andThen (subl_chk 34 s 12) fun l12 =>
  andThen (subl_chk 34 s 14) fun l14 =>
  andThen (subr_chk 34 s 12) fun r12 =>
  andThen (subr_chk 34 s 14) fun r14 =>
  andThen (setSubkey_chk len subkey 13 (l12 ^^^ l14) (r12 ^^^ r14)) fun subkey =>
  andThen (subl_chk 34 s 13) fun l13 =>
  andThen (subl_chk 34 s 15) fun l15 =>
  andThen (subr_chk 34 s 13) fun r13 =>
  andThen (subr_chk 34 s 15) fun r15 =>
  andThen (setSubkey_chk len subkey 14 (l13 ^^^ l15) (r13 ^^^ r15)) fun subkey =>
  andThen (fl_fold_chk 34 s 18 16) fun t =>
  andThen (subl_chk 34 s 14) fun l14 =>
  andThen (subr_chk 34 s 14) fun r14 =>
  andThen (setSubkey_chk len subkey 15 (l14 ^^^ t.1) (r14 ^^^ t.2)) fun subkey =>
  andThen (subl_chk 34 s 16) fun l16 =>
  andThen (subr_chk 34 s 16) fun r16 =>
  andThen (setSubkey_chk len subkey 16 (l16) (r16)) fun subkey =>
  andThen (subl_chk 34 s 17) fun l17 =>
  andThen (subr_chk 34 s 17) fun r17 =>
  andThen (setSubkey_chk len subkey 17 (l17) (r17)) fun subkey =>
  andThen (fl_fold_chk 34 s 15 17) fun t =>
  andThen (subl_chk 34 s 19) fun l19 =>
  andThen (subr_chk 34 s 19) fun r19 =>
  andThen (setSubkey_chk len subkey 18 (t.1 ^^^ l19) (t.2 ^^^ r19)) fun subkey =>
  andThen (subl_chk 34 s 18) fun l18 =>
  andThen (subl_chk 34 s 20) fun l20 =>
  andThen (subr_chk 34 s 18) fun r18 =>
  andThen (subr_chk 34 s 20) fun r20 =>
  andThen (setSubkey_chk len subkey 19 (l18 ^^^ l20) (r18 ^^^ r20)) fun subkey =>
  andThen (subl_chk 34 s 19) fun l19 =>
  andThen (subl_chk 34 s 21) fun l21 =>
  andThen (subr_chk 34 s 19) fun r19 =>
  andThen (subr_chk 34 s 21) fun r21 =>
  andThen (setSubkey_chk len subkey 20 (l19 ^^^ l21) (r19 ^^^ r21)) fun subkey =>
  andThen (subl_chk 34 s 20) fun l20 =>
  andThen (subl_chk 34 s 22) fun l22 =>
  andThen (subr_chk 34 s 20) fun r20 =>
  andThen (subr_chk 34 s 22) fun r22 =>
  andThen (setSubkey_chk len subkey 21 (l20 ^^^ l22) (r20 ^^^ r22)) fun subkey =>
  andThen (subl_chk 34 s 21) fun l21 =>
  andThen (subl_chk 34 s 23) fun l23 =>
  andThen (subr_chk 34 s 21) fun r21 =>
  andThen (subr_chk 34 s 23) fun r23 =>
  andThen (setSubkey_chk len subkey 22 (l21 ^^^ l23) (r21 ^^^ r23)) fun subkey =>
  andThen (fl_fold_chk 34 s 26 24) fun t =>
  andThen (subl_chk 34 s 22) fun l22 =>
  andThen (subr_chk 34 s 22) fun r22 =>
  andThen (setSubkey_chk len subkey 23 (l22 ^^^ t.1) (r22 ^^^ t.2)) fun subkey =>
  andThen (subl_chk 34 s 24) fun l24 =>
  andThen (subr_chk 34 s 24) fun r24 =>
  andThen (setSubkey_chk len subkey 24 (l24) (r24)) fun subkey =>
  andThen (subl_chk 34 s 25) fun l25 =>
  andThen (subr_chk 34 s 25) fun r25 =>
  andThen (setSubkey_chk len subkey 25 (l25) (r25)) fun subkey =>
  andThen (fl_fold_chk 34 s 23 25) fun t =>
  andThen (subl_chk 34 s 27) fun l27 =>
  andThen (subr_chk 34 s 27) fun r27 =>
  andThen (setSubkey_chk len subkey 26 (t.1 ^^^ l27) (t.2 ^^^ r27)) fun subkey =>
  andThen (subl_chk 34 s 26) fun l26 =>
  andThen (subl_chk 34 s 28) fun l28 =>
  andThen (subr_chk 34 s 26) fun r26 =>
  andThen (subr_chk 34 s 28) fun r28 =>
  andThen (setSubkey_chk len subkey 27 (l26 ^^^ l28) (r26 ^^^ r28)) fun subkey =>
  andThen (subl_chk 34 s 27) fun l27 =>
  andThen (subl_chk 34 s 29) fun l29 =>
  andThen (subr_chk 34 s 27) fun r27 =>
  andThen (subr_chk 34 s 29) fun r29 =>
  andThen (setSubkey_chk len subkey 28 (l27 ^^^ l29) (r27 ^^^ r29)) fun subkey =>
  andThen (subl_chk 34 s 28) fun l28 =>
  andThen (subl_chk 34 s 30) fun l30 =>
  andThen (subr_chk 34 s 28) fun r28 =>
  andThen (subr_chk 34 s 30) fun r30 =>
  andThen (setSubkey_chk len subkey 29 (l28 ^^^ l30) (r28 ^^^ r30)) fun subkey =>
  andThen (subl_chk 34 s 29) fun l29 =>
  andThen (subl_chk 34 s 31) fun l31 =>
  andThen (subr_chk 34 s 29) fun r29 =>
  andThen (subr_chk 34 s 31) fun r31 =>
  andThen (setSubkey_chk len subkey 30 (l29 ^^^ l31) (r29 ^^^ r31)) fun subkey =>
  andThen (subl_chk 34 s 30) fun l30 =>
  andThen (subr_chk 34 s 30) fun r30 =>
  andThen (setSubkey_chk len subkey 31 (l30) (r30)) fun subkey =>
  andThen (subl_chk 34 s 32) fun l32 =>
  andThen (subl_chk 34 s 31) fun l31 =>
  andThen (subr_chk 34 s 32) fun r32 =>
  andThen (subr_chk 34 s 31) fun r31 =>
  andThen (setSubkey_chk len subkey 32 (l32 ^^^ l31) (r32 ^^^ r31)) fun subkey =>
  some subkey

/-- `camellia_setup256`, section "apply the inverse of the last half of P-function", with
every access checked. -/
def setup256_invP_chk (len : Nat) (subkey : Words) : Option Words :=
  [2, 3, 4, 5, 6, 7, 10, 11, 12, 13, 14, 15, 18, 19, 20, 21, 22, 23,
    26, 27, 28, 29, 30, 31].foldlM (invP_step_chk len) subkey

/-- Function `camellia_setup256(key, subkey)` with every access checked: the key
table of `len` words after the call, or `none`. -/
def camellia_setup256_chk (key : List Nat) (len : Nat) (subkey : Words) : Option Words :=
  andThen (loadQuad_chk key 0) fun k =>
  andThen (loadQuad_chk key 16) fun kr =>
  andThen (setup256_KL_chk k Scratch.init) fun s =>
  andThen (setup256_KR_chk kr s) fun skr =>
  andThen (setup256_KA_chk skr.1 skr.2) fun ka =>
  andThen (setup256_KB_chk ka skr.2) fun kb =>
  andThen (setup256_KAsub_chk ka skr.1) fun s =>
  andThen (setup256_KBsub_chk kb s) fun s =>
  andThen (setup256_kw2_chk s) fun s =>
  andThen (setup256_kw4_chk s) fun s =>
  andThen (setup256_emit_chk s len subkey) fun subkey =>
  setup256_invP_chk len subkey

/-- The statement `memcpy((unsigned char *)&w, key + off, 4)`: bytes `off .. off + 3` of
the key are read. -/
def memcpy_to_u32_chk (o : ByteOrder) (key : List Nat) (off : Nat) : Option Nat :=
  if off < key.length ∧ off + 1 < key.length ∧ off + 2 < key.length ∧ off + 3 < key.length then
    some (memcpy_to_u32 o key off)
  else none

/-- The buffer `kk[32]` of `camellia_setup192`: `memcpy(kk, key, 24)` reads key bytes
`0 .. 23`, the two `memcpy` from the key read bytes `16 .. 23`, and the three `memcpy` into
`kk` fill bytes `0 .. 23`, `24 .. 27` and `28 .. 31` of its 32. -/
def setup192_kk_chk (o : ByteOrder) (key : List Nat) : Option (List Nat) :=
  andThen (if 24 ≤ key.length then some (key.take 24) else none) fun head =>
  andThen (memcpy_to_u32_chk o key 16) fun krll =>
  andThen (memcpy_to_u32_chk o key 20) fun krlr =>
  let krrl := NOT32 krll
  let krrr := NOT32 krlr
  let kk := head ++ memcpy_from_u32 o krrl ++ memcpy_from_u32 o krrr
  if kk.length = 32 then some kk else none

/-- Function `camellia_setup192(key, subkey)` with every access checked. -/
def camellia_setup192_chk (o : ByteOrder) (key : List Nat) (len : Nat) (subkey : Words) :
    Option Words :=
  andThen (setup192_kk_chk o key) fun kk =>
  camellia_setup256_chk kk len subkey

/-- `io[0] ^= CamelliaSubkeyL(i); io[1] ^= CamelliaSubkeyR(i);` with the table reads
checked. -/
def whiten01_chk (len : Nat) (subkey : Words) (i : Nat) (io : Quad) : Option Quad :=
  andThen (CamelliaSubkeyL_chk len subkey i) fun l =>
  andThen (CamelliaSubkeyR_chk len subkey i) fun r =>
  some { io with ll := io.ll ^^^ l, lr := io.lr ^^^ r }

/-- `io[2] ^= CamelliaSubkeyL(i); io[3] ^= CamelliaSubkeyR(i);` with the table reads
checked. -/
def whiten23_chk (len : Nat) (subkey : Words) (i : Nat) (io : Quad) : Option Quad :=
  andThen (CamelliaSubkeyL_chk len subkey i) fun l =>
  andThen (CamelliaSubkeyR_chk len subkey i) fun r =>
  some { io with rl := io.rl ^^^ l, rr := io.rr ^^^ r }

/-- The call of `CAMELLIA_ROUNDSM` on `io[0], io[1]` with subkey pair `i`, checked. -/
def round01_chk (len : Nat) (subkey : Words) (i : Nat) (io : Quad) : Option Quad :=
  andThen (CamelliaSubkeyL_chk len subkey i) fun l =>
  andThen (CamelliaSubkeyR_chk len subkey i) fun r =>
  andThen (CAMELLIA_ROUNDSM_chk io.ll io.lr l r io.rl io.rr) fun y =>
  some { io with rl := y.1, rr := y.2 }

/-- The call of `CAMELLIA_ROUNDSM` on `io[2], io[3]` with subkey pair `i`, checked. -/
def round23_chk (len : Nat) (subkey : Words) (i : Nat) (io : Quad) : Option Quad :=
  andThen (CamelliaSubkeyL_chk len subkey i) fun l =>
  andThen (CamelliaSubkeyR_chk len subkey i) fun r =>
  andThen (CAMELLIA_ROUNDSM_chk io.rl io.rr l r io.ll io.lr) fun y =>
  some { io with ll := y.1, lr := y.2 }

/-- The call of `CAMELLIA_FLS` with subkey pairs `i` and `j`, the table reads checked. -/
def fls_chk (len : Nat) (subkey : Words) (i j : Nat) (io : Quad) : Option Quad :=
  andThen (CamelliaSubkeyL_chk len subkey i) fun kll =>
  andThen (CamelliaSubkeyR_chk len subkey i) fun klr =>
  andThen (CamelliaSubkeyL_chk len subkey j) fun krl =>
  andThen (CamelliaSubkeyR_chk len subkey j) fun krr =>
  some (CAMELLIA_FLS io kll klr krl krr)

/-- Function `camellia_encrypt128(subkey, io)` with every access checked, for a key table of `len`
words. -/
def camellia_encrypt128_chk (len : Nat) (subkey : Words) (io : Quad) : Option Quad :=
  andThen (whiten01_chk len subkey 0 io) fun io =>
  andThen (round01_chk len subkey 2 io) fun io =>
  andThen (round23_chk len subkey 3 io) fun io =>
  andThen (round01_chk len subkey 4 io) fun io =>
  andThen (round23_chk len subkey 5 io) fun io =>
  andThen (round01_chk len subkey 6 io) fun io =>
  andThen (round23_chk len subkey 7 io) fun io =>
  andThen (fls_chk len subkey 8 9 io) fun io =>
  andThen (round01_chk len subkey 10 io) fun io =>
  andThen (round23_chk len subkey 11 io) fun io =>
  andThen (round01_chk len subkey 12 io) fun io =>
  andThen (round23_chk len subkey 13 io) fun io =>
  andThen (round01_chk len subkey 14 io) fun io =>
  andThen (round23_chk len subkey 15 io) fun io =>
  andThen (fls_chk len subkey 16 17 io) fun io =>
  andThen (round01_chk len subkey 18 io) fun io =>
  andThen (round23_chk len subkey 19 io) fun io =>
  andThen (round01_chk len subkey 20 io) fun io =>
  andThen (round23_chk len subkey 21 io) fun io =>
  andThen (round01_chk len subkey 22 io) fun io =>
  andThen (round23_chk len subkey 23 io) fun io =>
  andThen (whiten23_chk len subkey 24 io) fun io =>
  some (swapHalves io)

/-- Function `camellia_decrypt128(subkey, io)` with every access checked, for a key table of `len`
words. -/
def camellia_decrypt128_chk (len : Nat) (subkey : Words) (io : Quad) : Option Quad :=
  andThen (whiten01_chk len subkey 24 io) fun io =>
  andThen (round01_chk len subkey 23 io) fun io =>
  andThen (round23_chk len subkey 22 io) fun io =>
  andThen (round01_chk len subkey 21 io) fun io =>
  andThen (round23_chk len subkey 20 io) fun io =>
  andThen (round01_chk len subkey 19 io) fun io =>
  andThen (round23_chk len subkey 18 io) fun io =>
  andThen (fls_chk len subkey 17 16 io) fun io =>
  andThen (round01_chk len subkey 15 io) fun io =>
  andThen (round23_chk len subkey 14 io) fun io =>
  andThen (round01_chk len subkey 13 io) fun io =>
  andThen (round23_chk len subkey 12 io) fun io =>
  andThen (round01_chk len subkey 11 io) fun io =>
  andThen (round23_chk len subkey 10 io) fun io =>
  andThen (fls_chk len subkey 9 8 io) fun io =>
  andThen (round01_chk len subkey 7 io) fun io =>
  andThen (round23_chk len subkey 6 io) fun io =>
  andThen (round01_chk len subkey 5 io) fun io =>
  andThen (round23_chk len subkey 4 io) fun io =>
  andThen (round01_chk len subkey 3 io) fun io =>
  andThen (round23_chk len subkey 2 io) fun io =>
  andThen (whiten23_chk len subkey 0 io) fun io =>
  some (swapHalves io)

/-- Function `camellia_encrypt256(subkey, io)` with every access checked, for a key table of `len`
words. -/
def camellia_encrypt256_chk (len : Nat) (subkey : Words) (io : Quad) : Option Quad :=
  andThen (whiten01_chk len subkey 0 io) fun io =>
  andThen (round01_chk len subkey 2 io) fun io =>
  andThen (round23_chk len subkey 3 io) fun io =>
  andThen (round01_chk len subkey 4 io) fun io =>
  andThen (round23_chk len subkey 5 io) fun io =>
  andThen (round01_chk len subkey 6 io) fun io =>
  andThen (round23_chk len subkey 7 io) fun io =>
  andThen (fls_chk len subkey 8 9 io) fun io =>
  andThen (round01_chk len subkey 10 io) fun io =>
  andThen (round23_chk len subkey 11 io) fun io =>
  andThen (round01_chk len subkey 12 io) fun io =>
  andThen (round23_chk len subkey 13 io) fun io =>
  andThen (round01_chk len subkey 14 io) fun io =>
  andThen (round23_chk len subkey 15 io) fun io =>
  andThen (fls_chk len subkey 16 17 io) fun io =>
  andThen (round01_chk len subkey 18 io) fun io =>
  andThen (round23_chk len subkey 19 io) fun io =>
  andThen (round01_chk len subkey 20 io) fun io =>
  andThen (round23_chk len subkey 21 io) fun io =>
  andThen (round01_chk len subkey 22 io) fun io =>
  andThen (round23_chk len subkey 23 io) fun io =>
  andThen (fls_chk len subkey 24 25 io) fun io =>
  andThen (round01_chk len subkey 26 io) fun io =>
  andThen (round23_chk len subkey 27 io) fun io =>
  andThen (round01_chk len subkey 28 io) fun io =>
  andThen (round23_chk len subkey 29 io) fun io =>
  andThen (round01_chk len subkey 30 io) fun io =>
  andThen (round23_chk len subkey 31 io) fun io =>
  andThen (whiten23_chk len subkey 32 io) fun io =>
  some (swapHalves io)

/-- Function `camellia_decrypt256(subkey, io)` with every access checked, for a key table of `len`
words. -/
def camellia_decrypt256_chk (len : Nat) (subkey : Words) (io : Quad) : Option Quad :=
  andThen (whiten01_chk len subkey 32 io) fun io =>
  andThen (round01_chk len subkey 31 io) fun io =>
  andThen (round23_chk len subkey 30 io) fun io =>
  andThen (round01_chk len subkey 29 io) fun io =>
  andThen (round23_chk len subkey 28 io) fun io =>
  andThen (round01_chk len subkey 27 io) fun io =>
  andThen (round23_chk len subkey 26 io) fun io =>
  andThen (fls_chk len subkey 25 24 io) fun io =>
  andThen (round01_chk len subkey 23 io) fun io =>
  andThen (round23_chk len subkey 22 io) fun io =>
  andThen (round01_chk len subkey 21 io) fun io =>
  andThen (round23_chk len subkey 20 io) fun io =>
  andThen (round01_chk len subkey 19 io) fun io =>
  andThen (round23_chk len subkey 18 io) fun io =>
  andThen (fls_chk len subkey 17 16 io) fun io =>
  andThen (round01_chk len subkey 15 io) fun io =>
  andThen (round23_chk len subkey 14 io) fun io =>
  andThen (round01_chk len subkey 13 io) fun io =>
  andThen (round23_chk len subkey 12 io) fun io =>
  andThen (round01_chk len subkey 11 io) fun io =>
  andThen (round23_chk len subkey 10 io) fun io =>
  andThen (fls_chk len subkey 9 8 io) fun io =>
  andThen (round01_chk len subkey 7 io) fun io =>
  andThen (round23_chk len subkey 6 io) fun io =>
  andThen (round01_chk len subkey 5 io) fun io =>
  andThen (round23_chk len subkey 4 io) fun io =>
  andThen (round01_chk len subkey 3 io) fun io =>
  andThen (round23_chk len subkey 2 io) fun io =>
  andThen (whiten23_chk len subkey 0 io) fun io =>
  some (swapHalves io)

/-- Function `Camellia_Ekeygen` with every access checked, for a key table of `len`
words. -/
def Camellia_Ekeygen_chk (o : ByteOrder) (keyBitLength : Int) (rawKey : List Nat) (len : Nat)
    (keyTable : Words) : Option Words :=
  if keyBitLength = 128 then camellia_setup128_chk rawKey len keyTable
  else if keyBitLength = 192 then camellia_setup192_chk o rawKey len keyTable
  else if keyBitLength = 256 then camellia_setup256_chk rawKey len keyTable
  else some keyTable

/-- The four stores of `storeBlock`, checked. -/
def storeBlock_chk (dst : List Nat) (tmp : Quad) : Option (List Nat) :=
  andThen (PUTU32_chk dst 0 tmp.ll) fun dst =>
  andThen (PUTU32_chk dst 4 tmp.lr) fun dst =>
  andThen (PUTU32_chk dst 8 tmp.rl) fun dst =>
  PUTU32_chk dst 12 tmp.rr

/-- Function `Camellia_EncryptBlock` with every access checked, for a key table of
`len` words. -/
def Camellia_EncryptBlock_chk (keyBitLength : Int) (plaintext : List Nat) (len : Nat)
    (keyTable : Words) (ciphertext : List Nat) : Option (List Nat) :=
  andThen (loadQuad_chk plaintext 0) fun tmp =>
  andThen
    (if keyBitLength = 128 then camellia_encrypt128_chk len keyTable tmp
    else if keyBitLength = 192 ∨ keyBitLength = 256 then camellia_encrypt256_chk len keyTable tmp
    else some tmp) fun tmp =>
  storeBlock_chk ciphertext tmp

/-- Function `Camellia_DecryptBlock` with every access checked, for a key table of
`len` words. -/
def Camellia_DecryptBlock_chk (keyBitLength : Int) (ciphertext : List Nat) (len : Nat)
    (keyTable : Words) (plaintext : List Nat) : Option (List Nat) :=
  andThen (loadQuad_chk ciphertext 0) fun tmp =>
  andThen
    (if keyBitLength = 128 then camellia_decrypt128_chk len keyTable tmp
    else if keyBitLength = 192 ∨ keyBitLength = 256 then camellia_decrypt256_chk len keyTable tmp
    else some tmp) fun tmp =>
  storeBlock_chk plaintext tmp

/-! ## Reference notions for the claim about the 128-bit rotations -/

/-- The four big-endian 32-bit words of a 128-bit number `v`: `ll` holds bits 127..96,
`lr` bits 95..64, `rl` bits 63..32, `rr` bits 31..0. -/
def words128 (v : Nat) : Quad :=
  { ll := v / 2 ^ 96 % 2 ^ 32, lr := v / 2 ^ 64 % 2 ^ 32, rl := v / 2 ^ 32 % 2 ^ 32,
    rr := v % 2 ^ 32 }

/-! ## Words stay in range -/

theorem u32_W32 (x : Nat) : W32 (u32 x) := by
  unfold W32 u32; omega

theorem W32_xor {a b : Nat} (ha : W32 a) (hb : W32 b) : W32 (a ^^^ b) := by
  have h : (4294967296 : Nat) = 2 ^ 32 := by norm_num
  unfold W32 at *; rw [h] at *; exact Nat.xor_lt_two_pow ha hb

theorem W32_or {a b : Nat} (ha : W32 a) (hb : W32 b) : W32 (a ||| b) := by
  have h : (4294967296 : Nat) = 2 ^ 32 := by norm_num
  unfold W32 at *; rw [h] at *; exact Nat.or_lt_two_pow ha hb

theorem W32_and_right (a : Nat) {b : Nat} (hb : W32 b) : W32 (a &&& b) := by
  have h : (4294967296 : Nat) = 2 ^ 32 := by norm_num
  unfold W32 at *; rw [h] at *; exact Nat.and_lt_two_pow a hb

theorem W32_and_left {a : Nat} (b : Nat) (ha : W32 a) : W32 (a &&& b) := by
  rw [Nat.and_comm]; exact W32_and_right b ha

theorem W32_NOT32 {a : Nat} (ha : W32 a) : W32 (NOT32 a) :=
  W32_xor ha (by unfold W32; norm_num)

theorem W32_zero : W32 0 := by unfold W32; norm_num

theorem u32_of_W32 {x : Nat} (h : W32 x) : u32 x = x := by
  unfold W32 at h; unfold u32; omega

theorem W32_RR8 (x : Nat) : W32 (CAMELLIA_RR8 x) := u32_W32 _
theorem W32_RL1 (x : Nat) : W32 (CAMELLIA_RL1 x) := u32_W32 _
theorem W32_RL8 (x : Nat) : W32 (CAMELLIA_RL8 x) := u32_W32 _

theorem W32_GETU32 (buf : List Nat) (off : Nat) : W32 (GETU32 buf off) := by
  unfold GETU32
  exact W32_xor (W32_xor (W32_xor (u32_W32 _) (u32_W32 _)) (u32_W32 _)) (u32_W32 _)

theorem loadQuad_W32 (key : List Nat) (off : Nat) : (loadQuad key off).W32 :=
  ⟨W32_GETU32 _ _, W32_GETU32 _ _, W32_GETU32 _ _, W32_GETU32 _ _⟩

theorem ROLDQ_W32 (q : Quad) (bits : Nat) : (CAMELLIA_ROLDQ q bits).W32 :=
  ⟨u32_W32 _, u32_W32 _, u32_W32 _, u32_W32 _⟩

theorem ROLDQo32_W32 (q : Quad) (bits : Nat) : (CAMELLIA_ROLDQo32 q bits).W32 :=
  ⟨u32_W32 _, u32_W32 _, u32_W32 _, u32_W32 _⟩

/-- Reading a list of words below a bound, with default `0`, stays below it. -/
theorem getD_lt_of_all (l : List Nat) (n : Nat) (hn : 0 < n)
    (h : l.all (fun x => decide (x < n)) = true) (i : Nat) : l.getD i 0 < n := by
  rw [List.all_eq_true] at h
  rw [List.getD_eq_getElem?_getD]
  cases hi : l[i]? with
  | none => simpa using hn
  | some v =>
    have hm : v ∈ l := List.getElem?_mem hi
    simpa using h v hm

theorem W32_SP1110 (i : Nat) : W32 (CAMELLIA_SP1110 i) :=
  getD_lt_of_all camellia_sp1110 4294967296 (by norm_num) (by set_option maxRecDepth 100000 in decide) i

theorem W32_SP0222 (i : Nat) : W32 (CAMELLIA_SP0222 i) :=
  getD_lt_of_all camellia_sp0222 4294967296 (by norm_num) (by set_option maxRecDepth 100000 in decide) i

theorem W32_SP3033 (i : Nat) : W32 (CAMELLIA_SP3033 i) :=
  getD_lt_of_all camellia_sp3033 4294967296 (by norm_num) (by set_option maxRecDepth 100000 in decide) i

theorem W32_SP4404 (i : Nat) : W32 (CAMELLIA_SP4404 i) :=
  getD_lt_of_all camellia_sp4404 4294967296 (by norm_num) (by set_option maxRecDepth 100000 in decide) i

/-! ## The round macros keep words in range -/

theorem CAMELLIA_F_W32 (xl xr kl kr : Nat) :
    W32 (CAMELLIA_F xl xr kl kr).1 ∧ W32 (CAMELLIA_F xl xr kl kr).2 := by
  have h1 : ∀ a b c d, W32 (CAMELLIA_SP1110 a ^^^ CAMELLIA_SP0222 b ^^^ CAMELLIA_SP3033 c
      ^^^ CAMELLIA_SP4404 d) := fun a b c d =>
    W32_xor (W32_xor (W32_xor (W32_SP1110 a) (W32_SP0222 b)) (W32_SP3033 c)) (W32_SP4404 d)
  unfold CAMELLIA_F
  exact ⟨W32_xor (h1 _ _ _ _) (h1 _ _ _ _),
    W32_xor (W32_RR8 _) (W32_xor (h1 _ _ _ _) (h1 _ _ _ _))⟩

theorem CAMELLIA_ROUNDSM_W32 (xl xr : Nat) {kl kr yl yr : Nat}
    (hkl : W32 kl) (hkr : W32 kr) (hyl : W32 yl) (hyr : W32 yr) :
    W32 (CAMELLIA_ROUNDSM xl xr kl kr yl yr).1 ∧ W32 (CAMELLIA_ROUNDSM xl xr kl kr yl yr).2 := by
  have h1 : ∀ a b c d, W32 (CAMELLIA_SP1110 a ^^^ CAMELLIA_SP0222 b ^^^ CAMELLIA_SP3033 c
      ^^^ CAMELLIA_SP4404 d) := fun a b c d =>
    W32_xor (W32_xor (W32_xor (W32_SP1110 a) (W32_SP0222 b)) (W32_SP3033 c)) (W32_SP4404 d)
  unfold CAMELLIA_ROUNDSM
  have hir := W32_xor (W32_xor (h1 (xr &&& 0xff) ((xr >>> 24) &&& 0xff) ((xr >>> 16) &&& 0xff)
    ((xr >>> 8) &&& 0xff)) hkr) (W32_xor (h1 ((xl >>> 24) &&& 0xff) ((xl >>> 16) &&& 0xff)
    ((xl >>> 8) &&& 0xff) (xl &&& 0xff)) hkl)
  exact ⟨W32_xor hyl hir, W32_xor hyr (W32_xor (W32_RR8 _) hir)⟩

theorem CAMELLIA_FLS_W32 {q : Quad} (hq : q.W32) {kll klr krl krr : Nat}
    (h2 : W32 klr) (h4 : W32 krr) :
    (CAMELLIA_FLS q kll klr krl krr).W32 := by
  obtain ⟨a, b, c, d⟩ := hq
  unfold CAMELLIA_FLS
  have hb := W32_xor b (W32_RL1 (kll &&& q.ll))
  exact ⟨W32_xor a (W32_or h2 hb), hb, W32_xor c (W32_or h4 d), W32_xor d (W32_RL1 _)⟩

theorem whiten01_W32 {S : Words} {i : Nat} {io : Quad}
    (hk : W32 (CamelliaSubkeyL S i) ∧ W32 (CamelliaSubkeyR S i)) (hio : io.W32) :
    (whiten01 S i io).W32 :=
  ⟨W32_xor hio.1 hk.1, W32_xor hio.2.1 hk.2, hio.2.2.1, hio.2.2.2⟩

theorem whiten23_W32 {S : Words} {i : Nat} {io : Quad}
    (hk : W32 (CamelliaSubkeyL S i) ∧ W32 (CamelliaSubkeyR S i)) (hio : io.W32) :
    (whiten23 S i io).W32 :=
  ⟨hio.1, hio.2.1, W32_xor hio.2.2.1 hk.1, W32_xor hio.2.2.2 hk.2⟩

theorem round01_W32 {S : Words} {i : Nat} {io : Quad}
    (hk : W32 (CamelliaSubkeyL S i) ∧ W32 (CamelliaSubkeyR S i)) (hio : io.W32) :
    (round01 S i io).W32 :=
  have h := CAMELLIA_ROUNDSM_W32 io.ll io.lr hk.1 hk.2 hio.2.2.1 hio.2.2.2
  ⟨hio.1, hio.2.1, h.1, h.2⟩

theorem round23_W32 {S : Words} {i : Nat} {io : Quad}
    (hk : W32 (CamelliaSubkeyL S i) ∧ W32 (CamelliaSubkeyR S i)) (hio : io.W32) :
    (round23 S i io).W32 :=
  have h := CAMELLIA_ROUNDSM_W32 io.rl io.rr hk.1 hk.2 hio.1 hio.2.1
  ⟨h.1, h.2, hio.2.2.1, hio.2.2.2⟩

theorem fls_W32 {S : Words} {i j : Nat} {io : Quad}
    (hi : W32 (CamelliaSubkeyL S i) ∧ W32 (CamelliaSubkeyR S i))
    (hj : W32 (CamelliaSubkeyL S j) ∧ W32 (CamelliaSubkeyR S j)) (hio : io.W32) :
    (fls S i j io).W32 :=
  CAMELLIA_FLS_W32 hio hi.2 hj.2

theorem swapHalves_W32 {io : Quad} (hio : io.W32) : (swapHalves io).W32 :=
  ⟨hio.2.2.1, hio.2.2.2, hio.1, hio.2.1⟩

/-- Subkey pairs read by the 128-bit block transforms. -/
theorem camellia_encrypt128_W32 {S : Words} {io : Quad}
    (hS : PairsW32 [0, 2, 3, 4, 5, 6, 7, 8, 9, 10, 11, 12, 13, 14, 15, 16, 17, 18, 19, 20,
      21, 22, 23, 24] S) (hio : io.W32) : (camellia_encrypt128 S io).W32 := by
  have k : ∀ i, i ∈ [0, 2, 3, 4, 5, 6, 7, 8, 9, 10, 11, 12, 13, 14, 15, 16, 17, 18, 19, 20,
      21, 22, 23, 24] → W32 (CamelliaSubkeyL S i) ∧ W32 (CamelliaSubkeyR S i) := hS
  unfold camellia_encrypt128
  refine swapHalves_W32 (whiten23_W32 (k 24 (by decide)) ?_)
  refine round23_W32 (k 23 (by decide)) (round01_W32 (k 22 (by decide)) ?_)
  refine round23_W32 (k 21 (by decide)) (round01_W32 (k 20 (by decide)) ?_)
  refine round23_W32 (k 19 (by decide)) (round01_W32 (k 18 (by decide)) ?_)
  refine fls_W32 (k 16 (by decide)) (k 17 (by decide)) ?_
  refine round23_W32 (k 15 (by decide)) (round01_W32 (k 14 (by decide)) ?_)
  refine round23_W32 (k 13 (by decide)) (round01_W32 (k 12 (by decide)) ?_)
  refine round23_W32 (k 11 (by decide)) (round01_W32 (k 10 (by decide)) ?_)
  refine fls_W32 (k 8 (by decide)) (k 9 (by decide)) ?_
  refine round23_W32 (k 7 (by decide)) (round01_W32 (k 6 (by decide)) ?_)
  refine round23_W32 (k 5 (by decide)) (round01_W32 (k 4 (by decide)) ?_)
  refine round23_W32 (k 3 (by decide)) (round01_W32 (k 2 (by decide)) ?_)
  exact whiten01_W32 (k 0 (by decide)) hio

theorem camellia_encrypt256_W32 {S : Words} {io : Quad}
    (hS : PairsW32 [0, 2, 3, 4, 5, 6, 7, 8, 9, 10, 11, 12, 13, 14, 15, 16, 17, 18, 19, 20,
      21, 22, 23, 24, 25, 26, 27, 28, 29, 30, 31, 32] S) (hio : io.W32) :
    (camellia_encrypt256 S io).W32 := by
  have k : ∀ i, i ∈ [0, 2, 3, 4, 5, 6, 7, 8, 9, 10, 11, 12, 13, 14, 15, 16, 17, 18, 19, 20,
      21, 22, 23, 24, 25, 26, 27, 28, 29, 30, 31, 32] →
      W32 (CamelliaSubkeyL S i) ∧ W32 (CamelliaSubkeyR S i) := hS
  unfold camellia_encrypt256
  refine swapHalves_W32 (whiten23_W32 (k 32 (by decide)) ?_)
  refine round23_W32 (k 31 (by decide)) (round01_W32 (k 30 (by decide)) ?_)
  refine round23_W32 (k 29 (by decide)) (round01_W32 (k 28 (by decide)) ?_)
  refine round23_W32 (k 27 (by decide)) (round01_W32 (k 26 (by decide)) ?_)
  refine fls_W32 (k 24 (by decide)) (k 25 (by decide)) ?_
  refine round23_W32 (k 23 (by decide)) (round01_W32 (k 22 (by decide)) ?_)
  refine round23_W32 (k 21 (by decide)) (round01_W32 (k 20 (by decide)) ?_)
  refine round23_W32 (k 19 (by decide)) (round01_W32 (k 18 (by decide)) ?_)
  refine fls_W32 (k 16 (by decide)) (k 17 (by decide)) ?_
  refine round23_W32 (k 15 (by decide)) (round01_W32 (k 14 (by decide)) ?_)
  refine round23_W32 (k 13 (by decide)) (round01_W32 (k 12 (by decide)) ?_)
  refine round23_W32 (k 11 (by decide)) (round01_W32 (k 10 (by decide)) ?_)
  refine fls_W32 (k 8 (by decide)) (k 9 (by decide)) ?_
  refine round23_W32 (k 7 (by decide)) (round01_W32 (k 6 (by decide)) ?_)
  refine round23_W32 (k 5 (by decide)) (round01_W32 (k 4 (by decide)) ?_)
  refine round23_W32 (k 3 (by decide)) (round01_W32 (k 2 (by decide)) ?_)
  exact whiten01_W32 (k 0 (by decide)) hio

/-! ## The key schedules produce words in range -/

theorem Scratch.init_W32 : Scratch.init.W32 := fun _ => ⟨W32_zero, W32_zero⟩

theorem setL_W32 {s : Scratch} (hs : s.W32) (x : Nat) {l : Nat} (hl : W32 l) :
    (setL s x l).W32 := by
  intro i
  refine ⟨?_, (hs i).2⟩
  show W32 (if i = x then l else s.subL.word i)
  split
  · exact hl
  · exact (hs i).1

theorem setR_W32 {s : Scratch} (hs : s.W32) (x : Nat) {r : Nat} (hr : W32 r) :
    (setR s x r).W32 := by
  intro i
  refine ⟨(hs i).1, ?_⟩
  show W32 (if i = x then r else s.subR.word i)
  split
  · exact hr
  · exact (hs i).2

theorem setLR_W32 {s : Scratch} (hs : s.W32) (x : Nat) {l r : Nat} (hl : W32 l) (hr : W32 r) :
    (setLR s x l r).W32 :=
  setR_W32 (setL_W32 hs x hl) x hr

theorem put_ll_lr {s : Scratch} (hs : s.W32) (x : Nat) {q : Quad} (hq : q.W32) :
    (setLR s x q.ll q.lr).W32 :=
  setLR_W32 hs x hq.1 hq.2.1

theorem put_rl_rr {s : Scratch} (hs : s.W32) (x : Nat) {q : Quad} (hq : q.W32) :
    (setLR s x q.rl q.rr).W32 :=
  setLR_W32 hs x hq.2.2.1 hq.2.2.2

theorem xorLR_W32 {s : Scratch} (hs : s.W32) (x : Nat) {l r : Nat} (hl : W32 l) (hr : W32 r) :
    (xorLR s x l r).W32 :=
  setR_W32 (setL_W32 hs x (W32_xor (hs x).1 hl)) x (W32_xor (hs x).2 hr)

theorem kw2_xor_W32 {s : Scratch} (hs : s.W32) (x : Nat) : (kw2_xor s x).W32 :=
  xorLR_W32 hs x (hs 1).1 (hs 1).2

theorem kw2_step_W32 {s : Scratch} (hs : s.W32) (x : Nat) : (kw2_step s x).W32 := by
  unfold kw2_step
  exact setR_W32 (setL_W32 hs 1 (W32_xor (hs 1).1 (W32_and_left _ (hs 1).2))) 1
    (W32_xor (hs 1).2 (W32_RL1 _))

theorem kw4_xor_W32 {s : Scratch} (hs : s.W32) {kw4 : Nat × Nat} (h : W32 kw4.1 ∧ W32 kw4.2)
    (x : Nat) : (kw4_xor s kw4 x).W32 :=
  xorLR_W32 hs x h.1 h.2

theorem kw4_step_W32 (s : Scratch) {kw4 : Nat × Nat} (h : W32 kw4.1 ∧ W32 kw4.2) (x : Nat) :
    W32 (kw4_step s kw4 x).1 ∧ W32 (kw4_step s kw4 x).2 :=
  ⟨W32_xor h.1 (W32_and_left _ h.2), W32_xor h.2 (W32_RL1 _)⟩

theorem fl_fold_W32 {s : Scratch} (hs : s.W32) (a x : Nat) :
    W32 (fl_fold s a x).1 ∧ W32 (fl_fold s a x).2 :=
  ⟨W32_xor (hs a).1 (W32_and_left _ (hs a).2), W32_xor (hs a).2 (W32_RL1 _)⟩

theorem setup128_KA_W32 (s : Scratch) : (setup128_KA s).W32 :=
  ⟨W32_xor (CAMELLIA_F_W32 _ _ _ _).1 (CAMELLIA_F_W32 _ _ _ _).1,
    W32_xor (CAMELLIA_F_W32 _ _ _ _).2 (CAMELLIA_F_W32 _ _ _ _).2,
    W32_xor (CAMELLIA_F_W32 _ _ _ _).1 (CAMELLIA_F_W32 _ _ _ _).1,
    W32_xor (CAMELLIA_F_W32 _ _ _ _).2 (CAMELLIA_F_W32 _ _ _ _).2⟩

theorem setup256_KA_W32 (s : Scratch) {kr : Quad} (hkr : kr.W32) : (setup256_KA s kr).W32 :=
  ⟨W32_xor (W32_xor (CAMELLIA_F_W32 _ _ _ _).1 hkr.1) (CAMELLIA_F_W32 _ _ _ _).1,
    W32_xor (W32_xor (CAMELLIA_F_W32 _ _ _ _).2 hkr.2.1) (CAMELLIA_F_W32 _ _ _ _).2,
    W32_xor (CAMELLIA_F_W32 _ _ _ _).1 (W32_xor (CAMELLIA_F_W32 _ _ _ _).1 hkr.2.2.1),
    W32_xor (CAMELLIA_F_W32 _ _ _ _).2 (W32_xor (CAMELLIA_F_W32 _ _ _ _).2 hkr.2.2.2)⟩

theorem setup256_KB_W32 {k : Quad} (hk : k.W32) {kr : Quad} (hkr : kr.W32) :
    (setup256_KB k kr).W32 :=
  ⟨W32_xor (W32_xor hkr.1 hk.1) (CAMELLIA_F_W32 _ _ _ _).1,
    W32_xor (W32_xor hkr.2.1 hk.2.1) (CAMELLIA_F_W32 _ _ _ _).2,
    W32_xor (W32_xor hkr.2.2.1 hk.2.2.1) (CAMELLIA_F_W32 _ _ _ _).1,
    W32_xor (W32_xor hkr.2.2.2 hk.2.2.2) (CAMELLIA_F_W32 _ _ _ _).2⟩

theorem setSubkey_Pairs {P : List Nat} {subkey : Words} (h : PairsW32 P subkey) (i : Nat)
    {l r : Nat} (hl : W32 l) (hr : W32 r) : PairsW32 (i :: P) (setSubkey subkey i l r) := by
  intro j hj
  by_cases hji : j = i
  · subst hji
    constructor
    · show W32 (if j * 2 = j * 2 + 1 then r else if j * 2 = j * 2 then l else _)
      rw [if_neg (by omega), if_pos rfl]; exact hl
    · show W32 (if j * 2 + 1 = j * 2 + 1 then r else _)
      rw [if_pos rfl]; exact hr
  · have hjP : j ∈ P := by
      rcases List.mem_cons.mp hj with h1 | h1
      · exact absurd h1 hji
      · exact h1
    constructor
    · show W32 (if j * 2 = i * 2 + 1 then r else if j * 2 = i * 2 then l else subkey.word (j * 2))
      rw [if_neg (by omega), if_neg (by omega)]; exact (h j hjP).1
    · show W32 (if j * 2 + 1 = i * 2 + 1 then r else
        if j * 2 + 1 = i * 2 then l else subkey.word (j * 2 + 1))
      rw [if_neg (by omega), if_neg (by omega)]; exact (h j hjP).2

theorem invP_step_Pairs {P : List Nat} {subkey : Words} (h : PairsW32 P subkey) (i : Nat) :
    PairsW32 P (invP_step subkey i) := by
  intro j hj
  by_cases hji : j = i
  · subst hji
    constructor
    · show W32 (if j * 2 = j * 2 then _ else _)
      rw [if_pos rfl]; exact W32_RL8 _
    · show W32 (if j * 2 + 1 = j * 2 then _ else if j * 2 + 1 = j * 2 + 1 then
        CamelliaSubkeyL subkey j ^^^ _ else _)
      rw [if_neg (by omega), if_pos rfl]; exact W32_xor (h j hj).1 (W32_RL8 _)
  · constructor
    · show W32 (if j * 2 = i * 2 then _ else if j * 2 = i * 2 + 1 then _ else
        subkey.word (j * 2))
      rw [if_neg (by omega), if_neg (by omega)]; exact (h j hj).1
    · show W32 (if j * 2 + 1 = i * 2 then _ else if j * 2 + 1 = i * 2 + 1 then _ else
        subkey.word (j * 2 + 1))
      rw [if_neg (by omega), if_neg (by omega)]; exact (h j hj).2

theorem foldl_invP_step_Pairs {P : List Nat} (is : List Nat) {subkey : Words}
    (h : PairsW32 P subkey) : PairsW32 P (is.foldl invP_step subkey) := by
  induction is generalizing subkey with
  | nil => exact h
  | cons i is ih => exact ih (invP_step_Pairs h i)

theorem setup128_KL_W32 {k : Quad} (hk : k.W32) {s : Scratch} (hs : s.W32) :
    (setup128_KL k s).W32 := by
  unfold setup128_KL
  refine put_rl_rr ?_ 23 (ROLDQ_W32 _ 17)
  refine put_ll_lr ?_ 22 (ROLDQ_W32 _ 17)
  refine put_rl_rr ?_ 19 (ROLDQ_W32 _ 17)
  refine put_ll_lr ?_ 18 (ROLDQ_W32 _ 17)
  refine put_rl_rr ?_ 17 (ROLDQ_W32 _ 17)
  refine put_ll_lr ?_ 16 (ROLDQ_W32 _ 17)
  refine put_rl_rr ?_ 13 (ROLDQ_W32 _ 15)
  refine put_rl_rr ?_ 11 (ROLDQ_W32 _ 30)
  refine put_ll_lr ?_ 10 (ROLDQ_W32 _ 30)
  refine put_rl_rr ?_ 5 (ROLDQ_W32 _ 15)
  refine put_ll_lr ?_ 4 (ROLDQ_W32 _ 15)
  refine put_rl_rr ?_ 1 hk
  refine put_ll_lr ?_ 0 hk
  exact hs

theorem setup128_KAsub_W32 {k : Quad} (hk : k.W32) {s : Scratch} (hs : s.W32) :
    (setup128_KAsub k s).W32 := by
  unfold setup128_KAsub
  refine put_rl_rr ?_ 25 (ROLDQ_W32 _ 17)
  refine put_ll_lr ?_ 24 (ROLDQ_W32 _ 17)
  refine put_rl_rr ?_ 21 (ROLDQo32_W32 _ 34)
  refine put_ll_lr ?_ 20 (ROLDQo32_W32 _ 34)
  refine put_rl_rr ?_ 15 (ROLDQ_W32 _ 15)
  refine put_ll_lr ?_ 14 (ROLDQ_W32 _ 15)
  refine put_ll_lr ?_ 12 (ROLDQ_W32 _ 15)
  refine put_rl_rr ?_ 9 (ROLDQ_W32 _ 15)
  refine put_ll_lr ?_ 8 (ROLDQ_W32 _ 15)
  refine put_rl_rr ?_ 7 (ROLDQ_W32 _ 15)
  refine put_ll_lr ?_ 6 (ROLDQ_W32 _ 15)
  refine put_rl_rr ?_ 3 hk
  refine put_ll_lr ?_ 2 hk
  exact hs

theorem setup256_KL_W32 {k : Quad} (hk : k.W32) {s : Scratch} (hs : s.W32) :
    (setup256_KL k s).W32 := by
  unfold setup256_KL
  refine put_rl_rr ?_ 31 (ROLDQo32_W32 _ 34)
  refine put_ll_lr ?_ 30 (ROLDQo32_W32 _ 34)
  refine put_rl_rr ?_ 23 (ROLDQ_W32 _ 17)
  refine put_ll_lr ?_ 22 (ROLDQ_W32 _ 17)
  refine put_rl_rr ?_ 17 (ROLDQ_W32 _ 15)
  refine put_ll_lr ?_ 16 (ROLDQ_W32 _ 15)
  refine put_rl_rr ?_ 13 (ROLDQo32_W32 _ 45)
  refine put_ll_lr ?_ 12 (ROLDQo32_W32 _ 45)
  refine put_rl_rr ?_ 1 hk
  refine put_ll_lr ?_ 0 hk
  exact hs

theorem setup256_KAsub_W32 (k : Quad) {s : Scratch} (hs : s.W32) :
    (setup256_KAsub k s).W32 := by
  unfold setup256_KAsub
  refine put_rl_rr ?_ 29 (ROLDQo32_W32 _ 49)
  refine put_ll_lr ?_ 28 (ROLDQo32_W32 _ 49)
  refine setLR_W32 ?_ 25 (ROLDQ_W32 _ 30).2.2.2 (ROLDQ_W32 _ 30).1
  refine setLR_W32 ?_ 24 (ROLDQ_W32 _ 30).2.1 (ROLDQ_W32 _ 30).2.2.1
  refine put_rl_rr ?_ 15 (ROLDQ_W32 _ 30)
  refine put_ll_lr ?_ 14 (ROLDQ_W32 _ 30)
  refine put_rl_rr ?_ 7 (ROLDQ_W32 _ 15)
  refine put_ll_lr ?_ 6 (ROLDQ_W32 _ 15)
  exact hs

theorem setup256_KBsub_W32 {kr : Quad} (hk : kr.W32) {s : Scratch} (hs : s.W32) :
    (setup256_KBsub kr s).W32 := by
  unfold setup256_KBsub
  refine put_rl_rr ?_ 33 (ROLDQo32_W32 _ 51)
  refine put_ll_lr ?_ 32 (ROLDQo32_W32 _ 51)
  refine put_rl_rr ?_ 21 (ROLDQ_W32 _ 30)
  refine put_ll_lr ?_ 20 (ROLDQ_W32 _ 30)
  refine put_rl_rr ?_ 11 (ROLDQ_W32 _ 30)
  refine put_ll_lr ?_ 10 (ROLDQ_W32 _ 30)
  refine put_rl_rr ?_ 3 hk
  refine put_ll_lr ?_ 2 hk
  exact hs

theorem setup256_KR_W32 (kr : Quad) {s : Scratch} (hs : s.W32) :
    (setup256_KR kr s).1.W32 ∧ (setup256_KR kr s).2.W32 := by
  unfold setup256_KR
  refine ⟨?_, ROLDQo32_W32 _ 34⟩
  refine put_rl_rr ?_ 27 (ROLDQo32_W32 _ 34)
  refine put_ll_lr ?_ 26 (ROLDQo32_W32 _ 34)
  refine put_rl_rr ?_ 19 (ROLDQ_W32 _ 30)
  refine put_ll_lr ?_ 18 (ROLDQ_W32 _ 30)
  refine put_rl_rr ?_ 9 (ROLDQ_W32 _ 15)
  refine put_ll_lr ?_ 8 (ROLDQ_W32 _ 15)
  refine put_rl_rr ?_ 5 (ROLDQ_W32 _ 15)
  refine put_ll_lr ?_ 4 (ROLDQ_W32 _ 15)
  exact hs

theorem setup128_kw2_W32 {s : Scratch} (hs : s.W32) : (setup128_kw2 s).W32 := by
  unfold setup128_kw2
  refine kw2_xor_W32 ?_ 24
  refine kw2_xor_W32 ?_ 23
  refine kw2_xor_W32 ?_ 21
  refine kw2_xor_W32 ?_ 19
  refine kw2_step_W32 ?_ 17
  refine kw2_xor_W32 ?_ 15
  refine kw2_xor_W32 ?_ 13
  refine kw2_xor_W32 ?_ 11
  refine kw2_step_W32 ?_ 9
  refine kw2_xor_W32 ?_ 7
  refine kw2_xor_W32 ?_ 5
  refine kw2_xor_W32 ?_ 3
  exact hs

theorem setup128_kw4_W32 {s : Scratch} (hs : s.W32) : (setup128_kw4 s).W32 := by
  unfold setup128_kw4
  refine kw4_xor_W32 ?_ (kw4_step_W32 _ (kw4_step_W32 _ (hs 25) 16) 8) 0
  refine kw4_xor_W32 ?_ (kw4_step_W32 _ (kw4_step_W32 _ (hs 25) 16) 8) 2
  refine kw4_xor_W32 ?_ (kw4_step_W32 _ (kw4_step_W32 _ (hs 25) 16) 8) 4
  refine kw4_xor_W32 ?_ (kw4_step_W32 _ (kw4_step_W32 _ (hs 25) 16) 8) 6
  refine kw4_xor_W32 ?_ (kw4_step_W32 _ (hs 25) 16) 10
  refine kw4_xor_W32 ?_ (kw4_step_W32 _ (hs 25) 16) 12
  refine kw4_xor_W32 ?_ (kw4_step_W32 _ (hs 25) 16) 14
  refine kw4_xor_W32 ?_ (hs 25) 18
  refine kw4_xor_W32 ?_ (hs 25) 20
  refine kw4_xor_W32 ?_ (hs 25) 22
  exact hs

theorem setup256_kw2_W32 {s : Scratch} (hs : s.W32) : (setup256_kw2 s).W32 := by
  unfold setup256_kw2
  refine kw2_xor_W32 ?_ 32
  refine kw2_xor_W32 ?_ 31
  refine kw2_xor_W32 ?_ 29
  refine kw2_xor_W32 ?_ 27
  refine kw2_step_W32 ?_ 25
  refine kw2_xor_W32 ?_ 23
  refine kw2_xor_W32 ?_ 21
  refine kw2_xor_W32 ?_ 19
  refine kw2_step_W32 ?_ 17
  refine kw2_xor_W32 ?_ 15
  refine kw2_xor_W32 ?_ 13
  refine kw2_xor_W32 ?_ 11
  refine kw2_step_W32 ?_ 9
  refine kw2_xor_W32 ?_ 7
  refine kw2_xor_W32 ?_ 5
  refine kw2_xor_W32 ?_ 3
  exact hs

theorem setup256_kw4_W32 {s : Scratch} (hs : s.W32) : (setup256_kw4 s).W32 := by
  unfold setup256_kw4
  refine kw4_xor_W32 ?_ (kw4_step_W32 _ (kw4_step_W32 _ (kw4_step_W32 _ (hs 33) 24) 16) 8) 0
  refine kw4_xor_W32 ?_ (kw4_step_W32 _ (kw4_step_W32 _ (kw4_step_W32 _ (hs 33) 24) 16) 8) 2
  refine kw4_xor_W32 ?_ (kw4_step_W32 _ (kw4_step_W32 _ (kw4_step_W32 _ (hs 33) 24) 16) 8) 4
  refine kw4_xor_W32 ?_ (kw4_step_W32 _ (kw4_step_W32 _ (kw4_step_W32 _ (hs 33) 24) 16) 8) 6
  refine kw4_xor_W32 ?_ (kw4_step_W32 _ (kw4_step_W32 _ (hs 33) 24) 16) 10
  refine kw4_xor_W32 ?_ (kw4_step_W32 _ (kw4_step_W32 _ (hs 33) 24) 16) 12
  refine kw4_xor_W32 ?_ (kw4_step_W32 _ (kw4_step_W32 _ (hs 33) 24) 16) 14
  refine kw4_xor_W32 ?_ (kw4_step_W32 _ (hs 33) 24) 18
  refine kw4_xor_W32 ?_ (kw4_step_W32 _ (hs 33) 24) 20
  refine kw4_xor_W32 ?_ (kw4_step_W32 _ (hs 33) 24) 22
  refine kw4_xor_W32 ?_ (hs 33) 26
  refine kw4_xor_W32 ?_ (hs 33) 28
  refine kw4_xor_W32 ?_ (hs 33) 30
  exact hs

theorem setup128_emit_Pairs {s : Scratch} (hs : s.W32) (subkey : Words) :
    PairsW32 [24, 23, 22, 21, 20, 19, 18, 17, 16, 15, 14, 13, 12, 11, 10, 9,
      8, 7, 6, 5, 4, 3, 2, 0]
      (setup128_emit s subkey) := by
  unfold setup128_emit
  refine setSubkey_Pairs ?_ 24 (W32_xor (hs 24).1 (hs 23).1)
    (W32_xor (hs 24).2 (hs 23).2)
  refine setSubkey_Pairs ?_ 23 (hs 22).1
    (hs 22).2
  refine setSubkey_Pairs ?_ 22 (W32_xor (hs 21).1 (hs 23).1)
    (W32_xor (hs 21).2 (hs 23).2)
  refine setSubkey_Pairs ?_ 21 (W32_xor (hs 20).1 (hs 22).1)
    (W32_xor (hs 20).2 (hs 22).2)
  refine setSubkey_Pairs ?_ 20 (W32_xor (hs 19).1 (hs 21).1)
    (W32_xor (hs 19).2 (hs 21).2)
  refine setSubkey_Pairs ?_ 19 (W32_xor (hs 18).1 (hs 20).1)
    (W32_xor (hs 18).2 (hs 20).2)
  refine setSubkey_Pairs ?_ 18 (W32_xor (fl_fold_W32 hs 15 17).1 (hs 19).1)
    (W32_xor (fl_fold_W32 hs 15 17).2 (hs 19).2)
  refine setSubkey_Pairs ?_ 17 (hs 17).1
    (hs 17).2
  refine setSubkey_Pairs ?_ 16 (hs 16).1
    (hs 16).2
  refine setSubkey_Pairs ?_ 15 (W32_xor (hs 14).1 (fl_fold_W32 hs 18 16).1)
    (W32_xor (hs 14).2 (fl_fold_W32 hs 18 16).2)
  refine setSubkey_Pairs ?_ 14 (W32_xor (hs 13).1 (hs 15).1)
    (W32_xor (hs 13).2 (hs 15).2)
  refine setSubkey_Pairs ?_ 13 (W32_xor (hs 12).1 (hs 14).1)
    (W32_xor (hs 12).2 (hs 14).2)
  refine setSubkey_Pairs ?_ 12 (W32_xor (hs 11).1 (hs 13).1)
    (W32_xor (hs 11).2 (hs 13).2)
  refine setSubkey_Pairs ?_ 11 (W32_xor (hs 10).1 (hs 12).1)
    (W32_xor (hs 10).2 (hs 12).2)
  refine setSubkey_Pairs ?_ 10 (W32_xor (fl_fold_W32 hs 7 9).1 (hs 11).1)
    (W32_xor (fl_fold_W32 hs 7 9).2 (hs 11).2)
  refine setSubkey_Pairs ?_ 9 (hs 9).1
    (hs 9).2
  refine setSubkey_Pairs ?_ 8 (hs 8).1
    (hs 8).2
  refine setSubkey_Pairs ?_ 7 (W32_xor (hs 6).1 (fl_fold_W32 hs 10 8).1)
    (W32_xor (hs 6).2 (fl_fold_W32 hs 10 8).2)
  refine setSubkey_Pairs ?_ 6 (W32_xor (hs 5).1 (hs 7).1)
    (W32_xor (hs 5).2 (hs 7).2)
  refine setSubkey_Pairs ?_ 5 (W32_xor (hs 4).1 (hs 6).1)
    (W32_xor (hs 4).2 (hs 6).2)
  refine setSubkey_Pairs ?_ 4 (W32_xor (hs 3).1 (hs 5).1)
    (W32_xor (hs 3).2 (hs 5).2)
  refine setSubkey_Pairs ?_ 3 (W32_xor (hs 2).1 (hs 4).1)
    (W32_xor (hs 2).2 (hs 4).2)
  refine setSubkey_Pairs ?_ 2 (hs 3).1
    (hs 3).2
  refine setSubkey_Pairs ?_ 0 (W32_xor (hs 0).1 (hs 2).1)
    (W32_xor (hs 0).2 (hs 2).2)
  exact fun _ h => absurd h (List.not_mem_nil _)

theorem setup256_emit_Pairs {s : Scratch} (hs : s.W32) (subkey : Words) :
    PairsW32 [32, 31, 30, 29, 28, 27, 26, 25, 24, 23, 22, 21, 20, 19, 18, 17,
      16, 15, 14, 13, 12, 11, 10, 9, 8, 7, 6, 5, 4, 3, 2, 0]
      (setup256_emit s subkey) := by
  unfold setup256_emit
  refine setSubkey_Pairs ?_ 32 (W32_xor (hs 32).1 (hs 31).1)
    (W32_xor (hs 32).2 (hs 31).2)
  refine setSubkey_Pairs ?_ 31 (hs 30).1
    (hs 30).2
  refine setSubkey_Pairs ?_ 30 (W32_xor (hs 29).1 (hs 31).1)
    (W32_xor (hs 29).2 (hs 31).2)
  refine setSubkey_Pairs ?_ 29 (W32_xor (hs 28).1 (hs 30).1)
    (W32_xor (hs 28).2 (hs 30).2)
  refine setSubkey_Pairs ?_ 28 (W32_xor (hs 27).1 (hs 29).1)
    (W32_xor (hs 27).2 (hs 29).2)
  refine setSubkey_Pairs ?_ 27 (W32_xor (hs 26).1 (hs 28).1)
    (W32_xor (hs 26).2 (hs 28).2)
  refine setSubkey_Pairs ?_ 26 (W32_xor (fl_fold_W32 hs 23 25).1 (hs 27).1)
    (W32_xor (fl_fold_W32 hs 23 25).2 (hs 27).2)
  refine setSubkey_Pairs ?_ 25 (hs 25).1
    (hs 25).2
  refine setSubkey_Pairs ?_ 24 (hs 24).1
    (hs 24).2
  refine setSubkey_Pairs ?_ 23 (W32_xor (hs 22).1 (fl_fold_W32 hs 26 24).1)
    (W32_xor (hs 22).2 (fl_fold_W32 hs 26 24).2)
  refine setSubkey_Pairs ?_ 22 (W32_xor (hs 21).1 (hs 23).1)
    (W32_xor (hs 21).2 (hs 23).2)
  refine setSubkey_Pairs ?_ 21 (W32_xor (hs 20).1 (hs 22).1)
    (W32_xor (hs 20).2 (hs 22).2)
  refine setSubkey_Pairs ?_ 20 (W32_xor (hs 19).1 (hs 21).1)
    (W32_xor (hs 19).2 (hs 21).2)
  refine setSubkey_Pairs ?_ 19 (W32_xor (hs 18).1 (hs 20).1)
    (W32_xor (hs 18).2 (hs 20).2)
  refine setSubkey_Pairs ?_ 18 (W32_xor (fl_fold_W32 hs 15 17).1 (hs 19).1)
    (W32_xor (fl_fold_W32 hs 15 17).2 (hs 19).2)
  refine setSubkey_Pairs ?_ 17 (hs 17).1
    (hs 17).2
  refine setSubkey_Pairs ?_ 16 (hs 16).1
    (hs 16).2
  refine setSubkey_Pairs ?_ 15 (W32_xor (hs 14).1 (fl_fold_W32 hs 18 16).1)
    (W32_xor (hs 14).2 (fl_fold_W32 hs 18 16).2)
  refine setSubkey_Pairs ?_ 14 (W32_xor (hs 13).1 (hs 15).1)
    (W32_xor (hs 13).2 (hs 15).2)
  refine setSubkey_Pairs ?_ 13 (W32_xor (hs 12).1 (hs 14).1)
    (W32_xor (hs 12).2 (hs 14).2)
  refine setSubkey_Pairs ?_ 12 (W32_xor (hs 11).1 (hs 13).1)
    (W32_xor (hs 11).2 (hs 13).2)
  refine setSubkey_Pairs ?_ 11 (W32_xor (hs 10).1 (hs 12).1)
    (W32_xor (hs 10).2 (hs 12).2)
  refine setSubkey_Pairs ?_ 10 (W32_xor (fl_fold_W32 hs 7 9).1 (hs 11).1)
    (W32_xor (fl_fold_W32 hs 7 9).2 (hs 11).2)
  refine setSubkey_Pairs ?_ 9 (hs 9).1
    (hs 9).2
  refine setSubkey_Pairs ?_ 8 (hs 8).1
    (hs 8).2
  refine setSubkey_Pairs ?_ 7 (W32_xor (hs 6).1 (fl_fold_W32 hs 10 8).1)
    (W32_xor (hs 6).2 (fl_fold_W32 hs 10 8).2)
  refine setSubkey_Pairs ?_ 6 (W32_xor (hs 5).1 (hs 7).1)
    (W32_xor (hs 5).2 (hs 7).2)
  refine setSubkey_Pairs ?_ 5 (W32_xor (hs 4).1 (hs 6).1)
    (W32_xor (hs 4).2 (hs 6).2)
  refine setSubkey_Pairs ?_ 4 (W32_xor (hs 3).1 (hs 5).1)
    (W32_xor (hs 3).2 (hs 5).2)
  refine setSubkey_Pairs ?_ 3 (W32_xor (hs 2).1 (hs 4).1)
    (W32_xor (hs 2).2 (hs 4).2)
  refine setSubkey_Pairs ?_ 2 (hs 3).1
    (hs 3).2
  refine setSubkey_Pairs ?_ 0 (W32_xor (hs 0).1 (hs 2).1)
    (W32_xor (hs 0).2 (hs 2).2)
  exact fun _ h => absurd h (List.not_mem_nil _)

/-- Every subkey pair that `camellia_setup128` writes holds two words in range,
whatever the key bytes and the table held before. -/
theorem camellia_setup128_Pairs (key : List Nat) (subkey : Words) :
    PairsW32 [24, 23, 22, 21, 20, 19, 18, 17, 16, 15, 14, 13, 12, 11, 10, 9,
      8, 7, 6, 5, 4, 3, 2, 0]
      (camellia_setup128 key subkey) := by
  unfold camellia_setup128
  have hk := loadQuad_W32 key 0
  have h1 := setup128_KL_W32 hk Scratch.init_W32
  have h2 := setup128_KAsub_W32 (setup128_KA_W32 (setup128_KL (loadQuad key 0) Scratch.init)) h1
  exact foldl_invP_step_Pairs _ (setup128_emit_Pairs (setup128_kw4_W32 (setup128_kw2_W32 h2)) _)

/-- Every subkey pair that `camellia_setup256` writes holds two words in range,
whatever the key bytes and the table held before. -/
theorem camellia_setup256_Pairs (key : List Nat) (subkey : Words) :
    PairsW32 [32, 31, 30, 29, 28, 27, 26, 25, 24, 23, 22, 21, 20, 19, 18, 17,
      16, 15, 14, 13, 12, 11, 10, 9, 8, 7, 6, 5, 4, 3, 2, 0]
      (camellia_setup256 key subkey) := by
  unfold camellia_setup256
  have hk := loadQuad_W32 key 0
  have h1 := setup256_KL_W32 hk Scratch.init_W32
  have h2 := setup256_KR_W32 (loadQuad key 16) h1
  have ha := setup256_KA_W32 (setup256_KR (loadQuad key 16)
    (setup256_KL (loadQuad key 0) Scratch.init)).1 h2.2
  have hb := setup256_KB_W32 ha h2.2
  exact foldl_invP_step_Pairs _ (setup256_emit_Pairs (setup256_kw4_W32 (setup256_kw2_W32
    (setup256_KBsub_W32 hb (setup256_KAsub_W32 _ h2.1)))) _)

theorem PairsW32.mono {P Q : List Nat} {subkey : Words} (h : PairsW32 P subkey)
    (hQ : ∀ i ∈ Q, i ∈ P) : PairsW32 Q subkey :=
  fun i hi => h i (hQ i hi)

/-! ## Decryption undoes encryption, step by step -/

/-- `CAMELLIA_ROUNDSM` XORs into `(yl, yr)` a pair that depends on `xl, xr, kl, kr`
only. -/
theorem CAMELLIA_ROUNDSM_eq_xor (xl xr kl kr yl yr : Nat) :
    CAMELLIA_ROUNDSM xl xr kl kr yl yr
      = (yl ^^^ (CAMELLIA_ROUNDSM xl xr kl kr 0 0).1, yr ^^^ (CAMELLIA_ROUNDSM xl xr kl kr 0 0).2) := by
  simp only [CAMELLIA_ROUNDSM, Nat.zero_xor]

theorem CAMELLIA_ROUNDSM_twice (xl xr kl kr yl yr : Nat) :
    CAMELLIA_ROUNDSM xl xr kl kr (CAMELLIA_ROUNDSM xl xr kl kr yl yr).1
      (CAMELLIA_ROUNDSM xl xr kl kr yl yr).2 = (yl, yr) := by
  rw [CAMELLIA_ROUNDSM_eq_xor xl xr kl kr yl yr, CAMELLIA_ROUNDSM_eq_xor xl xr kl kr (_ ^^^ _)]
  simp only [Nat.xor_cancel_right]

theorem whiten01_swap_whiten23 (S : Words) (i : Nat) (io : Quad) :
    whiten01 S i (swapHalves (whiten23 S i io)) = swapHalves io := by
  simp only [whiten01, whiten23, swapHalves, Nat.xor_cancel_right]

theorem round01_swap_round23 (S : Words) (i : Nat) (io : Quad) :
    round01 S i (swapHalves (round23 S i io)) = swapHalves io := by
  simp only [round01, round23, swapHalves, CAMELLIA_ROUNDSM_twice]

theorem round23_swap_round01 (S : Words) (i : Nat) (io : Quad) :
    round23 S i (swapHalves (round01 S i io)) = swapHalves io := by
  simp only [round01, round23, swapHalves, CAMELLIA_ROUNDSM_twice]

theorem fls_swap_fls (S : Words) (i j : Nat) (io : Quad) :
    fls S j i (swapHalves (fls S i j io)) = swapHalves io := by
  simp only [fls, swapHalves, CAMELLIA_FLS, Nat.xor_cancel_right]

theorem swap_whiten23_swap_whiten01 (S : Words) (i : Nat) (io : Quad) :
    swapHalves (whiten23 S i (swapHalves (whiten01 S i io))) = io := by
  simp only [whiten01, whiten23, swapHalves, Nat.xor_cancel_right]

/-- For every subkey table, `camellia_decrypt128` undoes `camellia_encrypt128`. -/
theorem camellia_decrypt128_encrypt128 (S : Words) (io : Quad) :
    camellia_decrypt128 S (camellia_encrypt128 S io) = io := by
  simp only [camellia_decrypt128, camellia_encrypt128, whiten01_swap_whiten23,
    round01_swap_round23, round23_swap_round01, fls_swap_fls, swap_whiten23_swap_whiten01]

/-- For every subkey table, `camellia_decrypt256` undoes `camellia_encrypt256`. -/
theorem camellia_decrypt256_encrypt256 (S : Words) (io : Quad) :
    camellia_decrypt256 S (camellia_encrypt256 S io) = io := by
  simp only [camellia_decrypt256, camellia_encrypt256, whiten01_swap_whiten23,
    round01_swap_round23, round23_swap_round01, fls_swap_fls, swap_whiten23_swap_whiten01]

/-! ## Big-endian loads and stores -/

/-- XOR of a multiple of `2 ^ k` and a number below `2 ^ k` is their sum. -/
theorem mul_two_pow_xor (a : Nat) {b k : Nat} (hb : b < 2 ^ k) :
    (a * 2 ^ k) ^^^ b = a * 2 ^ k + b := by
  apply Nat.eq_of_testBit_eq
  intro j
  rw [Nat.testBit_xor, Nat.mul_comm a (2 ^ k), Nat.testBit_mul_pow_two_add a hb j,
    Nat.testBit_mul_pow_two]
  by_cases hj : j < k
  · have : ¬ k ≤ j := by omega
    simp [hj, this]
  · have hkj : k ≤ j := by omega
    have hbj : b.testBit j = false :=
      Nat.testBit_lt_two_pow (Nat.lt_of_lt_of_le hb (Nat.pow_le_pow_right (by norm_num) hkj))
    simp [hj, hkj, hbj]

/-- `GETU32` of four bytes is the big-endian number they spell. -/
theorem GETU32_eq (buf : List Nat) (off : Nat)
    (h0 : buf.getD off 0 < 256) (h1 : buf.getD (off + 1) 0 < 256)
    (h2 : buf.getD (off + 2) 0 < 256) (h3 : buf.getD (off + 3) 0 < 256) :
    GETU32 buf off = buf.getD off 0 * 16777216 + buf.getD (off + 1) 0 * 65536
      + buf.getD (off + 2) 0 * 256 + buf.getD (off + 3) 0 := by
  unfold GETU32 u32
  generalize buf.getD off 0 = b0 at *
  generalize buf.getD (off + 1) 0 = b1 at *
  generalize buf.getD (off + 2) 0 = b2 at *
  generalize buf.getD (off + 3) 0 = b3 at *
  simp only [Nat.shiftLeft_eq]
  have e0 : b0 % 4294967296 * 2 ^ 24 % 4294967296 = b0 * 2 ^ 24 := by omega
  have e1 : b1 % 4294967296 * 2 ^ 16 % 4294967296 = b1 * 2 ^ 16 := by omega
  have e2 : b2 % 4294967296 * 2 ^ 8 % 4294967296 = b2 * 2 ^ 8 := by omega
  have e3 : b3 % 4294967296 = b3 := by omega
  rw [e0, e1, e2, e3]
  rw [mul_two_pow_xor b0 (show b1 * 2 ^ 16 < 2 ^ 24 by omega)]
  have f1 : b0 * 2 ^ 24 + b1 * 2 ^ 16 = (b0 * 256 + b1) * 2 ^ 16 := by omega
  rw [f1, mul_two_pow_xor _ (show b2 * 2 ^ 8 < 2 ^ 16 by omega)]
  have f2 : (b0 * 256 + b1) * 2 ^ 16 + b2 * 2 ^ 8 = (b0 * 65536 + b1 * 256 + b2) * 2 ^ 8 := by
    omega
  rw [f2, mul_two_pow_xor _ (show b3 < 2 ^ 8 by omega)]
  omega

/-- A list of sixteen elements, spelled out. -/
theorem eq_of_length_16 (l : List Nat) (h : l.length = 16) :
    l = [l.getD 0 0, l.getD 1 0, l.getD 2 0, l.getD 3 0, l.getD 4 0, l.getD 5 0, l.getD 6 0,
      l.getD 7 0, l.getD 8 0, l.getD 9 0, l.getD 10 0, l.getD 11 0, l.getD 12 0, l.getD 13 0,
      l.getD 14 0, l.getD 15 0] := by
  match l, h with
  | [_, _, _, _, _, _, _, _, _, _, _, _, _, _, _, _], _ => rfl

theorem storeBlock_eq (dst : List Nat) (h : dst.length = 16) (tmp : Quad) :
    storeBlock dst tmp = blockBytes tmp := by
  rw [eq_of_length_16 dst h]
  rfl

/-- Reading back the four bytes of a word stored big-endian gives the word. -/
theorem GETU32_of_bytes (buf : List Nat) (off : Nat) {w : Nat} (hw : W32 w)
    (h0 : buf.getD off 0 = u8 (w >>> 24)) (h1 : buf.getD (off + 1) 0 = u8 (w >>> 16))
    (h2 : buf.getD (off + 2) 0 = u8 (w >>> 8)) (h3 : buf.getD (off + 3) 0 = u8 w) :
    GETU32 buf off = w := by
  unfold W32 at hw
  rw [GETU32_eq _ _ (by rw [h0]; unfold u8; omega) (by rw [h1]; unfold u8; omega)
    (by rw [h2]; unfold u8; omega) (by rw [h3]; unfold u8; omega), h0, h1, h2, h3]
  simp only [u8, Nat.shiftRight_eq_div_pow]
  omega

theorem loadBlock_blockBytes {tmp : Quad} (h : tmp.W32) : loadBlock (blockBytes tmp) = tmp := by
  obtain ⟨a, b, c, d⟩ := h
  cases tmp with
  | mk ll lr rl rr =>
    simp only [loadBlock, loadQuad, Quad.mk.injEq]
    exact ⟨GETU32_of_bytes _ 0 a rfl rfl rfl rfl, GETU32_of_bytes _ 4 b rfl rfl rfl rfl,
      GETU32_of_bytes _ 8 c rfl rfl rfl rfl, GETU32_of_bytes _ 12 d rfl rfl rfl rfl⟩

/-- Storing the words loaded from sixteen bytes gives the bytes back. -/
theorem blockBytes_loadBlock {src : List Nat} (h : IsBytes 16 src) :
    blockBytes (loadBlock src) = src := by
  obtain ⟨hlen, hb⟩ := h
  have hg : ∀ i, src.getD i 0 < 256 := by
    intro i
    rw [List.getD_eq_getElem?_getD]
    cases hi : src[i]? with
    | none => simp
    | some v => simpa using hb v (List.getElem?_mem hi)
  have key : ∀ off, [u8 (GETU32 src off >>> 24), u8 (GETU32 src off >>> 16),
      u8 (GETU32 src off >>> 8), u8 (GETU32 src off)]
      = [src.getD off 0, src.getD (off + 1) 0, src.getD (off + 2) 0, src.getD (off + 3) 0] := by
    intro off
    have h0 := hg off
    have h1 := hg (off + 1)
    have h2 := hg (off + 2)
    have h3 := hg (off + 3)
    rw [GETU32_eq _ _ h0 h1 h2 h3]
    simp only [u8, Nat.shiftRight_eq_div_pow, List.cons.injEq, and_true]
    refine ⟨?_, ?_, ?_, ?_⟩ <;> omega
  have k0 := key 0
  have k4 := key 4
  have k8 := key 8
  have k12 := key 12
  simp only [List.cons.injEq, and_true] at k0 k4 k8 k12
  conv_rhs => rw [eq_of_length_16 src hlen]
  simp only [blockBytes, loadBlock, loadQuad, List.cons.injEq, and_true]
  simp only [Nat.zero_add] at k0
  refine ⟨k0.1, k0.2.1, k0.2.2.1, k0.2.2.2, k4.1, k4.2.1, k4.2.2.1, k4.2.2.2,
    k8.1, k8.2.1, k8.2.2.1, k8.2.2.2, k12.1, k12.2.1, k12.2.2.1, k12.2.2.2⟩

/-! ## Round trip at the API (claim C1) -/

theorem loadBlock_W32 (src : List Nat) : (loadBlock src).W32 := loadQuad_W32 src 0

theorem PairsW32_128 (o : ByteOrder) (key : List Nat) (T0 : Words) :
    PairsW32 [0, 2, 3, 4, 5, 6, 7, 8, 9, 10, 11, 12, 13, 14, 15, 16, 17, 18, 19, 20,
      21, 22, 23, 24] (Camellia_Ekeygen o 128 key T0) := by
  have h : Camellia_Ekeygen o 128 key T0 = camellia_setup128 key T0 := by
    simp [Camellia_Ekeygen]
  rw [h]
  exact (camellia_setup128_Pairs key T0).mono (by decide)

theorem PairsW32_256 (key : List Nat) (T0 : Words) :
    PairsW32 [0, 2, 3, 4, 5, 6, 7, 8, 9, 10, 11, 12, 13, 14, 15, 16, 17, 18, 19, 20,
      21, 22, 23, 24, 25, 26, 27, 28, 29, 30, 31, 32] (camellia_setup256 key T0) :=
  (camellia_setup256_Pairs key T0).mono (by decide)

/-- Round trip for a table whose subkey words are in range (128-bit transform). -/
theorem roundtrip128 {S : Words}
    (hS : PairsW32 [0, 2, 3, 4, 5, 6, 7, 8, 9, 10, 11, 12, 13, 14, 15, 16, 17, 18, 19, 20,
      21, 22, 23, 24] S) {p : List Nat} (hp : IsBytes 16 p) {ct pt : List Nat}
    (hct : ct.length = 16) (hpt : pt.length = 16) :
    Camellia_DecryptBlock 128 (Camellia_EncryptBlock 128 p S ct) S pt = p := by
  simp only [Camellia_EncryptBlock, Camellia_DecryptBlock, if_true]
  rw [storeBlock_eq ct hct, storeBlock_eq pt hpt,
    loadBlock_blockBytes (camellia_encrypt128_W32 hS (loadBlock_W32 p)),
    camellia_decrypt128_encrypt128, blockBytes_loadBlock hp]

/-- Round trip for a table whose subkey words are in range (256-bit transform, which
also serves selector 192). -/
theorem roundtrip256 {S : Words}
    (hS : PairsW32 [0, 2, 3, 4, 5, 6, 7, 8, 9, 10, 11, 12, 13, 14, 15, 16, 17, 18, 19, 20,
      21, 22, 23, 24, 25, 26, 27, 28, 29, 30, 31, 32] S) {p : List Nat} (hp : IsBytes 16 p)
    {ct pt : List Nat} (hct : ct.length = 16) (hpt : pt.length = 16) (bits : Int)
    (hbits : bits = 192 ∨ bits = 256) :
    Camellia_DecryptBlock bits (Camellia_EncryptBlock bits p S ct) S pt = p := by
  have h128 : bits ≠ 128 := by omega
  simp only [Camellia_EncryptBlock, Camellia_DecryptBlock, if_neg h128, if_pos hbits]
  rw [storeBlock_eq ct hct, storeBlock_eq pt hpt,
    loadBlock_blockBytes (camellia_encrypt256_W32 hS (loadBlock_W32 p)),
    camellia_decrypt256_encrypt256, blockBytes_loadBlock hp]

/-- C1 (round trip): for every supported key size `bits` in {128, 192, 256}, every key
(in particular every key of `bits / 8` bytes), every 16-byte block `p`, and `T` the key
table that `Camellia_Ekeygen` leaves (starting from any table contents `T0`, on a host of
either byte order), decrypting the encryption of `p` under `T` gives `p` back.  The two
output buffers are any 16-byte buffers. -/
theorem C1_roundtrip (o : ByteOrder) (bits : Int) (hbits : bits = 128 ∨ bits = 192 ∨ bits = 256)
    (k : List Nat) (p : List Nat) (hp : IsBytes 16 p) (T0 : Words) (ct pt : List Nat)
    (hct : ct.length = 16) (hpt : pt.length = 16) :
    Camellia_DecryptBlock bits
      (Camellia_EncryptBlock bits p (Camellia_Ekeygen o bits k T0) ct)
      (Camellia_Ekeygen o bits k T0) pt = p := by
  rcases hbits with h | h | h
  · subst h
    exact roundtrip128 (PairsW32_128 o k T0) hp hct hpt
  · subst h
    have e : Camellia_Ekeygen o 192 k T0 = camellia_setup256 (setup192_kk o k) T0 := by
      simp [Camellia_Ekeygen, camellia_setup192]
    rw [e]
    exact roundtrip256 (PairsW32_256 _ T0) hp hct hpt 192 (Or.inl rfl)
  · subst h
    have e : Camellia_Ekeygen o 256 k T0 = camellia_setup256 k T0 := by
      simp [Camellia_Ekeygen]
    rw [e]
    exact roundtrip256 (PairsW32_256 _ T0) hp hct hpt 256 (Or.inr rfl)

/-- C1 at the published 192-bit test key and plaintext. -/
theorem C1_roundtrip_witness :
    ((192 : Int) = 128 ∨ (192 : Int) = 192 ∨ (192 : Int) = 256) ∧ IsBytes 16 kat_plaintext
      ∧ zeroBlock.length = 16 ∧
      Camellia_DecryptBlock 192
        (Camellia_EncryptBlock 192 kat_plaintext
          (Camellia_Ekeygen ByteOrder.little 192 kat_key192 zeroTable) zeroBlock)
        (Camellia_Ekeygen ByteOrder.little 192 kat_key192 zeroTable) zeroBlock = kat_plaintext :=
  ⟨by decide, by decide, by decide,
    C1_roundtrip ByteOrder.little 192 (by decide) kat_key192 kat_plaintext (by decide) zeroTable
      zeroBlock zeroBlock (by decide) (by decide)⟩

/-! ## The block transforms read only subkey pairs that the schedule writes -/

theorem setSubkey_AgreeOn {P : List Nat} {S S' : Words} (h : AgreeOn P S S') (i l r : Nat) :
    AgreeOn (i :: P) (setSubkey S i l r) (setSubkey S' i l r) := by
  intro j hj
  by_cases hji : j = i
  · subst hji
    constructor
    · show (if j * 2 = j * 2 + 1 then r else if j * 2 = j * 2 then l else _)
        = (if j * 2 = j * 2 + 1 then r else if j * 2 = j * 2 then l else _)
      rw [if_neg (by omega), if_pos rfl, if_neg (by omega), if_pos rfl]
    · show (if j * 2 + 1 = j * 2 + 1 then r else _) = (if j * 2 + 1 = j * 2 + 1 then r else _)
      rw [if_pos rfl, if_pos rfl]
  · have hjP : j ∈ P := by
      rcases List.mem_cons.mp hj with h1 | h1
      · exact absurd h1 hji
      · exact h1
    constructor
    · show (if j * 2 = i * 2 + 1 then r else if j * 2 = i * 2 then l else S.word (j * 2))
        = (if j * 2 = i * 2 + 1 then r else if j * 2 = i * 2 then l else S'.word (j * 2))
      rw [if_neg (by omega), if_neg (by omega), if_neg (by omega), if_neg (by omega)]
      exact (h j hjP).1
    · show (if j * 2 + 1 = i * 2 + 1 then r else
          if j * 2 + 1 = i * 2 then l else S.word (j * 2 + 1))
        = (if j * 2 + 1 = i * 2 + 1 then r else
          if j * 2 + 1 = i * 2 then l else S'.word (j * 2 + 1))
      rw [if_neg (by omega), if_neg (by omega), if_neg (by omega), if_neg (by omega)]
      exact (h j hjP).2

theorem invP_step_AgreeOn {P : List Nat} {S S' : Words} (h : AgreeOn P S S') (i : Nat)
    (hi : i ∈ P) : AgreeOn P (invP_step S i) (invP_step S' i) := by
  have hL : CamelliaSubkeyL S i = CamelliaSubkeyL S' i := (h i hi).1
  have hR : CamelliaSubkeyR S i = CamelliaSubkeyR S' i := (h i hi).2
  intro j hj
  have hjL : S.word (j * 2) = S'.word (j * 2) := (h j hj).1
  have hjR : S.word (j * 2 + 1) = S'.word (j * 2 + 1) := (h j hj).2
  constructor
  · show (if j * 2 = i * 2 then CAMELLIA_RL8 (CamelliaSubkeyL S i ^^^ CamelliaSubkeyR S i) else
        if j * 2 = i * 2 + 1 then _ else S.word (j * 2))
      = (if j * 2 = i * 2 then CAMELLIA_RL8 (CamelliaSubkeyL S' i ^^^ CamelliaSubkeyR S' i) else
        if j * 2 = i * 2 + 1 then _ else S'.word (j * 2))
    rw [if_neg (show ¬ j * 2 = i * 2 + 1 by omega), if_neg (show ¬ j * 2 = i * 2 + 1 by omega),
      hL, hR, hjL]
  · show (if j * 2 + 1 = i * 2 then _ else if j * 2 + 1 = i * 2 + 1 then
        CamelliaSubkeyL S i ^^^ CAMELLIA_RL8 (CamelliaSubkeyL S i ^^^ CamelliaSubkeyR S i)
        else S.word (j * 2 + 1))
      = (if j * 2 + 1 = i * 2 then _ else if j * 2 + 1 = i * 2 + 1 then
        CamelliaSubkeyL S' i ^^^ CAMELLIA_RL8 (CamelliaSubkeyL S' i ^^^ CamelliaSubkeyR S' i)
        else S'.word (j * 2 + 1))
    rw [if_neg (show ¬ j * 2 + 1 = i * 2 by omega), if_neg (show ¬ j * 2 + 1 = i * 2 by omega),
      hL, hR, hjR]

theorem foldl_invP_step_AgreeOn {P : List Nat} (is : List Nat) (his : ∀ i ∈ is, i ∈ P)
    {S S' : Words} (h : AgreeOn P S S') :
    AgreeOn P (is.foldl invP_step S) (is.foldl invP_step S') := by
  induction is generalizing S S' with
  | nil => exact h
  | cons i is ih =>
    exact ih (fun j hj => his j (List.mem_cons_of_mem _ hj))
      (invP_step_AgreeOn h i (his i (List.mem_cons_self _ _)))

theorem setup128_emit_AgreeOn (s : Scratch) (T0 T0' : Words) :
    AgreeOn [24, 23, 22, 21, 20, 19, 18, 17, 16, 15, 14, 13, 12, 11, 10, 9,
      8, 7, 6, 5, 4, 3, 2, 0]
      (setup128_emit s T0) (setup128_emit s T0') := by
  unfold setup128_emit
  refine setSubkey_AgreeOn ?_ 24 _ _
  refine setSubkey_AgreeOn ?_ 23 _ _
  refine setSubkey_AgreeOn ?_ 22 _ _
  refine setSubkey_AgreeOn ?_ 21 _ _
  refine setSubkey_AgreeOn ?_ 20 _ _
  refine setSubkey_AgreeOn ?_ 19 _ _
  refine setSubkey_AgreeOn ?_ 18 _ _
  refine setSubkey_AgreeOn ?_ 17 _ _
  refine setSubkey_AgreeOn ?_ 16 _ _
  refine setSubkey_AgreeOn ?_ 15 _ _
  refine setSubkey_AgreeOn ?_ 14 _ _
  refine setSubkey_AgreeOn ?_ 13 _ _
  refine setSubkey_AgreeOn ?_ 12 _ _
  refine setSubkey_AgreeOn ?_ 11 _ _
  refine setSubkey_AgreeOn ?_ 10 _ _
  refine setSubkey_AgreeOn ?_ 9 _ _
  refine setSubkey_AgreeOn ?_ 8 _ _
  refine setSubkey_AgreeOn ?_ 7 _ _
  refine setSubkey_AgreeOn ?_ 6 _ _
  refine setSubkey_AgreeOn ?_ 5 _ _
  refine setSubkey_AgreeOn ?_ 4 _ _
  refine setSubkey_AgreeOn ?_ 3 _ _
  refine setSubkey_AgreeOn ?_ 2 _ _
  refine setSubkey_AgreeOn ?_ 0 _ _
  exact fun _ h => absurd h (List.not_mem_nil _)

theorem setup256_emit_AgreeOn (s : Scratch) (T0 T0' : Words) :
    AgreeOn [32, 31, 30, 29, 28, 27, 26, 25, 24, 23, 22, 21, 20, 19, 18, 17,
      16, 15, 14, 13, 12, 11, 10, 9, 8, 7, 6, 5, 4, 3, 2, 0]
      (setup256_emit s T0) (setup256_emit s T0') := by
  unfold setup256_emit
  refine setSubkey_AgreeOn ?_ 32 _ _
  refine setSubkey_AgreeOn ?_ 31 _ _
  refine setSubkey_AgreeOn ?_ 30 _ _
  refine setSubkey_AgreeOn ?_ 29 _ _
  refine setSubkey_AgreeOn ?_ 28 _ _
  refine setSubkey_AgreeOn ?_ 27 _ _
  refine setSubkey_AgreeOn ?_ 26 _ _
  refine setSubkey_AgreeOn ?_ 25 _ _
  refine setSubkey_AgreeOn ?_ 24 _ _
  refine setSubkey_AgreeOn ?_ 23 _ _
  refine setSubkey_AgreeOn ?_ 22 _ _
  refine setSubkey_AgreeOn ?_ 21 _ _
  refine setSubkey_AgreeOn ?_ 20 _ _
  refine setSubkey_AgreeOn ?_ 19 _ _
  refine setSubkey_AgreeOn ?_ 18 _ _
  refine setSubkey_AgreeOn ?_ 17 _ _
  refine setSubkey_AgreeOn ?_ 16 _ _
  refine setSubkey_AgreeOn ?_ 15 _ _
  refine setSubkey_AgreeOn ?_ 14 _ _
  refine setSubkey_AgreeOn ?_ 13 _ _
  refine setSubkey_AgreeOn ?_ 12 _ _
  refine setSubkey_AgreeOn ?_ 11 _ _
  refine setSubkey_AgreeOn ?_ 10 _ _
  refine setSubkey_AgreeOn ?_ 9 _ _
  refine setSubkey_AgreeOn ?_ 8 _ _
  refine setSubkey_AgreeOn ?_ 7 _ _
  refine setSubkey_AgreeOn ?_ 6 _ _
  refine setSubkey_AgreeOn ?_ 5 _ _
  refine setSubkey_AgreeOn ?_ 4 _ _
  refine setSubkey_AgreeOn ?_ 3 _ _
  refine setSubkey_AgreeOn ?_ 2 _ _
  refine setSubkey_AgreeOn ?_ 0 _ _
  exact fun _ h => absurd h (List.not_mem_nil _)

/-- The subkey pairs written by `camellia_setup128` do not depend on what the key
table held before the call. -/
theorem camellia_setup128_AgreeOn (key : List Nat) (T0 T0' : Words) :
    AgreeOn [24, 23, 22, 21, 20, 19, 18, 17, 16, 15, 14, 13, 12, 11, 10, 9,
      8, 7, 6, 5, 4, 3, 2, 0]
      (camellia_setup128 key T0) (camellia_setup128 key T0') := by
  unfold camellia_setup128
  exact foldl_invP_step_AgreeOn _ (by decide) (setup128_emit_AgreeOn _ T0 T0')

/-- The subkey pairs written by `camellia_setup256` do not depend on what the key
table held before the call. -/
theorem camellia_setup256_AgreeOn (key : List Nat) (T0 T0' : Words) :
    AgreeOn [32, 31, 30, 29, 28, 27, 26, 25, 24, 23, 22, 21, 20, 19, 18, 17,
      16, 15, 14, 13, 12, 11, 10, 9, 8, 7, 6, 5, 4, 3, 2, 0]
      (camellia_setup256 key T0) (camellia_setup256 key T0') := by
  unfold camellia_setup256
  exact foldl_invP_step_AgreeOn _ (by decide) (setup256_emit_AgreeOn _ T0 T0')

theorem whiten01_congr {S S' : Words} {i : Nat}
    (h : CamelliaSubkeyL S i = CamelliaSubkeyL S' i ∧ CamelliaSubkeyR S i = CamelliaSubkeyR S' i)
    (io : Quad) : whiten01 S i io = whiten01 S' i io := by
  simp only [whiten01, h.1, h.2]

theorem whiten23_congr {S S' : Words} {i : Nat}
    (h : CamelliaSubkeyL S i = CamelliaSubkeyL S' i ∧ CamelliaSubkeyR S i = CamelliaSubkeyR S' i)
    (io : Quad) : whiten23 S i io = whiten23 S' i io := by
  simp only [whiten23, h.1, h.2]

theorem round01_congr {S S' : Words} {i : Nat}
    (h : CamelliaSubkeyL S i = CamelliaSubkeyL S' i ∧ CamelliaSubkeyR S i = CamelliaSubkeyR S' i)
    (io : Quad) : round01 S i io = round01 S' i io := by
  simp only [round01, h.1, h.2]

theorem round23_congr {S S' : Words} {i : Nat}
    (h : CamelliaSubkeyL S i = CamelliaSubkeyL S' i ∧ CamelliaSubkeyR S i = CamelliaSubkeyR S' i)
    (io : Quad) : round23 S i io = round23 S' i io := by
  simp only [round23, h.1, h.2]

theorem fls_congr {S S' : Words} {i j : Nat}
    (hi : CamelliaSubkeyL S i = CamelliaSubkeyL S' i ∧ CamelliaSubkeyR S i = CamelliaSubkeyR S' i)
    (hj : CamelliaSubkeyL S j = CamelliaSubkeyL S' j ∧ CamelliaSubkeyR S j = CamelliaSubkeyR S' j)
    (io : Quad) : fls S i j io = fls S' i j io := by
  simp only [fls, hi.1, hi.2, hj.1, hj.2]

/-- `camellia_encrypt128` reads subkey pairs 0 and 2..24 only. -/
theorem camellia_encrypt128_congr {S S' : Words}
    (h : AgreeOn [24, 23, 22, 21, 20, 19, 18, 17, 16, 15, 14, 13, 12, 11, 10, 9,
      8, 7, 6, 5, 4, 3, 2, 0] S S') (io : Quad) :
    camellia_encrypt128 S io = camellia_encrypt128 S' io := by
  have k : ∀ i, i ∈ [24, 23, 22, 21, 20, 19, 18, 17, 16, 15, 14, 13, 12, 11, 10, 9,
      8, 7, 6, 5, 4, 3, 2, 0] → CamelliaSubkeyL S i = CamelliaSubkeyL S' i
      ∧ CamelliaSubkeyR S i = CamelliaSubkeyR S' i := h
  simp only [camellia_encrypt128, whiten01_congr (k 0 (by decide)),
    whiten23_congr (k 24 (by decide)), fls_congr (k 8 (by decide)) (k 9 (by decide)),
    fls_congr (k 16 (by decide)) (k 17 (by decide)),
    round01_congr (k 2 (by decide)), round23_congr (k 3 (by decide)),
    round01_congr (k 4 (by decide)), round23_congr (k 5 (by decide)),
    round01_congr (k 6 (by decide)), round23_congr (k 7 (by decide)),
    round01_congr (k 10 (by decide)), round23_congr (k 11 (by decide)),
    round01_congr (k 12 (by decide)), round23_congr (k 13 (by decide)),
    round01_congr (k 14 (by decide)), round23_congr (k 15 (by decide)),
    round01_congr (k 18 (by decide)), round23_congr (k 19 (by decide)),
    round01_congr (k 20 (by decide)), round23_congr (k 21 (by decide)),
    round01_congr (k 22 (by decide)), round23_congr (k 23 (by decide))]

/-- `camellia_encrypt256` reads subkey pairs 0 and 2..32 only. -/
theorem camellia_encrypt256_congr {S S' : Words}
    (h : AgreeOn [32, 31, 30, 29, 28, 27, 26, 25, 24, 23, 22, 21, 20, 19, 18, 17,
      16, 15, 14, 13, 12, 11, 10, 9, 8, 7, 6, 5, 4, 3, 2, 0] S S') (io : Quad) :
    camellia_encrypt256 S io = camellia_encrypt256 S' io := by
  have k : ∀ i, i ∈ [32, 31, 30, 29, 28, 27, 26, 25, 24, 23, 22, 21, 20, 19, 18, 17,
      16, 15, 14, 13, 12, 11, 10, 9, 8, 7, 6, 5, 4, 3, 2, 0] →
      CamelliaSubkeyL S i = CamelliaSubkeyL S' i
      ∧ CamelliaSubkeyR S i = CamelliaSubkeyR S' i := h
  simp only [camellia_encrypt256, whiten01_congr (k 0 (by decide)),
    whiten23_congr (k 32 (by decide)), fls_congr (k 8 (by decide)) (k 9 (by decide)),
    fls_congr (k 16 (by decide)) (k 17 (by decide)),
    fls_congr (k 24 (by decide)) (k 25 (by decide)),
    round01_congr (k 2 (by decide)), round23_congr (k 3 (by decide)),
    round01_congr (k 4 (by decide)), round23_congr (k 5 (by decide)),
    round01_congr (k 6 (by decide)), round23_congr (k 7 (by decide)),
    round01_congr (k 10 (by decide)), round23_congr (k 11 (by decide)),
    round01_congr (k 12 (by decide)), round23_congr (k 13 (by decide)),
    round01_congr (k 14 (by decide)), round23_congr (k 15 (by decide)),
    round01_congr (k 18 (by decide)), round23_congr (k 19 (by decide)),
    round01_congr (k 20 (by decide)), round23_congr (k 21 (by decide)),
    round01_congr (k 22 (by decide)), round23_congr (k 23 (by decide)),
    round01_congr (k 26 (by decide)), round23_congr (k 27 (by decide)),
    round01_congr (k 28 (by decide)), round23_congr (k 29 (by decide)),
    round01_congr (k 30 (by decide)), round23_congr (k 31 (by decide))]

/-! ## Known-answer tests (claims C4, C5, C6) -/

theorem Camellia_Ekeygen_128 (o : ByteOrder) (key : List Nat) (T0 : Words) :
    Camellia_Ekeygen o 128 key T0 = camellia_setup128 key T0 := by
  simp [Camellia_Ekeygen]

theorem Camellia_Ekeygen_192 (o : ByteOrder) (key : List Nat) (T0 : Words) :
    Camellia_Ekeygen o 192 key T0 = camellia_setup256 (setup192_kk o key) T0 := by
  simp [Camellia_Ekeygen, camellia_setup192]

theorem Camellia_Ekeygen_256 (o : ByteOrder) (key : List Nat) (T0 : Words) :
    Camellia_Ekeygen o 256 key T0 = camellia_setup256 key T0 := by
  simp [Camellia_Ekeygen]

/-- Encryption under selector 128 into a 16-byte buffer, in terms of the word-level
transform, for a table scheduled from any prior contents. -/
theorem Camellia_EncryptBlock_128_eq (o : ByteOrder) (key p : List Nat) (T0 : Words)
    (ct : List Nat) (hct : ct.length = 16) :
    Camellia_EncryptBlock 128 p (Camellia_Ekeygen o 128 key T0) ct
      = blockBytes (camellia_encrypt128 (camellia_setup128 key zeroTable) (loadBlock p)) := by
  simp only [Camellia_EncryptBlock, if_true]
  rw [storeBlock_eq ct hct, Camellia_Ekeygen_128,
    camellia_encrypt128_congr (camellia_setup128_AgreeOn key T0 zeroTable)]

/-- Encryption under selector 192 or 256 into a 16-byte buffer, in terms of the
word-level transform, for a table scheduled by `camellia_setup256` from any prior
contents. -/
theorem Camellia_EncryptBlock_256_eq (bits : Int) (hbits : bits = 192 ∨ bits = 256)
    (key p : List Nat) (T0 : Words) (ct : List Nat) (hct : ct.length = 16) :
    Camellia_EncryptBlock bits p (camellia_setup256 key T0) ct
      = blockBytes (camellia_encrypt256 (camellia_setup256 key zeroTable) (loadBlock p)) := by
  have h128 : bits ≠ 128 := by omega
  simp only [Camellia_EncryptBlock, if_neg h128, if_pos hbits]
  rw [storeBlock_eq ct hct,
    camellia_encrypt256_congr (camellia_setup256_AgreeOn key T0 zeroTable)]

set_option maxRecDepth 100000 in
/-- C4 (known-answer test, 128-bit key): with key `0123456789abcdeffedcba9876543210` and
the same 16 bytes as plaintext, `Camellia_EncryptBlock` under the table left by
`Camellia_Ekeygen` (from any prior table contents, on either byte order, into any 16-byte
buffer) writes `67673138549669730857065648eabe43`. -/
theorem C4_kat128 (o : ByteOrder) (T0 : Words) (ct : List Nat) (hct : ct.length = 16) :
    Camellia_EncryptBlock 128 kat_plaintext (Camellia_Ekeygen o 128 kat_key128 T0) ct
      = [0x67, 0x67, 0x31, 0x38, 0x54, 0x96, 0x69, 0x73,
          0x08, 0x57, 0x06, 0x56, 0x48, 0xea, 0xbe, 0x43] := by
  rw [Camellia_EncryptBlock_128_eq o kat_key128 kat_plaintext T0 ct hct]
  decide

/-- C4 evaluated with a zeroed table and a zeroed output buffer. -/
theorem C4_kat128_witness :
    zeroBlock.length = 16 ∧
      Camellia_EncryptBlock 128 kat_plaintext
        (Camellia_Ekeygen ByteOrder.little 128 kat_key128 zeroTable) zeroBlock
      = [0x67, 0x67, 0x31, 0x38, 0x54, 0x96, 0x69, 0x73,
          0x08, 0x57, 0x06, 0x56, 0x48, 0xea, 0xbe, 0x43] :=
  ⟨by decide, C4_kat128 ByteOrder.little zeroTable zeroBlock (by decide)⟩

set_option maxRecDepth 100000 in
/-- C5 (known-answer test, 192-bit key): with key
`0123456789abcdeffedcba98765432100011223344556677` and plaintext
`0123456789abcdeffedcba9876543210`, `Camellia_EncryptBlock` under the table left by
`Camellia_Ekeygen` (from any prior table contents, on either byte order, into any 16-byte
buffer) writes `b4993401b3e996f84ee5cee7d79b09b9`. -/
theorem C5_kat192 (o : ByteOrder) (T0 : Words) (ct : List Nat) (hct : ct.length = 16) :
    Camellia_EncryptBlock 192 kat_plaintext (Camellia_Ekeygen o 192 kat_key192 T0) ct
      = [0xb4, 0x99, 0x34, 0x01, 0xb3, 0xe9, 0x96, 0xf8,
          0x4e, 0xe5, 0xce, 0xe7, 0xd7, 0x9b, 0x09, 0xb9] := by
  rw [Camellia_Ekeygen_192, Camellia_EncryptBlock_256_eq 192 (Or.inl rfl) _ kat_plaintext T0 ct hct]
  cases o <;> decide

/-- C5 evaluated with a zeroed table and a zeroed output buffer. -/
theorem C5_kat192_witness :
    zeroBlock.length = 16 ∧
      Camellia_EncryptBlock 192 kat_plaintext
        (Camellia_Ekeygen ByteOrder.little 192 kat_key192 zeroTable) zeroBlock
      = [0xb4, 0x99, 0x34, 0x01, 0xb3, 0xe9, 0x96, 0xf8,
          0x4e, 0xe5, 0xce, 0xe7, 0xd7, 0x9b, 0x09, 0xb9] :=
  ⟨by decide, C5_kat192 ByteOrder.little zeroTable zeroBlock (by decide)⟩

set_option maxRecDepth 100000 in
/-- C6 (known-answer test, 256-bit key): with key
`0123456789abcdeffedcba987654321000112233445566778899aabbccddeeff` and plaintext
`0123456789abcdeffedcba9876543210`, `Camellia_EncryptBlock` under the table left by
`Camellia_Ekeygen` (from any prior table contents, on either byte order, into any 16-byte
buffer) writes `9acc237dff16d76c20ef7c919e3a7509`. -/
theorem C6_kat256 (o : ByteOrder) (T0 : Words) (ct : List Nat) (hct : ct.length = 16) :
    Camellia_EncryptBlock 256 kat_plaintext (Camellia_Ekeygen o 256 kat_key256 T0) ct
      = [0x9a, 0xcc, 0x23, 0x7d, 0xff, 0x16, 0xd7, 0x6c,
          0x20, 0xef, 0x7c, 0x91, 0x9e, 0x3a, 0x75, 0x09] := by
  rw [Camellia_Ekeygen_256, Camellia_EncryptBlock_256_eq 256 (Or.inr rfl) _ kat_plaintext T0 ct hct]
  decide

/-- C6 evaluated with a zeroed table and a zeroed output buffer. -/
theorem C6_kat256_witness :
    zeroBlock.length = 16 ∧
      Camellia_EncryptBlock 256 kat_plaintext
        (Camellia_Ekeygen ByteOrder.little 256 kat_key256 zeroTable) zeroBlock
      = [0x9a, 0xcc, 0x23, 0x7d, 0xff, 0x16, 0xd7, 0x6c,
          0x20, 0xef, 0x7c, 0x91, 0x9e, 0x3a, 0x75, 0x09] :=
  ⟨by decide, C6_kat256 ByteOrder.little zeroTable zeroBlock (by decide)⟩

/-! ## 192-bit keys (claim C7) and unsupported selectors (claims C8, C9, C10) -/

/-- On a `u32`, `~x` is `0xFFFFFFFF - x`. -/
theorem NOT32_eq_sub {x : Nat} (hx : W32 x) : NOT32 x = 4294967295 - x := by
  unfold W32 at hx
  unfold NOT32
  apply Nat.eq_of_testBit_eq
  intro i
  have h1 : (4294967295 : Nat) = 2 ^ 32 - 1 := by norm_num
  have h2 : 4294967295 - x = 2 ^ 32 - (x + 1) := by omega
  have hx' : x < 2 ^ 32 := by omega
  rw [Nat.testBit_xor, h2, Nat.testBit_two_pow_sub_succ hx', h1, Nat.testBit_two_pow_sub_one]
  by_cases hi : i < 32
  · simp [hi]
  · have : x.testBit i = false :=
      Nat.testBit_lt_two_pow (Nat.lt_of_lt_of_le hx' (Nat.pow_le_pow_right (by norm_num) (by omega)))
    simp [hi, this]

/-- The complement of a `u32` copied in and out with `memcpy` complements each of
the four bytes, on either byte order. -/
theorem memcpy_NOT32 (o : ByteOrder) (key : List Nat) (off : Nat)
    (h0 : key.getD off 0 < 256) (h1 : key.getD (off + 1) 0 < 256)
    (h2 : key.getD (off + 2) 0 < 256) (h3 : key.getD (off + 3) 0 < 256) :
    memcpy_from_u32 o (NOT32 (memcpy_to_u32 o key off))
      = [255 - key.getD off 0, 255 - key.getD (off + 1) 0, 255 - key.getD (off + 2) 0,
          255 - key.getD (off + 3) 0] := by
  cases o
  · simp only [memcpy_to_u32, memcpy_from_u32]
    generalize key.getD off 0 = b0 at *
    generalize key.getD (off + 1) 0 = b1 at *
    generalize key.getD (off + 2) 0 = b2 at *
    generalize key.getD (off + 3) 0 = b3 at *
    have hw : W32 (u8 b0 + u8 b1 * 256 + u8 b2 * 65536 + u8 b3 * 16777216) := by
      unfold W32 u8; omega
    rw [NOT32_eq_sub hw]
    simp only [u8, Nat.shiftRight_eq_div_pow, List.cons.injEq, and_true]
    refine ⟨?_, ?_, ?_, ?_⟩ <;> omega
  · simp only [memcpy_to_u32, memcpy_from_u32]
    generalize key.getD off 0 = b0 at *
    generalize key.getD (off + 1) 0 = b1 at *
    generalize key.getD (off + 2) 0 = b2 at *
    generalize key.getD (off + 3) 0 = b3 at *
    have hw : W32 (u8 b0 * 16777216 + u8 b1 * 65536 + u8 b2 * 256 + u8 b3) := by
      unfold W32 u8; omega
    rw [NOT32_eq_sub hw]
    simp only [u8, Nat.shiftRight_eq_div_pow, List.cons.injEq, and_true]
    refine ⟨?_, ?_, ?_, ?_⟩ <;> omega

theorem getD_lt_of_IsBytes {n : Nat} {buf : List Nat} (h : IsBytes n buf) (i : Nat) :
    buf.getD i 0 < 256 := by
  rw [List.getD_eq_getElem?_getD]
  cases hi : buf[i]? with
  | none => simp
  | some v => simpa using h.2 v (List.getElem?_mem hi)

/-- The 32-byte key that `camellia_setup192` builds: the 24 key bytes followed by the
bitwise complement of bytes 16..23. -/
theorem setup192_kk_eq (o : ByteOrder) {key : List Nat} (hk : IsBytes 24 key) :
    setup192_kk o key = key192_extended key := by
  have hlen := hk.1
  unfold setup192_kk key192_extended
  simp only []
  rw [memcpy_NOT32 o key 16 (getD_lt_of_IsBytes hk _) (getD_lt_of_IsBytes hk _)
      (getD_lt_of_IsBytes hk _) (getD_lt_of_IsBytes hk _),
    memcpy_NOT32 o key 20 (getD_lt_of_IsBytes hk _) (getD_lt_of_IsBytes hk _)
      (getD_lt_of_IsBytes hk _) (getD_lt_of_IsBytes hk _)]
  match key, hlen with
  | [_, _, _, _, _, _, _, _, _, _, _, _, _, _, _, _, _, _, _, _, _, _, _, _], _ => rfl

/-- C7 (192-bit keys reduce to 256-bit keys): for every 24-byte key `k` and every prior
key table, `Camellia_Ekeygen(192, k)` leaves exactly the table that
`Camellia_Ekeygen(256, k')` leaves, where `k'` is `k` followed by the bitwise complement
of bytes 16..23 of `k`; consequently encryption and decryption under selector 192 with
`k` equal encryption and decryption under selector 256 with `k'`, for every input block
and output buffer. -/
theorem C7_setup192_is_setup256 (o : ByteOrder) (k : List Nat) (hk : IsBytes 24 k) (T : Words) :
    Camellia_Ekeygen o 192 k T = Camellia_Ekeygen o 256 (key192_extended k) T
      ∧ (∀ p ct : List Nat, Camellia_EncryptBlock 192 p (Camellia_Ekeygen o 192 k T) ct
          = Camellia_EncryptBlock 256 p (Camellia_Ekeygen o 256 (key192_extended k) T) ct)
      ∧ (∀ c pt : List Nat, Camellia_DecryptBlock 192 c (Camellia_Ekeygen o 192 k T) pt
          = Camellia_DecryptBlock 256 c (Camellia_Ekeygen o 256 (key192_extended k) T) pt) := by
  have h : Camellia_Ekeygen o 192 k T = Camellia_Ekeygen o 256 (key192_extended k) T := by
    rw [Camellia_Ekeygen_192, Camellia_Ekeygen_256, setup192_kk_eq o hk]
  refine ⟨h, ?_, ?_⟩
  · intro p ct
    rw [h]
    simp [Camellia_EncryptBlock]
  · intro c pt
    rw [h]
    simp [Camellia_DecryptBlock]

/-- C7 at the published 192-bit test key. -/
theorem C7_setup192_is_setup256_witness :
    IsBytes 24 kat_key192 ∧
      Camellia_Ekeygen ByteOrder.big 192 kat_key192 zeroTable
        = Camellia_Ekeygen ByteOrder.big 256 (key192_extended kat_key192) zeroTable :=
  ⟨by decide, (C7_setup192_is_setup256 ByteOrder.big kat_key192 (by decide) zeroTable).1⟩

/-- C8, as stated, fails: with the unsupported selector 64 the schedule operation
reports no error; it returns normally, with the table it was given. -/
theorem C8_counterexample :
    ((64 : Int) ≠ 128 ∧ (64 : Int) ≠ 192 ∧ (64 : Int) ≠ 256)
      ∧ Camellia_Ekeygen_call ByteOrder.little 64 kat_key128 zeroTable ≠ none
      ∧ Camellia_Ekeygen_call ByteOrder.little 64 kat_key128 zeroTable = some zeroTable :=
  ⟨by decide, by simp [Camellia_Ekeygen_call], rfl⟩

/-- C8 (amended): an invalid key size is not rejected.  For every `keyBitLength` other
than 128, 192 and 256, `Camellia_Ekeygen` reports no error: it returns normally without
doing any schedule work, and the key table is the one it was given. -/
theorem C8_invalid_size_returns_normally (o : ByteOrder) (keyBitLength : Int)
    (h128 : keyBitLength ≠ 128) (h192 : keyBitLength ≠ 192) (h256 : keyBitLength ≠ 256)
    (rawKey : List Nat) (keyTable : Words) :
    Camellia_Ekeygen_call o keyBitLength rawKey keyTable = some keyTable := by
  simp [Camellia_Ekeygen_call, Camellia_Ekeygen, h128, h192, h256]

/-- C8 (amended) at selector 64. -/
theorem C8_invalid_size_returns_normally_witness :
    ((64 : Int) ≠ 128 ∧ (64 : Int) ≠ 192 ∧ (64 : Int) ≠ 256)
      ∧ Camellia_Ekeygen_call ByteOrder.big 64 kat_key256 zeroTable = some zeroTable :=
  ⟨by decide, C8_invalid_size_returns_normally ByteOrder.big 64 (by decide) (by decide)
    (by decide) kat_key256 zeroTable⟩

/-- C9 (unsupported selector leaves the subkeys untouched): for every `keyBitLength`
other than 128, 192 and 256, every key and every key table `T`, `Camellia_Ekeygen`
returns with `T` unchanged in every word. -/
theorem C9_unsupported_selector_keeps_table (o : ByteOrder) (keyBitLength : Int)
    (h128 : keyBitLength ≠ 128) (h192 : keyBitLength ≠ 192) (h256 : keyBitLength ≠ 256)
    (rawKey : List Nat) (T : Words) :
    Camellia_Ekeygen o keyBitLength rawKey T = T
      ∧ ∀ i, (Camellia_Ekeygen o keyBitLength rawKey T).word i = T.word i := by
  have h : Camellia_Ekeygen o keyBitLength rawKey T = T := by
    simp [Camellia_Ekeygen, h128, h192, h256]
  exact ⟨h, fun i => by rw [h]⟩

/-- C9 at selector 0, on the table scheduled for the 128-bit test key. -/
theorem C9_unsupported_selector_keeps_table_witness :
    ((0 : Int) ≠ 128 ∧ (0 : Int) ≠ 192 ∧ (0 : Int) ≠ 256)
      ∧ Camellia_Ekeygen ByteOrder.little 0 kat_key192
          (camellia_setup128 kat_key128 zeroTable) = camellia_setup128 kat_key128 zeroTable :=
  ⟨by decide, (C9_unsupported_selector_keeps_table ByteOrder.little 0 (by decide) (by decide)
    (by decide) kat_key192 (camellia_setup128 kat_key128 zeroTable)).1⟩

/-- C10, as stated, fails: with the unsupported selector 64, `Camellia_EncryptBlock` and
`Camellia_DecryptBlock` overwrite a zeroed 16-byte output buffer with the input block. -/
theorem C10_counterexample :
    ((64 : Int) ≠ 128 ∧ (64 : Int) ≠ 192 ∧ (64 : Int) ≠ 256)
      ∧ Camellia_EncryptBlock 64 kat_plaintext zeroTable zeroBlock ≠ zeroBlock
      ∧ Camellia_DecryptBlock 64 kat_plaintext zeroTable zeroBlock ≠ zeroBlock := by
  decide

/-- C10 (amended): an unsupported selector copies the input block to the output.  For
every `keyBitLength` other than 128, 192 and 256 and every key table,
`Camellia_EncryptBlock` and `Camellia_DecryptBlock` run no transform and store the 16
input bytes into the 16-byte output buffer; so the output buffer holds after the call
what it held before exactly when it already held the input block. -/
theorem C10_unsupported_selector_copies_input (keyBitLength : Int)
    (h128 : keyBitLength ≠ 128) (h192 : keyBitLength ≠ 192) (h256 : keyBitLength ≠ 256)
    (src : List Nat) (hsrc : IsBytes 16 src) (keyTable : Words)
    (dst : List Nat) (hdst : dst.length = 16) :
    Camellia_EncryptBlock keyBitLength src keyTable dst = src
      ∧ Camellia_DecryptBlock keyBitLength src keyTable dst = src
      ∧ (Camellia_EncryptBlock keyBitLength src keyTable dst = dst ↔ dst = src)
      ∧ (Camellia_DecryptBlock keyBitLength src keyTable dst = dst ↔ dst = src) := by
  have hor : ¬ (keyBitLength = 192 ∨ keyBitLength = 256) := by omega
  have he : Camellia_EncryptBlock keyBitLength src keyTable dst = src := by
    simp only [Camellia_EncryptBlock, if_neg h128, if_neg hor]
    rw [storeBlock_eq dst hdst, blockBytes_loadBlock hsrc]
  have hd : Camellia_DecryptBlock keyBitLength src keyTable dst = src := by
    simp only [Camellia_DecryptBlock, if_neg h128, if_neg hor]
    rw [storeBlock_eq dst hdst, blockBytes_loadBlock hsrc]
  refine ⟨he, hd, ?_, ?_⟩
  · rw [he]; exact eq_comm
  · rw [hd]; exact eq_comm

/-- C10 (amended) at selector 64, the test plaintext and a zeroed output buffer. -/
theorem C10_unsupported_selector_copies_input_witness :
    ((64 : Int) ≠ 128 ∧ (64 : Int) ≠ 192 ∧ (64 : Int) ≠ 256) ∧ IsBytes 16 kat_plaintext
      ∧ zeroBlock.length = 16
      ∧ Camellia_EncryptBlock 64 kat_plaintext zeroTable zeroBlock = kat_plaintext :=
  ⟨by decide, by decide, by decide,
    (C10_unsupported_selector_copies_input 64 (by decide) (by decide) (by decide) kat_plaintext
      (by decide) zeroTable zeroBlock (by decide)).1⟩

/-! ## Bit-level facts about the rotation macros -/

theorem W32_iff_lt_two_pow (x : Nat) : W32 x ↔ x < 2 ^ 32 := by
  unfold W32; norm_num

theorem testBit_of_W32 {x : Nat} (hx : W32 x) {j : Nat} (hj : 32 ≤ j) : x.testBit j = false :=
  Nat.testBit_lt_two_pow (Nat.lt_of_lt_of_le ((W32_iff_lt_two_pow x).mp hx)
    (Nat.pow_le_pow_right (by norm_num) hj))

theorem testBit_u32 (x j : Nat) : (u32 x).testBit j = (decide (j < 32) && x.testBit j) := by
  have h : (4294967296 : Nat) = 2 ^ 32 := by norm_num
  unfold u32
  rw [h, Nat.testBit_mod_two_pow]

/-- Bits of the funnel shift `(hi << s) + (lo >> (32 - s))` on `u32` operands. -/
theorem testBit_funnel {hi lo s : Nat} (hs : s ≤ 32) (hlo : W32 lo) (j : Nat) :
    (u32 (u32 (hi <<< s) + (lo >>> (32 - s)))).testBit j
      = if j < s then lo.testBit (32 - s + j) else (decide (j < 32) && hi.testBit (j - s)) := by
  have h32 : (4294967296 : Nat) = 2 ^ s * 2 ^ (32 - s) := by
    rw [← Nat.pow_add, Nat.add_sub_cancel' hs]
  have hhi : u32 (hi <<< s) = 2 ^ s * (hi % 2 ^ (32 - s)) := by
    unfold u32
    rw [Nat.shiftLeft_eq, Nat.mul_comm hi, h32, Nat.mul_mod_mul_left]
  have hlo' : lo >>> (32 - s) < 2 ^ s := by
    rw [Nat.shiftRight_eq_div_pow]
    apply Nat.div_lt_of_lt_mul
    rw [Nat.mul_comm, ← h32]
    exact hlo
  have hsum : 2 ^ s * (hi % 2 ^ (32 - s)) + lo >>> (32 - s) < 4294967296 := by
    have h1 : hi % 2 ^ (32 - s) < 2 ^ (32 - s) := Nat.mod_lt _ (Nat.pow_pos (by norm_num))
    have h2 : 2 ^ s * (hi % 2 ^ (32 - s)) + 2 ^ s ≤ 2 ^ s * 2 ^ (32 - s) := by
      calc 2 ^ s * (hi % 2 ^ (32 - s)) + 2 ^ s = 2 ^ s * (hi % 2 ^ (32 - s) + 1) := by ring
        _ ≤ 2 ^ s * 2 ^ (32 - s) := Nat.mul_le_mul_left _ h1
    omega
  rw [hhi, u32_of_W32 hsum, Nat.testBit_mul_pow_two_add _ hlo', Nat.testBit_shiftRight,
    Nat.testBit_mod_two_pow]
  by_cases hj : j < s
  · simp [hj]
  · simp only [hj, if_false]
    have : (j - s < 32 - s) ↔ j < 32 := by omega
    simp [this]

theorem testBit_RL1 {x : Nat} (hx : W32 x) (j : Nat) :
    (CAMELLIA_RL1 x).testBit j
      = if j < 1 then x.testBit (31 + j) else (decide (j < 32) && x.testBit (j - 1)) :=
  testBit_funnel (by norm_num) hx j

theorem testBit_RL8 {x : Nat} (hx : W32 x) (j : Nat) :
    (CAMELLIA_RL8 x).testBit j
      = if j < 8 then x.testBit (24 + j) else (decide (j < 32) && x.testBit (j - 8)) :=
  testBit_funnel (by norm_num) hx j

theorem testBit_RR8 {x : Nat} (hx : W32 x) (j : Nat) :
    (CAMELLIA_RR8 x).testBit j
      = if j < 24 then x.testBit (8 + j) else (decide (j < 32) && x.testBit (j - 24)) := by
  unfold CAMELLIA_RR8
  rw [Nat.add_comm]
  exact testBit_funnel (s := 24) (by norm_num) hx j

theorem CAMELLIA_RL1_xor {a b : Nat} (ha : W32 a) (hb : W32 b) :
    CAMELLIA_RL1 (a ^^^ b) = CAMELLIA_RL1 a ^^^ CAMELLIA_RL1 b := by
  apply Nat.eq_of_testBit_eq
  intro j
  rw [Nat.testBit_xor, testBit_RL1 (W32_xor ha hb), testBit_RL1 ha, testBit_RL1 hb]
  by_cases h1 : j < 1 <;> by_cases h2 : j < 32 <;> simp [h1, h2]

theorem CAMELLIA_RR8_xor {a b : Nat} (ha : W32 a) (hb : W32 b) :
    CAMELLIA_RR8 (a ^^^ b) = CAMELLIA_RR8 a ^^^ CAMELLIA_RR8 b := by
  apply Nat.eq_of_testBit_eq
  intro j
  rw [Nat.testBit_xor, testBit_RR8 (W32_xor ha hb), testBit_RR8 ha, testBit_RR8 hb]
  by_cases h1 : j < 24 <;> by_cases h2 : j < 32 <;> simp [h1, h2]

theorem CAMELLIA_RR8_RL8 {a : Nat} (ha : W32 a) : CAMELLIA_RR8 (CAMELLIA_RL8 a) = a := by
  apply Nat.eq_of_testBit_eq
  intro j
  rw [testBit_RR8 (W32_RL8 a)]
  by_cases h1 : j < 24
  · rw [if_pos h1, testBit_RL8 ha, if_neg (by omega)]
    have : 8 + j - 8 = j := by omega
    simp [this]; omega
  · rw [if_neg h1]
    by_cases h2 : j < 32
    · rw [testBit_RL8 ha, if_pos (by omega)]
      have : 24 + (j - 24) = j := by omega
      simp [this, h2]
    · simp [h2, testBit_of_W32 ha (show 32 ≤ j by omega)]

/-- `k | (y ^ b)` differs from `k | y` by the bits of `b` outside `k`. -/
theorem or_xor_eq {b : Nat} (hb : W32 b) (k y : Nat) :
    k ||| (y ^^^ b) = (k ||| y) ^^^ (b &&& NOT32 k) := by
  apply Nat.eq_of_testBit_eq
  intro j
  have hm : (4294967295 : Nat) = 2 ^ 32 - 1 := by norm_num
  simp only [NOT32, Nat.testBit_or, Nat.testBit_xor, Nat.testBit_and, hm,
    Nat.testBit_two_pow_sub_one]
  by_cases h2 : j < 32
  · cases k.testBit j <;> cases y.testBit j <;> cases b.testBit j <;> simp [h2]
  · rw [testBit_of_W32 hb (show 32 ≤ j by omega)]
    cases k.testBit j <;> cases y.testBit j <;> simp [h2]

/-! ## The optimised rounds simulate the rounds of the specification -/

theorem xor_left_comm (a b c : Nat) : a ^^^ (b ^^^ c) = b ^^^ (a ^^^ c) := by
  rw [← Nat.xor_assoc, Nat.xor_comm a b, Nat.xor_assoc]

theorem PW32_pxor {a b : Nat × Nat} (ha : PW32 a) (hb : PW32 b) : PW32 (pxor a b) :=
  ⟨W32_xor ha.1 hb.1, W32_xor ha.2 hb.2⟩

theorem PW32_FLfold (k : Nat × Nat) {a : Nat × Nat} (ha : PW32 a) : PW32 (FLfold k a) :=
  ⟨W32_xor ha.1 (W32_and_left _ ha.2), W32_xor ha.2 (W32_RL1 _)⟩

theorem PW32_scratchPair {s : Scratch} (hs : s.W32) (i : Nat) : PW32 (scratchPair s i) := hs i

/-- The S-box and first half of the P-function as the round macros compute them from one
64-bit input: `A` from the right word, `B` from the left word. -/
theorem CAMELLIA_F_zero (xl xr : Nat) :
    CAMELLIA_F xl xr 0 0
      = ((CAMELLIA_SP1110 (xr &&& 0xff) ^^^ CAMELLIA_SP0222 ((xr >>> 24) &&& 0xff)
            ^^^ CAMELLIA_SP3033 ((xr >>> 16) &&& 0xff) ^^^ CAMELLIA_SP4404 ((xr >>> 8) &&& 0xff))
          ^^^ (CAMELLIA_SP1110 ((xl >>> 24) &&& 0xff) ^^^ CAMELLIA_SP0222 ((xl >>> 16) &&& 0xff)
            ^^^ CAMELLIA_SP3033 ((xl >>> 8) &&& 0xff) ^^^ CAMELLIA_SP4404 (xl &&& 0xff)),
         CAMELLIA_RR8 (CAMELLIA_SP1110 ((xl >>> 24) &&& 0xff)
            ^^^ CAMELLIA_SP0222 ((xl >>> 16) &&& 0xff)
            ^^^ CAMELLIA_SP3033 ((xl >>> 8) &&& 0xff) ^^^ CAMELLIA_SP4404 (xl &&& 0xff))
          ^^^ ((CAMELLIA_SP1110 (xr &&& 0xff) ^^^ CAMELLIA_SP0222 ((xr >>> 24) &&& 0xff)
            ^^^ CAMELLIA_SP3033 ((xr >>> 16) &&& 0xff) ^^^ CAMELLIA_SP4404 ((xr >>> 8) &&& 0xff))
          ^^^ (CAMELLIA_SP1110 ((xl >>> 24) &&& 0xff) ^^^ CAMELLIA_SP0222 ((xl >>> 16) &&& 0xff)
            ^^^ CAMELLIA_SP3033 ((xl >>> 8) &&& 0xff) ^^^ CAMELLIA_SP4404 (xl &&& 0xff)))) := by
  have h1 : xr >>> 24 = xr >>> 16 >>> 8 := by rw [← Nat.shiftRight_add]
  have h2 : xl >>> 24 = xl >>> 16 >>> 8 := by rw [← Nat.shiftRight_add]
  simp only [CAMELLIA_F, Nat.xor_zero, h1, h2]

/-- The key is mixed into `CAMELLIA_F` before the S-boxes. -/
theorem CAMELLIA_F_key (xl xr kl kr : Nat) :
    CAMELLIA_F xl xr kl kr = CAMELLIA_F (xl ^^^ kl) (xr ^^^ kr) 0 0 := by
  simp only [CAMELLIA_F, Nat.xor_zero]

/-- With a round key stored as `invPkey e`, `CAMELLIA_ROUNDSM` XORs into `(yl, yr)` the
output of `CAMELLIA_F` for a zero key, and then the key `e`. -/
theorem CAMELLIA_ROUNDSM_invPkey (xl xr yl yr : Nat) {e : Nat × Nat} (he : PW32 e) :
    CAMELLIA_ROUNDSM xl xr (invPkey e).1 (invPkey e).2 yl yr
      = (yl ^^^ ((CAMELLIA_F xl xr 0 0).1 ^^^ e.1), yr ^^^ ((CAMELLIA_F xl xr 0 0).2 ^^^ e.2)) := by
  rw [CAMELLIA_F_zero]
  unfold CAMELLIA_ROUNDSM invPkey
  have hA : W32 (CAMELLIA_SP1110 (xr &&& 0xff) ^^^ CAMELLIA_SP0222 ((xr >>> 24) &&& 0xff)
      ^^^ CAMELLIA_SP3033 ((xr >>> 16) &&& 0xff) ^^^ CAMELLIA_SP4404 ((xr >>> 8) &&& 0xff)) :=
    W32_xor (W32_xor (W32_xor (W32_SP1110 _) (W32_SP0222 _)) (W32_SP3033 _)) (W32_SP4404 _)
  have hB : W32 (CAMELLIA_SP1110 ((xl >>> 24) &&& 0xff) ^^^ CAMELLIA_SP0222 ((xl >>> 16) &&& 0xff)
      ^^^ CAMELLIA_SP3033 ((xl >>> 8) &&& 0xff) ^^^ CAMELLIA_SP4404 (xl &&& 0xff)) :=
    W32_xor (W32_xor (W32_xor (W32_SP1110 _) (W32_SP0222 _)) (W32_SP3033 _)) (W32_SP4404 _)
  generalize (CAMELLIA_SP1110 (xr &&& 0xff) ^^^ CAMELLIA_SP0222 ((xr >>> 24) &&& 0xff)
      ^^^ CAMELLIA_SP3033 ((xr >>> 16) &&& 0xff) ^^^ CAMELLIA_SP4404 ((xr >>> 8) &&& 0xff)) = A
    at hA ⊢
  generalize (CAMELLIA_SP1110 ((xl >>> 24) &&& 0xff) ^^^ CAMELLIA_SP0222 ((xl >>> 16) &&& 0xff)
      ^^^ CAMELLIA_SP3033 ((xl >>> 8) &&& 0xff) ^^^ CAMELLIA_SP4404 (xl &&& 0xff)) = B
    at hB ⊢
  have hd : W32 (e.1 ^^^ e.2) := W32_xor he.1 he.2
  simp only []
  rw [CAMELLIA_RR8_xor hB (W32_RL8 _), CAMELLIA_RR8_RL8 hd]
  generalize CAMELLIA_RL8 (e.1 ^^^ e.2) = dw
  generalize CAMELLIA_RR8 B = rB
  generalize e.1 = e1
  generalize e.2 = e2
  have x1 : A ^^^ (e1 ^^^ dw) ^^^ (B ^^^ dw) = A ^^^ B ^^^ e1 := by
    simp only [Nat.xor_assoc, Nat.xor_comm, xor_left_comm, Nat.xor_self, Nat.xor_zero,
      Nat.xor_cancel_left]
  rw [x1]
  have x2 : rB ^^^ (e1 ^^^ e2) ^^^ (A ^^^ B ^^^ e1) = rB ^^^ (A ^^^ B) ^^^ e2 := by
    simp only [Nat.xor_assoc, Nat.xor_comm, xor_left_comm, Nat.xor_self, Nat.xor_zero,
      Nat.xor_cancel_left]
  rw [x2]

theorem FLunfold_FLfold (k a : Nat × Nat) : FLunfold k (FLfold k a) = a := by
  unfold FLunfold FLfold
  simp only [Nat.and_comm k.1, Nat.xor_cancel_right]

theorem whiten01_sim {S : Words} {i : Nat} {k0 k2 : Nat × Nat} (hS : pairAt S i = pxor k0 k2)
    (m : Quad) (k1 : Nat × Nat) :
    whiten01 S i m = xorQ (xorQ m k0 k1) k2 k1 := by
  have hL : CamelliaSubkeyL S i = k0.1 ^^^ k2.1 := congrArg Prod.fst hS
  have hR : CamelliaSubkeyR S i = k0.2 ^^^ k2.2 := congrArg Prod.snd hS
  simp only [whiten01, xorQ, hL, hR, Nat.xor_assoc, Nat.xor_self, Nat.xor_zero]

theorem whiten23_sim {S : Words} {i : Nat} {b b' : Nat × Nat} (hS : pairAt S i = pxor b' b)
    (p : Quad) (a : Nat × Nat) :
    whiten23 S i (xorQ p a b) = xorQ p a b' := by
  have hL : CamelliaSubkeyL S i = b'.1 ^^^ b.1 := congrArg Prod.fst hS
  have hR : CamelliaSubkeyR S i = b'.2 ^^^ b.2 := congrArg Prod.snd hS
  simp only [whiten23, xorQ, hL, hR, Nat.xor_assoc, Nat.xor_comm b'.1, Nat.xor_comm b'.2,
    Nat.xor_cancel_left]

/-- A round on the right half: when the left half carries the round key `k` as a mask
and the stored subkey is `invPkey (b ^ b')`, the optimised round is the round of the
specification and changes the mask of the right half from `b` to `b'`. -/
theorem round01_sim {S : Words} {i : Nat} {b b' : Nat × Nat}
    (hS : pairAt S i = invPkey (pxor b b')) (hb : PW32 b) (hb' : PW32 b')
    (p : Quad) (k : Nat × Nat) :
    round01 S i (xorQ p k b) = xorQ (F_round01 k p) k b' := by
  have hL : CamelliaSubkeyL S i = (invPkey (pxor b b')).1 := congrArg Prod.fst hS
  have hR : CamelliaSubkeyR S i = (invPkey (pxor b b')).2 := congrArg Prod.snd hS
  unfold round01
  rw [hL, hR, CAMELLIA_ROUNDSM_invPkey _ _ _ _ (PW32_pxor hb hb')]
  simp only [xorQ, F_round01, CAMELLIA_F_key p.ll p.lr k.1 k.2, pxor, Quad.mk.injEq, true_and]
  constructor
  · simp only [Nat.xor_assoc, Nat.xor_comm b.1, xor_left_comm b.1, Nat.xor_cancel_left,
      Nat.xor_self, Nat.xor_zero]
  · simp only [Nat.xor_assoc, Nat.xor_comm b.2, xor_left_comm b.2, Nat.xor_cancel_left,
      Nat.xor_self, Nat.xor_zero]

/-- A round on the left half: when the right half carries the round key `k` as a mask
and the stored subkey is `invPkey (a ^ a')`, the optimised round is the round of the
specification and changes the mask of the left half from `a` to `a'`. -/
theorem round23_sim {S : Words} {i : Nat} {a a' : Nat × Nat}
    (hS : pairAt S i = invPkey (pxor a a')) (ha : PW32 a) (ha' : PW32 a')
    (p : Quad) (k : Nat × Nat) :
    round23 S i (xorQ p a k) = xorQ (F_round23 k p) a' k := by
  have hL : CamelliaSubkeyL S i = (invPkey (pxor a a')).1 := congrArg Prod.fst hS
  have hR : CamelliaSubkeyR S i = (invPkey (pxor a a')).2 := congrArg Prod.snd hS
  unfold round23
  rw [hL, hR, CAMELLIA_ROUNDSM_invPkey _ _ _ _ (PW32_pxor ha ha')]
  simp only [xorQ, F_round23, CAMELLIA_F_key p.rl p.rr k.1 k.2, pxor, Quad.mk.injEq, and_true]
  constructor
  · simp only [Nat.xor_assoc, Nat.xor_comm a.1, xor_left_comm a.1, Nat.xor_cancel_left,
      Nat.xor_self, Nat.xor_zero]
  · simp only [Nat.xor_assoc, Nat.xor_comm a.2, xor_left_comm a.2, Nat.xor_cancel_left,
      Nat.xor_self, Nat.xor_zero]

/-- The FL layer is affine in the data: masks `a` (left half) and `b` (right half)
pass through it as `FLunfold ke1 a` and `FLfold ke2 b`. -/
theorem fls_sim {S : Words} {i j : Nat} {ke1 ke2 : Nat × Nat}
    (h1 : pairAt S i = ke1) (h2 : pairAt S j = ke2) (hk1 : PW32 ke1) (hk2 : PW32 ke2)
    (p : Quad) {a b : Nat × Nat} (ha : PW32 a) (hb : PW32 b) :
    fls S i j (xorQ p a b) = xorQ (FL_layer ke1 ke2 p) (FLunfold ke1 a) (FLfold ke2 b) := by
  have h1L : CamelliaSubkeyL S i = ke1.1 := congrArg Prod.fst h1
  have h1R : CamelliaSubkeyR S i = ke1.2 := congrArg Prod.snd h1
  have h2L : CamelliaSubkeyL S j = ke2.1 := congrArg Prod.fst h2
  have h2R : CamelliaSubkeyR S j = ke2.2 := congrArg Prod.snd h2
  unfold fls FL_layer
  rw [h1L, h1R, h2L, h2R]
  obtain ⟨kll, klr⟩ := ke1
  obtain ⟨krl, krr⟩ := ke2
  obtain ⟨a1, a2⟩ := a
  obtain ⟨b1, b2⟩ := b
  obtain ⟨pll, plr, prl, prr⟩ := p
  have hkll : W32 kll := hk1.1
  have hkrl : W32 krl := hk2.1
  have ha2 : W32 a2 := ha.2
  have hb1 : W32 b1 := hb.1
  have hb2 : W32 b2 := hb.2
  simp only [CAMELLIA_FLS, xorQ, FLunfold, FLfold, Quad.mk.injEq]
  have e1 : plr ^^^ a2 ^^^ CAMELLIA_RL1 (kll &&& (pll ^^^ a1))
      = (plr ^^^ CAMELLIA_RL1 (kll &&& pll)) ^^^ (a2 ^^^ CAMELLIA_RL1 (kll &&& a1)) := by
    rw [Nat.and_xor_distrib_left, CAMELLIA_RL1_xor (W32_and_left _ hkll) (W32_and_left _ hkll)]
    simp only [Nat.xor_assoc, Nat.xor_comm a2, xor_left_comm a2]
  have e3 : prl ^^^ b1 ^^^ (krr ||| (prr ^^^ b2))
      = (prl ^^^ (krr ||| prr)) ^^^ (b1 ^^^ (b2 &&& NOT32 krr)) := by
    rw [or_xor_eq hb2]
    simp only [Nat.xor_assoc, Nat.xor_comm b1, xor_left_comm b1]
  refine ⟨?_, e1, e3, ?_⟩
  · rw [e1, or_xor_eq (W32_xor ha2 (W32_RL1 _))]
    simp only [Nat.xor_assoc, Nat.xor_comm a1, xor_left_comm a1]
  · rw [e3, Nat.and_xor_distrib_left,
      CAMELLIA_RL1_xor (W32_and_left _ hkrl) (W32_and_left _ hkrl),
      Nat.and_comm krl (b1 ^^^ (b2 &&& NOT32 krr))]
    simp only [Nat.xor_assoc, Nat.xor_comm b2, xor_left_comm b2]

/-! ## The optimised transform computes the cipher of the specification -/

/-- With the optimised subkeys of `optimised128`, `camellia_encrypt128` computes the
cipher of the specification with the unoptimised subkeys `K`. -/
theorem camellia_encrypt128_eq_plain {S : Words} {K : Nat → Nat × Nat} (hK : ∀ i, PW32 (K i))
    (hS : ∀ i, i ∈ [0, 2, 3, 4, 5, 6, 7, 8, 9, 10, 11, 12, 13, 14, 15, 16, 17, 18, 19, 20,
      21, 22, 23, 24] →
      pairAt S i = optimised128 K i) (m : Quad) :
    camellia_encrypt128 S m = plain_encrypt128 K m := by
  have hF : ∀ i j, PW32 (FLfold (K i) (K j)) := fun i j => PW32_FLfold _ (hK j)
  unfold camellia_encrypt128 plain_encrypt128
  simp only []
  rw [whiten01_sim (hS 0 (by decide)) m (K 1)]
  rw [round01_sim (hS 2 (by decide)) (hK 1) (hK 3)]
  rw [round23_sim (hS 3 (by decide)) (hK 2) (hK 4)]
  rw [round01_sim (hS 4 (by decide)) (hK 3) (hK 5)]
  rw [round23_sim (hS 5 (by decide)) (hK 4) (hK 6)]
  rw [round01_sim (hS 6 (by decide)) (hK 5) (hK 7)]
  rw [round23_sim (hS 7 (by decide)) (hK 6) (hF 8 10)]
  rw [fls_sim (show pairAt S 8 = K 8 from hS 8 (by decide))
    (show pairAt S 9 = K 9 from hS 9 (by decide)) (hK 8) (hK 9) _ (hF 8 10) (hK 7),
    FLunfold_FLfold]
  rw [round01_sim (hS 10 (by decide)) (hF 9 7) (hK 11)]
  rw [round23_sim (hS 11 (by decide)) (hK 10) (hK 12)]
  rw [round01_sim (hS 12 (by decide)) (hK 11) (hK 13)]
  rw [round23_sim (hS 13 (by decide)) (hK 12) (hK 14)]
  rw [round01_sim (hS 14 (by decide)) (hK 13) (hK 15)]
  rw [round23_sim (hS 15 (by decide)) (hK 14) (hF 16 18)]
  rw [fls_sim (show pairAt S 16 = K 16 from hS 16 (by decide))
    (show pairAt S 17 = K 17 from hS 17 (by decide)) (hK 16) (hK 17) _ (hF 16 18) (hK 15),
    FLunfold_FLfold]
  rw [round01_sim (hS 18 (by decide)) (hF 17 15) (hK 19)]
  rw [round23_sim (hS 19 (by decide)) (hK 18) (hK 20)]
  rw [round01_sim (hS 20 (by decide)) (hK 19) (hK 21)]
  rw [round23_sim (hS 21 (by decide)) (hK 20) (hK 22)]
  rw [round01_sim (hS 22 (by decide)) (hK 21) (hK 23)]
  rw [round23_sim (hS 23 (by decide)) (hK 22) (hK 25)]
  rw [whiten23_sim (hS 24 (by decide))]

/-- With the optimised subkeys of `optimised256`, `camellia_encrypt256` computes the
cipher of the specification with the unoptimised subkeys `K`. -/
theorem camellia_encrypt256_eq_plain {S : Words} {K : Nat → Nat × Nat} (hK : ∀ i, PW32 (K i))
    (hS : ∀ i, i ∈ [0, 2, 3, 4, 5, 6, 7, 8, 9, 10, 11, 12, 13, 14, 15, 16, 17, 18, 19, 20,
      21, 22, 23, 24, 25, 26, 27, 28, 29, 30, 31, 32] →
      pairAt S i = optimised256 K i) (m : Quad) :
    camellia_encrypt256 S m = plain_encrypt256 K m := by
  have hF : ∀ i j, PW32 (FLfold (K i) (K j)) := fun i j => PW32_FLfold _ (hK j)
  unfold camellia_encrypt256 plain_encrypt256
  simp only []
  rw [whiten01_sim (hS 0 (by decide)) m (K 1)]
  rw [round01_sim (hS 2 (by decide)) (hK 1) (hK 3)]
  rw [round23_sim (hS 3 (by decide)) (hK 2) (hK 4)]
  rw [round01_sim (hS 4 (by decide)) (hK 3) (hK 5)]
  rw [round23_sim (hS 5 (by decide)) (hK 4) (hK 6)]
  rw [round01_sim (hS 6 (by decide)) (hK 5) (hK 7)]
  rw [round23_sim (hS 7 (by decide)) (hK 6) (hF 8 10)]
  rw [fls_sim (show pairAt S 8 = K 8 from hS 8 (by decide))
    (show pairAt S 9 = K 9 from hS 9 (by decide)) (hK 8) (hK 9) _ (hF 8 10) (hK 7),
    FLunfold_FLfold]
  rw [round01_sim (hS 10 (by decide)) (hF 9 7) (hK 11)]
  rw [round23_sim (hS 11 (by decide)) (hK 10) (hK 12)]
  rw [round01_sim (hS 12 (by decide)) (hK 11) (hK 13)]
  rw [round23_sim (hS 13 (by decide)) (hK 12) (hK 14)]
  rw [round01_sim (hS 14 (by decide)) (hK 13) (hK 15)]
  rw [round23_sim (hS 15 (by decide)) (hK 14) (hF 16 18)]
  rw [fls_sim (show pairAt S 16 = K 16 from hS 16 (by decide))
    (show pairAt S 17 = K 17 from hS 17 (by decide)) (hK 16) (hK 17) _ (hF 16 18) (hK 15),
    FLunfold_FLfold]
  rw [round01_sim (hS 18 (by decide)) (hF 17 15) (hK 19)]
  rw [round23_sim (hS 19 (by decide)) (hK 18) (hK 20)]
  rw [round01_sim (hS 20 (by decide)) (hK 19) (hK 21)]
  rw [round23_sim (hS 21 (by decide)) (hK 20) (hK 22)]
  rw [round01_sim (hS 22 (by decide)) (hK 21) (hK 23)]
  rw [round23_sim (hS 23 (by decide)) (hK 22) (hF 24 26)]
  rw [fls_sim (show pairAt S 24 = K 24 from hS 24 (by decide))
    (show pairAt S 25 = K 25 from hS 25 (by decide)) (hK 24) (hK 25) _ (hF 24 26) (hK 23),
    FLunfold_FLfold]
  rw [round01_sim (hS 26 (by decide)) (hF 25 23) (hK 27)]
  rw [round23_sim (hS 27 (by decide)) (hK 26) (hK 28)]
  rw [round01_sim (hS 28 (by decide)) (hK 27) (hK 29)]
  rw [round23_sim (hS 29 (by decide)) (hK 28) (hK 30)]
  rw [round01_sim (hS 30 (by decide)) (hK 29) (hK 31)]
  rw [round23_sim (hS 31 (by decide)) (hK 30) (hK 33)]
  rw [whiten23_sim (hS 32 (by decide))]

/-! ## The subkey table in terms of the unoptimised subkeys -/

theorem pxor_comm (a b : Nat × Nat) : pxor a b = pxor b a := by
  simp only [pxor, Nat.xor_comm]

theorem pxor_assoc (a b c : Nat × Nat) : pxor (pxor a b) c = pxor a (pxor b c) := by
  simp only [pxor, Nat.xor_assoc]

theorem pxor_left_comm (a b c : Nat × Nat) : pxor a (pxor b c) = pxor b (pxor a c) := by
  simp only [pxor, xor_left_comm a.1, xor_left_comm a.2]

theorem pxor_cancel_left (a b : Nat × Nat) : pxor a (pxor a b) = b := by
  simp only [pxor, Nat.xor_cancel_left]

theorem pxor_self_right (a b : Nat × Nat) : pxor (pxor a b) b = a := by
  simp only [pxor, Nat.xor_cancel_right]

theorem pxor_self (a : Nat × Nat) : pxor a a = (0, 0) := by
  simp only [pxor, Nat.xor_self]

theorem pxor_zero (a : Nat × Nat) : pxor a (0, 0) = a := by
  simp only [pxor, Nat.xor_zero]

/-- `FLfold k` is linear over XOR. -/
theorem FLfold_pxor {k : Nat × Nat} (hk : PW32 k) (a b : Nat × Nat) :
    FLfold k (pxor a b) = pxor (FLfold k a) (FLfold k b) := by
  obtain ⟨a1, a2⟩ := a
  obtain ⟨b1, b2⟩ := b
  have hk1 : W32 k.1 := hk.1
  simp only [FLfold, pxor, Prod.mk.injEq]
  have e1 : a1 ^^^ b1 ^^^ ((a2 ^^^ b2) &&& NOT32 k.2)
      = (a1 ^^^ (a2 &&& NOT32 k.2)) ^^^ (b1 ^^^ (b2 &&& NOT32 k.2)) := by
    rw [Nat.and_xor_distrib_right]
    simp only [Nat.xor_assoc, Nat.xor_comm b1, xor_left_comm b1]
  refine ⟨e1, ?_⟩
  rw [e1, Nat.and_xor_distrib_right,
    CAMELLIA_RL1_xor (W32_and_right _ hk1) (W32_and_right _ hk1)]
  simp only [Nat.xor_assoc, Nat.xor_comm b2, xor_left_comm b2]

/-! ### Reading the scratch arrays after a statement -/

theorem scratchPair_setLR (s : Scratch) (x l r i : Nat) :
    scratchPair (setLR s x l r) i = if i = x then (l, r) else scratchPair s i := by
  unfold scratchPair setLR setR setL subl subr store
  by_cases h : i = x <;> simp [h]

theorem scratchPair_xorLR (s : Scratch) (x l r i : Nat) :
    scratchPair (xorLR s x l r) i
      = if i = x then pxor (scratchPair s x) (l, r) else scratchPair s i := by
  unfold scratchPair xorLR setR setL subl subr store pxor
  by_cases h : i = x <;> simp [h]

theorem scratchPair_kw2_xor (s : Scratch) (x i : Nat) :
    scratchPair (kw2_xor s x) i
      = if i = x then pxor (scratchPair s x) (scratchPair s 1) else scratchPair s i := by
  unfold kw2_xor
  rw [scratchPair_xorLR]
  rfl

theorem scratchPair_kw4_xor (s : Scratch) (kw4 : Nat × Nat) (x i : Nat) :
    scratchPair (kw4_xor s kw4 x) i
      = if i = x then pxor (scratchPair s x) kw4 else scratchPair s i := by
  unfold kw4_xor
  rw [scratchPair_xorLR]

theorem scratchPair_kw2_step (s : Scratch) (x i : Nat) (hx : x ≠ 1) :
    scratchPair (kw2_step s x) i
      = if i = 1 then FLfold (scratchPair s x) (scratchPair s 1) else scratchPair s i := by
  unfold kw2_step scratchPair setR setL subl subr store FLfold
  by_cases h : i = 1
  · subst h
    simp [hx]
  · simp [h]

theorem kw4_step_eq (s : Scratch) (kw4 : Nat × Nat) (x : Nat) :
    kw4_step s kw4 x = FLfold (scratchPair s x) kw4 := rfl

theorem fl_fold_eq (s : Scratch) (a x : Nat) :
    fl_fold s a x = FLfold (scratchPair s x) (scratchPair s a) := rfl

/-! ### Reading the key table after a statement -/

theorem pairAt_setSubkey (S : Words) (i l r j : Nat) :
    pairAt (setSubkey S i l r) j = if j = i then (l, r) else pairAt S j := by
  unfold pairAt setSubkey CamelliaSubkeyL CamelliaSubkeyR store
  by_cases h : j = i
  · subst h
    have : ¬ j * 2 = j * 2 + 1 := by omega
    simp [this]
  · have h1 : ¬ j * 2 = i * 2 + 1 := by omega
    have h2 : ¬ j * 2 = i * 2 := by omega
    have h3 : ¬ j * 2 + 1 = i * 2 := by omega
    have h4 : ¬ j * 2 + 1 = i * 2 + 1 := by omega
    simp [h, h1, h2, h3, h4]

theorem pairAt_invP_step (S : Words) (i j : Nat) :
    pairAt (invP_step S i) j = if j = i then invPkey (pairAt S i) else pairAt S j := by
  unfold pairAt invP_step CamelliaSubkeyL CamelliaSubkeyR store invPkey
  by_cases h : j = i
  · subst h
    have : ¬ j * 2 + 1 = j * 2 := by omega
    simp [this]
  · have h1 : ¬ j * 2 = i * 2 + 1 := by omega
    have h2 : ¬ j * 2 = i * 2 := by omega
    have h3 : ¬ j * 2 + 1 = i * 2 := by omega
    have h4 : ¬ j * 2 + 1 = i * 2 + 1 := by omega
    simp [h, h1, h2, h3, h4]

theorem scratchPair_kw2_xor_eq (s : Scratch) (x : Nat) :
    scratchPair (kw2_xor s x) x = pxor (scratchPair s x) (scratchPair s 1) := by
  rw [scratchPair_kw2_xor, if_pos rfl]

theorem scratchPair_kw2_xor_ne (s : Scratch) (x i : Nat) (h : i ≠ x) :
    scratchPair (kw2_xor s x) i = scratchPair s i := by
  rw [scratchPair_kw2_xor, if_neg h]

theorem scratchPair_kw4_xor_eq (s : Scratch) (kw4 : Nat × Nat) (x : Nat) :
    scratchPair (kw4_xor s kw4 x) x = pxor (scratchPair s x) kw4 := by
  rw [scratchPair_kw4_xor, if_pos rfl]

theorem scratchPair_kw4_xor_ne (s : Scratch) (kw4 : Nat × Nat) (x i : Nat) (h : i ≠ x) :
    scratchPair (kw4_xor s kw4 x) i = scratchPair s i := by
  rw [scratchPair_kw4_xor, if_neg h]

theorem scratchPair_kw2_step_eq (s : Scratch) (x : Nat) (hx : x ≠ 1) :
    scratchPair (kw2_step s x) 1 = FLfold (scratchPair s x) (scratchPair s 1) := by
  rw [scratchPair_kw2_step s x 1 hx, if_pos rfl]

theorem scratchPair_kw2_step_ne (s : Scratch) (x i : Nat) (hx : x ≠ 1) (h : i ≠ 1) :
    scratchPair (kw2_step s x) i = scratchPair s i := by
  rw [scratchPair_kw2_step s x i hx, if_neg h]

theorem pairAt_setSubkey_eq (S : Words) (i l r : Nat) :
    pairAt (setSubkey S i l r) i = (l, r) := by
  rw [pairAt_setSubkey, if_pos rfl]

theorem pairAt_setSubkey_ne (S : Words) (i l r j : Nat) (h : j ≠ i) :
    pairAt (setSubkey S i l r) j = pairAt S j := by
  rw [pairAt_setSubkey, if_neg h]

/-! ## The schedule stores the optimised subkeys -/

theorem pairAt_foldl_invP_not_mem (is : List Nat) (S : Words) (j : Nat) (h : j ∉ is) :
    pairAt (is.foldl invP_step S) j = pairAt S j := by
  induction is generalizing S with
  | nil => rfl
  | cons i is ih =>
    have hji : ¬ j = i := fun hji => h (by rw [hji]; exact List.mem_cons_self _ _)
    rw [List.foldl_cons, ih _ (fun hj => h (List.mem_cons_of_mem _ hj)), pairAt_invP_step,
      if_neg hji]

theorem pairAt_foldl_invP_mem (is : List Nat) (hnd : is.Nodup) (S : Words) (j : Nat)
    (h : j ∈ is) : pairAt (is.foldl invP_step S) j = invPkey (pairAt S j) := by
  induction is generalizing S with
  | nil => exact absurd h (List.not_mem_nil _)
  | cons i is ih =>
    rw [List.foldl_cons]
    rw [List.nodup_cons] at hnd
    by_cases hji : j = i
    · subst hji
      rw [pairAt_foldl_invP_not_mem is _ j hnd.1, pairAt_invP_step, if_pos rfl]
    · have hj : j ∈ is := by
        rcases List.mem_cons.mp h with h1 | h1
        · exact absurd h1 hji
        · exact h1
      rw [ih hnd.2 _ hj, pairAt_invP_step, if_neg hji]

/-- The section "key XOR is end of F-function" of `camellia_setup128`, pair by pair. -/
theorem setup128_emit_pair (s : Scratch) (T0 : Words) (i : Nat)
    (hi : i ∈ [0, 2, 3, 4, 5, 6, 7, 8, 9, 10, 11, 12, 13, 14, 15, 16, 17, 18, 19, 20,
      21, 22, 23, 24]) :
    pairAt (setup128_emit s T0) i = emitted128 (scratchPair s) i := by
  simp only [List.mem_cons, List.mem_singleton, List.mem_nil_iff, or_false] at hi
  rcases hi with rfl | rfl | rfl | rfl | rfl | rfl | rfl | rfl | rfl | rfl | rfl | rfl | rfl
    | rfl | rfl | rfl | rfl | rfl | rfl | rfl | rfl | rfl | rfl | rfl
  all_goals
    simp only [setup128_emit, pairAt_setSubkey_eq, pairAt_setSubkey_ne, Nat.reduceEqDiff, ne_eq,
      not_false_eq_true, emitted128]
    rfl

set_option maxHeartbeats 2000000 in
/-- The sections "absorb kw2 to other subkeys" and "absorb kw4 to other subkeys" of
`camellia_setup128`, pair by pair. -/
theorem setup128_absorb_pair (s : Scratch) (i : Nat) :
    scratchPair (setup128_kw4 (setup128_kw2 s)) i = absorbed128 (scratchPair s) i := by
  by_cases hi : i < 26
  · interval_cases i
    all_goals
      simp only [setup128_kw4, setup128_kw2, scratchPair_kw4_xor_eq, scratchPair_kw4_xor_ne,
        scratchPair_kw2_xor_eq, scratchPair_kw2_xor_ne, scratchPair_kw2_step_eq,
        scratchPair_kw2_step_ne, kw4_step_eq, Nat.reduceEqDiff, ne_eq, not_false_eq_true,
        absorbed128]
      try rfl
  · have e : absorbed128 (scratchPair s) i = scratchPair s i := by
      unfold absorbed128
      split <;> first | omega | rfl
    have hne : ∀ x, x < 26 → i ≠ x := fun x hx => by omega
    rw [e]
    simp only [setup128_kw4, setup128_kw2, kw4_step_eq]
    repeat first
      | rw [scratchPair_kw4_xor_ne _ _ _ _ (hne _ (by norm_num))]
      | rw [scratchPair_kw2_xor_ne _ _ _ (hne _ (by norm_num))]
      | rw [scratchPair_kw2_step_ne _ _ _ (by norm_num) (hne _ (by norm_num))]

/-- Folding the whitening keys into the round keys: what the schedule stores is the
optimised subkey of `optimised128`. -/
theorem emitted128_absorbed (K : Nat → Nat × Nat) (hK : ∀ i, PW32 (K i)) (i : Nat)
    (hi : i ∈ [0, 2, 3, 4, 5, 6, 7, 8, 9, 10, 11, 12, 13, 14, 15, 16, 17, 18, 19, 20,
      21, 22, 23, 24]) :
    (if i ∈ [2, 3, 4, 5, 6, 7, 10, 11, 12, 13, 14, 15, 18, 19, 20, 21, 22, 23]
      then invPkey (emitted128 (absorbed128 K) i) else emitted128 (absorbed128 K) i)
      = optimised128 K i := by
  simp only [List.mem_cons, List.mem_singleton, List.mem_nil_iff, or_false] at hi
  rcases hi with rfl | rfl | rfl | rfl | rfl | rfl | rfl | rfl | rfl | rfl | rfl | rfl | rfl
    | rfl | rfl | rfl | rfl | rfl | rfl | rfl | rfl | rfl | rfl | rfl
  all_goals
    simp only [List.mem_cons, List.mem_singleton, List.mem_nil_iff, or_false, Nat.reduceEqDiff,
      or_self, or_true, true_or, if_true, if_false, emitted128, absorbed128, optimised128,
      FLfold_pxor (hK 8), FLfold_pxor (hK 9), FLfold_pxor (hK 16), FLfold_pxor (hK 17),
      pxor_assoc, pxor_cancel_left, pxor_self_right, pxor_self, pxor_zero]
    try simp only [pxor_comm, pxor_left_comm, pxor_cancel_left, pxor_self, pxor_zero]

/-- The key table left by the last four sections of `camellia_setup128` holds, in
every pair it writes, the optimised subkey for the scratch pairs `s` that enter them. -/
theorem setup128_table (s : Scratch) (hs : s.W32) (T0 : Words) (i : Nat)
    (hi : i ∈ [0, 2, 3, 4, 5, 6, 7, 8, 9, 10, 11, 12, 13, 14, 15, 16, 17, 18, 19, 20,
      21, 22, 23, 24]) :
    pairAt (setup128_invP (setup128_emit (setup128_kw4 (setup128_kw2 s)) T0)) i
      = optimised128 (scratchPair s) i := by
  rw [← emitted128_absorbed (scratchPair s) hs i hi]
  have e : scratchPair (setup128_kw4 (setup128_kw2 s)) = absorbed128 (scratchPair s) :=
    funext (setup128_absorb_pair s)
  unfold setup128_invP
  by_cases hR : i ∈ [2, 3, 4, 5, 6, 7, 10, 11, 12, 13, 14, 15, 18, 19, 20, 21, 22, 23]
  · rw [if_pos hR, pairAt_foldl_invP_mem _ (by decide) _ _ hR, setup128_emit_pair _ T0 i hi, e]
  · rw [if_neg hR, pairAt_foldl_invP_not_mem _ _ _ hR, setup128_emit_pair _ T0 i hi, e]

/-- The section "key XOR is end of F-function" of `camellia_setup256`, pair by pair. -/
theorem setup256_emit_pair (s : Scratch) (T0 : Words) (i : Nat)
    (hi : i ∈ [0, 2, 3, 4, 5, 6, 7, 8, 9, 10, 11, 12, 13, 14, 15, 16, 17, 18, 19, 20,
      21, 22, 23, 24, 25, 26, 27, 28, 29, 30, 31, 32]) :
    pairAt (setup256_emit s T0) i = emitted256 (scratchPair s) i := by
  simp only [List.mem_cons, List.mem_singleton, List.mem_nil_iff, or_false] at hi
  rcases hi with rfl | rfl | rfl | rfl | rfl | rfl | rfl | rfl | rfl | rfl | rfl | rfl | rfl
    | rfl | rfl | rfl | rfl | rfl | rfl | rfl | rfl | rfl | rfl | rfl | rfl | rfl
    | rfl | rfl | rfl | rfl | rfl | rfl
  all_goals
    simp only [setup256_emit, pairAt_setSubkey_eq, pairAt_setSubkey_ne, Nat.reduceEqDiff, ne_eq,
      not_false_eq_true, emitted256]
    rfl

set_option maxHeartbeats 2000000 in
/-- The sections "absorb kw2 to other subkeys" and "absorb kw4 to other subkeys" of
`camellia_setup256`, pair by pair. -/
theorem setup256_absorb_pair (s : Scratch) (i : Nat) :
    scratchPair (setup256_kw4 (setup256_kw2 s)) i = absorbed256 (scratchPair s) i := by
  by_cases hi : i < 34
  · interval_cases i
    all_goals
      simp only [setup256_kw4, setup256_kw2, scratchPair_kw4_xor_eq, scratchPair_kw4_xor_ne,
        scratchPair_kw2_xor_eq, scratchPair_kw2_xor_ne, scratchPair_kw2_step_eq,
        scratchPair_kw2_step_ne, kw4_step_eq, Nat.reduceEqDiff, ne_eq, not_false_eq_true,
        absorbed256]
      try rfl
  · have e : absorbed256 (scratchPair s) i = scratchPair s i := by
      unfold absorbed256
      split <;> first | omega | rfl
    have hne : ∀ x, x < 34 → i ≠ x := fun x hx => by omega
    rw [e]
    simp only [setup256_kw4, setup256_kw2, kw4_step_eq]
    repeat first
      | rw [scratchPair_kw4_xor_ne _ _ _ _ (hne _ (by norm_num))]
      | rw [scratchPair_kw2_xor_ne _ _ _ (hne _ (by norm_num))]
      | rw [scratchPair_kw2_step_ne _ _ _ (by norm_num) (hne _ (by norm_num))]

/-- Folding the whitening keys into the round keys: what the schedule stores is the
optimised subkey of `optimised256`. -/
theorem emitted256_absorbed (K : Nat → Nat × Nat) (hK : ∀ i, PW32 (K i)) (i : Nat)
    (hi : i ∈ [0, 2, 3, 4, 5, 6, 7, 8, 9, 10, 11, 12, 13, 14, 15, 16, 17, 18, 19, 20,
      21, 22, 23, 24, 25, 26, 27, 28, 29, 30, 31, 32]) :
    (if i ∈ [2, 3, 4, 5, 6, 7, 10, 11, 12, 13, 14, 15, 18, 19, 20, 21, 22, 23, 26, 27,
      28, 29, 30, 31]
      then invPkey (emitted256 (absorbed256 K) i) else emitted256 (absorbed256 K) i)
      = optimised256 K i := by
  simp only [List.mem_cons, List.mem_singleton, List.mem_nil_iff, or_false] at hi
  rcases hi with rfl | rfl | rfl | rfl | rfl | rfl | rfl | rfl | rfl | rfl | rfl | rfl | rfl
    | rfl | rfl | rfl | rfl | rfl | rfl | rfl | rfl | rfl | rfl | rfl | rfl | rfl
    | rfl | rfl | rfl | rfl | rfl | rfl
  all_goals
    simp only [List.mem_cons, List.mem_singleton, List.mem_nil_iff, or_false, Nat.reduceEqDiff,
      or_self, or_true, true_or, if_true, if_false, emitted256, absorbed256, optimised256,
      FLfold_pxor (hK 8), FLfold_pxor (hK 9), FLfold_pxor (hK 16), FLfold_pxor (hK 17),
      FLfold_pxor (hK 24), FLfold_pxor (hK 25),
      pxor_assoc, pxor_cancel_left, pxor_self_right, pxor_self, pxor_zero]
    try simp only [pxor_comm, pxor_left_comm, pxor_cancel_left, pxor_self, pxor_zero]

/-- The key table left by the last four sections of `camellia_setup256` holds, in
every pair it writes, the optimised subkey for the scratch pairs `s` that enter them. -/
theorem setup256_table (s : Scratch) (hs : s.W32) (T0 : Words) (i : Nat)
    (hi : i ∈ [0, 2, 3, 4, 5, 6, 7, 8, 9, 10, 11, 12, 13, 14, 15, 16, 17, 18, 19, 20,
      21, 22, 23, 24, 25, 26, 27, 28, 29, 30, 31, 32]) :
    pairAt (setup256_invP (setup256_emit (setup256_kw4 (setup256_kw2 s)) T0)) i
      = optimised256 (scratchPair s) i := by
  rw [← emitted256_absorbed (scratchPair s) hs i hi]
  have e : scratchPair (setup256_kw4 (setup256_kw2 s)) = absorbed256 (scratchPair s) :=
    funext (setup256_absorb_pair s)
  unfold setup256_invP
  by_cases hR : i ∈ [2, 3, 4, 5, 6, 7, 10, 11, 12, 13, 14, 15, 18, 19, 20, 21, 22, 23, 26, 27,
      28, 29, 30, 31]
  · rw [if_pos hR, pairAt_foldl_invP_mem _ (by decide) _ _ hR, setup256_emit_pair _ T0 i hi, e]
  · rw [if_neg hR, pairAt_foldl_invP_not_mem _ _ _ hR, setup256_emit_pair _ T0 i hi, e]

/-! ## Bitwise operations on concatenated numbers -/

theorem testBit_pack (a : Nat) {b k : Nat} (hb : b < 2 ^ k) (j : Nat) :
    (a * 2 ^ k + b).testBit j = if j < k then b.testBit j else a.testBit (j - k) := by
  rw [Nat.mul_comm]
  exact Nat.testBit_mul_pow_two_add a hb j

theorem xor_pack (a a' : Nat) {b b' k : Nat} (hb : b < 2 ^ k) (hb' : b' < 2 ^ k) :
    (a * 2 ^ k + b) ^^^ (a' * 2 ^ k + b') = (a ^^^ a') * 2 ^ k + (b ^^^ b') := by
  apply Nat.eq_of_testBit_eq
  intro j
  rw [Nat.testBit_xor, testBit_pack a hb, testBit_pack a' hb',
    testBit_pack _ (Nat.xor_lt_two_pow hb hb')]
  by_cases hj : j < k <;> simp [hj]

theorem or_pack (a a' : Nat) {b b' k : Nat} (hb : b < 2 ^ k) (hb' : b' < 2 ^ k) :
    (a * 2 ^ k + b) ||| (a' * 2 ^ k + b') = (a ||| a') * 2 ^ k + (b ||| b') := by
  apply Nat.eq_of_testBit_eq
  intro j
  rw [Nat.testBit_or, testBit_pack a hb, testBit_pack a' hb',
    testBit_pack _ (Nat.or_lt_two_pow hb hb')]
  by_cases hj : j < k <;> simp [hj]

theorem and_pack (a a' : Nat) {b b' k : Nat} (hb : b < 2 ^ k) (hb' : b' < 2 ^ k) :
    (a * 2 ^ k + b) &&& (a' * 2 ^ k + b') = (a &&& a') * 2 ^ k + (b &&& b') := by
  apply Nat.eq_of_testBit_eq
  intro j
  rw [Nat.testBit_and, testBit_pack a hb, testBit_pack a' hb',
    testBit_pack _ (Nat.and_lt_two_pow b hb')]
  by_cases hj : j < k <;> simp [hj]

/-- OR of a multiple of `2 ^ k` with a number below `2 ^ k` is their sum. -/
theorem or_eq_add {A B : Nat} (k : Nat) (hA : A % 2 ^ k = 0) (hB : B < 2 ^ k) :
    A ||| B = A + B := by
  have h : A = 2 ^ k * (A / 2 ^ k) := by
    have := Nat.div_add_mod A (2 ^ k)
    omega
  rw [h, Nat.mul_add_lt_is_or hB]

/-- Masking with `2 ^ k - 1` is reduction modulo `2 ^ k`. -/
theorem and_mask (x k m : Nat) (hm : m = 2 ^ k - 1) : x &&& m = x % 2 ^ k := by
  rw [hm, Nat.and_pow_two_sub_one_eq_mod]

theorem and_MASK8 (x : Nat) : x &&& Ref.MASK8 = x % 256 :=
  and_mask x 8 _ (by norm_num [Ref.MASK8])

theorem and_255 (x : Nat) : x &&& 255 = x % 256 :=
  and_mask x 8 _ (by norm_num)

theorem and_MASK32 (x : Nat) : x &&& Ref.MASK32 = x % 2 ^ 32 :=
  and_mask x 32 _ (by norm_num [Ref.MASK32])

theorem and_MASK64 (x : Nat) : x &&& Ref.MASK64 = x % 2 ^ 64 :=
  and_mask x 64 _ (by norm_num [Ref.MASK64])

theorem and_MASK128 (x : Nat) : x &&& Ref.MASK128 = x % 2 ^ 128 :=
  and_mask x 128 _ (by norm_num [Ref.MASK128])

/-! ### 64-bit numbers as pairs of words -/

theorem W32_lt {x : Nat} (h : W32 x) : x < 2 ^ 32 := (W32_iff_lt_two_pow x).mp h

theorem pack64_lt {a : Nat × Nat} (ha : PW32 a) : pack64 a < 2 ^ 64 := by
  have h1 := W32_lt ha.1
  have h2 := W32_lt ha.2
  unfold pack64
  omega

theorem pack64_shiftRight {a : Nat × Nat} (ha : PW32 a) : pack64 a >>> 32 = a.1 := by
  have h2 := W32_lt ha.2
  unfold pack64
  rw [Nat.shiftRight_eq_div_pow]
  omega

theorem pack64_and_MASK32 {a : Nat × Nat} (ha : PW32 a) : pack64 a &&& Ref.MASK32 = a.2 := by
  have h2 := W32_lt ha.2
  unfold pack64
  rw [and_MASK32]
  omega

theorem pack64_pxor {a b : Nat × Nat} (ha : PW32 a) (hb : PW32 b) :
    pack64 (pxor a b) = pack64 a ^^^ pack64 b := by
  unfold pack64 pxor
  rw [xor_pack _ _ (W32_lt ha.2) (W32_lt hb.2)]

theorem shiftLeft_or_eq_pack64 (x : Nat) {y : Nat} (hy : W32 y) :
    (x <<< 32) ||| y = pack64 (x, y) := by
  have h := W32_lt hy
  unfold pack64
  rw [Nat.shiftLeft_eq, or_eq_add 32 (by omega) h]

theorem pack64_inj {a b : Nat × Nat} (ha : PW32 a) (hb : PW32 b) (h : pack64 a = pack64 b) :
    a = b := by
  have h1 := W32_lt ha.2
  have h2 := W32_lt hb.2
  unfold pack64 at h
  have e1 : a.1 = b.1 := by omega
  have e2 : a.2 = b.2 := by omega
  exact Prod.ext e1 e2

/-! ### 32-bit numbers as four bytes -/

theorem bytes4_lt {w x y z : Nat} (hw : w < 256) (hx : x < 256) (hy : y < 256) (hz : z < 256) :
    bytes4 w x y z < 2 ^ 32 := by
  unfold bytes4; omega

theorem bytes4_W32 {w x y z : Nat} (hw : w < 256) (hx : x < 256) (hy : y < 256) (hz : z < 256) :
    W32 (bytes4 w x y z) := by
  unfold bytes4 W32; omega

theorem byte_xor_lt {a b : Nat} (ha : a < 256) (hb : b < 256) : a ^^^ b < 256 := by
  have h : (256 : Nat) = 2 ^ 8 := by norm_num
  rw [h] at *
  exact Nat.xor_lt_two_pow ha hb

theorem bytes4_xor {w x y z w' x' y' z' : Nat} (hx : x < 256) (hy : y < 256) (hz : z < 256)
    (hx' : x' < 256) (hy' : y' < 256) (hz' : z' < 256) :
    bytes4 w x y z ^^^ bytes4 w' x' y' z' = bytes4 (w ^^^ w') (x ^^^ x') (y ^^^ y') (z ^^^ z') := by
  unfold bytes4
  have h8 : (256 : Nat) = 2 ^ 8 := by norm_num
  rw [h8] at *
  rw [xor_pack _ _ hz hz', xor_pack _ _ hy hy', xor_pack _ _ hx hx']

theorem CAMELLIA_RR8_bytes4 {w x y z : Nat} (hw : w < 256) (hx : x < 256) (hy : y < 256)
    (hz : z < 256) : CAMELLIA_RR8 (bytes4 w x y z) = bytes4 z w x y := by
  unfold CAMELLIA_RR8 u32 bytes4
  rw [Nat.shiftRight_eq_div_pow, Nat.shiftLeft_eq]
  have e1 : (((w * 256 + x) * 256 + y) * 256 + z) / 2 ^ 8 = (w * 256 + x) * 256 + y := by omega
  have e2 : (((w * 256 + x) * 256 + y) * 256 + z) * 2 ^ 24 % 4294967296 = z * 16777216 := by
    omega
  rw [e1, e2]
  omega

/-! ## The round function: tables against S-boxes and P-function -/

set_option maxRecDepth 1000000 in
/-- The four 32-bit tables hold the S-boxes of the specification, each in the byte
lanes its name tells. -/
theorem sp_tables_eq : ∀ b, b < 256 →
    CAMELLIA_SP1110 b = bytes4 (Ref.sbox1 b) (Ref.sbox1 b) (Ref.sbox1 b) 0
      ∧ CAMELLIA_SP0222 b = bytes4 0 (Ref.sbox2 b) (Ref.sbox2 b) (Ref.sbox2 b)
      ∧ CAMELLIA_SP3033 b = bytes4 (Ref.sbox3 b) 0 (Ref.sbox3 b) (Ref.sbox3 b)
      ∧ CAMELLIA_SP4404 b = bytes4 (Ref.sbox4 b) (Ref.sbox4 b) 0 (Ref.sbox4 b) := by
  decide

set_option maxRecDepth 1000000 in
theorem sbox_lt : ∀ b, b < 256 →
    Ref.sbox1 b < 256 ∧ Ref.sbox2 b < 256 ∧ Ref.sbox3 b < 256 ∧ Ref.sbox4 b < 256 := by
  decide

/-- XOR of one entry of each table, byte by byte. -/
theorem sp_sum_bytes {a b c d : Nat} (ha : a < 256) (hb : b < 256) (hc : c < 256)
    (hd : d < 256) :
    bytes4 a a a 0 ^^^ bytes4 0 b b b ^^^ bytes4 c 0 c c ^^^ bytes4 d d 0 d
      = bytes4 (a ^^^ c ^^^ d) (a ^^^ b ^^^ d) (a ^^^ b ^^^ c) (b ^^^ c ^^^ d) := by
  have h0 : (0 : Nat) < 256 := by norm_num
  rw [bytes4_xor ha ha h0 hb hb hb,
    bytes4_xor (byte_xor_lt ha hb) (byte_xor_lt ha hb) (byte_xor_lt h0 hb) h0 hc hc,
    bytes4_xor (byte_xor_lt (byte_xor_lt ha hb) h0) (byte_xor_lt (byte_xor_lt ha hb) hc)
      (byte_xor_lt (byte_xor_lt h0 hb) hc) hd h0 hd]
  simp only [Nat.xor_zero, Nat.zero_xor]

/-- Eight bytes joined with shifts and ORs, as two words. -/
theorem or_chain8 {y1 y2 y3 y4 y5 y6 y7 y8 : Nat} (h2 : y2 < 256) (h3 : y3 < 256)
    (h4 : y4 < 256) (h5 : y5 < 256) (h6 : y6 < 256) (h7 : y7 < 256) (h8 : y8 < 256) :
    (y1 <<< 56) ||| (y2 <<< 48) ||| (y3 <<< 40) ||| (y4 <<< 32) ||| (y5 <<< 24) ||| (y6 <<< 16)
      ||| (y7 <<< 8) ||| y8 = pack64 (bytes4 y1 y2 y3 y4, bytes4 y5 y6 y7 y8) := by
  simp only [Nat.shiftLeft_eq]
  have e1 : y1 * 2 ^ 56 ||| y2 * 2 ^ 48 = y1 * 2 ^ 56 + y2 * 2 ^ 48 :=
    or_eq_add 56 (by omega) (by omega)
  rw [e1]
  have e2 : (y1 * 2 ^ 56 + y2 * 2 ^ 48) ||| y3 * 2 ^ 40 = y1 * 2 ^ 56 + y2 * 2 ^ 48 + y3 * 2 ^ 40 :=
    or_eq_add 48 (by omega) (by omega)
  rw [e2]
  have e3 : (y1 * 2 ^ 56 + y2 * 2 ^ 48 + y3 * 2 ^ 40) ||| y4 * 2 ^ 32
      = y1 * 2 ^ 56 + y2 * 2 ^ 48 + y3 * 2 ^ 40 + y4 * 2 ^ 32 :=
    or_eq_add 40 (by omega) (by omega)
  rw [e3]
  have e4 : (y1 * 2 ^ 56 + y2 * 2 ^ 48 + y3 * 2 ^ 40 + y4 * 2 ^ 32) ||| y5 * 2 ^ 24
      = y1 * 2 ^ 56 + y2 * 2 ^ 48 + y3 * 2 ^ 40 + y4 * 2 ^ 32 + y5 * 2 ^ 24 :=
    or_eq_add 32 (by omega) (by omega)
  rw [e4]
  have e5 : (y1 * 2 ^ 56 + y2 * 2 ^ 48 + y3 * 2 ^ 40 + y4 * 2 ^ 32 + y5 * 2 ^ 24) ||| y6 * 2 ^ 16
      = y1 * 2 ^ 56 + y2 * 2 ^ 48 + y3 * 2 ^ 40 + y4 * 2 ^ 32 + y5 * 2 ^ 24 + y6 * 2 ^ 16 :=
    or_eq_add 24 (by omega) (by omega)
  rw [e5]
  have e6 : (y1 * 2 ^ 56 + y2 * 2 ^ 48 + y3 * 2 ^ 40 + y4 * 2 ^ 32 + y5 * 2 ^ 24 + y6 * 2 ^ 16)
      ||| y7 * 2 ^ 8
      = y1 * 2 ^ 56 + y2 * 2 ^ 48 + y3 * 2 ^ 40 + y4 * 2 ^ 32 + y5 * 2 ^ 24 + y6 * 2 ^ 16
        + y7 * 2 ^ 8 :=
    or_eq_add 16 (by omega) (by omega)
  rw [e6]
  have e7 : (y1 * 2 ^ 56 + y2 * 2 ^ 48 + y3 * 2 ^ 40 + y4 * 2 ^ 32 + y5 * 2 ^ 24 + y6 * 2 ^ 16
      + y7 * 2 ^ 8) ||| y8
      = y1 * 2 ^ 56 + y2 * 2 ^ 48 + y3 * 2 ^ 40 + y4 * 2 ^ 32 + y5 * 2 ^ 24 + y6 * 2 ^ 16
        + y7 * 2 ^ 8 + y8 :=
    or_eq_add 8 (by omega) (by omega)
  rw [e7]
  unfold pack64 bytes4
  omega

/-- `Ref.F` on 64-bit numbers is `CAMELLIA_F` on their words. -/
theorem Ref_F_eq {x k : Nat × Nat} (hx : PW32 x) (hk : PW32 k) :
    Ref.F (pack64 x) (pack64 k) = pack64 (CAMELLIA_F x.1 x.2 k.1 k.2) := by
  rw [CAMELLIA_F_key, CAMELLIA_F_zero]
  unfold Ref.F
  simp only []
  rw [← pack64_pxor hx hk]
  have hil : x.1 ^^^ k.1 < 2 ^ 32 := W32_lt (W32_xor hx.1 hk.1)
  have hir : x.2 ^^^ k.2 < 2 ^ 32 := W32_lt (W32_xor hx.2 hk.2)
  simp only [pxor, pack64]
  generalize x.1 ^^^ k.1 = il at hil ⊢
  generalize x.2 ^^^ k.2 = ir at hir ⊢
  simp only [and_MASK8, and_255, Nat.shiftRight_eq_div_pow]
  have t1 : (il * 2 ^ 32 + ir) / 2 ^ 56 = il / 2 ^ 24 % 256 := by omega
  have t2 : (il * 2 ^ 32 + ir) / 2 ^ 48 % 256 = il / 2 ^ 16 % 256 := by omega
  have t3 : (il * 2 ^ 32 + ir) / 2 ^ 40 % 256 = il / 2 ^ 8 % 256 := by omega
  have t4 : (il * 2 ^ 32 + ir) / 2 ^ 32 % 256 = il % 256 := by omega
  have t5 : (il * 2 ^ 32 + ir) / 2 ^ 24 % 256 = ir / 2 ^ 24 % 256 := by omega
  have t6 : (il * 2 ^ 32 + ir) / 2 ^ 16 % 256 = ir / 2 ^ 16 % 256 := by omega
  have t7 : (il * 2 ^ 32 + ir) / 2 ^ 8 % 256 = ir / 2 ^ 8 % 256 := by omega
  have t8 : (il * 2 ^ 32 + ir) % 256 = ir % 256 := by omega
  rw [t1, t2, t3, t4, t5, t6, t7, t8]
  have b1 : il / 2 ^ 24 % 256 < 256 := Nat.mod_lt _ (by norm_num)
  have b2 : il / 2 ^ 16 % 256 < 256 := Nat.mod_lt _ (by norm_num)
  have b3 : il / 2 ^ 8 % 256 < 256 := Nat.mod_lt _ (by norm_num)
  have b4 : il % 256 < 256 := Nat.mod_lt _ (by norm_num)
  have b5 : ir / 2 ^ 24 % 256 < 256 := Nat.mod_lt _ (by norm_num)
  have b6 : ir / 2 ^ 16 % 256 < 256 := Nat.mod_lt _ (by norm_num)
  have b7 : ir / 2 ^ 8 % 256 < 256 := Nat.mod_lt _ (by norm_num)
  have b8 : ir % 256 < 256 := Nat.mod_lt _ (by norm_num)
  rw [(sp_tables_eq _ b8).1, (sp_tables_eq _ b5).2.1, (sp_tables_eq _ b6).2.2.1,
    (sp_tables_eq _ b7).2.2.2, (sp_tables_eq _ b1).1, (sp_tables_eq _ b2).2.1,
    (sp_tables_eq _ b3).2.2.1, (sp_tables_eq _ b4).2.2.2]
  have a1 := (sbox_lt _ b1).1
  have a2 := (sbox_lt _ b2).2.1
  have a3 := (sbox_lt _ b3).2.2.1
  have a4 := (sbox_lt _ b4).2.2.2
  have a5 := (sbox_lt _ b5).2.1
  have a6 := (sbox_lt _ b6).2.2.1
  have a7 := (sbox_lt _ b7).2.2.2
  have a8 := (sbox_lt _ b8).1
  generalize Ref.sbox1 (il / 2 ^ 24 % 256) = s1 at a1 ⊢
  generalize Ref.sbox2 (il / 2 ^ 16 % 256) = s2 at a2 ⊢
  generalize Ref.sbox3 (il / 2 ^ 8 % 256) = s3 at a3 ⊢
  generalize Ref.sbox4 (il % 256) = s4 at a4 ⊢
  generalize Ref.sbox2 (ir / 2 ^ 24 % 256) = s5 at a5 ⊢
  generalize Ref.sbox3 (ir / 2 ^ 16 % 256) = s6 at a6 ⊢
  generalize Ref.sbox4 (ir / 2 ^ 8 % 256) = s7 at a7 ⊢
  generalize Ref.sbox1 (ir % 256) = s8 at a8 ⊢
  rw [sp_sum_bytes a8 a5 a6 a7, sp_sum_bytes a1 a2 a3 a4,
    CAMELLIA_RR8_bytes4 (byte_xor_lt (byte_xor_lt a1 a3) a4) (byte_xor_lt (byte_xor_lt a1 a2) a4) (byte_xor_lt (byte_xor_lt a1 a2) a3)
      (byte_xor_lt (byte_xor_lt a2 a3) a4),
    bytes4_xor (byte_xor_lt (byte_xor_lt a8 a5) a7) (byte_xor_lt (byte_xor_lt a8 a5) a6) (byte_xor_lt (byte_xor_lt a5 a6) a7)
      (byte_xor_lt (byte_xor_lt a1 a2) a4) (byte_xor_lt (byte_xor_lt a1 a2) a3) (byte_xor_lt (byte_xor_lt a2 a3) a4),
    bytes4_xor (byte_xor_lt (byte_xor_lt a1 a3) a4) (byte_xor_lt (byte_xor_lt a1 a2) a4) (byte_xor_lt (byte_xor_lt a1 a2) a3)
      (byte_xor_lt (byte_xor_lt (byte_xor_lt a8 a5) a7) (byte_xor_lt (byte_xor_lt a1 a2) a4)) (byte_xor_lt (byte_xor_lt (byte_xor_lt a8 a5) a6) (byte_xor_lt (byte_xor_lt a1 a2) a3))
      (byte_xor_lt (byte_xor_lt (byte_xor_lt a5 a6) a7) (byte_xor_lt (byte_xor_lt a2 a3) a4)),
    or_chain8 (byte_xor_lt (byte_xor_lt (byte_xor_lt (byte_xor_lt (byte_xor_lt a1 a2) a4) a5) a7) a8)
      (byte_xor_lt (byte_xor_lt (byte_xor_lt (byte_xor_lt (byte_xor_lt a1 a2) a3) a5) a6) a8) (byte_xor_lt (byte_xor_lt (byte_xor_lt (byte_xor_lt (byte_xor_lt a2 a3) a4) a5) a6) a7)
      (byte_xor_lt (byte_xor_lt (byte_xor_lt (byte_xor_lt a1 a2) a6) a7) a8) (byte_xor_lt (byte_xor_lt (byte_xor_lt (byte_xor_lt a2 a3) a5) a7) a8)
      (byte_xor_lt (byte_xor_lt (byte_xor_lt (byte_xor_lt a3 a4) a5) a6) a8) (byte_xor_lt (byte_xor_lt (byte_xor_lt (byte_xor_lt a1 a4) a5) a6) a7)]
  simp only [pack64, Nat.xor_assoc, Nat.xor_comm, xor_left_comm, Nat.xor_cancel_left,
    Nat.xor_self, Nat.xor_zero]

/-! ## Rounds and FL layers on 64-bit halves -/

theorem rotl32_one {x : Nat} (hx : W32 x) : Ref.rotl32 x 1 = CAMELLIA_RL1 x := by
  have h := W32_lt hx
  unfold Ref.rotl32 CAMELLIA_RL1 u32
  rw [and_MASK32, Nat.shiftLeft_eq, Nat.shiftRight_eq_div_pow,
    or_eq_add 1 (by omega) (by omega)]
  omega

theorem pack128_lt {q : Quad} (hq : q.W32) : pack128 q < 2 ^ 128 := by
  have h1 := pack64_lt (a := (q.ll, q.lr)) ⟨hq.1, hq.2.1⟩
  have h2 := pack64_lt (a := (q.rl, q.rr)) ⟨hq.2.2.1, hq.2.2.2⟩
  unfold pack128
  omega

theorem pack128_shiftRight {q : Quad} (hq : q.W32) : pack128 q >>> 64 = pack64 (q.ll, q.lr) := by
  have h2 := pack64_lt (a := (q.rl, q.rr)) ⟨hq.2.2.1, hq.2.2.2⟩
  unfold pack128
  rw [Nat.shiftRight_eq_div_pow]
  omega

theorem pack128_and_MASK64 {q : Quad} (hq : q.W32) :
    pack128 q &&& Ref.MASK64 = pack64 (q.rl, q.rr) := by
  have h2 := pack64_lt (a := (q.rl, q.rr)) ⟨hq.2.2.1, hq.2.2.2⟩
  unfold pack128
  rw [and_MASK64]
  omega

theorem Ref_FL_eq {x k : Nat × Nat} (hx : PW32 x) (hk : PW32 k) :
    Ref.FL (pack64 x) (pack64 k)
      = pack64 (x.1 ^^^ (k.2 ||| (x.2 ^^^ CAMELLIA_RL1 (k.1 &&& x.1))),
          x.2 ^^^ CAMELLIA_RL1 (k.1 &&& x.1)) := by
  unfold Ref.FL
  simp only [pack64_shiftRight hx, pack64_shiftRight hk, pack64_and_MASK32 hx,
    pack64_and_MASK32 hk]
  rw [rotl32_one (W32_and_left _ hx.1), shiftLeft_or_eq_pack64 _ (W32_xor hx.2 (W32_RL1 _)),
    Nat.and_comm x.1 k.1, Nat.or_comm _ k.2]

theorem Ref_FLINV_eq {y k : Nat × Nat} (hy : PW32 y) (hk : PW32 k) :
    Ref.FLINV (pack64 y) (pack64 k)
      = pack64 (y.1 ^^^ (k.2 ||| y.2),
          y.2 ^^^ CAMELLIA_RL1 (k.1 &&& (y.1 ^^^ (k.2 ||| y.2)))) := by
  unfold Ref.FLINV
  simp only [pack64_shiftRight hy, pack64_shiftRight hk, pack64_and_MASK32 hy,
    pack64_and_MASK32 hk]
  rw [rotl32_one (W32_and_right _ hk.1), shiftLeft_or_eq_pack64 _ (W32_xor hy.2 (W32_RL1 _)),
    Nat.or_comm y.2 k.2, Nat.and_comm _ k.1]

/-- Pre-whitening: the halves of the block XORed with `kw1`, `kw2`. -/
theorem start_halves {m : Quad} (hm : m.W32) {a b : Nat × Nat} (ha : PW32 a) (hb : PW32 b) :
    (xorQ m a b).W32 ∧
      (pack128 m >>> 64 ^^^ pack64 a, pack128 m &&& Ref.MASK64 ^^^ pack64 b)
        = halves (xorQ m a b) := by
  refine ⟨⟨W32_xor hm.1 ha.1, W32_xor hm.2.1 ha.2, W32_xor hm.2.2.1 hb.1,
    W32_xor hm.2.2.2 hb.2⟩, ?_⟩
  rw [pack128_shiftRight hm, pack128_and_MASK64 hm,
    ← pack64_pxor (a := (m.ll, m.lr)) ⟨hm.1, hm.2.1⟩ ha,
    ← pack64_pxor (a := (m.rl, m.rr)) ⟨hm.2.2.1, hm.2.2.2⟩ hb]
  rfl

/-- The statement `D2 = D2 ^ F(D1, k)` is `F_round01` on words. -/
theorem roundD2_halves {q : Quad} {D : Nat × Nat} (h : q.W32 ∧ D = halves q) {k : Nat × Nat}
    (hk : PW32 k) :
    (F_round01 k q).W32 ∧ Ref.roundD2 (pack64 k) D = halves (F_round01 k q) := by
  obtain ⟨hq, rfl⟩ := h
  have hf := CAMELLIA_F_W32 q.ll q.lr k.1 k.2
  refine ⟨⟨hq.1, hq.2.1, W32_xor hq.2.2.1 hf.1, W32_xor hq.2.2.2 hf.2⟩, ?_⟩
  unfold Ref.roundD2 halves F_round01
  simp only []
  rw [Ref_F_eq (x := (q.ll, q.lr)) ⟨hq.1, hq.2.1⟩ hk,
    ← pack64_pxor (a := (q.rl, q.rr)) ⟨hq.2.2.1, hq.2.2.2⟩ hf]
  rfl

/-- The statement `D1 = D1 ^ F(D2, k)` is `F_round23` on words. -/
theorem roundD1_halves {q : Quad} {D : Nat × Nat} (h : q.W32 ∧ D = halves q) {k : Nat × Nat}
    (hk : PW32 k) :
    (F_round23 k q).W32 ∧ Ref.roundD1 (pack64 k) D = halves (F_round23 k q) := by
  obtain ⟨hq, rfl⟩ := h
  have hf := CAMELLIA_F_W32 q.rl q.rr k.1 k.2
  refine ⟨⟨W32_xor hq.1 hf.1, W32_xor hq.2.1 hf.2, hq.2.2.1, hq.2.2.2⟩, ?_⟩
  unfold Ref.roundD1 halves F_round23
  simp only []
  rw [Ref_F_eq (x := (q.rl, q.rr)) ⟨hq.2.2.1, hq.2.2.2⟩ hk,
    ← pack64_pxor (a := (q.ll, q.lr)) ⟨hq.1, hq.2.1⟩ hf]
  rfl

/-- The statements `D1 = FL(D1, ke); D2 = FLINV(D2, ke')` are `CAMELLIA_FLS` on words. -/
theorem flLayer_halves {q : Quad} {D : Nat × Nat} (h : q.W32 ∧ D = halves q)
    {k1 k2 : Nat × Nat} (h1 : PW32 k1) (h2 : PW32 k2) :
    (FL_layer k1 k2 q).W32 ∧ Ref.flLayer (pack64 k1) (pack64 k2) D = halves (FL_layer k1 k2 q) := by
  obtain ⟨hq, rfl⟩ := h
  refine ⟨CAMELLIA_FLS_W32 hq h1.2 h2.2, ?_⟩
  unfold Ref.flLayer halves
  simp only []
  rw [Ref_FL_eq (x := (q.ll, q.lr)) ⟨hq.1, hq.2.1⟩ h1,
    Ref_FLINV_eq (y := (q.rl, q.rr)) ⟨hq.2.2.1, hq.2.2.2⟩ h2]
  rfl

/-- Post-whitening and the final swap: `C = (D2 << 64) | D1`. -/
theorem final_halves {q : Quad} {D : Nat × Nat} (h : q.W32 ∧ D = halves q) {a b : Nat × Nat}
    (ha : PW32 a) (hb : PW32 b) :
    ((D.2 ^^^ pack64 b) <<< 64) ||| (D.1 ^^^ pack64 a) = pack128 (swapHalves (xorQ q a b)) := by
  obtain ⟨hq, rfl⟩ := h
  unfold halves
  simp only []
  rw [← pack64_pxor (a := (q.ll, q.lr)) ⟨hq.1, hq.2.1⟩ ha,
    ← pack64_pxor (a := (q.rl, q.rr)) ⟨hq.2.2.1, hq.2.2.2⟩ hb, Nat.shiftLeft_eq,
    or_eq_add 64 (Nat.mul_mod_left _ _)
      (pack64_lt (PW32_pxor (a := (q.ll, q.lr)) ⟨hq.1, hq.2.1⟩ ha))]
  rfl

/-- The cipher of the specification on words, with subkey pairs `K`, is the
128-bit encryption of the specification on numbers when `K` are its subkeys. -/
theorem plain_encrypt128_eq_Ref {K : Nat → Nat × Nat} (hK : ∀ i, PW32 (K i)) {X : Nat}
    (hsk : ∀ i, i < 26 →
      Ref.subkey128 X (Ref.KA X 0) i = pack64 (K i))
    {m : Quad} (hm : m.W32) :
    Ref.encrypt128 X (pack128 m) = pack128 (plain_encrypt128 K m) := by
  unfold Ref.encrypt128 plain_encrypt128
  simp only []
  rw [hsk 0 (by decide), hsk 1 (by decide), hsk 2 (by decide), hsk 3 (by decide),
    hsk 4 (by decide), hsk 5 (by decide), hsk 6 (by decide), hsk 7 (by decide),
    hsk 8 (by decide), hsk 9 (by decide), hsk 10 (by decide), hsk 11 (by decide),
    hsk 12 (by decide), hsk 13 (by decide), hsk 14 (by decide), hsk 15 (by decide),
    hsk 16 (by decide), hsk 17 (by decide), hsk 18 (by decide), hsk 19 (by decide),
    hsk 20 (by decide), hsk 21 (by decide), hsk 22 (by decide), hsk 23 (by decide),
    hsk 24 (by decide), hsk 25 (by decide)]
  refine final_halves ?_ (hK 25) (hK 24)
  refine roundD1_halves ?_ (hK 23)
  refine roundD2_halves ?_ (hK 22)
  refine roundD1_halves ?_ (hK 21)
  refine roundD2_halves ?_ (hK 20)
  refine roundD1_halves ?_ (hK 19)
  refine roundD2_halves ?_ (hK 18)
  refine flLayer_halves ?_ (hK 16) (hK 17)
  refine roundD1_halves ?_ (hK 15)
  refine roundD2_halves ?_ (hK 14)
  refine roundD1_halves ?_ (hK 13)
  refine roundD2_halves ?_ (hK 12)
  refine roundD1_halves ?_ (hK 11)
  refine roundD2_halves ?_ (hK 10)
  refine flLayer_halves ?_ (hK 8) (hK 9)
  refine roundD1_halves ?_ (hK 7)
  refine roundD2_halves ?_ (hK 6)
  refine roundD1_halves ?_ (hK 5)
  refine roundD2_halves ?_ (hK 4)
  refine roundD1_halves ?_ (hK 3)
  refine roundD2_halves ?_ (hK 2)
  exact start_halves hm (hK 0) (hK 1)

/-- The cipher of the specification on words, with subkey pairs `K`, is the
256-bit encryption of the specification on numbers when `K` are its subkeys. -/
theorem plain_encrypt256_eq_Ref {K : Nat → Nat × Nat} (hK : ∀ i, PW32 (K i)) {X : Nat}
    (hsk : ∀ i, i < 34 →
      Ref.subkey256 (X >>> 128) (X &&& Ref.MASK128) (Ref.KA (X >>> 128) (X &&& Ref.MASK128))
        (Ref.KB (Ref.KA (X >>> 128) (X &&& Ref.MASK128)) (X &&& Ref.MASK128)) i = pack64 (K i))
    {m : Quad} (hm : m.W32) :
    Ref.encrypt256 X (pack128 m) = pack128 (plain_encrypt256 K m) := by
  unfold Ref.encrypt256 plain_encrypt256
  simp only []
  rw [hsk 0 (by decide), hsk 1 (by decide), hsk 2 (by decide), hsk 3 (by decide),
    hsk 4 (by decide), hsk 5 (by decide), hsk 6 (by decide), hsk 7 (by decide),
    hsk 8 (by decide), hsk 9 (by decide), hsk 10 (by decide), hsk 11 (by decide),
    hsk 12 (by decide), hsk 13 (by decide), hsk 14 (by decide), hsk 15 (by decide),
    hsk 16 (by decide), hsk 17 (by decide), hsk 18 (by decide), hsk 19 (by decide),
    hsk 20 (by decide), hsk 21 (by decide), hsk 22 (by decide), hsk 23 (by decide),
    hsk 24 (by decide), hsk 25 (by decide), hsk 26 (by decide), hsk 27 (by decide),
    hsk 28 (by decide), hsk 29 (by decide), hsk 30 (by decide), hsk 31 (by decide),
    hsk 32 (by decide), hsk 33 (by decide)]
  refine final_halves ?_ (hK 33) (hK 32)
  refine roundD1_halves ?_ (hK 31)
  refine roundD2_halves ?_ (hK 30)
  refine roundD1_halves ?_ (hK 29)
  refine roundD2_halves ?_ (hK 28)
  refine roundD1_halves ?_ (hK 27)
  refine roundD2_halves ?_ (hK 26)
  refine flLayer_halves ?_ (hK 24) (hK 25)
  refine roundD1_halves ?_ (hK 23)
  refine roundD2_halves ?_ (hK 22)
  refine roundD1_halves ?_ (hK 21)
  refine roundD2_halves ?_ (hK 20)
  refine roundD1_halves ?_ (hK 19)
  refine roundD2_halves ?_ (hK 18)
  refine flLayer_halves ?_ (hK 16) (hK 17)
  refine roundD1_halves ?_ (hK 15)
  refine roundD2_halves ?_ (hK 14)
  refine roundD1_halves ?_ (hK 13)
  refine roundD2_halves ?_ (hK 12)
  refine roundD1_halves ?_ (hK 11)
  refine roundD2_halves ?_ (hK 10)
  refine flLayer_halves ?_ (hK 8) (hK 9)
  refine roundD1_halves ?_ (hK 7)
  refine roundD2_halves ?_ (hK 6)
  refine roundD1_halves ?_ (hK 5)
  refine roundD2_halves ?_ (hK 4)
  refine roundD1_halves ?_ (hK 3)
  refine roundD2_halves ?_ (hK 2)
  exact start_halves hm (hK 0) (hK 1)

/-! ## Rotations of 128-bit numbers -/

theorem rotl128_lt (X n : Nat) : Ref.rotl128 X n < 2 ^ 128 := by
  unfold Ref.rotl128
  rw [and_MASK128]
  exact Nat.mod_lt _ (by norm_num)

theorem testBit_rotl128 {X n : Nat} (hX : X < 2 ^ 128) (hn : n ≤ 128) (j : Nat) :
    (Ref.rotl128 X n).testBit j = (decide (j < 128) && X.testBit ((j + (128 - n)) % 128)) := by
  have hm : Ref.MASK128 = 2 ^ 128 - 1 := by unfold Ref.MASK128; norm_num
  unfold Ref.rotl128
  rw [hm, Nat.testBit_and, Nat.testBit_two_pow_sub_one, Nat.testBit_or, Nat.testBit_shiftLeft,
    Nat.testBit_shiftRight]
  by_cases hj : j < 128
  · by_cases hjn : n ≤ j
    · have e : (j + (128 - n)) % 128 = j - n := by omega
      have f : X.testBit (128 - n + j) = false :=
        Nat.testBit_lt_two_pow (Nat.lt_of_lt_of_le hX (Nat.pow_le_pow_right (by norm_num)
          (by omega)))
      simp [hj, hjn, e, f]
    · have e : (j + (128 - n)) % 128 = 128 - n + j := by omega
      simp [hj, hjn, e]
  · simp [hj]

/-- Rotations compose. -/
theorem rotl128_add {X a b : Nat} (hX : X < 2 ^ 128) (h : a + b ≤ 128) :
    Ref.rotl128 (Ref.rotl128 X a) b = Ref.rotl128 X (a + b) := by
  apply Nat.eq_of_testBit_eq
  intro j
  rw [testBit_rotl128 (rotl128_lt X a) (by omega), testBit_rotl128 hX (by omega),
    testBit_rotl128 hX h]
  have e : ((j + (128 - b)) % 128 + (128 - a)) % 128 = (j + (128 - (a + b))) % 128 := by omega
  have l : (j + (128 - b)) % 128 < 128 := Nat.mod_lt _ (by norm_num)
  simp [e, l]

theorem rotl128_zero {X : Nat} (hX : X < 2 ^ 128) : Ref.rotl128 X 0 = X := by
  apply Nat.eq_of_testBit_eq
  intro j
  rw [testBit_rotl128 hX (by omega)]
  by_cases hj : j < 128
  · have e : (j + (128 - 0)) % 128 = j := by omega
    simp [hj, e]
  · have f : X.testBit j = false :=
      Nat.testBit_lt_two_pow (Nat.lt_of_lt_of_le hX (Nat.pow_le_pow_right (by norm_num)
        (by omega)))
    simp [hj, f]

/-- Bits of `pack128 q`, word by word. -/
theorem testBit_pack128 {q : Quad} (hq : q.W32) (j : Nat) :
    (pack128 q).testBit j
      = if j < 32 then q.rr.testBit j else if j < 64 then q.rl.testBit (j - 32)
        else if j < 96 then q.lr.testBit (j - 64) else q.ll.testBit (j - 96) := by
  have h2 := pack64_lt (a := (q.rl, q.rr)) ⟨hq.2.2.1, hq.2.2.2⟩
  unfold pack128
  rw [testBit_pack _ h2]
  unfold pack64
  simp only []
  rw [testBit_pack _ (W32_lt hq.2.2.2), testBit_pack _ (W32_lt hq.2.1)]
  by_cases h32 : j < 32
  · simp [h32, (show j < 64 by omega)]
  · by_cases h64 : j < 64
    · simp [h32, h64]
    · by_cases h96 : j < 96
      · simp [h32, h64, h96, (show j - 64 < 32 by omega)]
      · simp [h32, h64, h96, (show ¬ (j - 64 < 32) by omega), Nat.sub_sub]

theorem pack128_bit0 {q : Quad} (hq : q.W32) {i : Nat} (hi : i < 32) :
    (pack128 q).testBit i = q.rr.testBit i := by
  rw [testBit_pack128 hq, if_pos hi]

theorem pack128_bit1 {q : Quad} (hq : q.W32) {i : Nat} (hi : i < 32) :
    (pack128 q).testBit (32 + i) = q.rl.testBit i := by
  rw [testBit_pack128 hq, if_neg (by omega), if_pos (by omega), Nat.add_sub_cancel_left]

theorem pack128_bit2 {q : Quad} (hq : q.W32) {i : Nat} (hi : i < 32) :
    (pack128 q).testBit (64 + i) = q.lr.testBit i := by
  rw [testBit_pack128 hq, if_neg (by omega), if_neg (by omega), if_pos (by omega),
    Nat.add_sub_cancel_left]

theorem pack128_bit3 {q : Quad} (hq : q.W32) {i : Nat} (hi : i < 32) :
    (pack128 q).testBit (96 + i) = q.ll.testBit i := by
  rw [testBit_pack128 hq, if_neg (by omega), if_neg (by omega), if_neg (by omega),
    Nat.add_sub_cancel_left]

/-- Bits of the funnel shift below bit 32. -/
theorem funnel_bit {hi lo s : Nat} (hs : s ≤ 32) (hlo : W32 lo) {i : Nat} (h : i < 32) :
    (u32 (u32 (hi <<< s) + (lo >>> (32 - s)))).testBit i
      = if i < s then lo.testBit (32 - s + i) else hi.testBit (i - s) := by
  rw [testBit_funnel hs hlo]
  simp [h]

/-- `CAMELLIA_ROLDQ` rotates the 128-bit number held in the four words left by `n`. -/
theorem pack128_ROLDQ {q : Quad} (hq : q.W32) {n : Nat} (hn : n ≤ 32) :
    pack128 (CAMELLIA_ROLDQ q n) = Ref.rotl128 (pack128 q) n := by
  apply Nat.eq_of_testBit_eq
  intro j
  by_cases h128 : j < 128
  swap
  · have f : ∀ {X : Nat}, X < 2 ^ 128 → X.testBit j = false := fun hX =>
      Nat.testBit_lt_two_pow (Nat.lt_of_lt_of_le hX (Nat.pow_le_pow_right (by norm_num)
        (by omega)))
    rw [f (pack128_lt (ROLDQ_W32 q n)), f (rotl128_lt _ _)]
  by_cases h32 : j < 32
  · rw [pack128_bit0 (ROLDQ_W32 q n) h32, testBit_rotl128 (pack128_lt hq) (by omega)]
    have hj : decide (j < 128) = true := decide_eq_true (by omega)
    rw [hj, Bool.true_and]
    unfold CAMELLIA_ROLDQ
    simp only []
    rw [funnel_bit hn hq.1 h32]
    by_cases h : j < n
    · have e : (j + (128 - n)) % 128 = 96 + (32 - n + j) := by omega
      rw [if_pos h, e, pack128_bit3 hq (by omega)]
    · have e : (j + (128 - n)) % 128 = j - n := by omega
      rw [if_neg h, e, pack128_bit0 hq (by omega)]
  by_cases h64 : j < 64
  · obtain ⟨i, rfl, hi⟩ : ∃ i, j = 32 + i ∧ i < 32 := ⟨j - 32, by omega, by omega⟩
    rw [pack128_bit1 (ROLDQ_W32 q n) hi, testBit_rotl128 (pack128_lt hq) (by omega)]
    have hj : decide (32 + i < 128) = true := decide_eq_true (by omega)
    rw [hj, Bool.true_and]
    unfold CAMELLIA_ROLDQ
    simp only []
    rw [funnel_bit hn hq.2.2.2 hi]
    by_cases h : i < n
    · have e : (32 + i + (128 - n)) % 128 = 32 - n + i := by omega
      rw [if_pos h, e, pack128_bit0 hq (by omega)]
    · have e : (32 + i + (128 - n)) % 128 = 32 + (i - n) := by omega
      rw [if_neg h, e, pack128_bit1 hq (by omega)]
  by_cases h96 : j < 96
  · obtain ⟨i, rfl, hi⟩ : ∃ i, j = 64 + i ∧ i < 32 := ⟨j - 64, by omega, by omega⟩
    rw [pack128_bit2 (ROLDQ_W32 q n) hi, testBit_rotl128 (pack128_lt hq) (by omega)]
    have hj : decide (64 + i < 128) = true := decide_eq_true (by omega)
    rw [hj, Bool.true_and]
    unfold CAMELLIA_ROLDQ
    simp only []
    rw [funnel_bit hn hq.2.2.1 hi]
    by_cases h : i < n
    · have e : (64 + i + (128 - n)) % 128 = 32 + (32 - n + i) := by omega
      rw [if_pos h, e, pack128_bit1 hq (by omega)]
    · have e : (64 + i + (128 - n)) % 128 = 64 + (i - n) := by omega
      rw [if_neg h, e, pack128_bit2 hq (by omega)]
  · obtain ⟨i, rfl, hi⟩ : ∃ i, j = 96 + i ∧ i < 32 := ⟨j - 96, by omega, by omega⟩
    rw [pack128_bit3 (ROLDQ_W32 q n) hi, testBit_rotl128 (pack128_lt hq) (by omega)]
    have hj : decide (96 + i < 128) = true := decide_eq_true (by omega)
    rw [hj, Bool.true_and]
    unfold CAMELLIA_ROLDQ
    simp only []
    rw [funnel_bit hn hq.2.1 hi]
    by_cases h : i < n
    · have e : (96 + i + (128 - n)) % 128 = 64 + (32 - n + i) := by omega
      rw [if_pos h, e, pack128_bit2 hq (by omega)]
    · have e : (96 + i + (128 - n)) % 128 = 96 + (i - n) := by omega
      rw [if_neg h, e, pack128_bit3 hq (by omega)]

theorem CAMELLIA_ROLDQ_32 {q : Quad} (hq : q.W32) :
    CAMELLIA_ROLDQ q 32 = { ll := q.lr, lr := q.rl, rl := q.rr, rr := q.ll } := by
  have z : ∀ x, u32 (x <<< 32) = 0 := fun x => by
    unfold u32
    rw [Nat.shiftLeft_eq]
    omega
  unfold CAMELLIA_ROLDQ
  simp only [z, Nat.sub_self, Nat.shiftRight_zero, Nat.zero_add, u32_of_W32 hq.1,
    u32_of_W32 hq.2.1, u32_of_W32 hq.2.2.1, u32_of_W32 hq.2.2.2]

theorem CAMELLIA_ROLDQo32_eq (q : Quad) {n : Nat} (h1 : 32 ≤ n) :
    CAMELLIA_ROLDQo32 q n
      = CAMELLIA_ROLDQ { ll := q.lr, lr := q.rl, rl := q.rr, rr := q.ll } (n - 32) := by
  have e : 32 - (n - 32) = 64 - n := by omega
  unfold CAMELLIA_ROLDQo32 CAMELLIA_ROLDQ
  simp only [e]

/-- `CAMELLIA_ROLDQo32` rotates the 128-bit number held in the four words left by `n`,
for `32 ≤ n ≤ 64`. -/
theorem pack128_ROLDQo32 {q : Quad} (hq : q.W32) {n : Nat} (h1 : 32 ≤ n) (h2 : n ≤ 64) :
    pack128 (CAMELLIA_ROLDQo32 q n) = Ref.rotl128 (pack128 q) n := by
  have hr : Quad.W32 { ll := q.lr, lr := q.rl, rl := q.rr, rr := q.ll } :=
    ⟨hq.2.1, hq.2.2.1, hq.2.2.2, hq.1⟩
  rw [CAMELLIA_ROLDQo32_eq q h1, pack128_ROLDQ hr (by omega), ← CAMELLIA_ROLDQ_32 hq,
    pack128_ROLDQ hq (Nat.le_refl 32), rotl128_add (pack128_lt hq) (by omega)]
  congr 1
  omega

/-! ## The values KA and KB -/

theorem PW32_F (xl xr kl kr : Nat) : PW32 (CAMELLIA_F xl xr kl kr) := CAMELLIA_F_W32 xl xr kl kr

theorem Sigma_eq :
    Ref.Sigma1 = pack64 (CAMELLIA_SIGMA1L, CAMELLIA_SIGMA1R)
      ∧ Ref.Sigma2 = pack64 (CAMELLIA_SIGMA2L, CAMELLIA_SIGMA2R)
      ∧ Ref.Sigma3 = pack64 (CAMELLIA_SIGMA3L, CAMELLIA_SIGMA3R)
      ∧ Ref.Sigma4 = pack64 (CAMELLIA_SIGMA4L, CAMELLIA_SIGMA4R)
      ∧ Ref.Sigma5 = pack64 (CAMELLIA_SIGMA5L, CAMELLIA_SIGMA5R)
      ∧ Ref.Sigma6 = pack64 (CAMELLIA_SIGMA6L, CAMELLIA_SIGMA6R) := by
  decide

theorem PW32_Sigma :
    PW32 (CAMELLIA_SIGMA1L, CAMELLIA_SIGMA1R) ∧ PW32 (CAMELLIA_SIGMA2L, CAMELLIA_SIGMA2R)
      ∧ PW32 (CAMELLIA_SIGMA3L, CAMELLIA_SIGMA3R) ∧ PW32 (CAMELLIA_SIGMA4L, CAMELLIA_SIGMA4R)
      ∧ PW32 (CAMELLIA_SIGMA5L, CAMELLIA_SIGMA5R) ∧ PW32 (CAMELLIA_SIGMA6L, CAMELLIA_SIGMA6R) := by
  unfold PW32 W32
  decide

/-- Two 64-bit halves XORed half by half. -/
theorem pack_xor_pack {a b c d : Nat × Nat} (hb : PW32 b) (hd : PW32 d) :
    (pack64 a * 2 ^ 64 + pack64 b) ^^^ (pack64 c * 2 ^ 64 + pack64 d)
      = (pack64 a ^^^ pack64 c) * 2 ^ 64 + (pack64 b ^^^ pack64 d) :=
  xor_pack _ _ (pack64_lt hb) (pack64_lt hd)

theorem pack_shiftRight (a : Nat) {b : Nat} (hb : b < 2 ^ 64) : (a * 2 ^ 64 + b) >>> 64 = a := by
  rw [Nat.shiftRight_eq_div_pow]
  omega

theorem pack_and_MASK64 (a : Nat) {b : Nat} (hb : b < 2 ^ 64) :
    (a * 2 ^ 64 + b) &&& Ref.MASK64 = b := by
  rw [and_MASK64]
  omega

theorem shiftLeft_or_64 (a : Nat) {b : Nat} (hb : b < 2 ^ 64) :
    (a <<< 64) ||| b = a * 2 ^ 64 + b := by
  rw [Nat.shiftLeft_eq, or_eq_add 64 (Nat.mul_mod_left _ _) hb]

/-- The value KA of the specification, step by step on pairs of words: `w, t, y, v`
are the four outputs of the F-function in the order the schedules compute them. -/
theorem Ref_KA_steps (L1 L2 R1 R2 : Nat × Nat) {w t y v : Nat × Nat} (hL1 : PW32 L1) (hL2 : PW32 L2)
    (hR1 : PW32 R1) (hR2 : PW32 R2)
    (hw : w = CAMELLIA_F (L1.1 ^^^ R1.1) (L1.2 ^^^ R1.2) CAMELLIA_SIGMA1L CAMELLIA_SIGMA1R)
    (ht : t = CAMELLIA_F (L2.1 ^^^ R2.1 ^^^ w.1) (L2.2 ^^^ R2.2 ^^^ w.2)
      CAMELLIA_SIGMA2L CAMELLIA_SIGMA2R)
    (hy : y = CAMELLIA_F (t.1 ^^^ R1.1) (t.2 ^^^ R1.2) CAMELLIA_SIGMA3L CAMELLIA_SIGMA3R)
    (hv : v = CAMELLIA_F (y.1 ^^^ (w.1 ^^^ R2.1)) (y.2 ^^^ (w.2 ^^^ R2.2))
      CAMELLIA_SIGMA4L CAMELLIA_SIGMA4R) :
    Ref.KA (pack64 L1 * 2 ^ 64 + pack64 L2) (pack64 R1 * 2 ^ 64 + pack64 R2)
      = pack64 (t.1 ^^^ R1.1 ^^^ v.1, t.2 ^^^ R1.2 ^^^ v.2) * 2 ^ 64
        + pack64 (y.1 ^^^ (w.1 ^^^ R2.1), y.2 ^^^ (w.2 ^^^ R2.2)) := by
  have pw : PW32 w := hw ▸ PW32_F _ _ _ _
  have pt : PW32 t := ht ▸ PW32_F _ _ _ _
  have py : PW32 y := hy ▸ PW32_F _ _ _ _
  have pv : PW32 v := hv ▸ PW32_F _ _ _ _
  have x1 : (pack64 L1 * 2 ^ 64 + pack64 L2 ^^^ (pack64 R1 * 2 ^ 64 + pack64 R2)) >>> 64
      = pack64 (pxor L1 R1) := by
    rw [pack_xor_pack hL2 hR2, ← pack64_pxor hL1 hR1, ← pack64_pxor hL2 hR2,
      pack_shiftRight _ (pack64_lt (PW32_pxor hL2 hR2))]
  have x2 : (pack64 L1 * 2 ^ 64 + pack64 L2 ^^^ (pack64 R1 * 2 ^ 64 + pack64 R2)) &&& Ref.MASK64
      = pack64 (pxor L2 R2) := by
    rw [pack_xor_pack hL2 hR2, ← pack64_pxor hL1 hR1, ← pack64_pxor hL2 hR2,
      pack_and_MASK64 _ (pack64_lt (PW32_pxor hL2 hR2))]
  have x3 : (pack64 L1 * 2 ^ 64 + pack64 L2) >>> 64 = pack64 L1 :=
    pack_shiftRight _ (pack64_lt hL2)
  have x4 : (pack64 L1 * 2 ^ 64 + pack64 L2) &&& Ref.MASK64 = pack64 L2 :=
    pack_and_MASK64 _ (pack64_lt hL2)
  have s1 : Ref.F (pack64 (pxor L1 R1)) Ref.Sigma1 = pack64 w := by
    rw [Sigma_eq.1, Ref_F_eq (PW32_pxor hL1 hR1) PW32_Sigma.1, hw]
    rfl
  have d2 : pack64 (pxor L2 R2) ^^^ pack64 w = pack64 (pxor (pxor L2 R2) w) :=
    (pack64_pxor (PW32_pxor hL2 hR2) pw).symm
  have s2 : Ref.F (pack64 (pxor (pxor L2 R2) w)) Ref.Sigma2 = pack64 t := by
    rw [Sigma_eq.2.1, Ref_F_eq (PW32_pxor (PW32_pxor hL2 hR2) pw) PW32_Sigma.2.1, ht]
    rfl
  have d1 : pack64 (pxor L1 R1) ^^^ pack64 t ^^^ pack64 L1 = pack64 (pxor t R1) := by
    rw [← pack64_pxor (PW32_pxor hL1 hR1) pt, ← pack64_pxor (PW32_pxor (PW32_pxor hL1 hR1) pt) hL1]
    simp only [pxor, Nat.xor_assoc, Nat.xor_comm, xor_left_comm, Nat.xor_cancel_left]
  have d2' : pack64 (pxor (pxor L2 R2) w) ^^^ pack64 L2 = pack64 (pxor w R2) := by
    rw [← pack64_pxor (PW32_pxor (PW32_pxor hL2 hR2) pw) hL2]
    simp only [pxor, Nat.xor_assoc, Nat.xor_comm, xor_left_comm, Nat.xor_cancel_left]
  have s3 : Ref.F (pack64 (pxor t R1)) Ref.Sigma3 = pack64 y := by
    rw [Sigma_eq.2.2.1, Ref_F_eq (PW32_pxor pt hR1) PW32_Sigma.2.2.1, hy]
    rfl
  have d2'' : pack64 (pxor w R2) ^^^ pack64 y = pack64 (pxor y (pxor w R2)) := by
    rw [← pack64_pxor (PW32_pxor pw hR2) py, pxor_comm]
  have s4 : Ref.F (pack64 (pxor y (pxor w R2))) Ref.Sigma4 = pack64 v := by
    rw [Sigma_eq.2.2.2.1, Ref_F_eq (PW32_pxor py (PW32_pxor pw hR2)) PW32_Sigma.2.2.2.1, hv]
    rfl
  have d1' : pack64 (pxor t R1) ^^^ pack64 v = pack64 (pxor (pxor t R1) v) :=
    (pack64_pxor (PW32_pxor pt hR1) pv).symm
  unfold Ref.KA
  simp only []
  rw [x1, x2, x3, x4, s1, d2, s2, d1, d2', s3, d2'', s4, d1',
    shiftLeft_or_64 _ (pack64_lt (PW32_pxor py (PW32_pxor pw hR2)))]
  rfl

/-- The value KB of the specification, step by step on pairs of words. -/
theorem Ref_KB_steps (A1 A2 R1 R2 : Nat × Nat) {w v : Nat × Nat} (hA1 : PW32 A1) (hA2 : PW32 A2)
    (hR1 : PW32 R1) (hR2 : PW32 R2)
    (hw : w = CAMELLIA_F (R1.1 ^^^ A1.1) (R1.2 ^^^ A1.2) CAMELLIA_SIGMA5L CAMELLIA_SIGMA5R)
    (hv : v = CAMELLIA_F (R2.1 ^^^ A2.1 ^^^ w.1) (R2.2 ^^^ A2.2 ^^^ w.2)
      CAMELLIA_SIGMA6L CAMELLIA_SIGMA6R) :
    Ref.KB (pack64 A1 * 2 ^ 64 + pack64 A2) (pack64 R1 * 2 ^ 64 + pack64 R2)
      = pack64 (R1.1 ^^^ A1.1 ^^^ v.1, R1.2 ^^^ A1.2 ^^^ v.2) * 2 ^ 64
        + pack64 (R2.1 ^^^ A2.1 ^^^ w.1, R2.2 ^^^ A2.2 ^^^ w.2) := by
  have pw : PW32 w := hw ▸ PW32_F _ _ _ _
  have pv : PW32 v := hv ▸ PW32_F _ _ _ _
  have x1 : (pack64 A1 * 2 ^ 64 + pack64 A2 ^^^ (pack64 R1 * 2 ^ 64 + pack64 R2)) >>> 64
      = pack64 (pxor R1 A1) := by
    rw [pack_xor_pack hA2 hR2, ← pack64_pxor hA1 hR1, ← pack64_pxor hA2 hR2,
      pack_shiftRight _ (pack64_lt (PW32_pxor hA2 hR2)), pxor_comm]
  have x2 : (pack64 A1 * 2 ^ 64 + pack64 A2 ^^^ (pack64 R1 * 2 ^ 64 + pack64 R2)) &&& Ref.MASK64
      = pack64 (pxor R2 A2) := by
    rw [pack_xor_pack hA2 hR2, ← pack64_pxor hA1 hR1, ← pack64_pxor hA2 hR2,
      pack_and_MASK64 _ (pack64_lt (PW32_pxor hA2 hR2)), pxor_comm]
  have s1 : Ref.F (pack64 (pxor R1 A1)) Ref.Sigma5 = pack64 w := by
    rw [Sigma_eq.2.2.2.2.1, Ref_F_eq (PW32_pxor hR1 hA1) PW32_Sigma.2.2.2.2.1, hw]
    rfl
  have d2 : pack64 (pxor R2 A2) ^^^ pack64 w = pack64 (pxor (pxor R2 A2) w) :=
    (pack64_pxor (PW32_pxor hR2 hA2) pw).symm
  have s2 : Ref.F (pack64 (pxor (pxor R2 A2) w)) Ref.Sigma6 = pack64 v := by
    rw [Sigma_eq.2.2.2.2.2, Ref_F_eq (PW32_pxor (PW32_pxor hR2 hA2) pw) PW32_Sigma.2.2.2.2.2, hv]
    rfl
  have d1 : pack64 (pxor R1 A1) ^^^ pack64 v = pack64 (pxor (pxor R1 A1) v) :=
    (pack64_pxor (PW32_pxor hR1 hA1) pv).symm
  unfold Ref.KB
  simp only []
  rw [x1, x2, s1, d2, s2, d1, shiftLeft_or_64 _ (pack64_lt (PW32_pxor (PW32_pxor hR2 hA2) pw))]
  rfl

/-- Section "generate KA" of `camellia_setup128` computes KA of the specification
with KR = 0. -/
theorem setup128_KA_eq {s : Scratch} {k : Quad} (hk : k.W32)
    (h0 : scratchPair s 0 = (k.ll, k.lr)) (h1 : scratchPair s 1 = (k.rl, k.rr)) :
    pack128 (setup128_KA s) = Ref.KA (pack128 k) 0 := by
  have e1 : subl s 0 = k.ll := congrArg Prod.fst h0
  have e2 : subr s 0 = k.lr := congrArg Prod.snd h0
  have e3 : subl s 1 = k.rl := congrArg Prod.fst h1
  have e4 : subr s 1 = k.rr := congrArg Prod.snd h1
  have hz : PW32 (0, 0) := ⟨W32_zero, W32_zero⟩
  have h := Ref_KA_steps (k.ll, k.lr) (k.rl, k.rr) (0, 0) (0, 0)
    ⟨hk.1, hk.2.1⟩ ⟨hk.2.2.1, hk.2.2.2⟩ hz hz rfl rfl rfl rfl
  have z : pack64 (0, 0) * 2 ^ 64 + pack64 (0, 0) = 0 := by decide
  rw [z] at h
  unfold pack128
  rw [h]
  unfold setup128_KA
  simp only [e1, e2, e3, e4, Nat.xor_zero]

/-- Section "generate KA" of `camellia_setup256` computes KA of the specification. -/
theorem setup256_KA_eq {s : Scratch} {k kr : Quad} (hk : k.W32) (hkr : kr.W32)
    (h0 : scratchPair s 0 = (k.ll, k.lr)) (h1 : scratchPair s 1 = (k.rl, k.rr)) :
    pack128 (setup256_KA s kr) = Ref.KA (pack128 k) (pack128 kr) := by
  have e1 : subl s 0 = k.ll := congrArg Prod.fst h0
  have e2 : subr s 0 = k.lr := congrArg Prod.snd h0
  have e3 : subl s 1 = k.rl := congrArg Prod.fst h1
  have e4 : subr s 1 = k.rr := congrArg Prod.snd h1
  have h := Ref_KA_steps (k.ll, k.lr) (k.rl, k.rr) (kr.ll, kr.lr)
    (kr.rl, kr.rr) ⟨hk.1, hk.2.1⟩ ⟨hk.2.2.1, hk.2.2.2⟩ ⟨hkr.1, hkr.2.1⟩
    ⟨hkr.2.2.1, hkr.2.2.2⟩ rfl rfl rfl rfl
  unfold pack128
  rw [h]
  unfold setup256_KA
  simp only [e1, e2, e3, e4]

/-- Section "generate KB" of `camellia_setup256` computes KB of the specification. -/
theorem setup256_KB_eq {ka kr : Quad} (hka : ka.W32) (hkr : kr.W32) :
    pack128 (setup256_KB ka kr) = Ref.KB (pack128 ka) (pack128 kr) := by
  have h := Ref_KB_steps (ka.ll, ka.lr) (ka.rl, ka.rr) (kr.ll, kr.lr)
    (kr.rl, kr.rr) ⟨hka.1, hka.2.1⟩ ⟨hka.2.2.1, hka.2.2.2⟩ ⟨hkr.1, hkr.2.1⟩
    ⟨hkr.2.2.1, hkr.2.2.2⟩ rfl rfl
  unfold pack128
  rw [h]
  rfl

/-! ## The scratch pairs are the subkeys of the specification -/

theorem scratchPair_setLR_eq (s : Scratch) (x l r : Nat) :
    scratchPair (setLR s x l r) x = (l, r) := by
  rw [scratchPair_setLR, if_pos rfl]

theorem scratchPair_setLR_ne (s : Scratch) (x l r : Nat) {i : Nat} (h : i ≠ x) :
    scratchPair (setLR s x l r) i = scratchPair s i := by
  rw [scratchPair_setLR, if_neg h]

theorem rotl128_full {X : Nat} (hX : X < 2 ^ 128) : Ref.rotl128 X 128 = X := by
  apply Nat.eq_of_testBit_eq
  intro j
  rw [testBit_rotl128 hX (Nat.le_refl 128)]
  by_cases hj : j < 128
  · have e : j % 128 = j := Nat.mod_eq_of_lt hj
    simp [hj, e]
  · have f : X.testBit j = false :=
      Nat.testBit_lt_two_pow (Nat.lt_of_lt_of_le hX (Nat.pow_le_pow_right (by norm_num)
        (by omega)))
    simp [hj, f]

theorem pack128_inj {a b : Quad} (ha : a.W32) (hb : b.W32) (h : pack128 a = pack128 b) :
    a = b := by
  have h1 := pack64_lt (a := (a.rl, a.rr)) ⟨ha.2.2.1, ha.2.2.2⟩
  have h2 := pack64_lt (a := (b.rl, b.rr)) ⟨hb.2.2.1, hb.2.2.2⟩
  unfold pack128 at h
  have e1 : pack64 (a.ll, a.lr) = pack64 (b.ll, b.lr) := by omega
  have e2 : pack64 (a.rl, a.rr) = pack64 (b.rl, b.rr) := by omega
  have f1 := pack64_inj (a := (a.ll, a.lr)) (b := (b.ll, b.lr)) ⟨ha.1, ha.2.1⟩ ⟨hb.1, hb.2.1⟩ e1
  have f2 := pack64_inj (a := (a.rl, a.rr)) (b := (b.rl, b.rr)) ⟨ha.2.2.1, ha.2.2.2⟩
    ⟨hb.2.2.1, hb.2.2.2⟩ e2
  cases a
  cases b
  simp only [Prod.mk.injEq] at f1 f2
  simp only [Quad.mk.injEq]
  exact ⟨f1.1, f1.2, f2.1, f2.2⟩

/-- One `CAMELLIA_ROLDQ` on words that hold `X` rotated by `a`. -/
theorem rot_step {q : Quad} {X a : Nat} (hq : q.W32) (hX : X < 2 ^ 128)
    (h : pack128 q = Ref.rotl128 X a) {n c : Nat} (hn : n ≤ 32) (hc : a + n = c) (hs : c ≤ 128) :
    pack128 (CAMELLIA_ROLDQ q n) = Ref.rotl128 X c := by
  rw [pack128_ROLDQ hq hn, h, rotl128_add hX (by omega), hc]

/-- One `CAMELLIA_ROLDQo32` on words that hold `X` rotated by `a`. -/
theorem rot_step_o32 {q : Quad} {X a : Nat} (hq : q.W32) (hX : X < 2 ^ 128)
    (h : pack128 q = Ref.rotl128 X a) {n c : Nat} (h1 : 32 ≤ n) (h2 : n ≤ 64) (hc : a + n = c)
    (hs : c ≤ 128) :
    pack128 (CAMELLIA_ROLDQo32 q n) = Ref.rotl128 X c := by
  rw [pack128_ROLDQo32 hq h1 h2, h, rotl128_add hX (by omega), hc]

theorem hiPair {q : Quad} {Y : Nat} (hq : q.W32) (h : pack128 q = Y) :
    Y >>> 64 = pack64 (q.ll, q.lr) := by
  rw [← h, pack128_shiftRight hq]

theorem loPair {q : Quad} {Y : Nat} (hq : q.W32) (h : pack128 q = Y) :
    Y &&& Ref.MASK64 = pack64 (q.rl, q.rr) := by
  rw [← h, pack128_and_MASK64 hq]

theorem rot_words {q : Quad} {X a : Nat} (hq : q.W32) (hX : X < 2 ^ 128)
    (h : pack128 q = Ref.rotl128 X a) {c : Nat} (hc : a + 32 = c) (hs : c ≤ 128) :
    pack128 { ll := q.lr, lr := q.rl, rl := q.rr, rr := q.ll } = Ref.rotl128 X c := by
  rw [← CAMELLIA_ROLDQ_32 hq]
  exact rot_step hq hX h (Nat.le_refl 32) hc hs

/-- The pair `(lr, rl)` of words that hold `X` rotated by `a` is the high half of
`X` rotated by `a + 32`. -/
theorem hiPair32 {q : Quad} {X a : Nat} (hq : q.W32) (hX : X < 2 ^ 128)
    (h : pack128 q = Ref.rotl128 X a) {c : Nat} (hc : a + 32 = c) (hs : c ≤ 128) :
    Ref.rotl128 X c >>> 64 = pack64 (q.lr, q.rl) :=
  hiPair (q := { ll := q.lr, lr := q.rl, rl := q.rr, rr := q.ll })
    ⟨hq.2.1, hq.2.2.1, hq.2.2.2, hq.1⟩ (rot_words hq hX h hc hs)

/-- The pair `(rr, ll)` of words that hold `X` rotated by `a` is the low half of
`X` rotated by `a + 32`. -/
theorem loPair32 {q : Quad} {X a : Nat} (hq : q.W32) (hX : X < 2 ^ 128)
    (h : pack128 q = Ref.rotl128 X a) {c : Nat} (hc : a + 32 = c) (hs : c ≤ 128) :
    Ref.rotl128 X c &&& Ref.MASK64 = pack64 (q.rr, q.ll) :=
  loPair (q := { ll := q.lr, lr := q.rl, rl := q.rr, rr := q.ll })
    ⟨hq.2.1, hq.2.2.1, hq.2.2.2, hq.1⟩ (rot_words hq hX h hc hs)


/-- After the sections that generate the KL and KA dependent subkeys of
`camellia_setup128`, scratch pair `i` holds subkey `i` of the specification. -/
theorem setup128_pairs {k ka : Quad} (hk : k.W32) (hka : ka.W32) (s0 : Scratch) (i : Nat)
    (hi : i < 26) :
    Ref.subkey128 (pack128 k) (pack128 ka) i
      = pack64 (scratchPair (setup128_KAsub ka (setup128_KL k s0)) i) := by
  have hX := pack128_lt hk
  have hA := pack128_lt hka
  have rL0 : pack128 k = Ref.rotl128 (pack128 k) 0 := (rotl128_zero hX).symm
  have rL15 : pack128 (CAMELLIA_ROLDQ k 15)
      = Ref.rotl128 (pack128 k) 15 :=
    rot_step hk hX rL0 (by norm_num) rfl (by norm_num)
  have rL45 : pack128 (CAMELLIA_ROLDQ (CAMELLIA_ROLDQ k 15) 30)
      = Ref.rotl128 (pack128 k) 45 :=
    rot_step (ROLDQ_W32 _ _) hX rL15 (by norm_num) rfl (by norm_num)
  have rL60 : pack128 (CAMELLIA_ROLDQ (CAMELLIA_ROLDQ (CAMELLIA_ROLDQ k 15) 30) 15)
      = Ref.rotl128 (pack128 k) 60 :=
    rot_step (ROLDQ_W32 _ _) hX rL45 (by norm_num) rfl (by norm_num)
  have rL77 : pack128 (CAMELLIA_ROLDQ (CAMELLIA_ROLDQ (CAMELLIA_ROLDQ (CAMELLIA_ROLDQ k 15) 30) 15) 17)
      = Ref.rotl128 (pack128 k) 77 :=
    rot_step (ROLDQ_W32 _ _) hX rL60 (by norm_num) rfl (by norm_num)
  have rL94 : pack128 (CAMELLIA_ROLDQ (CAMELLIA_ROLDQ (CAMELLIA_ROLDQ (CAMELLIA_ROLDQ (CAMELLIA_ROLDQ k 15) 30) 15) 17) 17)
      = Ref.rotl128 (pack128 k) 94 :=
    rot_step (ROLDQ_W32 _ _) hX rL77 (by norm_num) rfl (by norm_num)
  have rL111 : pack128 (CAMELLIA_ROLDQ (CAMELLIA_ROLDQ (CAMELLIA_ROLDQ (CAMELLIA_ROLDQ (CAMELLIA_ROLDQ (CAMELLIA_ROLDQ k 15) 30) 15) 17) 17) 17)
      = Ref.rotl128 (pack128 k) 111 :=
    rot_step (ROLDQ_W32 _ _) hX rL94 (by norm_num) rfl (by norm_num)
  have rA0 : pack128 ka = Ref.rotl128 (pack128 ka) 0 := (rotl128_zero hA).symm
  have rA15 : pack128 (CAMELLIA_ROLDQ ka 15)
      = Ref.rotl128 (pack128 ka) 15 :=
    rot_step hka hA rA0 (by norm_num) rfl (by norm_num)
  have rA30 : pack128 (CAMELLIA_ROLDQ (CAMELLIA_ROLDQ ka 15) 15)
      = Ref.rotl128 (pack128 ka) 30 :=
    rot_step (ROLDQ_W32 _ _) hA rA15 (by norm_num) rfl (by norm_num)
  have rA45 : pack128 (CAMELLIA_ROLDQ (CAMELLIA_ROLDQ (CAMELLIA_ROLDQ ka 15) 15) 15)
      = Ref.rotl128 (pack128 ka) 45 :=
    rot_step (ROLDQ_W32 _ _) hA rA30 (by norm_num) rfl (by norm_num)
  have rA60 : pack128 (CAMELLIA_ROLDQ (CAMELLIA_ROLDQ (CAMELLIA_ROLDQ (CAMELLIA_ROLDQ ka 15) 15) 15) 15)
      = Ref.rotl128 (pack128 ka) 60 :=
    rot_step (ROLDQ_W32 _ _) hA rA45 (by norm_num) rfl (by norm_num)
  have rA94 : pack128 (CAMELLIA_ROLDQo32 (CAMELLIA_ROLDQ (CAMELLIA_ROLDQ (CAMELLIA_ROLDQ (CAMELLIA_ROLDQ ka 15) 15) 15) 15) 34)
      = Ref.rotl128 (pack128 ka) 94 :=
    rot_step_o32 (ROLDQ_W32 _ _) hA rA60 (by norm_num) (by norm_num) rfl (by norm_num)
  have rA111 : pack128 (CAMELLIA_ROLDQ (CAMELLIA_ROLDQo32 (CAMELLIA_ROLDQ (CAMELLIA_ROLDQ (CAMELLIA_ROLDQ (CAMELLIA_ROLDQ ka 15) 15) 15) 15) 34) 17)
      = Ref.rotl128 (pack128 ka) 111 :=
    rot_step (ROLDQo32_W32 _ _) hA rA94 (by norm_num) rfl (by norm_num)
  interval_cases i
  · simp only [setup128_KAsub, setup128_KL, scratchPair_setLR_eq, scratchPair_setLR_ne, ne_eq,
      Nat.reduceEqDiff, not_false_eq_true]
    exact hiPair hk rL0
  · simp only [setup128_KAsub, setup128_KL, scratchPair_setLR_eq, scratchPair_setLR_ne, ne_eq,
      Nat.reduceEqDiff, not_false_eq_true]
    exact loPair hk rL0
  · simp only [setup128_KAsub, setup128_KL, scratchPair_setLR_eq, scratchPair_setLR_ne, ne_eq,
      Nat.reduceEqDiff, not_false_eq_true]
    exact hiPair hka rA0
  · simp only [setup128_KAsub, setup128_KL, scratchPair_setLR_eq, scratchPair_setLR_ne, ne_eq,
      Nat.reduceEqDiff, not_false_eq_true]
    exact loPair hka rA0
  · simp only [setup128_KAsub, setup128_KL, scratchPair_setLR_eq, scratchPair_setLR_ne, ne_eq,
      Nat.reduceEqDiff, not_false_eq_true]
    exact hiPair (ROLDQ_W32 _ _) rL15
  · simp only [setup128_KAsub, setup128_KL, scratchPair_setLR_eq, scratchPair_setLR_ne, ne_eq,
      Nat.reduceEqDiff, not_false_eq_true]
    exact loPair (ROLDQ_W32 _ _) rL15
  · simp only [setup128_KAsub, setup128_KL, scratchPair_setLR_eq, scratchPair_setLR_ne, ne_eq,
      Nat.reduceEqDiff, not_false_eq_true]
    exact hiPair (ROLDQ_W32 _ _) rA15
  · simp only [setup128_KAsub, setup128_KL, scratchPair_setLR_eq, scratchPair_setLR_ne, ne_eq,
      Nat.reduceEqDiff, not_false_eq_true]
    exact loPair (ROLDQ_W32 _ _) rA15
  · simp only [setup128_KAsub, setup128_KL, scratchPair_setLR_eq, scratchPair_setLR_ne, ne_eq,
      Nat.reduceEqDiff, not_false_eq_true]
    exact hiPair (ROLDQ_W32 _ _) rA30
  · simp only [setup128_KAsub, setup128_KL, scratchPair_setLR_eq, scratchPair_setLR_ne, ne_eq,
      Nat.reduceEqDiff, not_false_eq_true]
    exact loPair (ROLDQ_W32 _ _) rA30
  · simp only [setup128_KAsub, setup128_KL, scratchPair_setLR_eq, scratchPair_setLR_ne, ne_eq,
      Nat.reduceEqDiff, not_false_eq_true]
    exact hiPair (ROLDQ_W32 _ _) rL45
  · simp only [setup128_KAsub, setup128_KL, scratchPair_setLR_eq, scratchPair_setLR_ne, ne_eq,
      Nat.reduceEqDiff, not_false_eq_true]
    exact loPair (ROLDQ_W32 _ _) rL45
  · simp only [setup128_KAsub, setup128_KL, scratchPair_setLR_eq, scratchPair_setLR_ne, ne_eq,
      Nat.reduceEqDiff, not_false_eq_true]
    exact hiPair (ROLDQ_W32 _ _) rA45
  · simp only [setup128_KAsub, setup128_KL, scratchPair_setLR_eq, scratchPair_setLR_ne, ne_eq,
      Nat.reduceEqDiff, not_false_eq_true]
    exact loPair (ROLDQ_W32 _ _) rL60
  · simp only [setup128_KAsub, setup128_KL, scratchPair_setLR_eq, scratchPair_setLR_ne, ne_eq,
      Nat.reduceEqDiff, not_false_eq_true]
    exact hiPair (ROLDQ_W32 _ _) rA60
  · simp only [setup128_KAsub, setup128_KL, scratchPair_setLR_eq, scratchPair_setLR_ne, ne_eq,
      Nat.reduceEqDiff, not_false_eq_true]
    exact loPair (ROLDQ_W32 _ _) rA60
  · simp only [setup128_KAsub, setup128_KL, scratchPair_setLR_eq, scratchPair_setLR_ne, ne_eq,
      Nat.reduceEqDiff, not_false_eq_true]
    exact hiPair (ROLDQ_W32 _ _) rL77
  · simp only [setup128_KAsub, setup128_KL, scratchPair_setLR_eq, scratchPair_setLR_ne, ne_eq,
      Nat.reduceEqDiff, not_false_eq_true]
    exact loPair (ROLDQ_W32 _ _) rL77
  · simp only [setup128_KAsub, setup128_KL, scratchPair_setLR_eq, scratchPair_setLR_ne, ne_eq,
      Nat.reduceEqDiff, not_false_eq_true]
    exact hiPair (ROLDQ_W32 _ _) rL94
  · simp only [setup128_KAsub, setup128_KL, scratchPair_setLR_eq, scratchPair_setLR_ne, ne_eq,
      Nat.reduceEqDiff, not_false_eq_true]
    exact loPair (ROLDQ_W32 _ _) rL94
  · simp only [setup128_KAsub, setup128_KL, scratchPair_setLR_eq, scratchPair_setLR_ne, ne_eq,
      Nat.reduceEqDiff, not_false_eq_true]
    exact hiPair (ROLDQo32_W32 _ _) rA94
  · simp only [setup128_KAsub, setup128_KL, scratchPair_setLR_eq, scratchPair_setLR_ne, ne_eq,
      Nat.reduceEqDiff, not_false_eq_true]
    exact loPair (ROLDQo32_W32 _ _) rA94
  · simp only [setup128_KAsub, setup128_KL, scratchPair_setLR_eq, scratchPair_setLR_ne, ne_eq,
      Nat.reduceEqDiff, not_false_eq_true]
    exact hiPair (ROLDQ_W32 _ _) rL111
  · simp only [setup128_KAsub, setup128_KL, scratchPair_setLR_eq, scratchPair_setLR_ne, ne_eq,
      Nat.reduceEqDiff, not_false_eq_true]
    exact loPair (ROLDQ_W32 _ _) rL111
  · simp only [setup128_KAsub, setup128_KL, scratchPair_setLR_eq, scratchPair_setLR_ne, ne_eq,
      Nat.reduceEqDiff, not_false_eq_true]
    exact hiPair (ROLDQ_W32 _ _) rA111
  · simp only [setup128_KAsub, setup128_KL, scratchPair_setLR_eq, scratchPair_setLR_ne, ne_eq,
      Nat.reduceEqDiff, not_false_eq_true]
    exact loPair (ROLDQ_W32 _ _) rA111

/-- Section "generate KR dependent subkeys" of `camellia_setup256` rotates the words
of KR by 128 bits in all, so that they hold KR again. -/
theorem setup256_KR_snd {kr : Quad} (hkr : kr.W32) (s : Scratch) : (setup256_KR kr s).2 = kr := by
  have hR := pack128_lt hkr
  have rR0 : pack128 kr = Ref.rotl128 (pack128 kr) 0 := (rotl128_zero hR).symm
  have rR15 : pack128 (CAMELLIA_ROLDQ kr 15)
      = Ref.rotl128 (pack128 kr) 15 :=
    rot_step hkr hR rR0 (by norm_num) rfl (by norm_num)
  have rR30 : pack128 (CAMELLIA_ROLDQ (CAMELLIA_ROLDQ kr 15) 15)
      = Ref.rotl128 (pack128 kr) 30 :=
    rot_step (ROLDQ_W32 _ _) hR rR15 (by norm_num) rfl (by norm_num)
  have rR60 : pack128 (CAMELLIA_ROLDQ (CAMELLIA_ROLDQ (CAMELLIA_ROLDQ kr 15) 15) 30)
      = Ref.rotl128 (pack128 kr) 60 :=
    rot_step (ROLDQ_W32 _ _) hR rR30 (by norm_num) rfl (by norm_num)
  have rR94 : pack128 (CAMELLIA_ROLDQo32 (CAMELLIA_ROLDQ (CAMELLIA_ROLDQ (CAMELLIA_ROLDQ kr 15) 15) 30) 34)
      = Ref.rotl128 (pack128 kr) 94 :=
    rot_step_o32 (ROLDQ_W32 _ _) hR rR60 (by norm_num) (by norm_num) rfl (by norm_num)
  have rR128 : pack128 (CAMELLIA_ROLDQo32 (CAMELLIA_ROLDQo32 (CAMELLIA_ROLDQ (CAMELLIA_ROLDQ (CAMELLIA_ROLDQ kr 15) 15) 30) 34) 34)
      = Ref.rotl128 (pack128 kr) 128 :=
    rot_step_o32 (ROLDQo32_W32 _ _) hR rR94 (by norm_num) (by norm_num) rfl (by norm_num)
  unfold setup256_KR
  simp only []
  refine pack128_inj (ROLDQo32_W32 _ _) hkr ?_
  rw [rR128, rotl128_full hR]

/-- After the sections that generate the KL, KR, KA and KB dependent subkeys of
`camellia_setup256`, scratch pair `i` holds subkey `i` of the specification. -/
theorem setup256_pairs {k kr ka kb : Quad} (hk : k.W32) (hkr : kr.W32) (hka : ka.W32)
    (hkb : kb.W32) (s0 : Scratch) (i : Nat) (hi : i < 34) :
    Ref.subkey256 (pack128 k) (pack128 kr) (pack128 ka) (pack128 kb) i
      = pack64 (scratchPair
          (setup256_KBsub kb (setup256_KAsub ka (setup256_KR kr (setup256_KL k s0)).1)) i) := by
  have hX := pack128_lt hk
  have hR := pack128_lt hkr
  have hA := pack128_lt hka
  have hB := pack128_lt hkb
  have rL0 : pack128 k = Ref.rotl128 (pack128 k) 0 := (rotl128_zero hX).symm
  have rL45 : pack128 (CAMELLIA_ROLDQo32 k 45)
      = Ref.rotl128 (pack128 k) 45 :=
    rot_step_o32 hk hX rL0 (by norm_num) (by norm_num) rfl (by norm_num)
  have rL60 : pack128 (CAMELLIA_ROLDQ (CAMELLIA_ROLDQo32 k 45) 15)
      = Ref.rotl128 (pack128 k) 60 :=
    rot_step (ROLDQo32_W32 _ _) hX rL45 (by norm_num) rfl (by norm_num)
  have rL77 : pack128 (CAMELLIA_ROLDQ (CAMELLIA_ROLDQ (CAMELLIA_ROLDQo32 k 45) 15) 17)
      = Ref.rotl128 (pack128 k) 77 :=
    rot_step (ROLDQ_W32 _ _) hX rL60 (by norm_num) rfl (by norm_num)
  have rL111 : pack128 (CAMELLIA_ROLDQo32 (CAMELLIA_ROLDQ (CAMELLIA_ROLDQ (CAMELLIA_ROLDQo32 k 45) 15) 17) 34)
      = Ref.rotl128 (pack128 k) 111 :=
    rot_step_o32 (ROLDQ_W32 _ _) hX rL77 (by norm_num) (by norm_num) rfl (by norm_num)
  have rR0 : pack128 kr = Ref.rotl128 (pack128 kr) 0 := (rotl128_zero hR).symm
  have rR15 : pack128 (CAMELLIA_ROLDQ kr 15)
      = Ref.rotl128 (pack128 kr) 15 :=
    rot_step hkr hR rR0 (by norm_num) rfl (by norm_num)
  have rR30 : pack128 (CAMELLIA_ROLDQ (CAMELLIA_ROLDQ kr 15) 15)
      = Ref.rotl128 (pack128 kr) 30 :=
    rot_step (ROLDQ_W32 _ _) hR rR15 (by norm_num) rfl (by norm_num)
  have rR60 : pack128 (CAMELLIA_ROLDQ (CAMELLIA_ROLDQ (CAMELLIA_ROLDQ kr 15) 15) 30)
      = Ref.rotl128 (pack128 kr) 60 :=
    rot_step (ROLDQ_W32 _ _) hR rR30 (by norm_num) rfl (by norm_num)
  have rR94 : pack128 (CAMELLIA_ROLDQo32 (CAMELLIA_ROLDQ (CAMELLIA_ROLDQ (CAMELLIA_ROLDQ kr 15) 15) 30) 34)
      = Ref.rotl128 (pack128 kr) 94 :=
    rot_step_o32 (ROLDQ_W32 _ _) hR rR60 (by norm_num) (by norm_num) rfl (by norm_num)
  have rA0 : pack128 ka = Ref.rotl128 (pack128 ka) 0 := (rotl128_zero hA).symm
  have rA15 : pack128 (CAMELLIA_ROLDQ ka 15)
      = Ref.rotl128 (pack128 ka) 15 :=
    rot_step hka hA rA0 (by norm_num) rfl (by norm_num)
  have rA45 : pack128 (CAMELLIA_ROLDQ (CAMELLIA_ROLDQ ka 15) 30)
      = Ref.rotl128 (pack128 ka) 45 :=
    rot_step (ROLDQ_W32 _ _) hA rA15 (by norm_num) rfl (by norm_num)
  have rA94 : pack128 (CAMELLIA_ROLDQo32 (CAMELLIA_ROLDQ (CAMELLIA_ROLDQ ka 15) 30) 49)
      = Ref.rotl128 (pack128 ka) 94 :=
    rot_step_o32 (ROLDQ_W32 _ _) hA rA45 (by norm_num) (by norm_num) rfl (by norm_num)
  have rB0 : pack128 kb = Ref.rotl128 (pack128 kb) 0 := (rotl128_zero hB).symm
  have rB30 : pack128 (CAMELLIA_ROLDQ kb 30)
      = Ref.rotl128 (pack128 kb) 30 :=
    rot_step hkb hB rB0 (by norm_num) rfl (by norm_num)
  have rB60 : pack128 (CAMELLIA_ROLDQ (CAMELLIA_ROLDQ kb 30) 30)
      = Ref.rotl128 (pack128 kb) 60 :=
    rot_step (ROLDQ_W32 _ _) hB rB30 (by norm_num) rfl (by norm_num)
  have rB111 : pack128 (CAMELLIA_ROLDQo32 (CAMELLIA_ROLDQ (CAMELLIA_ROLDQ kb 30) 30) 51)
      = Ref.rotl128 (pack128 kb) 111 :=
    rot_step_o32 (ROLDQ_W32 _ _) hB rB60 (by norm_num) (by norm_num) rfl (by norm_num)
  interval_cases i
  · simp only [setup256_KBsub, setup256_KAsub, setup256_KR, setup256_KL, scratchPair_setLR_eq, scratchPair_setLR_ne, ne_eq,
      Nat.reduceEqDiff, not_false_eq_true]
    exact hiPair hk rL0
  · simp only [setup256_KBsub, setup256_KAsub, setup256_KR, setup256_KL, scratchPair_setLR_eq, scratchPair_setLR_ne, ne_eq,
      Nat.reduceEqDiff, not_false_eq_true]
    exact loPair hk rL0
  · simp only [setup256_KBsub, setup256_KAsub, setup256_KR, setup256_KL, scratchPair_setLR_eq, scratchPair_setLR_ne, ne_eq,
      Nat.reduceEqDiff, not_false_eq_true]
    exact hiPair hkb rB0
  · simp only [setup256_KBsub, setup256_KAsub, setup256_KR, setup256_KL, scratchPair_setLR_eq, scratchPair_setLR_ne, ne_eq,
      Nat.reduceEqDiff, not_false_eq_true]
    exact loPair hkb rB0
  · simp only [setup256_KBsub, setup256_KAsub, setup256_KR, setup256_KL, scratchPair_setLR_eq, scratchPair_setLR_ne, ne_eq,
      Nat.reduceEqDiff, not_false_eq_true]
    exact hiPair (ROLDQ_W32 _ _) rR15
  · simp only [setup256_KBsub, setup256_KAsub, setup256_KR, setup256_KL, scratchPair_setLR_eq, scratchPair_setLR_ne, ne_eq,
      Nat.reduceEqDiff, not_false_eq_true]
    exact loPair (ROLDQ_W32 _ _) rR15
  · simp only [setup256_KBsub, setup256_KAsub, setup256_KR, setup256_KL, scratchPair_setLR_eq, scratchPair_setLR_ne, ne_eq,
      Nat.reduceEqDiff, not_false_eq_true]
    exact hiPair (ROLDQ_W32 _ _) rA15
  · simp only [setup256_KBsub, setup256_KAsub, setup256_KR, setup256_KL, scratchPair_setLR_eq, scratchPair_setLR_ne, ne_eq,
      Nat.reduceEqDiff, not_false_eq_true]
    exact loPair (ROLDQ_W32 _ _) rA15
  · simp only [setup256_KBsub, setup256_KAsub, setup256_KR, setup256_KL, scratchPair_setLR_eq, scratchPair_setLR_ne, ne_eq,
      Nat.reduceEqDiff, not_false_eq_true]
    exact hiPair (ROLDQ_W32 _ _) rR30
  · simp only [setup256_KBsub, setup256_KAsub, setup256_KR, setup256_KL, scratchPair_setLR_eq, scratchPair_setLR_ne, ne_eq,
      Nat.reduceEqDiff, not_false_eq_true]
    exact loPair (ROLDQ_W32 _ _) rR30
  · simp only [setup256_KBsub, setup256_KAsub, setup256_KR, setup256_KL, scratchPair_setLR_eq, scratchPair_setLR_ne, ne_eq,
      Nat.reduceEqDiff, not_false_eq_true]
    exact hiPair (ROLDQ_W32 _ _) rB30
  · simp only [setup256_KBsub, setup256_KAsub, setup256_KR, setup256_KL, scratchPair_setLR_eq, scratchPair_setLR_ne, ne_eq,
      Nat.reduceEqDiff, not_false_eq_true]
    exact loPair (ROLDQ_W32 _ _) rB30
  · simp only [setup256_KBsub, setup256_KAsub, setup256_KR, setup256_KL, scratchPair_setLR_eq, scratchPair_setLR_ne, ne_eq,
      Nat.reduceEqDiff, not_false_eq_true]
    exact hiPair (ROLDQo32_W32 _ _) rL45
  · simp only [setup256_KBsub, setup256_KAsub, setup256_KR, setup256_KL, scratchPair_setLR_eq, scratchPair_setLR_ne, ne_eq,
      Nat.reduceEqDiff, not_false_eq_true]
    exact loPair (ROLDQo32_W32 _ _) rL45
  · simp only [setup256_KBsub, setup256_KAsub, setup256_KR, setup256_KL, scratchPair_setLR_eq, scratchPair_setLR_ne, ne_eq,
      Nat.reduceEqDiff, not_false_eq_true]
    exact hiPair (ROLDQ_W32 _ _) rA45
  · simp only [setup256_KBsub, setup256_KAsub, setup256_KR, setup256_KL, scratchPair_setLR_eq, scratchPair_setLR_ne, ne_eq,
      Nat.reduceEqDiff, not_false_eq_true]
    exact loPair (ROLDQ_W32 _ _) rA45
  · simp only [setup256_KBsub, setup256_KAsub, setup256_KR, setup256_KL, scratchPair_setLR_eq, scratchPair_setLR_ne, ne_eq,
      Nat.reduceEqDiff, not_false_eq_true]
    exact hiPair (ROLDQ_W32 _ _) rL60
  · simp only [setup256_KBsub, setup256_KAsub, setup256_KR, setup256_KL, scratchPair_setLR_eq, scratchPair_setLR_ne, ne_eq,
      Nat.reduceEqDiff, not_false_eq_true]
    exact loPair (ROLDQ_W32 _ _) rL60
  · simp only [setup256_KBsub, setup256_KAsub, setup256_KR, setup256_KL, scratchPair_setLR_eq, scratchPair_setLR_ne, ne_eq,
      Nat.reduceEqDiff, not_false_eq_true]
    exact hiPair (ROLDQ_W32 _ _) rR60
  · simp only [setup256_KBsub, setup256_KAsub, setup256_KR, setup256_KL, scratchPair_setLR_eq, scratchPair_setLR_ne, ne_eq,
      Nat.reduceEqDiff, not_false_eq_true]
    exact loPair (ROLDQ_W32 _ _) rR60
  · simp only [setup256_KBsub, setup256_KAsub, setup256_KR, setup256_KL, scratchPair_setLR_eq, scratchPair_setLR_ne, ne_eq,
      Nat.reduceEqDiff, not_false_eq_true]
    exact hiPair (ROLDQ_W32 _ _) rB60
  · simp only [setup256_KBsub, setup256_KAsub, setup256_KR, setup256_KL, scratchPair_setLR_eq, scratchPair_setLR_ne, ne_eq,
      Nat.reduceEqDiff, not_false_eq_true]
    exact loPair (ROLDQ_W32 _ _) rB60
  · simp only [setup256_KBsub, setup256_KAsub, setup256_KR, setup256_KL, scratchPair_setLR_eq, scratchPair_setLR_ne, ne_eq,
      Nat.reduceEqDiff, not_false_eq_true]
    exact hiPair (ROLDQ_W32 _ _) rL77
  · simp only [setup256_KBsub, setup256_KAsub, setup256_KR, setup256_KL, scratchPair_setLR_eq, scratchPair_setLR_ne, ne_eq,
      Nat.reduceEqDiff, not_false_eq_true]
    exact loPair (ROLDQ_W32 _ _) rL77
  · simp only [setup256_KBsub, setup256_KAsub, setup256_KR, setup256_KL, scratchPair_setLR_eq, scratchPair_setLR_ne, ne_eq,
      Nat.reduceEqDiff, not_false_eq_true]
    exact hiPair32 (ROLDQ_W32 _ _) hA rA45 rfl (by norm_num)
  · simp only [setup256_KBsub, setup256_KAsub, setup256_KR, setup256_KL, scratchPair_setLR_eq, scratchPair_setLR_ne, ne_eq,
      Nat.reduceEqDiff, not_false_eq_true]
    exact loPair32 (ROLDQ_W32 _ _) hA rA45 rfl (by norm_num)
  · simp only [setup256_KBsub, setup256_KAsub, setup256_KR, setup256_KL, scratchPair_setLR_eq, scratchPair_setLR_ne, ne_eq,
      Nat.reduceEqDiff, not_false_eq_true]
    exact hiPair (ROLDQo32_W32 _ _) rR94
  · simp only [setup256_KBsub, setup256_KAsub, setup256_KR, setup256_KL, scratchPair_setLR_eq, scratchPair_setLR_ne, ne_eq,
      Nat.reduceEqDiff, not_false_eq_true]
    exact loPair (ROLDQo32_W32 _ _) rR94
  · simp only [setup256_KBsub, setup256_KAsub, setup256_KR, setup256_KL, scratchPair_setLR_eq, scratchPair_setLR_ne, ne_eq,
      Nat.reduceEqDiff, not_false_eq_true]
    exact hiPair (ROLDQo32_W32 _ _) rA94
  · simp only [setup256_KBsub, setup256_KAsub, setup256_KR, setup256_KL, scratchPair_setLR_eq, scratchPair_setLR_ne, ne_eq,
      Nat.reduceEqDiff, not_false_eq_true]
    exact loPair (ROLDQo32_W32 _ _) rA94
  · simp only [setup256_KBsub, setup256_KAsub, setup256_KR, setup256_KL, scratchPair_setLR_eq, scratchPair_setLR_ne, ne_eq,
      Nat.reduceEqDiff, not_false_eq_true]
    exact hiPair (ROLDQo32_W32 _ _) rL111
  · simp only [setup256_KBsub, setup256_KAsub, setup256_KR, setup256_KL, scratchPair_setLR_eq, scratchPair_setLR_ne, ne_eq,
      Nat.reduceEqDiff, not_false_eq_true]
    exact loPair (ROLDQo32_W32 _ _) rL111
  · simp only [setup256_KBsub, setup256_KAsub, setup256_KR, setup256_KL, scratchPair_setLR_eq, scratchPair_setLR_ne, ne_eq,
      Nat.reduceEqDiff, not_false_eq_true]
    exact hiPair (ROLDQo32_W32 _ _) rB111
  · simp only [setup256_KBsub, setup256_KAsub, setup256_KR, setup256_KL, scratchPair_setLR_eq, scratchPair_setLR_ne, ne_eq,
      Nat.reduceEqDiff, not_false_eq_true]
    exact loPair (ROLDQo32_W32 _ _) rB111

/-! ## Equivalence with the algorithm of the specification -/

/-- The 16 bytes of the number held in four words are the bytes `storeBlock` writes. -/
theorem be_bytes16_pack128 {q : Quad} (hq : q.W32) : Ref.be_bytes16 (pack128 q) = blockBytes q := by
  have h1 := W32_lt hq.1
  have h2 := W32_lt hq.2.1
  have h3 := W32_lt hq.2.2.1
  have h4 := W32_lt hq.2.2.2
  have e : ∀ X, Ref.be_bytes16 X = [(X >>> 120) &&& Ref.MASK8, (X >>> 112) &&& Ref.MASK8,
      (X >>> 104) &&& Ref.MASK8, (X >>> 96) &&& Ref.MASK8, (X >>> 88) &&& Ref.MASK8,
      (X >>> 80) &&& Ref.MASK8, (X >>> 72) &&& Ref.MASK8, (X >>> 64) &&& Ref.MASK8,
      (X >>> 56) &&& Ref.MASK8, (X >>> 48) &&& Ref.MASK8, (X >>> 40) &&& Ref.MASK8,
      (X >>> 32) &&& Ref.MASK8, (X >>> 24) &&& Ref.MASK8, (X >>> 16) &&& Ref.MASK8,
      (X >>> 8) &&& Ref.MASK8, (X >>> 0) &&& Ref.MASK8] := fun _ => rfl
  rw [e]
  unfold blockBytes pack128 pack64 u8
  simp only [and_MASK8, Nat.shiftRight_eq_div_pow, List.cons.injEq, and_true]
  refine ⟨?_, ?_, ?_, ?_, ?_, ?_, ?_, ?_, ?_, ?_, ?_, ?_, ?_, ?_, ?_, ?_⟩ <;> omega

/-- A list of thirty-two elements, spelled out. -/
theorem eq_of_length_32 (l : List Nat) (h : l.length = 32) :
    l = [l.getD 0 0, l.getD 1 0, l.getD 2 0, l.getD 3 0, l.getD 4 0, l.getD 5 0, l.getD 6 0,
      l.getD 7 0, l.getD 8 0, l.getD 9 0, l.getD 10 0, l.getD 11 0, l.getD 12 0, l.getD 13 0,
      l.getD 14 0, l.getD 15 0, l.getD 16 0, l.getD 17 0, l.getD 18 0, l.getD 19 0, l.getD 20 0,
      l.getD 21 0, l.getD 22 0, l.getD 23 0, l.getD 24 0, l.getD 25 0, l.getD 26 0, l.getD 27 0,
      l.getD 28 0, l.getD 29 0, l.getD 30 0, l.getD 31 0] := by
  match l, h with
  | [_, _, _, _, _, _, _, _, _, _, _, _, _, _, _, _, _, _, _, _, _, _, _, _, _, _, _, _, _, _,
      _, _], _ => rfl

/-- The four words loaded from 16 bytes hold the number the bytes spell. -/
theorem pack128_loadQuad {n : Nat} {buf : List Nat} (h : IsBytes n buf) (off : Nat) :
    pack128 (loadQuad buf off)
      = Ref.be_nat [buf.getD off 0, buf.getD (off + 1) 0, buf.getD (off + 2) 0,
          buf.getD (off + 3) 0, buf.getD (off + 4) 0, buf.getD (off + 5) 0, buf.getD (off + 6) 0,
          buf.getD (off + 7) 0, buf.getD (off + 8) 0, buf.getD (off + 9) 0,
          buf.getD (off + 10) 0, buf.getD (off + 11) 0, buf.getD (off + 12) 0,
          buf.getD (off + 13) 0, buf.getD (off + 14) 0, buf.getD (off + 15) 0] := by
  have g := getD_lt_of_IsBytes h
  unfold loadQuad pack128 pack64
  simp only []
  rw [GETU32_eq _ _ (g _) (g _) (g _) (g _), GETU32_eq _ _ (g _) (g _) (g _) (g _),
    GETU32_eq _ _ (g _) (g _) (g _) (g _), GETU32_eq _ _ (g _) (g _) (g _) (g _)]
  simp only [Ref.be_nat, List.foldl, Nat.add_assoc, Nat.reduceAdd]
  omega

theorem be_nat_16 {key : List Nat} (h : IsBytes 16 key) :
    Ref.be_nat key = pack128 (loadQuad key 0) := by
  rw [pack128_loadQuad h 0]
  simp only [Nat.zero_add]
  rw [← eq_of_length_16 key h.1]

theorem be_nat_append (a b : List Nat) :
    Ref.be_nat (a ++ b) = Ref.be_nat a * 256 ^ b.length + Ref.be_nat b := by
  have gen : ∀ (l : List Nat) (x : Nat),
      l.foldl (fun acc b => acc * 256 + b) x
        = x * 256 ^ l.length + l.foldl (fun acc b => acc * 256 + b) 0 := by
    intro l
    induction l with
    | nil => intro x; simp
    | cons c l ih =>
      intro x
      simp only [List.foldl, List.length_cons]
      rw [ih (x * 256 + c), ih (0 * 256 + c)]
      ring
  unfold Ref.be_nat
  rw [List.foldl_append, gen b]

theorem be_nat_split16 (a b : List Nat) (hb : b.length = 16) :
    Ref.be_nat (a ++ b) = Ref.be_nat a * 2 ^ 128 + Ref.be_nat b := by
  rw [be_nat_append, hb]
  norm_num

theorem be_nat_32 {key : List Nat} (h : IsBytes 32 key) :
    Ref.be_nat key = pack128 (loadQuad key 0) * 2 ^ 128 + pack128 (loadQuad key 16) := by
  rw [pack128_loadQuad h 0, pack128_loadQuad h 16]
  simp only [Nat.zero_add, Nat.reduceAdd]
  conv_lhs => rw [eq_of_length_32 key h.1]
  exact be_nat_split16 [key.getD 0 0, key.getD 1 0, key.getD 2 0, key.getD 3 0, key.getD 4 0,
    key.getD 5 0, key.getD 6 0, key.getD 7 0, key.getD 8 0, key.getD 9 0, key.getD 10 0,
    key.getD 11 0, key.getD 12 0, key.getD 13 0, key.getD 14 0, key.getD 15 0]
    [key.getD 16 0, key.getD 17 0, key.getD 18 0, key.getD 19 0, key.getD 20 0,
    key.getD 21 0, key.getD 22 0, key.getD 23 0, key.getD 24 0, key.getD 25 0, key.getD 26 0,
    key.getD 27 0, key.getD 28 0, key.getD 29 0, key.getD 30 0, key.getD 31 0] rfl

/-- On words: `camellia_setup128` followed by `camellia_encrypt128` is the 128-bit
encryption of the specification, whatever the key table held before. -/
theorem camellia_encrypt128_eq_Ref (key : List Nat) (T0 : Words) {m : Quad} (hm : m.W32) :
    pack128 (camellia_encrypt128 (camellia_setup128 key T0) m)
      = Ref.encrypt128 (pack128 (loadQuad key 0)) (pack128 m) := by
  have hk := loadQuad_W32 key 0
  have h1 := setup128_KL_W32 hk Scratch.init_W32
  have hka := setup128_KA_W32 (setup128_KL (loadQuad key 0) Scratch.init)
  have hs := setup128_KAsub_W32 hka h1
  have p0 : scratchPair (setup128_KL (loadQuad key 0) Scratch.init) 0
      = ((loadQuad key 0).ll, (loadQuad key 0).lr) := by
    simp only [setup128_KL, scratchPair_setLR_eq, scratchPair_setLR_ne, ne_eq,
      Nat.reduceEqDiff, not_false_eq_true]
  have p1 : scratchPair (setup128_KL (loadQuad key 0) Scratch.init) 1
      = ((loadQuad key 0).rl, (loadQuad key 0).rr) := by
    simp only [setup128_KL, scratchPair_setLR_eq, scratchPair_setLR_ne, ne_eq,
      Nat.reduceEqDiff, not_false_eq_true]
  have hA : camellia_encrypt128 (camellia_setup128 key T0) m
      = plain_encrypt128 (scratchPair (setup128_KAsub
          (setup128_KA (setup128_KL (loadQuad key 0) Scratch.init))
          (setup128_KL (loadQuad key 0) Scratch.init))) m :=
    camellia_encrypt128_eq_plain (fun i => PW32_scratchPair hs i) (fun i hi => setup128_table _ hs T0 i hi) m
  rw [hA]
  refine (plain_encrypt128_eq_Ref (fun i => PW32_scratchPair hs i) (fun i hi => ?_) hm).symm
  rw [← setup128_KA_eq hk p0 p1]
  exact setup128_pairs hk hka Scratch.init i hi

/-- On words: `camellia_setup256` followed by `camellia_encrypt256` is the 256-bit
encryption of the specification, whatever the key table held before. -/
theorem camellia_encrypt256_eq_Ref (key : List Nat) (T0 : Words) {m : Quad} (hm : m.W32) :
    pack128 (camellia_encrypt256 (camellia_setup256 key T0) m)
      = Ref.encrypt256 (pack128 (loadQuad key 0) * 2 ^ 128 + pack128 (loadQuad key 16))
          (pack128 m) := by
  have hk := loadQuad_W32 key 0
  have hkr := loadQuad_W32 key 16
  have h1 := setup256_KL_W32 hk Scratch.init_W32
  have h2 := setup256_KR_W32 (loadQuad key 16) h1
  have e2 := setup256_KR_snd hkr (setup256_KL (loadQuad key 0) Scratch.init)
  have hka := setup256_KA_W32 (setup256_KR (loadQuad key 16)
    (setup256_KL (loadQuad key 0) Scratch.init)).1 hkr
  have hkb := setup256_KB_W32 hka hkr
  have hs := setup256_KBsub_W32 hkb (setup256_KAsub_W32 (setup256_KA (setup256_KR
    (loadQuad key 16) (setup256_KL (loadQuad key 0) Scratch.init)).1 (loadQuad key 16)) h2.1)
  have p0 : scratchPair (setup256_KR (loadQuad key 16)
      (setup256_KL (loadQuad key 0) Scratch.init)).1 0
      = ((loadQuad key 0).ll, (loadQuad key 0).lr) := by
    simp only [setup256_KR, setup256_KL, scratchPair_setLR_eq, scratchPair_setLR_ne, ne_eq,
      Nat.reduceEqDiff, not_false_eq_true]
  have p1 : scratchPair (setup256_KR (loadQuad key 16)
      (setup256_KL (loadQuad key 0) Scratch.init)).1 1
      = ((loadQuad key 0).rl, (loadQuad key 0).rr) := by
    simp only [setup256_KR, setup256_KL, scratchPair_setLR_eq, scratchPair_setLR_ne, ne_eq,
      Nat.reduceEqDiff, not_false_eq_true]
  have hA : camellia_encrypt256 (camellia_setup256 key T0) m
      = plain_encrypt256 (scratchPair (setup256_KBsub
          (setup256_KB (setup256_KA (setup256_KR (loadQuad key 16)
            (setup256_KL (loadQuad key 0) Scratch.init)).1 (loadQuad key 16)) (loadQuad key 16))
          (setup256_KAsub (setup256_KA (setup256_KR (loadQuad key 16)
            (setup256_KL (loadQuad key 0) Scratch.init)).1 (loadQuad key 16))
            (setup256_KR (loadQuad key 16) (setup256_KL (loadQuad key 0) Scratch.init)).1))) m := by
    unfold camellia_setup256
    simp only [e2]
    exact camellia_encrypt256_eq_plain (fun i => PW32_scratchPair hs i)
      (fun i hi => setup256_table _ hs T0 i hi) m
  have xl : (pack128 (loadQuad key 0) * 2 ^ 128 + pack128 (loadQuad key 16)) >>> 128
      = pack128 (loadQuad key 0) := by
    have := pack128_lt hkr
    rw [Nat.shiftRight_eq_div_pow]
    omega
  have xr : (pack128 (loadQuad key 0) * 2 ^ 128 + pack128 (loadQuad key 16)) &&& Ref.MASK128
      = pack128 (loadQuad key 16) := by
    have := pack128_lt hkr
    rw [and_MASK128]
    omega
  rw [hA]
  refine (plain_encrypt256_eq_Ref (fun i => PW32_scratchPair hs i) (fun i hi => ?_) hm).symm
  rw [xl, xr, ← setup256_KA_eq hk hkr p0 p1, ← setup256_KB_eq hka hkr]
  exact setup256_pairs hk hkr hka hkb Scratch.init i hi

set_option maxRecDepth 100000 in
/-- The algorithm as the specification writes it reproduces the published test vectors
for 128- and 256-bit keys. -/
theorem Ref_published_vectors :
    Ref.be_bytes16 (Ref.encrypt128 (Ref.be_nat kat_key128) (Ref.be_nat kat_plaintext))
        = [0x67, 0x67, 0x31, 0x38, 0x54, 0x96, 0x69, 0x73,
            0x08, 0x57, 0x06, 0x56, 0x48, 0xea, 0xbe, 0x43]
      ∧ Ref.be_bytes16 (Ref.encrypt256 (Ref.be_nat kat_key256) (Ref.be_nat kat_plaintext))
        = [0x9a, 0xcc, 0x23, 0x7d, 0xff, 0x16, 0xd7, 0x6c,
            0x20, 0xef, 0x7c, 0x91, 0x9e, 0x3a, 0x75, 0x09] := by
  decide

/-- Claim C2. Equivalence with the reference algorithm, 128-bit keys: for every 16-byte
key and every 16-byte block, `Camellia_EncryptBlock` under selector 128 with the table of
`Camellia_Ekeygen` writes the 16 bytes of Camellia-128 encryption as the algorithm
specification (RFC 3713) defines it on the numbers the key and the block spell; this
holds whatever the key table and the output buffer held before and on either host byte
order. -/
theorem C2_encrypt128_is_reference (o : ByteOrder) (key p : List Nat) (T0 : Words)
    (ct : List Nat) (hkey : IsBytes 16 key) (hp : IsBytes 16 p) (hct : ct.length = 16) :
    Camellia_EncryptBlock 128 p (Camellia_Ekeygen o 128 key T0) ct
      = Ref.be_bytes16 (Ref.encrypt128 (Ref.be_nat key) (Ref.be_nat p)) := by
  rw [Camellia_EncryptBlock_128_eq o key p T0 ct hct, be_nat_16 hkey, be_nat_16 hp,
    ← camellia_encrypt128_eq_Ref key zeroTable (loadQuad_W32 p 0),
    be_bytes16_pack128 (camellia_encrypt128_W32
      ((camellia_setup128_Pairs key zeroTable).mono (by decide)) (loadQuad_W32 p 0))]
  rfl

theorem C2_encrypt128_is_reference_witness :
    IsBytes 16 kat_key128 ∧ IsBytes 16 kat_plaintext ∧ zeroBlock.length = 16 ∧
      Camellia_EncryptBlock 128 kat_plaintext
          (Camellia_Ekeygen ByteOrder.little 128 kat_key128 zeroTable) zeroBlock
        = Ref.be_bytes16 (Ref.encrypt128 (Ref.be_nat kat_key128) (Ref.be_nat kat_plaintext)) :=
  ⟨by decide, by decide, by decide,
    C2_encrypt128_is_reference ByteOrder.little kat_key128 kat_plaintext zeroTable zeroBlock
      (by decide) (by decide) (by decide)⟩

/-- Claim C3. Equivalence with the reference algorithm, 256-bit keys: for every 32-byte
key `KL || KR` and every 16-byte block, `Camellia_EncryptBlock` under selector 256 with
the table of `Camellia_Ekeygen` writes the 16 bytes of Camellia-256 encryption as the
algorithm specification (RFC 3713) defines it on the numbers the key and the block spell;
this holds whatever the key table and the output buffer held before and on either host
byte order. -/
theorem C3_encrypt256_is_reference (o : ByteOrder) (key p : List Nat) (T0 : Words)
    (ct : List Nat) (hkey : IsBytes 32 key) (hp : IsBytes 16 p) (hct : ct.length = 16) :
    Camellia_EncryptBlock 256 p (Camellia_Ekeygen o 256 key T0) ct
      = Ref.be_bytes16 (Ref.encrypt256 (Ref.be_nat key) (Ref.be_nat p)) := by
  rw [Camellia_Ekeygen_256, Camellia_EncryptBlock_256_eq 256 (Or.inr rfl) key p T0 ct hct,
    be_nat_32 hkey, be_nat_16 hp,
    ← camellia_encrypt256_eq_Ref key zeroTable (loadQuad_W32 p 0),
    be_bytes16_pack128 (camellia_encrypt256_W32
      ((camellia_setup256_Pairs key zeroTable).mono (by decide)) (loadQuad_W32 p 0))]
  rfl

theorem C3_encrypt256_is_reference_witness :
    IsBytes 32 kat_key256 ∧ IsBytes 16 kat_plaintext ∧ zeroBlock.length = 16 ∧
      Camellia_EncryptBlock 256 kat_plaintext
          (Camellia_Ekeygen ByteOrder.little 256 kat_key256 zeroTable) zeroBlock
        = Ref.be_bytes16 (Ref.encrypt256 (Ref.be_nat kat_key256) (Ref.be_nat kat_plaintext)) :=
  ⟨by decide, by decide, by decide,
    C3_encrypt256_is_reference ByteOrder.little kat_key256 kat_plaintext zeroTable zeroBlock
      (by decide) (by decide) (by decide)⟩

/-! ## Frame of the schedules and what the transforms read -/

theorem setSubkey_frame {P : List Nat} {S T : Words}
    (h : ∀ j, j / 2 ∉ P → S.word j = T.word j) (i l r : Nat) :
    ∀ j, j / 2 ∉ i :: P → (setSubkey S i l r).word j = T.word j := by
  intro j hj
  have h1 : j / 2 ≠ i := fun e => hj (e ▸ List.mem_cons_self _ _)
  have h2 : j / 2 ∉ P := fun e => hj (List.mem_cons_of_mem _ e)
  show (if j = i * 2 + 1 then r else if j = i * 2 then l else S.word j) = T.word j
  rw [if_neg (by omega), if_neg (by omega)]
  exact h j h2

theorem invP_step_frame {P : List Nat} {S T : Words}
    (h : ∀ j, j / 2 ∉ P → S.word j = T.word j) (i : Nat) (hi : i ∈ P) :
    ∀ j, j / 2 ∉ P → (invP_step S i).word j = T.word j := by
  intro j hj
  have h1 : j / 2 ≠ i := fun e => hj (e ▸ hi)
  show (if j = i * 2 then _ else if j = i * 2 + 1 then _ else S.word j) = T.word j
  rw [if_neg (by omega), if_neg (by omega)]
  exact h j hj

theorem foldl_invP_step_frame {P : List Nat} (is : List Nat) (his : ∀ i ∈ is, i ∈ P)
    {S T : Words} (h : ∀ j, j / 2 ∉ P → S.word j = T.word j) :
    ∀ j, j / 2 ∉ P → (is.foldl invP_step S).word j = T.word j := by
  induction is generalizing S with
  | nil => exact h
  | cons i is ih =>
    exact ih (fun j hj => his j (List.mem_cons_of_mem _ hj))
      (invP_step_frame h i (his i (List.mem_cons_self _ _)))

theorem setup128_emit_frame (s : Scratch) (T0 : Words) :
    ∀ j, j / 2 ∉ [24, 23, 22, 21, 20, 19, 18, 17, 16, 15, 14, 13, 12, 11, 10, 9,
      8, 7, 6, 5, 4, 3, 2, 0] →
      (setup128_emit s T0).word j = T0.word j := by
  unfold setup128_emit
  refine setSubkey_frame ?_ 24 _ _
  refine setSubkey_frame ?_ 23 _ _
  refine setSubkey_frame ?_ 22 _ _
  refine setSubkey_frame ?_ 21 _ _
  refine setSubkey_frame ?_ 20 _ _
  refine setSubkey_frame ?_ 19 _ _
  refine setSubkey_frame ?_ 18 _ _
  refine setSubkey_frame ?_ 17 _ _
  refine setSubkey_frame ?_ 16 _ _
  refine setSubkey_frame ?_ 15 _ _
  refine setSubkey_frame ?_ 14 _ _
  refine setSubkey_frame ?_ 13 _ _
  refine setSubkey_frame ?_ 12 _ _
  refine setSubkey_frame ?_ 11 _ _
  refine setSubkey_frame ?_ 10 _ _
  refine setSubkey_frame ?_ 9 _ _
  refine setSubkey_frame ?_ 8 _ _
  refine setSubkey_frame ?_ 7 _ _
  refine setSubkey_frame ?_ 6 _ _
  refine setSubkey_frame ?_ 5 _ _
  refine setSubkey_frame ?_ 4 _ _
  refine setSubkey_frame ?_ 3 _ _
  refine setSubkey_frame ?_ 2 _ _
  refine setSubkey_frame ?_ 0 _ _
  exact fun _ _ => rfl

/-- `camellia_setup128` leaves every word outside the subkey pairs it stores as it was. -/
theorem camellia_setup128_frame (key : List Nat) (T0 : Words) :
    ∀ j, j / 2 ∉ [24, 23, 22, 21, 20, 19, 18, 17, 16, 15, 14, 13, 12, 11, 10, 9,
      8, 7, 6, 5, 4, 3, 2, 0] →
      (camellia_setup128 key T0).word j = T0.word j := by
  unfold camellia_setup128
  exact foldl_invP_step_frame _ (by decide) (setup128_emit_frame _ T0)

theorem setup256_emit_frame (s : Scratch) (T0 : Words) :
    ∀ j, j / 2 ∉ [32, 31, 30, 29, 28, 27, 26, 25, 24, 23, 22, 21, 20, 19, 18, 17,
      16, 15, 14, 13, 12, 11, 10, 9, 8, 7, 6, 5, 4, 3, 2, 0] →
      (setup256_emit s T0).word j = T0.word j := by
  unfold setup256_emit
  refine setSubkey_frame ?_ 32 _ _
  refine setSubkey_frame ?_ 31 _ _
  refine setSubkey_frame ?_ 30 _ _
  refine setSubkey_frame ?_ 29 _ _
  refine setSubkey_frame ?_ 28 _ _
  refine setSubkey_frame ?_ 27 _ _
  refine setSubkey_frame ?_ 26 _ _
  refine setSubkey_frame ?_ 25 _ _
  refine setSubkey_frame ?_ 24 _ _
  refine setSubkey_frame ?_ 23 _ _
  refine setSubkey_frame ?_ 22 _ _
  refine setSubkey_frame ?_ 21 _ _
  refine setSubkey_frame ?_ 20 _ _
  refine setSubkey_frame ?_ 19 _ _
  refine setSubkey_frame ?_ 18 _ _
  refine setSubkey_frame ?_ 17 _ _
  refine setSubkey_frame ?_ 16 _ _
  refine setSubkey_frame ?_ 15 _ _
  refine setSubkey_frame ?_ 14 _ _
  refine setSubkey_frame ?_ 13 _ _
  refine setSubkey_frame ?_ 12 _ _
  refine setSubkey_frame ?_ 11 _ _
  refine setSubkey_frame ?_ 10 _ _
  refine setSubkey_frame ?_ 9 _ _
  refine setSubkey_frame ?_ 8 _ _
  refine setSubkey_frame ?_ 7 _ _
  refine setSubkey_frame ?_ 6 _ _
  refine setSubkey_frame ?_ 5 _ _
  refine setSubkey_frame ?_ 4 _ _
  refine setSubkey_frame ?_ 3 _ _
  refine setSubkey_frame ?_ 2 _ _
  refine setSubkey_frame ?_ 0 _ _
  exact fun _ _ => rfl

/-- `camellia_setup256` leaves every word outside the subkey pairs it stores as it was. -/
theorem camellia_setup256_frame (key : List Nat) (T0 : Words) :
    ∀ j, j / 2 ∉ [32, 31, 30, 29, 28, 27, 26, 25, 24, 23, 22, 21, 20, 19, 18, 17,
      16, 15, 14, 13, 12, 11, 10, 9, 8, 7, 6, 5, 4, 3, 2, 0] →
      (camellia_setup256 key T0).word j = T0.word j := by
  unfold camellia_setup256
  exact foldl_invP_step_frame _ (by decide) (setup256_emit_frame _ T0)

theorem mem_pairs128 (i : Nat) :
    i ∈ [24, 23, 22, 21, 20, 19, 18, 17, 16, 15, 14, 13, 12, 11, 10, 9,
      8, 7, 6, 5, 4, 3, 2, 0] ↔ i ≤ 24 ∧ i ≠ 1 := by
  constructor
  · intro h
    simp only [List.mem_cons, List.mem_singleton, List.not_mem_nil, or_false] at h
    omega
  · rintro ⟨h1, h2⟩
    interval_cases i <;> first | exact absurd rfl h2 | decide

theorem mem_pairs256 (i : Nat) :
    i ∈ [32, 31, 30, 29, 28, 27, 26, 25, 24, 23, 22, 21, 20, 19, 18, 17,
      16, 15, 14, 13, 12, 11, 10, 9, 8, 7, 6, 5, 4, 3, 2, 0] ↔ i ≤ 32 ∧ i ≠ 1 := by
  constructor
  · intro h
    simp only [List.mem_cons, List.mem_singleton, List.not_mem_nil, or_false] at h
    omega
  · rintro ⟨h1, h2⟩
    interval_cases i <;> first | exact absurd rfl h2 | decide

/-- Tables that agree on the pairs of `P` agree on every word of those pairs. -/
theorem AgreeOn.word {P : List Nat} {S S' : Words} (h : AgreeOn P S S') {j : Nat}
    (hj : j / 2 ∈ P) : S.word j = S'.word j := by
  have hL : S.word (j / 2 * 2) = S'.word (j / 2 * 2) := (h _ hj).1
  have hR : S.word (j / 2 * 2 + 1) = S'.word (j / 2 * 2 + 1) := (h _ hj).2
  rcases Nat.mod_two_eq_zero_or_one j with e | e
  · have e' : j / 2 * 2 = j := by omega
    rwa [e'] at hL
  · have e' : j / 2 * 2 + 1 = j := by omega
    rwa [e'] at hR

/-- Tables that agree on every word of the pairs of `P` agree on those pairs. -/
theorem AgreeOn.of_words {P : List Nat} {S S' : Words}
    (h : ∀ j, j / 2 ∈ P → S.word j = S'.word j) : AgreeOn P S S' := by
  intro i hi
  constructor
  · exact h (i * 2) (by rw [Nat.mul_div_cancel i (by norm_num)]; exact hi)
  · exact h (i * 2 + 1) (by
      have e : (i * 2 + 1) / 2 = i := by omega
      rw [e]; exact hi)

/-- `camellia_decrypt128` reads subkey pairs 0 and 2..24 only. -/
theorem camellia_decrypt128_congr {S S' : Words}
    (h : AgreeOn [24, 23, 22, 21, 20, 19, 18, 17, 16, 15, 14, 13, 12, 11, 10, 9,
      8, 7, 6, 5, 4, 3, 2, 0] S S') (io : Quad) :
    camellia_decrypt128 S io = camellia_decrypt128 S' io := by
  have k : ∀ i, i ∈ [24, 23, 22, 21, 20, 19, 18, 17, 16, 15, 14, 13, 12, 11, 10, 9,
      8, 7, 6, 5, 4, 3, 2, 0] → CamelliaSubkeyL S i = CamelliaSubkeyL S' i
      ∧ CamelliaSubkeyR S i = CamelliaSubkeyR S' i := h
  simp only [camellia_decrypt128, whiten01_congr (k 24 (by decide)),
    whiten23_congr (k 0 (by decide)), fls_congr (k 9 (by decide)) (k 8 (by decide)),
    fls_congr (k 17 (by decide)) (k 16 (by decide)),
    round23_congr (k 2 (by decide)), round01_congr (k 3 (by decide)),
    round23_congr (k 4 (by decide)), round01_congr (k 5 (by decide)),
    round23_congr (k 6 (by decide)), round01_congr (k 7 (by decide)),
    round23_congr (k 10 (by decide)), round01_congr (k 11 (by decide)),
    round23_congr (k 12 (by decide)), round01_congr (k 13 (by decide)),
    round23_congr (k 14 (by decide)), round01_congr (k 15 (by decide)),
    round23_congr (k 18 (by decide)), round01_congr (k 19 (by decide)),
    round23_congr (k 20 (by decide)), round01_congr (k 21 (by decide)),
    round23_congr (k 22 (by decide)), round01_congr (k 23 (by decide))]

/-- `camellia_decrypt256` reads subkey pairs 0 and 2..32 only. -/
theorem camellia_decrypt256_congr {S S' : Words}
    (h : AgreeOn [32, 31, 30, 29, 28, 27, 26, 25, 24, 23, 22, 21, 20, 19, 18, 17,
      16, 15, 14, 13, 12, 11, 10, 9, 8, 7, 6, 5, 4, 3, 2, 0] S S') (io : Quad) :
    camellia_decrypt256 S io = camellia_decrypt256 S' io := by
  have k : ∀ i, i ∈ [32, 31, 30, 29, 28, 27, 26, 25, 24, 23, 22, 21, 20, 19, 18, 17,
      16, 15, 14, 13, 12, 11, 10, 9, 8, 7, 6, 5, 4, 3, 2, 0] →
      CamelliaSubkeyL S i = CamelliaSubkeyL S' i
      ∧ CamelliaSubkeyR S i = CamelliaSubkeyR S' i := h
  simp only [camellia_decrypt256, whiten01_congr (k 32 (by decide)),
    whiten23_congr (k 0 (by decide)), fls_congr (k 9 (by decide)) (k 8 (by decide)),
    fls_congr (k 17 (by decide)) (k 16 (by decide)),
    fls_congr (k 25 (by decide)) (k 24 (by decide)),
    round23_congr (k 2 (by decide)), round01_congr (k 3 (by decide)),
    round23_congr (k 4 (by decide)), round01_congr (k 5 (by decide)),
    round23_congr (k 6 (by decide)), round01_congr (k 7 (by decide)),
    round23_congr (k 10 (by decide)), round01_congr (k 11 (by decide)),
    round23_congr (k 12 (by decide)), round01_congr (k 13 (by decide)),
    round23_congr (k 14 (by decide)), round01_congr (k 15 (by decide)),
    round23_congr (k 18 (by decide)), round01_congr (k 19 (by decide)),
    round23_congr (k 20 (by decide)), round01_congr (k 21 (by decide)),
    round23_congr (k 22 (by decide)), round01_congr (k 23 (by decide)),
    round23_congr (k 26 (by decide)), round01_congr (k 27 (by decide)),
    round23_congr (k 28 (by decide)), round01_congr (k 29 (by decide)),
    round23_congr (k 30 (by decide)), round01_congr (k 31 (by decide))]

/-- The table of selector 192 or 256 is a table of `camellia_setup256`. -/
theorem Camellia_Ekeygen_256_class (o : ByteOrder) (bits : Int) (hbits : bits = 192 ∨ bits = 256)
    (key : List Nat) :
    ∃ kk : List Nat, ∀ T : Words, Camellia_Ekeygen o bits key T = camellia_setup256 kk T := by
  rcases hbits with h | h
  · exact ⟨setup192_kk o key, fun T => by rw [h, Camellia_Ekeygen_192]⟩
  · exact ⟨key, fun T => by rw [h, Camellia_Ekeygen_256]⟩

/-! ## Determinism and extent of the subkey array (claims C11, C12, C14) -/

/-- A schedule that stores the pairs of `P`, which are the words below `N` other than
words 2 and 3, independently of the prior table and leaves the other words alone. -/
theorem written_words_determined {E : Words → Words} {P : List Nat} {N : Nat}
    (hP : ∀ j, j / 2 ∈ P ↔ (j < N ∧ j ≠ 2 ∧ j ≠ 3))
    (hA : ∀ T1 T2, AgreeOn P (E T1) (E T2))
    (hF : ∀ T j, j / 2 ∉ P → (E T).word j = T.word j) (T1 T2 : Words) :
    (∀ j, j < N → j ≠ 2 → j ≠ 3 → (E T1).word j = (E T2).word j)
      ∧ (∀ j, (j = 2 ∨ j = 3 ∨ N ≤ j) → (E T1).word j = T1.word j)
      ∧ ((∀ j, (E T1).word j = (E T2).word j)
        ↔ ∀ j, (j = 2 ∨ j = 3 ∨ N ≤ j) → T1.word j = T2.word j) := by
  have hn : ∀ j, (j = 2 ∨ j = 3 ∨ N ≤ j) → j / 2 ∉ P := fun j hj hm => by
    have := (hP j).1 hm
    omega
  refine ⟨fun j h1 h2 h3 => (hA T1 T2).word ((hP j).2 ⟨h1, h2, h3⟩),
    fun j hj => hF T1 j (hn j hj), ?_, ?_⟩
  · intro h j hj
    rw [← hF T1 j (hn j hj), ← hF T2 j (hn j hj)]
    exact h j
  · intro h j
    by_cases hm : j / 2 ∈ P
    · exact (hA T1 T2).word hm
    · rw [hF T1 j hm, hF T2 j hm]
      refine h j ?_
      by_contra hc
      exact hm ((hP j).2 ⟨by omega, by omega, by omega⟩)

theorem pairs128_words (j : Nat) :
    j / 2 ∈ [24, 23, 22, 21, 20, 19, 18, 17, 16, 15, 14, 13, 12, 11, 10, 9,
      8, 7, 6, 5, 4, 3, 2, 0] ↔ (j < 50 ∧ j ≠ 2 ∧ j ≠ 3) := by
  rw [mem_pairs128]
  omega

theorem pairs256_words (j : Nat) :
    j / 2 ∈ [32, 31, 30, 29, 28, 27, 26, 25, 24, 23, 22, 21, 20, 19, 18, 17,
      16, 15, 14, 13, 12, 11, 10, 9, 8, 7, 6, 5, 4, 3, 2, 0] ↔ (j < 66 ∧ j ≠ 2 ∧ j ≠ 3) := by
  rw [mem_pairs256]
  omega

/-- Claim C11, as stated, fails: scheduling the same 128-bit key into a zeroed table and
into a table that held 1 in word 2 leaves two tables that differ in word 2 (pair 1 is
never written). -/
theorem C11_counterexample :
    ¬ (∀ j, (Camellia_Ekeygen ByteOrder.little 128 kat_key128 zeroTable).word j
        = (Camellia_Ekeygen ByteOrder.little 128 kat_key128 (store zeroTable 2 1)).word j) := by
  intro h
  have h2 := h 2
  rw [Camellia_Ekeygen_128, Camellia_Ekeygen_128,
    camellia_setup128_frame kat_key128 zeroTable 2 (by decide),
    camellia_setup128_frame kat_key128 (store zeroTable 2 1) 2 (by decide)] at h2
  exact absurd h2 (by decide)

/-- Claim C11 (amended). Schedule determinism: for every supported key size and key,
every word that `Camellia_Ekeygen` writes (word indices 0, 1 and 4..49 for a 128-bit
key, 0, 1 and 4..65 for a 192- or 256-bit key) is determined by the key bytes alone:
two schedulings of the same key agree on those words whatever the two key-table
buffers held before.  Words 2 and 3 (subkey pair 1) and the words from index 50
(respectively 66) on are never written and keep what the buffer held, so the two arrays
are word-for-word identical exactly when the two buffers agreed on those words. -/
theorem C11_written_words_determined (o : ByteOrder) (bits : Int)
    (hbits : bits = 128 ∨ bits = 192 ∨ bits = 256) (key : List Nat) (T1 T2 : Words) :
    (∀ j, j < (if bits = 128 then 50 else 66) → j ≠ 2 → j ≠ 3 →
        (Camellia_Ekeygen o bits key T1).word j = (Camellia_Ekeygen o bits key T2).word j)
      ∧ (∀ j, (j = 2 ∨ j = 3 ∨ (if bits = 128 then 50 else 66) ≤ j) →
        (Camellia_Ekeygen o bits key T1).word j = T1.word j)
      ∧ ((∀ j, (Camellia_Ekeygen o bits key T1).word j
            = (Camellia_Ekeygen o bits key T2).word j)
        ↔ ∀ j, (j = 2 ∨ j = 3 ∨ (if bits = 128 then 50 else 66) ≤ j) →
            T1.word j = T2.word j) := by
  rcases hbits with h | h
  · subst h
    simp only [Camellia_Ekeygen_128, if_true]
    exact written_words_determined pairs128_words (camellia_setup128_AgreeOn key)
      (camellia_setup128_frame key) T1 T2
  · obtain ⟨kk, hkk⟩ := Camellia_Ekeygen_256_class o bits h key
    have h128 : bits ≠ 128 := by omega
    simp only [hkk, if_neg h128]
    exact written_words_determined pairs256_words (camellia_setup256_AgreeOn kk)
      (camellia_setup256_frame kk) T1 T2

theorem C11_written_words_determined_witness :
    ((128 : Int) = 128 ∨ (128 : Int) = 192 ∨ (128 : Int) = 256) ∧
    ((∀ j, j < (if (128 : Int) = 128 then 50 else 66) → j ≠ 2 → j ≠ 3 →
        (Camellia_Ekeygen ByteOrder.little 128 kat_key128 zeroTable).word j
          = (Camellia_Ekeygen ByteOrder.little 128 kat_key128 (store zeroTable 2 1)).word j)
      ∧ (∀ j, (j = 2 ∨ j = 3 ∨ (if (128 : Int) = 128 then 50 else 66) ≤ j) →
        (Camellia_Ekeygen ByteOrder.little 128 kat_key128 zeroTable).word j
          = zeroTable.word j)
      ∧ ((∀ j, (Camellia_Ekeygen ByteOrder.little 128 kat_key128 zeroTable).word j
            = (Camellia_Ekeygen ByteOrder.little 128 kat_key128 (store zeroTable 2 1)).word j)
        ↔ ∀ j, (j = 2 ∨ j = 3 ∨ (if (128 : Int) = 128 then 50 else 66) ≤ j) →
            zeroTable.word j = (store zeroTable 2 1).word j)) :=
  ⟨Or.inl rfl, C11_written_words_determined ByteOrder.little 128 (Or.inl rfl) kat_key128
    zeroTable (store zeroTable 2 1)⟩

/-- Claim C12. Encryption determinism: for every supported key size, key and block, and
any two key-table buffers with arbitrary prior contents, `Camellia_EncryptBlock` gives
the same output with the table scheduled into either buffer, and so does
`Camellia_DecryptBlock`: the block transforms read only subkey pairs that the schedule
for that key size has written (two tables that agree on those pairs give the same
transform). -/
theorem C12_encryption_determinism (o : ByteOrder) (bits : Int)
    (hbits : bits = 128 ∨ bits = 192 ∨ bits = 256) (key p ct : List Nat) (T1 T2 : Words) :
    Camellia_EncryptBlock bits p (Camellia_Ekeygen o bits key T1) ct
        = Camellia_EncryptBlock bits p (Camellia_Ekeygen o bits key T2) ct
      ∧ Camellia_DecryptBlock bits p (Camellia_Ekeygen o bits key T1) ct
        = Camellia_DecryptBlock bits p (Camellia_Ekeygen o bits key T2) ct := by
  rcases hbits with h | h
  · subst h
    simp only [Camellia_EncryptBlock, Camellia_DecryptBlock, Camellia_Ekeygen_128, if_true]
    rw [camellia_encrypt128_congr (camellia_setup128_AgreeOn key T1 T2),
      camellia_decrypt128_congr (camellia_setup128_AgreeOn key T1 T2)]
    exact ⟨rfl, rfl⟩
  · obtain ⟨kk, hkk⟩ := Camellia_Ekeygen_256_class o bits h key
    have h128 : bits ≠ 128 := by omega
    simp only [Camellia_EncryptBlock, Camellia_DecryptBlock, hkk, if_neg h128, if_pos h]
    rw [camellia_encrypt256_congr (camellia_setup256_AgreeOn kk T1 T2),
      camellia_decrypt256_congr (camellia_setup256_AgreeOn kk T1 T2)]
    exact ⟨rfl, rfl⟩

theorem C12_encryption_determinism_witness :
    ((192 : Int) = 128 ∨ (192 : Int) = 192 ∨ (192 : Int) = 256) ∧
    (Camellia_EncryptBlock 192 kat_plaintext
          (Camellia_Ekeygen ByteOrder.big 192 kat_key192 zeroTable) zeroBlock
        = Camellia_EncryptBlock 192 kat_plaintext
          (Camellia_Ekeygen ByteOrder.big 192 kat_key192 (store zeroTable 2 1)) zeroBlock
      ∧ Camellia_DecryptBlock 192 kat_plaintext
          (Camellia_Ekeygen ByteOrder.big 192 kat_key192 zeroTable) zeroBlock
        = Camellia_DecryptBlock 192 kat_plaintext
          (Camellia_Ekeygen ByteOrder.big 192 kat_key192 (store zeroTable 2 1)) zeroBlock) :=
  ⟨Or.inr (Or.inl rfl), C12_encryption_determinism ByteOrder.big 192 (Or.inr (Or.inl rfl))
    kat_key192 kat_plaintext zeroBlock zeroTable (store zeroTable 2 1)⟩

set_option maxRecDepth 100000 in
/-- Claim C14, as stated, fails: scheduling a 128-bit key into a zeroed table changes
word 48, which is not below 26. -/
theorem C14_counterexample :
    ¬ (∀ j, 26 ≤ j → (Camellia_Ekeygen ByteOrder.little 128 kat_key128 zeroTable).word j
        = zeroTable.word j) := by
  intro h
  have h48 := h 48 (by decide)
  rw [Camellia_Ekeygen_128] at h48
  exact absurd h48 (by decide)

/-- Claim C14 (amended). Subkey array length: the subkey array that the schedule fills
has 50 32-bit words (pair slots 0..24) for a 128-bit key and 66 words (pair slots 0..32)
for a 192- or 256-bit key: `Camellia_Ekeygen` changes, and the block transforms read,
only word indices below 50 (128-bit) respectively below 66 (192/256-bit). -/
theorem C14_subkey_array_extent (o : ByteOrder) (key : List Nat) (T : Words) :
    (∀ j, 50 ≤ j → (Camellia_Ekeygen o 128 key T).word j = T.word j)
      ∧ (∀ bits : Int, bits = 192 ∨ bits = 256 → ∀ j, 66 ≤ j →
          (Camellia_Ekeygen o bits key T).word j = T.word j)
      ∧ (∀ S S' : Words, (∀ j, j < 50 → S.word j = S'.word j) → ∀ io : Quad,
          camellia_encrypt128 S io = camellia_encrypt128 S' io
            ∧ camellia_decrypt128 S io = camellia_decrypt128 S' io)
      ∧ (∀ S S' : Words, (∀ j, j < 66 → S.word j = S'.word j) → ∀ io : Quad,
          camellia_encrypt256 S io = camellia_encrypt256 S' io
            ∧ camellia_decrypt256 S io = camellia_decrypt256 S' io) := by
  refine ⟨fun j hj => ?_, fun bits hb j hj => ?_, fun S S' h io => ?_, fun S S' h io => ?_⟩
  · rw [Camellia_Ekeygen_128]
    exact camellia_setup128_frame key T j (fun hm => by
      have := (pairs128_words j).1 hm
      omega)
  · obtain ⟨kk, hkk⟩ := Camellia_Ekeygen_256_class o bits hb key
    rw [hkk]
    exact camellia_setup256_frame kk T j (fun hm => by
      have := (pairs256_words j).1 hm
      omega)
  · have hA : AgreeOn [24, 23, 22, 21, 20, 19, 18, 17, 16, 15, 14, 13, 12, 11, 10, 9,
        8, 7, 6, 5, 4, 3, 2, 0] S S' :=
      AgreeOn.of_words (fun j hm => h j ((pairs128_words j).1 hm).1)
    exact ⟨camellia_encrypt128_congr hA io, camellia_decrypt128_congr hA io⟩
  · have hA : AgreeOn [32, 31, 30, 29, 28, 27, 26, 25, 24, 23, 22, 21, 20, 19, 18, 17,
        16, 15, 14, 13, 12, 11, 10, 9, 8, 7, 6, 5, 4, 3, 2, 0] S S' :=
      AgreeOn.of_words (fun j hm => h j ((pairs256_words j).1 hm).1)
    exact ⟨camellia_encrypt256_congr hA io, camellia_decrypt256_congr hA io⟩

theorem C14_subkey_array_extent_witness :
    (Camellia_Ekeygen ByteOrder.little 128 kat_key128 zeroTable).word 50 = zeroTable.word 50
      ∧ (Camellia_Ekeygen ByteOrder.little 256 kat_key256 zeroTable).word 66
        = zeroTable.word 66
      ∧ camellia_encrypt128 zeroTable (loadBlock zeroBlock)
        = camellia_encrypt128 (store zeroTable 50 1) (loadBlock zeroBlock) :=
  ⟨(C14_subkey_array_extent ByteOrder.little kat_key128 zeroTable).1 50 (by decide),
    (C14_subkey_array_extent ByteOrder.little kat_key256 zeroTable).2.1 256 (Or.inr rfl) 66
      (by decide),
    ((C14_subkey_array_extent ByteOrder.little kat_key128 zeroTable).2.2.1 zeroTable
      (store zeroTable 50 1) (fun j hj => by
        show (0 : Nat) = if j = 50 then 1 else 0
        rw [if_neg (by omega)]) (loadBlock zeroBlock)).1⟩

/-! ## Decryption is encryption with the subkey pairs reversed (claim C15) -/

theorem whiten01_pair {S S' : Words} {i i' : Nat} (h : pairAt S' i' = pairAt S i) (io : Quad) :
    whiten01 S' i' io = whiten01 S i io := by
  have h1 : CamelliaSubkeyL S' i' = CamelliaSubkeyL S i := congrArg Prod.fst h
  have h2 : CamelliaSubkeyR S' i' = CamelliaSubkeyR S i := congrArg Prod.snd h
  simp only [whiten01, h1, h2]

theorem whiten23_pair {S S' : Words} {i i' : Nat} (h : pairAt S' i' = pairAt S i) (io : Quad) :
    whiten23 S' i' io = whiten23 S i io := by
  have h1 : CamelliaSubkeyL S' i' = CamelliaSubkeyL S i := congrArg Prod.fst h
  have h2 : CamelliaSubkeyR S' i' = CamelliaSubkeyR S i := congrArg Prod.snd h
  simp only [whiten23, h1, h2]

theorem round01_pair {S S' : Words} {i i' : Nat} (h : pairAt S' i' = pairAt S i) (io : Quad) :
    round01 S' i' io = round01 S i io := by
  have h1 : CamelliaSubkeyL S' i' = CamelliaSubkeyL S i := congrArg Prod.fst h
  have h2 : CamelliaSubkeyR S' i' = CamelliaSubkeyR S i := congrArg Prod.snd h
  simp only [round01, h1, h2]

theorem round23_pair {S S' : Words} {i i' : Nat} (h : pairAt S' i' = pairAt S i) (io : Quad) :
    round23 S' i' io = round23 S i io := by
  have h1 : CamelliaSubkeyL S' i' = CamelliaSubkeyL S i := congrArg Prod.fst h
  have h2 : CamelliaSubkeyR S' i' = CamelliaSubkeyR S i := congrArg Prod.snd h
  simp only [round23, h1, h2]

theorem fls_pair {S S' : Words} {i i' j j' : Nat} (hi : pairAt S' i' = pairAt S i)
    (hj : pairAt S' j' = pairAt S j) (io : Quad) : fls S' i' j' io = fls S i j io := by
  have h1 : CamelliaSubkeyL S' i' = CamelliaSubkeyL S i := congrArg Prod.fst hi
  have h2 : CamelliaSubkeyR S' i' = CamelliaSubkeyR S i := congrArg Prod.snd hi
  have h3 : CamelliaSubkeyL S' j' = CamelliaSubkeyL S j := congrArg Prod.fst hj
  have h4 : CamelliaSubkeyR S' j' = CamelliaSubkeyR S j := congrArg Prod.snd hj
  simp only [fls, h1, h2, h3, h4]

/-- `camellia_decrypt128` is `camellia_encrypt128` with a table whose pairs are those of
`S` in reverse order. -/
theorem camellia_decrypt128_eq_encrypt {S S' : Words} (h0 : pairAt S' 0 = pairAt S 24)
    (hl : pairAt S' 24 = pairAt S 0)
    (h : ∀ i, 2 ≤ i → i ≤ 23 → pairAt S' i = pairAt S (25 - i)) (b : Quad) :
    camellia_decrypt128 S b = camellia_encrypt128 S' b := by
  simp only [camellia_decrypt128, camellia_encrypt128, whiten01_pair h0, whiten23_pair hl,
    round01_pair (h 2 (by decide) (by decide)), round23_pair (h 3 (by decide) (by decide)),
    round01_pair (h 4 (by decide) (by decide)), round23_pair (h 5 (by decide) (by decide)),
    round01_pair (h 6 (by decide) (by decide)), round23_pair (h 7 (by decide) (by decide)),
    fls_pair (h 8 (by decide) (by decide)) (h 9 (by decide) (by decide)),
    round01_pair (h 10 (by decide) (by decide)), round23_pair (h 11 (by decide) (by decide)),
    round01_pair (h 12 (by decide) (by decide)), round23_pair (h 13 (by decide) (by decide)),
    round01_pair (h 14 (by decide) (by decide)), round23_pair (h 15 (by decide) (by decide)),
    fls_pair (h 16 (by decide) (by decide)) (h 17 (by decide) (by decide)),
    round01_pair (h 18 (by decide) (by decide)), round23_pair (h 19 (by decide) (by decide)),
    round01_pair (h 20 (by decide) (by decide)), round23_pair (h 21 (by decide) (by decide)),
    round01_pair (h 22 (by decide) (by decide)), round23_pair (h 23 (by decide) (by decide))]

theorem pairAt_reversedPairs128 (S : Words) :
    pairAt (reversedPairs128 S) 0 = pairAt S 24
      ∧ pairAt (reversedPairs128 S) 24 = pairAt S 0
      ∧ ∀ i, 2 ≤ i → i ≤ 23 → pairAt (reversedPairs128 S) i = pairAt S (25 - i) := by
  refine ⟨rfl, rfl, fun i h1 h2 => ?_⟩
  have e1 : i * 2 / 2 = i := by omega
  have e2 : (i * 2 + 1) / 2 = i := by omega
  have e3 : i * 2 % 2 = 0 := by omega
  have e4 : (i * 2 + 1) % 2 = 1 := by omega
  have n0 : ¬ i = 0 := by omega
  have nl : ¬ i = 24 := by omega
  simp only [pairAt, CamelliaSubkeyL, CamelliaSubkeyR, reversedPairs128, e1, e2, e3, e4, n0, nl,
    h1, h2, and_self, if_true, if_false, Nat.add_zero]

/-- `camellia_decrypt256` is `camellia_encrypt256` with a table whose pairs are those of
`S` in reverse order. -/
theorem camellia_decrypt256_eq_encrypt {S S' : Words} (h0 : pairAt S' 0 = pairAt S 32)
    (hl : pairAt S' 32 = pairAt S 0)
    (h : ∀ i, 2 ≤ i → i ≤ 31 → pairAt S' i = pairAt S (33 - i)) (b : Quad) :
    camellia_decrypt256 S b = camellia_encrypt256 S' b := by
  simp only [camellia_decrypt256, camellia_encrypt256, whiten01_pair h0, whiten23_pair hl,
    round01_pair (h 2 (by decide) (by decide)), round23_pair (h 3 (by decide) (by decide)),
    round01_pair (h 4 (by decide) (by decide)), round23_pair (h 5 (by decide) (by decide)),
    round01_pair (h 6 (by decide) (by decide)), round23_pair (h 7 (by decide) (by decide)),
    fls_pair (h 8 (by decide) (by decide)) (h 9 (by decide) (by decide)),
    round01_pair (h 10 (by decide) (by decide)), round23_pair (h 11 (by decide) (by decide)),
    round01_pair (h 12 (by decide) (by decide)), round23_pair (h 13 (by decide) (by decide)),
    round01_pair (h 14 (by decide) (by decide)), round23_pair (h 15 (by decide) (by decide)),
    fls_pair (h 16 (by decide) (by decide)) (h 17 (by decide) (by decide)),
    round01_pair (h 18 (by decide) (by decide)), round23_pair (h 19 (by decide) (by decide)),
    round01_pair (h 20 (by decide) (by decide)), round23_pair (h 21 (by decide) (by decide)),
    round01_pair (h 22 (by decide) (by decide)), round23_pair (h 23 (by decide) (by decide)),
    fls_pair (h 24 (by decide) (by decide)) (h 25 (by decide) (by decide)),
    round01_pair (h 26 (by decide) (by decide)), round23_pair (h 27 (by decide) (by decide)),
    round01_pair (h 28 (by decide) (by decide)), round23_pair (h 29 (by decide) (by decide)),
    round01_pair (h 30 (by decide) (by decide)), round23_pair (h 31 (by decide) (by decide))]

theorem pairAt_reversedPairs256 (S : Words) :
    pairAt (reversedPairs256 S) 0 = pairAt S 32
      ∧ pairAt (reversedPairs256 S) 32 = pairAt S 0
      ∧ ∀ i, 2 ≤ i → i ≤ 31 → pairAt (reversedPairs256 S) i = pairAt S (33 - i) := by
  refine ⟨rfl, rfl, fun i h1 h2 => ?_⟩
  have e1 : i * 2 / 2 = i := by omega
  have e2 : (i * 2 + 1) / 2 = i := by omega
  have e3 : i * 2 % 2 = 0 := by omega
  have e4 : (i * 2 + 1) % 2 = 1 := by omega
  have n0 : ¬ i = 0 := by omega
  have nl : ¬ i = 32 := by omega
  simp only [pairAt, CamelliaSubkeyL, CamelliaSubkeyR, reversedPairs256, e1, e2, e3, e4, n0, nl,
    h1, h2, and_self, if_true, if_false, Nat.add_zero]

/-- Claim C15. Decryption is encryption with the subkey pairs reversed: for every table
`S` and block `b`, `camellia_decrypt128 S b` is `camellia_encrypt128 S' b` for every
table `S'` whose pair 0 is pair 24 of `S`, whose pair 24 is pair 0 of `S` and whose pair
`i` is pair `25 - i` of `S` for `2 ≤ i ≤ 23`; and `camellia_decrypt256 S b` is
`camellia_encrypt256 S'' b` for every `S''` whose pair 0 is pair 32 of `S`, whose pair 32
is pair 0 of `S` and whose pair `i` is pair `33 - i` of `S` for `2 ≤ i ≤ 31`. -/
theorem C15_decrypt_is_encrypt_reversed (S : Words) (b : Quad) :
    (∀ S' : Words, pairAt S' 0 = pairAt S 24 → pairAt S' 24 = pairAt S 0 →
        (∀ i, 2 ≤ i → i ≤ 23 → pairAt S' i = pairAt S (25 - i)) →
        camellia_decrypt128 S b = camellia_encrypt128 S' b)
      ∧ (∀ S'' : Words, pairAt S'' 0 = pairAt S 32 → pairAt S'' 32 = pairAt S 0 →
        (∀ i, 2 ≤ i → i ≤ 31 → pairAt S'' i = pairAt S (33 - i)) →
        camellia_decrypt256 S b = camellia_encrypt256 S'' b) :=
  ⟨fun _ h0 hl h => camellia_decrypt128_eq_encrypt h0 hl h b,
    fun _ h0 hl h => camellia_decrypt256_eq_encrypt h0 hl h b⟩

theorem C15_decrypt_is_encrypt_reversed_witness :
    camellia_decrypt128 (camellia_setup128 kat_key128 zeroTable) (loadBlock kat_plaintext)
        = camellia_encrypt128 (reversedPairs128 (camellia_setup128 kat_key128 zeroTable))
          (loadBlock kat_plaintext)
      ∧ camellia_decrypt256 (camellia_setup256 kat_key256 zeroTable) (loadBlock kat_plaintext)
        = camellia_encrypt256 (reversedPairs256 (camellia_setup256 kat_key256 zeroTable))
          (loadBlock kat_plaintext) :=
  ⟨(C15_decrypt_is_encrypt_reversed (camellia_setup128 kat_key128 zeroTable)
      (loadBlock kat_plaintext)).1 _ (pairAt_reversedPairs128 _).1 (pairAt_reversedPairs128 _).2.1
      (pairAt_reversedPairs128 _).2.2,
    (C15_decrypt_is_encrypt_reversed (camellia_setup256 kat_key256 zeroTable)
      (loadBlock kat_plaintext)).2 _ (pairAt_reversedPairs256 _).1 (pairAt_reversedPairs256 _).2.1
      (pairAt_reversedPairs256 _).2.2⟩

/-! ## Key-size isolation (claim C13) -/

/-- A 128-bit number that a rotation by 17 bits leaves unchanged has all bits equal. -/
theorem rot17_invariant {Y : Nat} (hY : Y < 2 ^ 128) (h : Ref.rotl128 Y 17 = Y) :
    Y = 0 ∨ Y = 2 ^ 128 - 1 := by
  have hb : ∀ j, j < 128 → Y.testBit j = Y.testBit ((j + 111) % 128) := by
    intro j hj
    have t := testBit_rotl128 hY (show 17 ≤ 128 by norm_num) j
    rw [h] at t
    rw [t]
    simp [hj]
  have hall : ∀ n j, j < 128 → Y.testBit j = Y.testBit ((j + n * 111) % 128) := by
    intro n
    induction n with
    | zero =>
      intro j hj
      have e : (j + 0 * 111) % 128 = j := by omega
      rw [e]
    | succ n ih =>
      intro j hj
      have e : (j + (n + 1) * 111) % 128 = ((j + n * 111) % 128 + 111) % 128 := by omega
      rw [e, ← hb _ (Nat.mod_lt _ (by norm_num))]
      exact ih j hj
  have h0 : ∀ j, j < 128 → Y.testBit j = Y.testBit 0 := by
    intro j hj
    have e : (0 + 15 * j * 111) % 128 = j := by omega
    have t := hall (15 * j) 0 (by norm_num)
    rw [e] at t
    exact t.symm
  have hhi : ∀ j, 128 ≤ j → Y.testBit j = false := fun j hj =>
    Nat.testBit_lt_two_pow (Nat.lt_of_lt_of_le hY (Nat.pow_le_pow_right (by norm_num) hj))
  cases hb0 : Y.testBit 0 with
  | false =>
    left
    apply Nat.eq_of_testBit_eq
    intro j
    rw [Nat.zero_testBit]
    by_cases hj : j < 128
    · rw [h0 j hj, hb0]
    · exact hhi j (by omega)
  | true =>
    right
    apply Nat.eq_of_testBit_eq
    intro j
    rw [Nat.testBit_two_pow_sub_one]
    by_cases hj : j < 128
    · rw [h0 j hj, hb0]
      simp [hj]
    · rw [hhi j (by omega)]
      simp [hj]

/-- A 128-bit number is its two 64-bit halves. -/
theorem eq_of_halves {X Y : Nat} (h1 : X >>> 64 = Y >>> 64)
    (h2 : X &&& Ref.MASK64 = Y &&& Ref.MASK64) : X = Y := by
  rw [and_MASK64, and_MASK64] at h2
  rw [Nat.shiftRight_eq_div_pow, Nat.shiftRight_eq_div_pow] at h1
  omega

/-- Pairs 16 and 17 of the table of `camellia_setup128` hold KL rotated left by 77
bits. -/
theorem camellia_setup128_pairs_16_17 (key : List Nat) (T : Words) :
    Ref.rotl128 (pack128 (loadQuad key 0)) 77 >>> 64
        = pack64 (pairAt (camellia_setup128 key T) 16)
      ∧ Ref.rotl128 (pack128 (loadQuad key 0)) 77 &&& Ref.MASK64
        = pack64 (pairAt (camellia_setup128 key T) 17) := by
  have hk := loadQuad_W32 key 0
  have h1 := setup128_KL_W32 hk Scratch.init_W32
  have hka := setup128_KA_W32 (setup128_KL (loadQuad key 0) Scratch.init)
  have hs := setup128_KAsub_W32 hka h1
  unfold camellia_setup128
  simp only []
  rw [setup128_table _ hs T 16 (by decide), setup128_table _ hs T 17 (by decide)]
  exact ⟨setup128_pairs hk hka Scratch.init 16 (by decide),
    setup128_pairs hk hka Scratch.init 17 (by decide)⟩

/-- Pairs 16 and 17 of the table of `camellia_setup256` hold KL rotated left by 60
bits. -/
theorem camellia_setup256_pairs_16_17 (key : List Nat) (T : Words) :
    Ref.rotl128 (pack128 (loadQuad key 0)) 60 >>> 64
        = pack64 (pairAt (camellia_setup256 key T) 16)
      ∧ Ref.rotl128 (pack128 (loadQuad key 0)) 60 &&& Ref.MASK64
        = pack64 (pairAt (camellia_setup256 key T) 17) := by
  have hk := loadQuad_W32 key 0
  have hkr := loadQuad_W32 key 16
  have h1 := setup256_KL_W32 hk Scratch.init_W32
  have h2 := setup256_KR_W32 (loadQuad key 16) h1
  have e2 := setup256_KR_snd hkr (setup256_KL (loadQuad key 0) Scratch.init)
  have hka := setup256_KA_W32 (setup256_KR (loadQuad key 16)
    (setup256_KL (loadQuad key 0) Scratch.init)).1 hkr
  have hkb := setup256_KB_W32 hka hkr
  have hs := setup256_KBsub_W32 hkb (setup256_KAsub_W32 (setup256_KA (setup256_KR
    (loadQuad key 16) (setup256_KL (loadQuad key 0) Scratch.init)).1 (loadQuad key 16)) h2.1)
  unfold camellia_setup256
  simp only [e2]
  rw [setup256_table _ hs T 16 (by decide), setup256_table _ hs T 17 (by decide)]
  exact ⟨setup256_pairs hk hkr hka hkb Scratch.init 16 (by decide),
    setup256_pairs hk hkr hka hkb Scratch.init 17 (by decide)⟩

/-- `camellia_setup128` reads the key through the four words loaded from it. -/
theorem camellia_setup128_of_loadQuad {key key' : List Nat}
    (h : loadQuad key 0 = loadQuad key' 0) (T : Words) :
    camellia_setup128 key T = camellia_setup128 key' T := by
  unfold camellia_setup128
  rw [h]

/-- `camellia_setup256` reads the key through the eight words loaded from it. -/
theorem camellia_setup256_of_loadQuad {key key' : List Nat}
    (h : loadQuad key 0 = loadQuad key' 0) (h' : loadQuad key 16 = loadQuad key' 16)
    (T : Words) : camellia_setup256 key T = camellia_setup256 key' T := by
  unfold camellia_setup256
  rw [h, h']

/-- The words loaded from a 16-byte key followed by sixteen zero bytes. -/
theorem loadQuad_append_zeros (key : List Nat) (h : key.length = 16) :
    loadQuad (key ++ List.replicate 16 0) 0 = loadQuad key 0
      ∧ loadQuad (key ++ List.replicate 16 0) 16 = loadQuad (List.replicate 32 0) 16 := by
  match key, h with
  | [_, _, _, _, _, _, _, _, _, _, _, _, _, _, _, _], _ => exact ⟨rfl, rfl⟩

set_option maxRecDepth 100000 in
/-- For the all-zero and the all-one 128-bit key, word 16 of the two tables differs. -/
theorem isolation_special_keys :
    (camellia_setup128 (List.replicate 16 0) zeroTable).word 16
        ≠ (camellia_setup256 (List.replicate 16 0 ++ List.replicate 16 0) zeroTable).word 16
      ∧ (camellia_setup128 (List.replicate 16 255) zeroTable).word 16
        ≠ (camellia_setup256 (List.replicate 16 255 ++ List.replicate 16 0) zeroTable).word 16
      ∧ pack128 (loadQuad (List.replicate 16 0) 0) = 0
      ∧ pack128 (loadQuad (List.replicate 16 255) 0) = 2 ^ 128 - 1 := by
  decide

/-- Claim C13. Key-size isolation: for every 16-byte key `k`, the subkey array that
`Camellia_Ekeygen(128, k)` leaves differs from the one that
`Camellia_Ekeygen(256, k || sixteen zero bytes)` leaves, in a word that both schedules
write (so whatever the two buffers held before, in particular when both started from the
same contents). -/
theorem C13_key_size_isolation (o : ByteOrder) (key : List Nat) (hkey : IsBytes 16 key)
    (T1 T2 : Words) :
    ∃ j, j < 50 ∧ j ≠ 2 ∧ j ≠ 3 ∧
      (Camellia_Ekeygen o 128 key T1).word j
        ≠ (Camellia_Ekeygen o 256 (key ++ List.replicate 16 0) T2).word j := by
  rw [Camellia_Ekeygen_128, Camellia_Ekeygen_256]
  obtain ⟨z0, z16⟩ := loadQuad_append_zeros key hkey.1
  have hk := loadQuad_W32 key 0
  have hX := pack128_lt hk
  by_cases hrot : Ref.rotl128 (pack128 (loadQuad key 0)) 77
      = Ref.rotl128 (pack128 (loadQuad key 0)) 60
  · -- the key is all zeros or all ones as a number
    have h17 : Ref.rotl128 (Ref.rotl128 (pack128 (loadQuad key 0)) 60) 17
        = Ref.rotl128 (pack128 (loadQuad key 0)) 60 := by
      rw [rotl128_add hX (by norm_num)]
      exact hrot
    have hback : Ref.rotl128 (Ref.rotl128 (pack128 (loadQuad key 0)) 60) 68
        = pack128 (loadQuad key 0) := by
      rw [rotl128_add hX (by norm_num)]
      exact rotl128_full hX
    obtain ⟨s0, s1, p0, p1⟩ := isolation_special_keys
    have hw : ∀ key0 : List Nat, loadQuad key 0 = loadQuad key0 0 →
        (camellia_setup128 key0 zeroTable).word 16
          ≠ (camellia_setup256 (key0 ++ List.replicate 16 0) zeroTable).word 16 →
        key0.length = 16 →
        (camellia_setup128 key T1).word 16
          ≠ (camellia_setup256 (key ++ List.replicate 16 0) T2).word 16 := by
      intro key0 he hne hlen
      obtain ⟨y0, y16⟩ := loadQuad_append_zeros key0 hlen
      rw [camellia_setup128_of_loadQuad he T1,
        @camellia_setup256_of_loadQuad (key ++ List.replicate 16 0) (key0 ++ List.replicate 16 0)
          (by rw [z0, y0, he]) (by rw [z16, y16]) T2,
        (camellia_setup128_AgreeOn key0 T1 zeroTable).word (j := 16) (by decide),
        (camellia_setup256_AgreeOn (key0 ++ List.replicate 16 0) T2 zeroTable).word (j := 16)
          (by decide)]
      exact hne
    refine ⟨16, by norm_num, by norm_num, by norm_num, ?_⟩
    rcases rot17_invariant (rotl128_lt _ _) h17 with hY | hY
    · rw [hY] at hback
      have hz : pack128 (loadQuad key 0) = 0 := by
        rw [← hback]
        decide
      exact hw (List.replicate 16 0) (pack128_inj hk (loadQuad_W32 _ 0) (hz.trans p0.symm)) s0 rfl
    · rw [hY] at hback
      have hz : pack128 (loadQuad key 0) = 2 ^ 128 - 1 := by
        rw [← hback]
        decide
      exact hw (List.replicate 16 255) (pack128_inj hk (loadQuad_W32 _ 0) (hz.trans p1.symm))
        s1 rfl
  · -- pairs 16 and 17 hold different rotations of the key
    obtain ⟨a16, a17⟩ := camellia_setup128_pairs_16_17 key T1
    obtain ⟨b16, b17⟩ := camellia_setup256_pairs_16_17 (key ++ List.replicate 16 0) T2
    rw [z0] at b16 b17
    by_contra hall
    have hall' : ∀ j, j < 50 → j ≠ 2 → j ≠ 3 →
        (camellia_setup128 key T1).word j
          = (camellia_setup256 (key ++ List.replicate 16 0) T2).word j := by
      intro j h1 h2 h3
      by_contra hne
      exact hall ⟨j, h1, h2, h3, hne⟩
    have w32 := hall' 32 (by norm_num) (by norm_num) (by norm_num)
    have w33 := hall' 33 (by norm_num) (by norm_num) (by norm_num)
    have w34 := hall' 34 (by norm_num) (by norm_num) (by norm_num)
    have w35 := hall' 35 (by norm_num) (by norm_num) (by norm_num)
    have e16 : pairAt (camellia_setup128 key T1) 16
        = pairAt (camellia_setup256 (key ++ List.replicate 16 0) T2) 16 := by
      simp only [pairAt, CamelliaSubkeyL, CamelliaSubkeyR, Nat.reduceMul, Nat.reduceAdd, w32, w33]
    have e17 : pairAt (camellia_setup128 key T1) 17
        = pairAt (camellia_setup256 (key ++ List.replicate 16 0) T2) 17 := by
      simp only [pairAt, CamelliaSubkeyL, CamelliaSubkeyR, Nat.reduceMul, Nat.reduceAdd, w34, w35]
    exact hrot (eq_of_halves (by rw [a16, b16, e16]) (by rw [a17, b17, e17]))

set_option maxRecDepth 100000 in
theorem C13_key_size_isolation_witness :
    IsBytes 16 kat_key128 ∧
      ∃ j, j < 50 ∧ j ≠ 2 ∧ j ≠ 3 ∧
        (Camellia_Ekeygen ByteOrder.little 128 kat_key128 zeroTable).word j
          ≠ (Camellia_Ekeygen ByteOrder.little 256 (kat_key128 ++ List.replicate 16 0)
              zeroTable).word j :=
  ⟨by decide, C13_key_size_isolation ByteOrder.little kat_key128 (by decide) zeroTable zeroTable⟩

/-! ## The substitution tables (claims C16, C17) -/

/-- Soundness of the linear distinctness check. -/
theorem distinctFrom_sound (l : List Nat) : ∀ acc, distinctFrom l acc = true →
    l.Nodup ∧ ∀ x ∈ l, acc.testBit x = false := by
  induction l with
  | nil => intro acc _; exact ⟨List.nodup_nil, fun _ h => absurd h (List.not_mem_nil _)⟩
  | cons x xs ih =>
    intro acc h
    simp only [distinctFrom, Bool.and_eq_true, Bool.not_eq_true'] at h
    obtain ⟨hx, hxs⟩ := h
    obtain ⟨hnd, hacc⟩ := ih _ hxs
    have hsplit : ∀ y ∈ xs, acc.testBit y = false ∧ y ≠ x := by
      intro y hy
      have t := hacc y hy
      rw [Nat.testBit_or, Bool.or_eq_false_iff] at t
      refine ⟨t.1, fun e => ?_⟩
      have t2 := t.2
      rw [e, Nat.testBit_two_pow_self] at t2
      exact Bool.noConfusion t2
    refine ⟨List.nodup_cons.mpr ⟨fun hm => (hsplit x hm).2 rfl, hnd⟩, ?_⟩
    intro y hy
    rcases List.mem_cons.mp hy with e | e
    · rw [e]; exact hx
    · exact (hsplit y e).1

/-- A table passes the four linear checks: length, layout, distinct active bytes, active
bytes below 256. -/
theorem laneTable_of_checks (T : List Nat) (mask : Nat) (h1 : T.length = 256)
    (h2 : ∀ w ∈ T, w = activeByte mask w * mask)
    (h3 : distinctFrom (T.map (activeByte mask)) 0 = true)
    (h4 : ∀ b ∈ T.map (activeByte mask), b < 256) : LaneTable T mask := by
  have hnd := (distinctFrom_sound _ 0 h3).1
  refine ⟨h1, List.Nodup.of_map _ hnd, h2, ?_⟩
  apply (List.subperm_of_subset hnd (fun b hb => List.mem_range.mpr (h4 b hb))).perm_of_length_le
  rw [List.length_range, List.length_map, h1]

set_option maxRecDepth 1000000 in
theorem laneTable_sp1110 : LaneTable camellia_sp1110 0x01010100 :=
  laneTable_of_checks _ _ (by decide) (by decide) (by decide) (by decide)

set_option maxRecDepth 1000000 in
theorem laneTable_sp0222 : LaneTable camellia_sp0222 0x00010101 :=
  laneTable_of_checks _ _ (by decide) (by decide) (by decide) (by decide)

set_option maxRecDepth 1000000 in
theorem laneTable_sp3033 : LaneTable camellia_sp3033 0x01000101 :=
  laneTable_of_checks _ _ (by decide) (by decide) (by decide) (by decide)

set_option maxRecDepth 1000000 in
theorem laneTable_sp4404 : LaneTable camellia_sp4404 0x01010001 :=
  laneTable_of_checks _ _ (by decide) (by decide) (by decide) (by decide)

set_option maxRecDepth 1000000 in
theorem laneTable_sp10011110 : LaneTable camellia_sp10011110 0x0100000101010100 :=
  laneTable_of_checks _ _ (by decide) (by decide) (by decide) (by decide)

set_option maxRecDepth 1000000 in
theorem laneTable_sp22000222 : LaneTable camellia_sp22000222 0x0101000000010101 :=
  laneTable_of_checks _ _ (by decide) (by decide) (by decide) (by decide)

set_option maxRecDepth 1000000 in
theorem laneTable_sp03303033 : LaneTable camellia_sp03303033 0x0001010001000101 :=
  laneTable_of_checks _ _ (by decide) (by decide) (by decide) (by decide)

set_option maxRecDepth 1000000 in
theorem laneTable_sp00444404 : LaneTable camellia_sp00444404 0x0000010101010001 :=
  laneTable_of_checks _ _ (by decide) (by decide) (by decide) (by decide)

set_option maxRecDepth 1000000 in
theorem laneTable_sp02220222 : LaneTable camellia_sp02220222 0x0001010100010101 :=
  laneTable_of_checks _ _ (by decide) (by decide) (by decide) (by decide)

set_option maxRecDepth 1000000 in
theorem laneTable_sp30333033 : LaneTable camellia_sp30333033 0x0100010101000101 :=
  laneTable_of_checks _ _ (by decide) (by decide) (by decide) (by decide)

set_option maxRecDepth 1000000 in
theorem laneTable_sp44044404 : LaneTable camellia_sp44044404 0x0101000101010001 :=
  laneTable_of_checks _ _ (by decide) (by decide) (by decide) (by decide)

set_option maxRecDepth 1000000 in
theorem laneTable_sp11101110 : LaneTable camellia_sp11101110 0x0101010001010100 :=
  laneTable_of_checks _ _ (by decide) (by decide) (by decide) (by decide)

/-- Claim C16. Table symmetry: in each of the twelve substitution tables (the four 32-bit
tables and the eight 64-bit tables) the 256 entries are pairwise distinct, every entry
holds one byte in each lane that the table's name marks and zero in the others, and that
byte, as a function of the index 0..255, is a permutation of 0..255. -/
theorem C16_table_symmetry :
    LaneTable camellia_sp1110 0x01010100
      ∧ LaneTable camellia_sp0222 0x00010101
      ∧ LaneTable camellia_sp3033 0x01000101
      ∧ LaneTable camellia_sp4404 0x01010001
      ∧ LaneTable camellia_sp10011110 0x0100000101010100
      ∧ LaneTable camellia_sp22000222 0x0101000000010101
      ∧ LaneTable camellia_sp03303033 0x0001010001000101
      ∧ LaneTable camellia_sp00444404 0x0000010101010001
      ∧ LaneTable camellia_sp02220222 0x0001010100010101
      ∧ LaneTable camellia_sp30333033 0x0100010101000101
      ∧ LaneTable camellia_sp44044404 0x0101000101010001
      ∧ LaneTable camellia_sp11101110 0x0101010001010100 :=
  ⟨laneTable_sp1110,
    laneTable_sp0222,
    laneTable_sp3033,
    laneTable_sp4404,
    laneTable_sp10011110,
    laneTable_sp22000222,
    laneTable_sp03303033,
    laneTable_sp00444404,
    laneTable_sp02220222,
    laneTable_sp30333033,
    laneTable_sp44044404,
    laneTable_sp11101110⟩

theorem s1_eq_sbox1 {x : Nat} (hx : x < 256) : s1 x = Ref.sbox1 x := by
  have h := (sp_tables_eq x hx).1
  have hs := (sbox_lt x hx).1
  unfold s1
  rw [h, Nat.shiftRight_eq_div_pow]
  unfold bytes4
  omega

theorem rotr8_one_eq (a : Nat) : rotr8 a 1 = Ref.rotl8 a 7 := by
  unfold rotr8 Ref.rotl8 Ref.MASK8
  rw [Nat.lor_comm]

/-- Claim C17. 32-bit table layout: with `s1 x` the top byte of `camellia_sp1110[x]`, for
every byte `x`: `camellia_sp1110[x] = s1 x * 0x01010100`,
`camellia_sp0222[x] = rotl8 (s1 x) 1 * 0x00010101`,
`camellia_sp3033[x] = rotr8 (s1 x) 1 * 0x01000101` and
`camellia_sp4404[x] = s1 (rotl8 x 1) * 0x01010001`, every substituted byte being below
256; so each entry holds one substituted byte in the lanes its table names and zero in
the remaining lane, and the four tables derive from the one S-box `s1`. -/
theorem C17_table_layout (x : Nat) (hx : x < 256) :
    CAMELLIA_SP1110 x = s1 x * 0x01010100
      ∧ CAMELLIA_SP0222 x = Ref.rotl8 (s1 x) 1 * 0x00010101
      ∧ CAMELLIA_SP3033 x = rotr8 (s1 x) 1 * 0x01000101
      ∧ CAMELLIA_SP4404 x = s1 (Ref.rotl8 x 1) * 0x01010001
      ∧ s1 x < 256 ∧ Ref.rotl8 (s1 x) 1 < 256 ∧ rotr8 (s1 x) 1 < 256
      ∧ s1 (Ref.rotl8 x 1) < 256 := by
  obtain ⟨t1, t2, t3, t4⟩ := sp_tables_eq x hx
  obtain ⟨b1, b2, b3, b4⟩ := sbox_lt x hx
  have hr : Ref.rotl8 x 1 < 256 := by
    unfold Ref.rotl8
    rw [and_MASK8]
    exact Nat.mod_lt _ (by norm_num)
  rw [s1_eq_sbox1 hx, s1_eq_sbox1 hr, rotr8_one_eq, t1, t2, t3, t4]
  refine ⟨?_, ?_, ?_, ?_, b1, b2, b3, b4⟩
  · unfold bytes4
    omega
  · show bytes4 0 (Ref.sbox2 x) (Ref.sbox2 x) (Ref.sbox2 x) = Ref.sbox2 x * 0x00010101
    unfold bytes4
    omega
  · show bytes4 (Ref.sbox3 x) 0 (Ref.sbox3 x) (Ref.sbox3 x) = Ref.sbox3 x * 0x01000101
    unfold bytes4
    omega
  · show bytes4 (Ref.sbox4 x) (Ref.sbox4 x) 0 (Ref.sbox4 x) = Ref.sbox4 x * 0x01010001
    unfold bytes4
    omega

theorem C17_table_layout_witness :
    (0x2c : Nat) < 256 ∧
    (CAMELLIA_SP1110 0x2c = s1 0x2c * 0x01010100
      ∧ CAMELLIA_SP0222 0x2c = Ref.rotl8 (s1 0x2c) 1 * 0x00010101
      ∧ CAMELLIA_SP3033 0x2c = rotr8 (s1 0x2c) 1 * 0x01000101
      ∧ CAMELLIA_SP4404 0x2c = s1 (Ref.rotl8 0x2c 1) * 0x01010001
      ∧ s1 0x2c < 256 ∧ Ref.rotl8 (s1 0x2c) 1 < 256 ∧ rotr8 (s1 0x2c) 1 < 256
      ∧ s1 (Ref.rotl8 0x2c 1) < 256) :=
  ⟨by decide, C17_table_layout 0x2c (by decide)⟩

/-! ## The big-endian boundary and the round function (claims C18, C20) -/

theorem PUTU32_four (buf : List Nat) (h : buf.length = 4) (w : Nat) :
    PUTU32 buf 0 w = [u8 (w >>> 24), u8 (w >>> 16), u8 (w >>> 8), u8 w] := by
  match buf, h with
  | [_, _, _, _], _ => rfl

/-- Claim C18. Big-endian boundary: `GETU32` maps bytes `b0, b1, b2, b3` to the word
`b0 * 2^24 + b1 * 2^16 + b2 * 2^8 + b3` and `PUTU32` writes a word back as those four
bytes in that order, so `PUTU32` after `GETU32` is the identity on 4-byte sequences and
`GETU32` after `PUTU32` is the identity on 32-bit words; `Camellia_EncryptBlock` and
`Camellia_DecryptBlock` load the 16 input bytes and store the 16 output bytes as four
such words at offsets 0, 4, 8, 12, and the key schedules read the key only through the
words loaded the same way (offsets 0..12, and 16..28 for the second half). -/
theorem C18_big_endian_boundary (buf : List Nat) (b0 b1 b2 b3 w : Nat) (hbuf : buf.length = 4)
    (h0 : b0 < 256) (h1 : b1 < 256) (h2 : b2 < 256) (h3 : b3 < 256) (hw : W32 w) :
    GETU32 [b0, b1, b2, b3] 0 = b0 * 2 ^ 24 + b1 * 2 ^ 16 + b2 * 2 ^ 8 + b3
      ∧ PUTU32 buf 0 w = [w / 2 ^ 24 % 256, w / 2 ^ 16 % 256, w / 2 ^ 8 % 256, w % 256]
      ∧ PUTU32 buf 0 (GETU32 [b0, b1, b2, b3] 0) = [b0, b1, b2, b3]
      ∧ GETU32 (PUTU32 buf 0 w) 0 = w
      ∧ (∀ p : List Nat, loadBlock p
          = { ll := GETU32 p 0, lr := GETU32 p 4, rl := GETU32 p 8, rr := GETU32 p 12 })
      ∧ (∀ (ct : List Nat) (q : Quad), storeBlock ct q
          = PUTU32 (PUTU32 (PUTU32 (PUTU32 ct 0 q.ll) 4 q.lr) 8 q.rl) 12 q.rr)
      ∧ (∀ (bits : Int) (p ct : List Nat) (T : Words),
          Camellia_EncryptBlock bits p T ct
            = storeBlock ct (if bits = 128 then camellia_encrypt128 T (loadBlock p)
                else if bits = 192 ∨ bits = 256 then camellia_encrypt256 T (loadBlock p)
                else loadBlock p)
          ∧ Camellia_DecryptBlock bits p T ct
            = storeBlock ct (if bits = 128 then camellia_decrypt128 T (loadBlock p)
                else if bits = 192 ∨ bits = 256 then camellia_decrypt256 T (loadBlock p)
                else loadBlock p))
      ∧ (∀ (key key' : List Nat) (T : Words), loadQuad key 0 = loadQuad key' 0 →
          camellia_setup128 key T = camellia_setup128 key' T)
      ∧ (∀ (key key' : List Nat) (T : Words), loadQuad key 0 = loadQuad key' 0 →
          loadQuad key 16 = loadQuad key' 16 →
          camellia_setup256 key T = camellia_setup256 key' T)
      ∧ (∀ (key : List Nat) (off : Nat), loadQuad key off
          = { ll := GETU32 key off, lr := GETU32 key (off + 4), rl := GETU32 key (off + 8),
              rr := GETU32 key (off + 12) }) := by
  have hG : GETU32 [b0, b1, b2, b3] 0 = b0 * 2 ^ 24 + b1 * 2 ^ 16 + b2 * 2 ^ 8 + b3 := by
    rw [GETU32_eq [b0, b1, b2, b3] 0 h0 h1 h2 h3]
    show b0 * 16777216 + b1 * 65536 + b2 * 256 + b3 = _
    norm_num
  have hP : PUTU32 buf 0 w = [w / 2 ^ 24 % 256, w / 2 ^ 16 % 256, w / 2 ^ 8 % 256, w % 256] := by
    rw [PUTU32_four buf hbuf]
    simp only [u8, Nat.shiftRight_eq_div_pow]
  refine ⟨hG, hP, ?_, ?_, fun _ => rfl, fun _ _ => rfl, fun _ _ _ _ => ⟨rfl, rfl⟩,
    fun _ _ T h => camellia_setup128_of_loadQuad h T,
    fun _ _ T h h' => camellia_setup256_of_loadQuad h h' T, fun _ _ => rfl⟩
  · rw [PUTU32_four buf hbuf, hG]
    simp only [u8, Nat.shiftRight_eq_div_pow, List.cons.injEq, and_true]
    refine ⟨?_, ?_, ?_, ?_⟩ <;> omega
  · rw [PUTU32_four buf hbuf]
    exact GETU32_of_bytes _ 0 hw rfl rfl rfl rfl

theorem C18_big_endian_boundary_witness :
    GETU32 [0x01, 0x23, 0x45, 0x67] 0 = 0x01 * 2 ^ 24 + 0x23 * 2 ^ 16 + 0x45 * 2 ^ 8 + 0x67
      ∧ PUTU32 [0, 0, 0, 0] 0 0x89abcdef = [0x89, 0xab, 0xcd, 0xef]
      ∧ GETU32 (PUTU32 [0, 0, 0, 0] 0 0x89abcdef) 0 = 0x89abcdef := by
  have h := C18_big_endian_boundary [0, 0, 0, 0] 0x01 0x23 0x45 0x67 0x89abcdef rfl
    (by decide) (by decide) (by decide) (by decide) (by unfold W32; decide)
  exact ⟨h.1, h.2.1, h.2.2.2.1⟩

theorem CAMELLIA_RR8_eq_rotl32 {x : Nat} (hx : W32 x) : CAMELLIA_RR8 x = Ref.rotl32 x 24 := by
  have h := W32_lt hx
  unfold Ref.rotl32 CAMELLIA_RR8 u32
  simp only [and_MASK32, Nat.shiftLeft_eq, Nat.shiftRight_eq_div_pow]
  have e : x * 2 ^ 24 ||| x / 2 ^ (32 - 24) = x * 2 ^ 24 + x / 2 ^ (32 - 24) :=
    or_eq_add 24 (Nat.mul_mod_left _ _) (by omega)
  rw [e]
  omega

theorem W32_F_B (xl kl : Nat) : W32 (CAMELLIA_F_B xl kl) :=
  W32_xor (W32_xor (W32_xor (W32_SP1110 _) (W32_SP0222 _)) (W32_SP3033 _)) (W32_SP4404 _)

set_option maxRecDepth 100000 in
/-- Claim C20, as stated, fails: at `xl = xr = kl = kr = 0` the second word that
`CAMELLIA_F` returns is not `rotl32(B, 8) xor yl`. -/
theorem C20_counterexample :
    CAMELLIA_F 0 0 0 0
      ≠ (CAMELLIA_F_A 0 0 ^^^ CAMELLIA_F_B 0 0,
          Ref.rotl32 (CAMELLIA_F_B 0 0) 8 ^^^ (CAMELLIA_F_A 0 0 ^^^ CAMELLIA_F_B 0 0)) := by
  decide

/-- Claim C20 (amended). Round function as specified: for all `xl, xr, kl, kr`,
`CAMELLIA_F` XORs each input half with its subkey half, looks the four bytes of each mixed
half up in the substitution tables and XORs the four words per half into two
intermediates `A` (from the right half `xr ^ kr`) and `B` (from the left half `xl ^ kl`),
and returns `yl = A xor B` and `yr = rotr32(B, 8) xor yl`: the final step XORs the two
intermediates, rotates one of them RIGHT by 8 bits (`CAMELLIA_RR8`, which is a rotation
left by 24 bits), then XORs again. -/
theorem C20_round_function (xl xr kl kr : Nat) :
    CAMELLIA_F xl xr kl kr
        = (CAMELLIA_F_A xr kr ^^^ CAMELLIA_F_B xl kl,
            CAMELLIA_RR8 (CAMELLIA_F_B xl kl) ^^^ (CAMELLIA_F_A xr kr ^^^ CAMELLIA_F_B xl kl))
      ∧ CAMELLIA_RR8 (CAMELLIA_F_B xl kl) = Ref.rotl32 (CAMELLIA_F_B xl kl) 24
      ∧ CAMELLIA_RR8 (CAMELLIA_F_B xl kl)
        = CAMELLIA_F_B xl kl / 2 ^ 8 + CAMELLIA_F_B xl kl % 2 ^ 8 * 2 ^ 24 := by
  refine ⟨rfl, CAMELLIA_RR8_eq_rotl32 (W32_F_B xl kl), ?_⟩
  have h := W32_lt (W32_F_B xl kl)
  generalize CAMELLIA_F_B xl kl = B at h
  unfold CAMELLIA_RR8 u32
  rw [Nat.shiftLeft_eq, Nat.shiftRight_eq_div_pow]
  omega

/-! ## Every access is in bounds: the checked program agrees with the program -/

theorem andThen_some {α β : Type} (a : α) (f : α → Option β) : andThen (some a) f = f a := rfl

theorem subl_chk_eq {n x : Nat} (s : Scratch) (h : x < n) :
    subl_chk n s x = some (subl s x) := if_pos h

theorem subr_chk_eq {n x : Nat} (s : Scratch) (h : x < n) :
    subr_chk n s x = some (subr s x) := if_pos h

theorem setLR_chk_eq {n x : Nat} (s : Scratch) (l r : Nat) (h : x < n) :
    setLR_chk n s x l r = some (setLR s x l r) := if_pos h

theorem kw2_xor_chk_eq {n x : Nat} (s : Scratch) (h : x < n) (h1 : 1 < n) :
    kw2_xor_chk n s x = some (kw2_xor s x) := if_pos ⟨h, h1⟩

theorem kw2_step_chk_eq {n x : Nat} (s : Scratch) (h : x < n) (h1 : 1 < n) :
    kw2_step_chk n s x = some (kw2_step s x) := if_pos ⟨h1, h⟩

theorem kw4_xor_chk_eq {n x : Nat} (s : Scratch) (kw4 : Nat × Nat) (h : x < n) :
    kw4_xor_chk n s kw4 x = some (kw4_xor s kw4 x) := if_pos h

theorem kw4_step_chk_eq {n x : Nat} (s : Scratch) (kw4 : Nat × Nat) (h : x < n) :
    kw4_step_chk n s kw4 x = some (kw4_step s kw4 x) := if_pos h

theorem fl_fold_chk_eq {n a x : Nat} (s : Scratch) (ha : a < n) (h : x < n) :
    fl_fold_chk n s a x = some (fl_fold s a x) := if_pos ⟨ha, h⟩

theorem CamelliaSubkeyL_chk_eq {len i : Nat} (T : Words) (h : i * 2 < len) :
    CamelliaSubkeyL_chk len T i = some (CamelliaSubkeyL T i) := if_pos h

theorem CamelliaSubkeyR_chk_eq {len i : Nat} (T : Words) (h : i * 2 + 1 < len) :
    CamelliaSubkeyR_chk len T i = some (CamelliaSubkeyR T i) := if_pos h

theorem setSubkey_chk_eq {len i : Nat} (T : Words) (l r : Nat) (h : i * 2 + 1 < len) :
    setSubkey_chk len T i l r = some (setSubkey T i l r) := if_pos ⟨by omega, h⟩

theorem invP_step_chk_eq {len i : Nat} (T : Words) (h : i * 2 + 1 < len) :
    invP_step_chk len T i = some (invP_step T i) := if_pos ⟨by omega, h⟩

theorem and_byte_lt (x : Nat) : x &&& 0xff < 256 :=
  Nat.lt_of_le_of_lt Nat.and_le_right (by decide)

theorem CAMELLIA_SP1110_chk_eq (x : Nat) :
    CAMELLIA_SP1110_chk (x &&& 0xff) = some (CAMELLIA_SP1110 (x &&& 0xff)) :=
  if_pos (by rw [laneTable_sp1110.1]; exact and_byte_lt x)

theorem CAMELLIA_SP0222_chk_eq (x : Nat) :
    CAMELLIA_SP0222_chk (x &&& 0xff) = some (CAMELLIA_SP0222 (x &&& 0xff)) :=
  if_pos (by rw [laneTable_sp0222.1]; exact and_byte_lt x)

theorem CAMELLIA_SP3033_chk_eq (x : Nat) :
    CAMELLIA_SP3033_chk (x &&& 0xff) = some (CAMELLIA_SP3033 (x &&& 0xff)) :=
  if_pos (by rw [laneTable_sp3033.1]; exact and_byte_lt x)

theorem CAMELLIA_SP4404_chk_eq (x : Nat) :
    CAMELLIA_SP4404_chk (x &&& 0xff) = some (CAMELLIA_SP4404 (x &&& 0xff)) :=
  if_pos (by rw [laneTable_sp4404.1]; exact and_byte_lt x)

theorem CAMELLIA_F_chk_eq (xl xr kl kr : Nat) :
    CAMELLIA_F_chk xl xr kl kr = some (CAMELLIA_F xl xr kl kr) := by
  simp only [CAMELLIA_F_chk, CAMELLIA_SP1110_chk_eq, CAMELLIA_SP0222_chk_eq,
    CAMELLIA_SP3033_chk_eq, CAMELLIA_SP4404_chk_eq, andThen_some]
  rfl

theorem CAMELLIA_ROUNDSM_chk_eq (xl xr kl kr yl yr : Nat) :
    CAMELLIA_ROUNDSM_chk xl xr kl kr yl yr = some (CAMELLIA_ROUNDSM xl xr kl kr yl yr) := by
  simp only [CAMELLIA_ROUNDSM_chk, CAMELLIA_SP1110_chk_eq, CAMELLIA_SP0222_chk_eq,
    CAMELLIA_SP3033_chk_eq, CAMELLIA_SP4404_chk_eq, andThen_some]
  rfl

theorem CAMELLIA_ROLDQ_chk_eq {bits : Nat} (q : Quad) (h0 : 0 < bits) (h1 : bits < 32) :
    CAMELLIA_ROLDQ_chk q bits = some (CAMELLIA_ROLDQ q bits) :=
  if_pos ⟨⟨h0, h1⟩, by omega, by omega⟩

theorem CAMELLIA_ROLDQo32_chk_eq {bits : Nat} (q : Quad) (h0 : 32 < bits) (h1 : bits < 64) :
    CAMELLIA_ROLDQo32_chk q bits = some (CAMELLIA_ROLDQo32 q bits) :=
  if_pos ⟨⟨by omega, by omega⟩, by omega, by omega⟩

theorem GETU32_chk_eq {buf : List Nat} {off : Nat} (h : off + 3 < buf.length) :
    GETU32_chk buf off = some (GETU32 buf off) :=
  if_pos ⟨by omega, by omega, by omega, h⟩

theorem PUTU32_length (buf : List Nat) (off st : Nat) : (PUTU32 buf off st).length = buf.length := by
  simp [PUTU32]

theorem PUTU32_chk_eq {buf : List Nat} {off : Nat} (st : Nat) (h : off + 3 < buf.length) :
    PUTU32_chk buf off st = some (PUTU32 buf off st) :=
  if_pos ⟨by omega, by omega, by omega, h⟩

theorem loadQuad_chk_eq {key : List Nat} {off : Nat} (h : off + 15 < key.length) :
    loadQuad_chk key off = some (loadQuad key off) := by
  simp only [loadQuad_chk, GETU32_chk_eq (show off + 3 < key.length by omega),
    GETU32_chk_eq (show off + 4 + 3 < key.length by omega),
    GETU32_chk_eq (show off + 8 + 3 < key.length by omega),
    GETU32_chk_eq (show off + 12 + 3 < key.length by omega), andThen_some]
  rfl

theorem storeBlock_chk_eq {dst : List Nat} (tmp : Quad) (h : 16 ≤ dst.length) :
    storeBlock_chk dst tmp = some (storeBlock dst tmp) := by
  unfold storeBlock_chk
  rw [PUTU32_chk_eq _ (show 0 + 3 < dst.length by omega), andThen_some,
    PUTU32_chk_eq _ (by rw [PUTU32_length]; omega), andThen_some,
    PUTU32_chk_eq _ (by rw [PUTU32_length, PUTU32_length]; omega), andThen_some,
    PUTU32_chk_eq _ (by rw [PUTU32_length, PUTU32_length, PUTU32_length]; omega)]
  rfl

theorem setup128_KL_chk_eq (k : Quad) (s : Scratch) :
    setup128_KL_chk k s = some (setup128_KL k s) := rfl

theorem setup128_KA_chk_eq (s : Scratch) : setup128_KA_chk s = some (setup128_KA s) := by
  simp (disch := omega) only [setup128_KA_chk, subl_chk_eq, subr_chk_eq, CAMELLIA_F_chk_eq,
    andThen_some]
  rfl

theorem setup128_KAsub_chk_eq (k : Quad) (s : Scratch) :
    setup128_KAsub_chk k s = some (setup128_KAsub k s) := rfl

theorem setup128_kw2_chk_eq (s : Scratch) : setup128_kw2_chk s = some (setup128_kw2 s) := rfl

theorem setup128_kw4_chk_eq (s : Scratch) : setup128_kw4_chk s = some (setup128_kw4 s) := rfl

theorem setup128_emit_chk_eq (s : Scratch) {len : Nat} (h : 50 ≤ len) (T : Words) :
    setup128_emit_chk s len T = some (setup128_emit s T) := by
  simp (disch := omega) only [setup128_emit_chk, subl_chk_eq, subr_chk_eq, fl_fold_chk_eq,
    setSubkey_chk_eq, andThen_some]
  rfl

theorem foldlM_invP_step_chk {len : Nat} (l : List Nat) (h : ∀ i ∈ l, i * 2 + 1 < len)
    (T : Words) : l.foldlM (invP_step_chk len) T = some (l.foldl invP_step T) := by
  induction l generalizing T with
  | nil => rfl
  | cons i l ih =>
    rw [List.foldlM_cons, invP_step_chk_eq T (h i (List.mem_cons_self i l))]
    exact ih (fun j hj => h j (List.mem_cons_of_mem i hj)) (invP_step T i)

theorem setup128_invP_chk_eq {len : Nat} (h : 50 ≤ len) (T : Words) :
    setup128_invP_chk len T = some (setup128_invP T) :=
  foldlM_invP_step_chk _ (by
    intro i hi
    simp only [List.mem_cons, List.mem_singleton, List.not_mem_nil, or_false] at hi
    omega) T

theorem camellia_setup128_chk_eq {key : List Nat} {len : Nat} (hk : 16 ≤ key.length)
    (h : 50 ≤ len) (T : Words) :
    camellia_setup128_chk key len T = some (camellia_setup128 key T) := by
  simp only [camellia_setup128_chk, loadQuad_chk_eq (show 0 + 15 < key.length by omega),
    setup128_KL_chk_eq, setup128_KA_chk_eq, setup128_KAsub_chk_eq, setup128_kw2_chk_eq,
    setup128_kw4_chk_eq, setup128_emit_chk_eq _ h, setup128_invP_chk_eq h, andThen_some]
  rfl

theorem setup256_KL_chk_eq (k : Quad) (s : Scratch) :
    setup256_KL_chk k s = some (setup256_KL k s) := rfl

theorem setup256_KR_chk_eq (kr : Quad) (s : Scratch) :
    setup256_KR_chk kr s = some (setup256_KR kr s) := rfl

theorem setup256_KA_chk_eq (s : Scratch) (kr : Quad) :
    setup256_KA_chk s kr = some (setup256_KA s kr) := by
  simp (disch := omega) only [setup256_KA_chk, subl_chk_eq, subr_chk_eq, CAMELLIA_F_chk_eq,
    andThen_some]
  rfl

theorem setup256_KB_chk_eq (k kr : Quad) : setup256_KB_chk k kr = some (setup256_KB k kr) := by
  simp only [setup256_KB_chk, CAMELLIA_F_chk_eq, andThen_some]
  rfl

theorem setup256_KAsub_chk_eq (k : Quad) (s : Scratch) :
    setup256_KAsub_chk k s = some (setup256_KAsub k s) := rfl

theorem setup256_KBsub_chk_eq (kr : Quad) (s : Scratch) :
    setup256_KBsub_chk kr s = some (setup256_KBsub kr s) := rfl

theorem setup256_kw2_chk_eq (s : Scratch) : setup256_kw2_chk s = some (setup256_kw2 s) := rfl

theorem setup256_kw4_chk_eq (s : Scratch) : setup256_kw4_chk s = some (setup256_kw4 s) := rfl

set_option maxRecDepth 100000 in
theorem setup256_emit_chk_eq (s : Scratch) {len : Nat} (h : 66 ≤ len) (T : Words) :
    setup256_emit_chk s len T = some (setup256_emit s T) := by
  simp (disch := omega) only [setup256_emit_chk, subl_chk_eq, subr_chk_eq, fl_fold_chk_eq,
    setSubkey_chk_eq, andThen_some]
  rfl

theorem setup256_invP_chk_eq {len : Nat} (h : 66 ≤ len) (T : Words) :
    setup256_invP_chk len T = some (setup256_invP T) :=
  foldlM_invP_step_chk _ (by
    intro i hi
    simp only [List.mem_cons, List.mem_singleton, List.not_mem_nil, or_false] at hi
    omega) T

theorem camellia_setup256_chk_eq {key : List Nat} {len : Nat} (hk : 32 ≤ key.length)
    (h : 66 ≤ len) (T : Words) :
    camellia_setup256_chk key len T = some (camellia_setup256 key T) := by
  simp only [camellia_setup256_chk, loadQuad_chk_eq (show 0 + 15 < key.length by omega),
    loadQuad_chk_eq (show 16 + 15 < key.length by omega),
    setup256_KL_chk_eq, setup256_KR_chk_eq, setup256_KA_chk_eq, setup256_KB_chk_eq,
    setup256_KAsub_chk_eq, setup256_KBsub_chk_eq, setup256_kw2_chk_eq,
    setup256_kw4_chk_eq, setup256_emit_chk_eq _ h, setup256_invP_chk_eq h, andThen_some]
  rfl

theorem memcpy_to_u32_chk_eq (o : ByteOrder) {key : List Nat} {off : Nat}
    (h : off + 3 < key.length) : memcpy_to_u32_chk o key off = some (memcpy_to_u32 o key off) :=
  if_pos ⟨by omega, by omega, by omega, h⟩

theorem memcpy_from_u32_length (o : ByteOrder) (w : Nat) : (memcpy_from_u32 o w).length = 4 := by
  cases o <;> rfl

theorem setup192_kk_length (o : ByteOrder) {key : List Nat} (hk : 24 ≤ key.length) :
    (setup192_kk o key).length = 32 := by
  simp only [setup192_kk, List.length_append, List.length_take, memcpy_from_u32_length]
  omega

theorem setup192_kk_chk_eq (o : ByteOrder) {key : List Nat} (hk : 24 ≤ key.length) :
    setup192_kk_chk o key = some (setup192_kk o key) := by
  have hl := setup192_kk_length o hk
  simp only [setup192_kk] at hl
  simp only [setup192_kk_chk, if_pos hk, memcpy_to_u32_chk_eq o (show 16 + 3 < key.length by omega),
    memcpy_to_u32_chk_eq o (show 20 + 3 < key.length by omega), andThen_some, if_pos hl]
  rfl

theorem camellia_setup192_chk_eq (o : ByteOrder) {key : List Nat} {len : Nat}
    (hk : 24 ≤ key.length) (h : 66 ≤ len) (T : Words) :
    camellia_setup192_chk o key len T = some (camellia_setup192 o key T) := by
  simp only [camellia_setup192_chk, setup192_kk_chk_eq o hk, andThen_some]
  exact camellia_setup256_chk_eq (le_of_eq (setup192_kk_length o hk).symm) h T

theorem whiten01_chk_eq {len i : Nat} (T : Words) (io : Quad) (h : i * 2 + 1 < len) :
    whiten01_chk len T i io = some (whiten01 T i io) := by
  simp (disch := omega) only [whiten01_chk, CamelliaSubkeyL_chk_eq, CamelliaSubkeyR_chk_eq,
    andThen_some]
  rfl

theorem whiten23_chk_eq {len i : Nat} (T : Words) (io : Quad) (h : i * 2 + 1 < len) :
    whiten23_chk len T i io = some (whiten23 T i io) := by
  simp (disch := omega) only [whiten23_chk, CamelliaSubkeyL_chk_eq, CamelliaSubkeyR_chk_eq,
    andThen_some]
  rfl

theorem round01_chk_eq {len i : Nat} (T : Words) (io : Quad) (h : i * 2 + 1 < len) :
    round01_chk len T i io = some (round01 T i io) := by
  simp (disch := omega) only [round01_chk, CamelliaSubkeyL_chk_eq, CamelliaSubkeyR_chk_eq,
    CAMELLIA_ROUNDSM_chk_eq, andThen_some]
  rfl

theorem round23_chk_eq {len i : Nat} (T : Words) (io : Quad) (h : i * 2 + 1 < len) :
    round23_chk len T i io = some (round23 T i io) := by
  simp (disch := omega) only [round23_chk, CamelliaSubkeyL_chk_eq, CamelliaSubkeyR_chk_eq,
    CAMELLIA_ROUNDSM_chk_eq, andThen_some]
  rfl

theorem fls_chk_eq {len i j : Nat} (T : Words) (io : Quad) (hi : i * 2 + 1 < len)
    (hj : j * 2 + 1 < len) : fls_chk len T i j io = some (fls T i j io) := by
  simp (disch := omega) only [fls_chk, CamelliaSubkeyL_chk_eq, CamelliaSubkeyR_chk_eq,
    andThen_some]
  rfl

theorem camellia_encrypt128_chk_eq {len : Nat} (h : 50 ≤ len) (T : Words) (io : Quad) :
    camellia_encrypt128_chk len T io = some (camellia_encrypt128 T io) := by
  simp (disch := omega) only [camellia_encrypt128_chk, whiten01_chk_eq, whiten23_chk_eq,
    round01_chk_eq, round23_chk_eq, fls_chk_eq, andThen_some]
  rfl

theorem camellia_decrypt128_chk_eq {len : Nat} (h : 50 ≤ len) (T : Words) (io : Quad) :
    camellia_decrypt128_chk len T io = some (camellia_decrypt128 T io) := by
  simp (disch := omega) only [camellia_decrypt128_chk, whiten01_chk_eq, whiten23_chk_eq,
    round01_chk_eq, round23_chk_eq, fls_chk_eq, andThen_some]
  rfl

theorem camellia_encrypt256_chk_eq {len : Nat} (h : 66 ≤ len) (T : Words) (io : Quad) :
    camellia_encrypt256_chk len T io = some (camellia_encrypt256 T io) := by
  simp (disch := omega) only [camellia_encrypt256_chk, whiten01_chk_eq, whiten23_chk_eq,
    round01_chk_eq, round23_chk_eq, fls_chk_eq, andThen_some]
  rfl

theorem camellia_decrypt256_chk_eq {len : Nat} (h : 66 ≤ len) (T : Words) (io : Quad) :
    camellia_decrypt256_chk len T io = some (camellia_decrypt256 T io) := by
  simp (disch := omega) only [camellia_decrypt256_chk, whiten01_chk_eq, whiten23_chk_eq,
    round01_chk_eq, round23_chk_eq, fls_chk_eq, andThen_some]
  rfl

theorem Camellia_EncryptBlock_chk_128 {block out : List Nat} {len : Nat}
    (hb : 16 ≤ block.length) (ho : 16 ≤ out.length) (h : 50 ≤ len) (T : Words) :
    Camellia_EncryptBlock_chk 128 block len T out
      = some (Camellia_EncryptBlock 128 block T out) := by
  simp only [Camellia_EncryptBlock_chk, loadQuad_chk_eq (show 0 + 15 < block.length by omega),
    andThen_some]
  rw [if_pos trivial, camellia_encrypt128_chk_eq h, andThen_some, storeBlock_chk_eq _ ho]
  rfl

theorem Camellia_DecryptBlock_chk_128 {block out : List Nat} {len : Nat}
    (hb : 16 ≤ block.length) (ho : 16 ≤ out.length) (h : 50 ≤ len) (T : Words) :
    Camellia_DecryptBlock_chk 128 block len T out
      = some (Camellia_DecryptBlock 128 block T out) := by
  simp only [Camellia_DecryptBlock_chk, loadQuad_chk_eq (show 0 + 15 < block.length by omega),
    andThen_some]
  rw [if_pos trivial, camellia_decrypt128_chk_eq h, andThen_some, storeBlock_chk_eq _ ho]
  rfl

theorem Camellia_EncryptBlock_chk_256 {bits : Int} (hbits : bits = 192 ∨ bits = 256)
    {block out : List Nat} {len : Nat}
    (hb : 16 ≤ block.length) (ho : 16 ≤ out.length) (h : 66 ≤ len) (T : Words) :
    Camellia_EncryptBlock_chk bits block len T out
      = some (Camellia_EncryptBlock bits block T out) := by
  have h128 : ¬ bits = 128 := by omega
  simp only [Camellia_EncryptBlock_chk, Camellia_EncryptBlock, loadBlock,
    loadQuad_chk_eq (show 0 + 15 < block.length by omega), andThen_some]
  rw [if_neg h128, if_pos hbits, if_neg h128, if_pos hbits, camellia_encrypt256_chk_eq h,
    andThen_some, storeBlock_chk_eq _ ho]

theorem Camellia_DecryptBlock_chk_256 {bits : Int} (hbits : bits = 192 ∨ bits = 256)
    {block out : List Nat} {len : Nat}
    (hb : 16 ≤ block.length) (ho : 16 ≤ out.length) (h : 66 ≤ len) (T : Words) :
    Camellia_DecryptBlock_chk bits block len T out
      = some (Camellia_DecryptBlock bits block T out) := by
  have h128 : ¬ bits = 128 := by omega
  simp only [Camellia_DecryptBlock_chk, Camellia_DecryptBlock, loadBlock,
    loadQuad_chk_eq (show 0 + 15 < block.length by omega), andThen_some]
  rw [if_neg h128, if_pos hbits, if_neg h128, if_pos hbits, camellia_decrypt256_chk_eq h,
    andThen_some, storeBlock_chk_eq _ ho]

/-! The checks are not vacuous: a table one word shorter than required makes the checked
key schedule fail at its last store. -/

theorem andThen_none {α β : Type} (f : α → Option β) : andThen none f = none := rfl

theorem setSubkey_chk_none {len i : Nat} (T : Words) (l r : Nat) (h : len ≤ i * 2 + 1) :
    setSubkey_chk len T i l r = none := if_neg (by omega)

theorem setup128_emit_chk_short (s : Scratch) (T : Words) : setup128_emit_chk s 49 T = none := by
  simp (disch := omega) only [setup128_emit_chk, subl_chk_eq, subr_chk_eq, fl_fold_chk_eq,
    setSubkey_chk_eq, andThen_some, setSubkey_chk_none, andThen_none]

set_option maxRecDepth 100000 in
theorem setup256_emit_chk_short (s : Scratch) (T : Words) : setup256_emit_chk s 65 T = none := by
  simp (disch := omega) only [setup256_emit_chk, subl_chk_eq, subr_chk_eq, fl_fold_chk_eq,
    setSubkey_chk_eq, andThen_some, setSubkey_chk_none, andThen_none]

theorem camellia_setup128_chk_short {key : List Nat} (hk : 16 ≤ key.length) (T : Words) :
    camellia_setup128_chk key 49 T = none := by
  simp only [camellia_setup128_chk, loadQuad_chk_eq (show 0 + 15 < key.length by omega),
    setup128_KL_chk_eq, setup128_KA_chk_eq, setup128_KAsub_chk_eq, setup128_kw2_chk_eq,
    setup128_kw4_chk_eq, setup128_emit_chk_short, andThen_some, andThen_none]

theorem camellia_setup256_chk_short {key : List Nat} (hk : 32 ≤ key.length) (T : Words) :
    camellia_setup256_chk key 65 T = none := by
  simp only [camellia_setup256_chk, loadQuad_chk_eq (show 0 + 15 < key.length by omega),
    loadQuad_chk_eq (show 16 + 15 < key.length by omega),
    setup256_KL_chk_eq, setup256_KR_chk_eq, setup256_KA_chk_eq, setup256_KB_chk_eq,
    setup256_KAsub_chk_eq, setup256_KBsub_chk_eq, setup256_kw2_chk_eq,
    setup256_kw4_chk_eq, setup256_emit_chk_short, andThen_some, andThen_none]

theorem camellia_setup192_chk_short (o : ByteOrder) {key : List Nat} (hk : 24 ≤ key.length)
    (T : Words) : camellia_setup192_chk o key 65 T = none := by
  simp only [camellia_setup192_chk, setup192_kk_chk_eq o hk, andThen_some]
  exact camellia_setup256_chk_short (le_of_eq (setup192_kk_length o hk).symm) T

/-- Claim C19. Totality / bounds: given a key of `keyBitLength / 8` bytes, a 16-byte block
(and 16-byte output buffer) and a key table of at least 50 words (128-bit) or 66 words
(192/256-bit), every array access made by `Camellia_Ekeygen`, `Camellia_EncryptBlock` and
`Camellia_DecryptBlock` is in bounds and every shift of `CAMELLIA_ROLDQ` /
`CAMELLIA_ROLDQo32` is by more than 0 and less than 32 bits: the checked program, which
stops with `none` at the first substitution-table index not below the table's 256
entries, scratch index not below 26 (`camellia_setup128`) or 34 (`camellia_setup256`),
key-table index not below `len`, buffer index not below the buffer's length, or shift
amount not strictly between 0 and 32, runs to the end with the result of the program.
With `len = 50` respectively `66` this bounds the key-table indices by 49 and 65; the
bound is reached, since for a table one word shorter the checked schedule fails. -/
theorem C19_accesses_in_bounds (o : ByteOrder) (bits : Int) (key block out : List Nat)
    (len : Nat) (T : Words) (hbits : bits = 128 ∨ bits = 192 ∨ bits = 256)
    (hkey : (key.length : Int) = bits / 8) (hblock : block.length = 16)
    (hout : out.length = 16) (hlen : (if bits = 128 then 50 else 66) ≤ len) :
    Camellia_Ekeygen_chk o bits key len T = some (Camellia_Ekeygen o bits key T)
      ∧ Camellia_EncryptBlock_chk bits block len T out
          = some (Camellia_EncryptBlock bits block T out)
      ∧ Camellia_DecryptBlock_chk bits block len T out
          = some (Camellia_DecryptBlock bits block T out)
      ∧ Camellia_Ekeygen_chk o bits key ((if bits = 128 then 50 else 66) - 1) T = none := by
  rcases hbits with rfl | rfl | rfl
  · have hk : 16 ≤ key.length := by omega
    have hl : 50 ≤ len := hlen
    exact ⟨camellia_setup128_chk_eq hk hl T,
      Camellia_EncryptBlock_chk_128 (le_of_eq hblock.symm) (le_of_eq hout.symm) hl T,
      Camellia_DecryptBlock_chk_128 (le_of_eq hblock.symm) (le_of_eq hout.symm) hl T,
      camellia_setup128_chk_short hk T⟩
  · have hk : 24 ≤ key.length := by omega
    have hl : 66 ≤ len := hlen
    exact ⟨camellia_setup192_chk_eq o hk hl T,
      Camellia_EncryptBlock_chk_256 (Or.inl rfl) (le_of_eq hblock.symm) (le_of_eq hout.symm) hl T,
      Camellia_DecryptBlock_chk_256 (Or.inl rfl) (le_of_eq hblock.symm) (le_of_eq hout.symm) hl T,
      camellia_setup192_chk_short o hk T⟩
  · have hk : 32 ≤ key.length := by omega
    have hl : 66 ≤ len := hlen
    exact ⟨camellia_setup256_chk_eq hk hl T,
      Camellia_EncryptBlock_chk_256 (Or.inr rfl) (le_of_eq hblock.symm) (le_of_eq hout.symm) hl T,
      Camellia_DecryptBlock_chk_256 (Or.inr rfl) (le_of_eq hblock.symm) (le_of_eq hout.symm) hl T,
      camellia_setup256_chk_short hk T⟩

theorem C19_accesses_in_bounds_witness :
    Camellia_Ekeygen_chk ByteOrder.little 192 kat_key192 66 zeroTable
        = some (Camellia_Ekeygen ByteOrder.little 192 kat_key192 zeroTable)
      ∧ Camellia_EncryptBlock_chk 192 kat_plaintext 66 zeroTable zeroBlock
          = some (Camellia_EncryptBlock 192 kat_plaintext zeroTable zeroBlock)
      ∧ Camellia_DecryptBlock_chk 192 kat_plaintext 66 zeroTable zeroBlock
          = some (Camellia_DecryptBlock 192 kat_plaintext zeroTable zeroBlock)
      ∧ Camellia_Ekeygen_chk ByteOrder.little 192 kat_key192 65 zeroTable = none :=
  C19_accesses_in_bounds ByteOrder.little 192 kat_key192 kat_plaintext zeroBlock 66 zeroTable
    (Or.inr (Or.inl rfl)) (by decide) (by decide) (by decide) (by decide)

/-! ## The FL layer and the Feistel round (claims C21, C22, C23, C25, C28) -/

theorem CAMELLIA_RL8_eq_rotl32 {x : Nat} (hx : W32 x) : CAMELLIA_RL8 x = Ref.rotl32 x 8 := by
  have h := W32_lt hx
  unfold Ref.rotl32 CAMELLIA_RL8 u32
  simp only [and_MASK32, Nat.shiftLeft_eq, Nat.shiftRight_eq_div_pow]
  have e : x * 2 ^ 8 ||| x / 2 ^ (32 - 8) = x * 2 ^ 8 + x / 2 ^ (32 - 8) :=
    or_eq_add 8 (Nat.mul_mod_left _ _) (by omega)
  rw [e]
  omega

/-- Claim C21. FL layer formula: for all 32-bit `ll, lr, rl, rr, kll, klr, krl, krr`,
`CAMELLIA_FLS` yields `lr' = lr xor rotl32(kll and ll, 1)`, `ll' = ll xor (klr or lr')`,
`rl' = rl xor (krr or rr)`, `rr' = rr xor rotl32(krl and rl', 1)`, where the second
statement of each pair uses the already-updated `lr'` respectively `rl'`; the four
results are again 32-bit words. -/
theorem C21_FL_layer_formula (ll lr rl rr kll klr krl krr : Nat)
    (hll : W32 ll) (hlr : W32 lr) (hrl : W32 rl) (hrr : W32 rr)
    (hkll : W32 kll) (hklr : W32 klr) (hkrl : W32 krl) (hkrr : W32 krr) :
    (CAMELLIA_FLS { ll := ll, lr := lr, rl := rl, rr := rr } kll klr krl krr).lr
        = lr ^^^ Ref.rotl32 (kll &&& ll) 1
      ∧ (CAMELLIA_FLS { ll := ll, lr := lr, rl := rl, rr := rr } kll klr krl krr).ll
        = ll ^^^ (klr |||
            (CAMELLIA_FLS { ll := ll, lr := lr, rl := rl, rr := rr } kll klr krl krr).lr)
      ∧ (CAMELLIA_FLS { ll := ll, lr := lr, rl := rl, rr := rr } kll klr krl krr).rl
        = rl ^^^ (krr ||| rr)
      ∧ (CAMELLIA_FLS { ll := ll, lr := lr, rl := rl, rr := rr } kll klr krl krr).rr
        = rr ^^^ Ref.rotl32 (krl &&&
            (CAMELLIA_FLS { ll := ll, lr := lr, rl := rl, rr := rr } kll klr krl krr).rl) 1
      ∧ (CAMELLIA_FLS { ll := ll, lr := lr, rl := rl, rr := rr } kll klr krl krr).W32 := by
  have h1 : Ref.rotl32 (kll &&& ll) 1 = CAMELLIA_RL1 (kll &&& ll) :=
    rotl32_one (W32_and_left _ hkll)
  have h2 : Ref.rotl32 (krl &&& (rl ^^^ (krr ||| rr))) 1
      = CAMELLIA_RL1 (krl &&& (rl ^^^ (krr ||| rr))) :=
    rotl32_one (W32_and_left _ hkrl)
  have hq : Quad.W32 { ll := ll, lr := lr, rl := rl, rr := rr } := ⟨hll, hlr, hrl, hrr⟩
  refine ⟨?_, ?_, rfl, ?_, CAMELLIA_FLS_W32 hq hklr hkrr⟩
  · rw [h1]; rfl
  · rfl
  · show _ = rr ^^^ Ref.rotl32 (krl &&& (rl ^^^ (krr ||| rr))) 1
    rw [h2]; rfl

theorem C21_FL_layer_formula_witness :
    (CAMELLIA_FLS { ll := 1, lr := 0, rl := 0, rr := 0 } 1 0 1 1).lr
        = 0 ^^^ Ref.rotl32 (1 &&& 1) 1
      ∧ (CAMELLIA_FLS { ll := 1, lr := 0, rl := 0, rr := 0 } 1 0 1 1).ll
        = 1 ^^^ (0 ||| (CAMELLIA_FLS { ll := 1, lr := 0, rl := 0, rr := 0 } 1 0 1 1).lr)
      ∧ (CAMELLIA_FLS { ll := 1, lr := 0, rl := 0, rr := 0 } 1 0 1 1).rl = 0 ^^^ (1 ||| 0)
      ∧ (CAMELLIA_FLS { ll := 1, lr := 0, rl := 0, rr := 0 } 1 0 1 1).rr
        = 0 ^^^ Ref.rotl32 (1 &&&
            (CAMELLIA_FLS { ll := 1, lr := 0, rl := 0, rr := 0 } 1 0 1 1).rl) 1
      ∧ (CAMELLIA_FLS { ll := 1, lr := 0, rl := 0, rr := 0 } 1 0 1 1).W32 :=
  C21_FL_layer_formula 1 0 0 0 1 0 1 1 (by unfold W32; decide) (by unfold W32; decide)
    (by unfold W32; decide) (by unfold W32; decide) (by unfold W32; decide)
    (by unfold W32; decide) (by unfold W32; decide) (by unfold W32; decide)

/-- Claim C22. Key XOR moved to the end of F: for all 32-bit `kl, kr` (and all
`xl, xr, yl, yr`), with `dw = rotl32(kl xor kr, 8)` and the stored round key
`(kl', kr') = (dw, kl xor dw)`, `CAMELLIA_ROUNDSM(xl, xr, kl', kr', yl, yr)` replaces
`(yl, yr)` by `(yl xor fl xor kl, yr xor fr xor kr)` where `(fl, fr)` is the output of
`CAMELLIA_F(xl, xr, 0, 0)`.  This stored form is what the statements of `invP_step` leave
in a subkey pair that held `(kl, kr)`, and the schedules apply `invP_step` to the pairs
2..7, 10..15, 18..23 (and 26..31 for 256-bit). -/
theorem C22_key_xor_at_end_of_F (xl xr yl yr kl kr : Nat) (hkl : W32 kl) (hkr : W32 kr) :
    CAMELLIA_ROUNDSM xl xr (Ref.rotl32 (kl ^^^ kr) 8) (kl ^^^ Ref.rotl32 (kl ^^^ kr) 8) yl yr
        = (yl ^^^ (CAMELLIA_F xl xr 0 0).1 ^^^ kl, yr ^^^ (CAMELLIA_F xl xr 0 0).2 ^^^ kr)
      ∧ (∀ (S : Words) (i : Nat), pairAt S i = (kl, kr) →
          pairAt (invP_step S i) i
            = (Ref.rotl32 (kl ^^^ kr) 8, kl ^^^ Ref.rotl32 (kl ^^^ kr) 8))
      ∧ (∀ S : Words, setup128_invP S
          = [2, 3, 4, 5, 6, 7, 10, 11, 12, 13, 14, 15, 18, 19, 20, 21, 22, 23].foldl
              invP_step S)
      ∧ (∀ S : Words, setup256_invP S
          = [2, 3, 4, 5, 6, 7, 10, 11, 12, 13, 14, 15, 18, 19, 20, 21, 22, 23,
              26, 27, 28, 29, 30, 31].foldl invP_step S) := by
  have hr : Ref.rotl32 (kl ^^^ kr) 8 = CAMELLIA_RL8 (kl ^^^ kr) :=
    (CAMELLIA_RL8_eq_rotl32 (W32_xor hkl hkr)).symm
  have hk : invPkey (kl, kr) = (Ref.rotl32 (kl ^^^ kr) 8, kl ^^^ Ref.rotl32 (kl ^^^ kr) 8) := by
    rw [hr]; rfl
  refine ⟨?_, fun S i hS => ?_, fun S => rfl, fun S => rfl⟩
  · have h := CAMELLIA_ROUNDSM_invPkey xl xr yl yr (show PW32 (kl, kr) from ⟨hkl, hkr⟩)
    rw [hk] at h
    rw [h, Nat.xor_assoc, Nat.xor_assoc]
  · rw [pairAt_invP_step, if_pos rfl, hS, hk]

theorem C22_key_xor_at_end_of_F_witness :
    CAMELLIA_ROUNDSM 1 2 (Ref.rotl32 (5 ^^^ 6) 8) (5 ^^^ Ref.rotl32 (5 ^^^ 6) 8) 3 4
        = (3 ^^^ (CAMELLIA_F 1 2 0 0).1 ^^^ 5, 4 ^^^ (CAMELLIA_F 1 2 0 0).2 ^^^ 6)
      ∧ (∀ (S : Words) (i : Nat), pairAt S i = (5, 6) →
          pairAt (invP_step S i) i
            = (Ref.rotl32 (5 ^^^ 6) 8, 5 ^^^ Ref.rotl32 (5 ^^^ 6) 8))
      ∧ (∀ S : Words, setup128_invP S
          = [2, 3, 4, 5, 6, 7, 10, 11, 12, 13, 14, 15, 18, 19, 20, 21, 22, 23].foldl
              invP_step S)
      ∧ (∀ S : Words, setup256_invP S
          = [2, 3, 4, 5, 6, 7, 10, 11, 12, 13, 14, 15, 18, 19, 20, 21, 22, 23,
              26, 27, 28, 29, 30, 31].foldl invP_step S) :=
  C22_key_xor_at_end_of_F 1 2 3 4 5 6 (by unfold W32; decide) (by unfold W32; decide)

/-- Claim C23. Feistel round preserves the untouched half and is an involution: for all
`xl, xr, kl, kr, yl, yr`, `CAMELLIA_ROUNDSM` replaces `(yl, yr)` by
`(yl xor g_l, yr xor g_r)` where `(g_l, g_r)`, the result of the macro on `yl = yr = 0`,
depends only on `(xl, xr, kl, kr)`; applying the same round twice with the same subkey
restores `(yl, yr)`; and the macro assigns neither `xl` nor `xr`: the two calls
`round01` and `round23` of the block transforms leave the half they read unchanged. -/
theorem C23_feistel_round (xl xr kl kr yl yr : Nat) (S : Words) (i : Nat) (io : Quad) :
    CAMELLIA_ROUNDSM xl xr kl kr yl yr
        = (yl ^^^ (CAMELLIA_ROUNDSM xl xr kl kr 0 0).1,
            yr ^^^ (CAMELLIA_ROUNDSM xl xr kl kr 0 0).2)
      ∧ CAMELLIA_ROUNDSM xl xr kl kr (CAMELLIA_ROUNDSM xl xr kl kr yl yr).1
          (CAMELLIA_ROUNDSM xl xr kl kr yl yr).2 = (yl, yr)
      ∧ ((round01 S i io).ll = io.ll ∧ (round01 S i io).lr = io.lr)
      ∧ ((round23 S i io).rl = io.rl ∧ (round23 S i io).rr = io.rr)
      ∧ round01 S i (round01 S i io) = io
      ∧ round23 S i (round23 S i io) = io := by
  refine ⟨CAMELLIA_ROUNDSM_eq_xor xl xr kl kr yl yr, CAMELLIA_ROUNDSM_twice xl xr kl kr yl yr,
    ⟨rfl, rfl⟩, ⟨rfl, rfl⟩, ?_, ?_⟩
  · simp only [round01, CAMELLIA_ROUNDSM_twice]
  · simp only [round23, CAMELLIA_ROUNDSM_twice]

/-- Claim C25. The FL layer is non-involutory: there are 32-bit subkeys
`(kll, klr, krl, krr)` and words `(ll, lr, rl, rr)` such that applying `CAMELLIA_FLS`
twice with the same subkeys does not return `(ll, lr, rl, rr)`: with `kll = 1`, the other
subkeys 0 and the block `(1, 0, 0, 0)`, the second application gives `(3, 0, 0, 0)`. -/
theorem C25_FL_layer_not_involution :
    ∃ (q : Quad) (kll klr krl krr : Nat),
      q.W32 ∧ W32 kll ∧ W32 klr ∧ W32 krl ∧ W32 krr
        ∧ CAMELLIA_FLS (CAMELLIA_FLS q kll klr krl krr) kll klr krl krr ≠ q
        ∧ CAMELLIA_FLS (CAMELLIA_FLS q kll klr krl krr) kll klr krl krr
            = { ll := 3, lr := 0, rl := 0, rr := 0 } :=
  ⟨{ ll := 1, lr := 0, rl := 0, rr := 0 }, 1, 0, 0, 0,
    ⟨by unfold W32; decide, by unfold W32; decide, by unfold W32; decide,
      by unfold W32; decide⟩,
    by unfold W32; decide, by unfold W32; decide, by unfold W32; decide,
    by unfold W32; decide, by decide, by decide⟩

/-- Claim C28. Round trip for arbitrary subkeys: for every subkey table `S` (not only
tables produced by a schedule) and every block `b` of four words,
`camellia_decrypt128(S, camellia_encrypt128(S, b)) = b` and
`camellia_decrypt256(S, camellia_encrypt256(S, b)) = b`. -/
theorem C28_roundtrip_arbitrary_subkeys (S : Words) (b : Quad) :
    camellia_decrypt128 S (camellia_encrypt128 S b) = b
      ∧ camellia_decrypt256 S (camellia_encrypt256 S b) = b :=
  ⟨camellia_decrypt128_encrypt128 S b, camellia_decrypt256_encrypt256 S b⟩

/-! ## The 128-bit rotations (claim C26) -/

theorem words128_pack128 {q : Quad} (hq : q.W32) : words128 (pack128 q) = q := by
  obtain ⟨a, b, c, d⟩ := hq
  have ha := W32_lt a
  have hb := W32_lt b
  have hc := W32_lt c
  have hd := W32_lt d
  cases q with
  | mk ll lr rl rr =>
    simp only [words128, pack128, pack64] at *
    have e1 : ((ll * 2 ^ 32 + lr) * 2 ^ 64 + (rl * 2 ^ 32 + rr)) / 2 ^ 96 % 2 ^ 32 = ll := by
      omega
    have e2 : ((ll * 2 ^ 32 + lr) * 2 ^ 64 + (rl * 2 ^ 32 + rr)) / 2 ^ 64 % 2 ^ 32 = lr := by
      omega
    have e3 : ((ll * 2 ^ 32 + lr) * 2 ^ 64 + (rl * 2 ^ 32 + rr)) / 2 ^ 32 % 2 ^ 32 = rl := by
      omega
    have e4 : ((ll * 2 ^ 32 + lr) * 2 ^ 64 + (rl * 2 ^ 32 + rr)) % 2 ^ 32 = rr := by
      omega
    rw [e1, e2, e3, e4]

/-- The addition in `(hi << s) + (lo >> (32 - s))` never carries: the first summand is a
multiple of `2 ^ s` and the second is below `2 ^ s`. -/
theorem funnel_no_carry (hi : Nat) {lo s : Nat} (hs : s ≤ 32) (hlo : W32 lo) :
    u32 (hi <<< s) + (lo >>> (32 - s)) < 4294967296
      ∧ u32 (hi <<< s) + (lo >>> (32 - s)) = u32 (hi <<< s) ||| (lo >>> (32 - s)) := by
  have hl := W32_lt hlo
  have hA : u32 (hi <<< s) % 2 ^ s = 0 := by
    unfold u32
    rw [show (4294967296 : Nat) = 2 ^ 32 from by norm_num, Nat.shiftLeft_eq,
      Nat.mod_mod_of_dvd _ (Nat.pow_dvd_pow 2 hs)]
    exact Nat.mul_mod_left _ _
  have hB : lo >>> (32 - s) < 2 ^ s := by
    rw [Nat.shiftRight_eq_div_pow]
    apply Nat.div_lt_of_lt_mul
    rw [← Nat.pow_add, show 32 - s + s = 32 from by omega]
    exact hl
  have e := or_eq_add s hA hB
  refine ⟨?_, e.symm⟩
  rw [← e, show (4294967296 : Nat) = 2 ^ 32 from by norm_num]
  apply Nat.or_lt_two_pow
  · unfold u32
    exact Nat.mod_lt _ (by norm_num)
  · exact Nat.lt_of_lt_of_le hB (Nat.pow_le_pow_right (by norm_num) hs)

theorem u32_funnel (hi : Nat) {lo s : Nat} (hs : s ≤ 32) (hlo : W32 lo) :
    u32 (u32 (hi <<< s) + (lo >>> (32 - s))) = u32 (hi <<< s) ||| (lo >>> (32 - s)) := by
  obtain ⟨h1, h2⟩ := funnel_no_carry hi hs hlo
  rw [u32_of_W32 h1, h2]

theorem CAMELLIA_ROLDQ_or {q : Quad} (hq : q.W32) {bits : Nat} (h : bits ≤ 32) :
    CAMELLIA_ROLDQ q bits
      = { ll := u32 (q.ll <<< bits) ||| (q.lr >>> (32 - bits)),
          lr := u32 (q.lr <<< bits) ||| (q.rl >>> (32 - bits)),
          rl := u32 (q.rl <<< bits) ||| (q.rr >>> (32 - bits)),
          rr := u32 (q.rr <<< bits) ||| (q.ll >>> (32 - bits)) } := by
  obtain ⟨a, b, c, d⟩ := hq
  simp only [CAMELLIA_ROLDQ, u32_funnel _ h a, u32_funnel _ h b, u32_funnel _ h c,
    u32_funnel _ h d]

theorem CAMELLIA_ROLDQo32_or {q : Quad} (hq : q.W32) {bits : Nat} (h1 : 32 ≤ bits)
    (h2 : bits ≤ 64) :
    CAMELLIA_ROLDQo32 q bits
      = { ll := u32 (q.lr <<< (bits - 32)) ||| (q.rl >>> (64 - bits)),
          lr := u32 (q.rl <<< (bits - 32)) ||| (q.rr >>> (64 - bits)),
          rl := u32 (q.rr <<< (bits - 32)) ||| (q.ll >>> (64 - bits)),
          rr := u32 (q.ll <<< (bits - 32)) ||| (q.lr >>> (64 - bits)) } := by
  obtain ⟨a, b, c, d⟩ := hq
  have e : 64 - bits = 32 - (bits - 32) := by omega
  have hs : bits - 32 ≤ 32 := by omega
  simp only [CAMELLIA_ROLDQo32, e, u32_funnel _ hs a, u32_funnel _ hs b, u32_funnel _ hs c,
    u32_funnel _ hs d]

/-- Claim C26. 128-bit rotations: for every four 32-bit words `(ll, lr, rl, rr)` and
every `bits` with `1 <= bits <= 31` (used: 15, 17, 30), `CAMELLIA_ROLDQ` replaces them by
the four big-endian words of the 128-bit value `ll||lr||rl||rr` rotated left by `bits`;
and for every `bits` with `33 <= bits <= 63` (used: 34, 45, 49, 51), `CAMELLIA_ROLDQo32`
does the same.  The 32-bit additions in the macros never carry (each sum of the shifted
words is below `2 ^ 32`), so `+` there equals bitwise OR. -/
theorem C26_rotations_128 (q : Quad) (hq : q.W32) (bits : Nat) :
    (1 ≤ bits → bits ≤ 31 →
        CAMELLIA_ROLDQ q bits = words128 (Ref.rotl128 (pack128 q) bits)
          ∧ CAMELLIA_ROLDQ q bits
            = { ll := u32 (q.ll <<< bits) ||| (q.lr >>> (32 - bits)),
                lr := u32 (q.lr <<< bits) ||| (q.rl >>> (32 - bits)),
                rl := u32 (q.rl <<< bits) ||| (q.rr >>> (32 - bits)),
                rr := u32 (q.rr <<< bits) ||| (q.ll >>> (32 - bits)) }
          ∧ u32 (q.ll <<< bits) + (q.lr >>> (32 - bits)) < 4294967296
          ∧ u32 (q.lr <<< bits) + (q.rl >>> (32 - bits)) < 4294967296
          ∧ u32 (q.rl <<< bits) + (q.rr >>> (32 - bits)) < 4294967296
          ∧ u32 (q.rr <<< bits) + (q.ll >>> (32 - bits)) < 4294967296)
      ∧ (33 ≤ bits → bits ≤ 63 →
        CAMELLIA_ROLDQo32 q bits = words128 (Ref.rotl128 (pack128 q) bits)
          ∧ CAMELLIA_ROLDQo32 q bits
            = { ll := u32 (q.lr <<< (bits - 32)) ||| (q.rl >>> (64 - bits)),
                lr := u32 (q.rl <<< (bits - 32)) ||| (q.rr >>> (64 - bits)),
                rl := u32 (q.rr <<< (bits - 32)) ||| (q.ll >>> (64 - bits)),
                rr := u32 (q.ll <<< (bits - 32)) ||| (q.lr >>> (64 - bits)) }
          ∧ u32 (q.lr <<< (bits - 32)) + (q.rl >>> (64 - bits)) < 4294967296
          ∧ u32 (q.rl <<< (bits - 32)) + (q.rr >>> (64 - bits)) < 4294967296
          ∧ u32 (q.rr <<< (bits - 32)) + (q.ll >>> (64 - bits)) < 4294967296
          ∧ u32 (q.ll <<< (bits - 32)) + (q.lr >>> (64 - bits)) < 4294967296) := by
  obtain ⟨a, b, c, d⟩ := id hq
  constructor
  · intro h1 h2
    have hs : bits ≤ 32 := by omega
    refine ⟨?_, CAMELLIA_ROLDQ_or hq hs, (funnel_no_carry _ hs b).1, (funnel_no_carry _ hs c).1,
      (funnel_no_carry _ hs d).1, (funnel_no_carry _ hs a).1⟩
    rw [← pack128_ROLDQ hq hs, words128_pack128 (ROLDQ_W32 q bits)]
  · intro h1 h2
    have hs : bits - 32 ≤ 32 := by omega
    have e : 64 - bits = 32 - (bits - 32) := by omega
    refine ⟨?_, CAMELLIA_ROLDQo32_or hq (by omega) (by omega), ?_, ?_, ?_, ?_⟩
    · rw [← pack128_ROLDQo32 hq (by omega) (by omega), words128_pack128 (ROLDQo32_W32 q bits)]
    · rw [e]; exact (funnel_no_carry _ hs c).1
    · rw [e]; exact (funnel_no_carry _ hs d).1
    · rw [e]; exact (funnel_no_carry _ hs a).1
    · rw [e]; exact (funnel_no_carry _ hs b).1

theorem C26_rotations_128_witness :
    CAMELLIA_ROLDQ { ll := 0x01234567, lr := 0x89abcdef, rl := 0xfedcba98, rr := 0x76543210 } 15
        = words128 (Ref.rotl128
            (pack128 { ll := 0x01234567, lr := 0x89abcdef, rl := 0xfedcba98, rr := 0x76543210 })
            15)
      ∧ CAMELLIA_ROLDQo32
          { ll := 0x01234567, lr := 0x89abcdef, rl := 0xfedcba98, rr := 0x76543210 } 45
        = words128 (Ref.rotl128
            (pack128 { ll := 0x01234567, lr := 0x89abcdef, rl := 0xfedcba98, rr := 0x76543210 })
            45) :=
  ⟨((C26_rotations_128
      { ll := 0x01234567, lr := 0x89abcdef, rl := 0xfedcba98, rr := 0x76543210 }
      ⟨by unfold W32; decide, by unfold W32; decide, by unfold W32; decide,
        by unfold W32; decide⟩ 15).1 (by decide) (by decide)).1,
    ((C26_rotations_128
      { ll := 0x01234567, lr := 0x89abcdef, rl := 0xfedcba98, rr := 0x76543210 }
      ⟨by unfold W32; decide, by unfold W32; decide, by unfold W32; decide,
        by unfold W32; decide⟩ 45).2 (by decide) (by decide)).1⟩

/-! ## The round function is one-to-one (claim C24) -/

theorem getD_inj_of_nodup {l : List Nat} (hl : l.Nodup) {a b : Nat} (ha : a < l.length)
    (hb : b < l.length) (h : l.getD a 0 = l.getD b 0) : a = b := by
  rw [List.getD_eq_getElem l 0 ha, List.getD_eq_getElem l 0 hb] at h
  exact hl.getElem_inj_iff.mp h

theorem CAMELLIA_SP1110_inj {a b : Nat} (ha : a < 256) (hb : b < 256)
    (h : CAMELLIA_SP1110 a = CAMELLIA_SP1110 b) : a = b :=
  getD_inj_of_nodup laneTable_sp1110.2.1 (by rw [laneTable_sp1110.1]; exact ha)
    (by rw [laneTable_sp1110.1]; exact hb) h

theorem CAMELLIA_SP0222_inj {a b : Nat} (ha : a < 256) (hb : b < 256)
    (h : CAMELLIA_SP0222 a = CAMELLIA_SP0222 b) : a = b :=
  getD_inj_of_nodup laneTable_sp0222.2.1 (by rw [laneTable_sp0222.1]; exact ha)
    (by rw [laneTable_sp0222.1]; exact hb) h

theorem CAMELLIA_SP3033_inj {a b : Nat} (ha : a < 256) (hb : b < 256)
    (h : CAMELLIA_SP3033 a = CAMELLIA_SP3033 b) : a = b :=
  getD_inj_of_nodup laneTable_sp3033.2.1 (by rw [laneTable_sp3033.1]; exact ha)
    (by rw [laneTable_sp3033.1]; exact hb) h

theorem CAMELLIA_SP4404_inj {a b : Nat} (ha : a < 256) (hb : b < 256)
    (h : CAMELLIA_SP4404 a = CAMELLIA_SP4404 b) : a = b :=
  getD_inj_of_nodup laneTable_sp4404.2.1 (by rw [laneTable_sp4404.1]; exact ha)
    (by rw [laneTable_sp4404.1]; exact hb) h

theorem bytes4_inj {w x y z w' x' y' z' : Nat} (hx : x < 256) (hy : y < 256) (hz : z < 256)
    (hx' : x' < 256) (hy' : y' < 256) (hz' : z' < 256)
    (h : bytes4 w x y z = bytes4 w' x' y' z') : w = w' ∧ x = x' ∧ y = y' ∧ z = z' := by
  unfold bytes4 at h
  omega

/-- The four sums of the P-function give the four summands back. -/
theorem xorP_cancel (x y z w : Nat) :
    (x ^^^ z ^^^ w) ^^^ (x ^^^ y ^^^ w) ^^^ (x ^^^ y ^^^ z) = x
      ∧ (x ^^^ y ^^^ w) ^^^ (x ^^^ y ^^^ z) ^^^ (y ^^^ z ^^^ w) = y
      ∧ (x ^^^ z ^^^ w) ^^^ (x ^^^ y ^^^ z) ^^^ (y ^^^ z ^^^ w) = z
      ∧ (x ^^^ z ^^^ w) ^^^ (x ^^^ y ^^^ w) ^^^ (y ^^^ z ^^^ w) = w := by
  refine ⟨?_, ?_, ?_, ?_⟩ <;>
  · apply Nat.eq_of_testBit_eq
    intro i
    simp only [Nat.testBit_xor]
    cases x.testBit i <;> cases y.testBit i <;> cases z.testBit i <;> cases w.testBit i <;> rfl

/-- The XOR of one entry of each 32-bit table determines the four indices. -/
theorem sp_sum_inj {a b c d a' b' c' d' : Nat} (ha : a < 256) (hb : b < 256) (hc : c < 256)
    (hd : d < 256) (ha' : a' < 256) (hb' : b' < 256) (hc' : c' < 256) (hd' : d' < 256)
    (h : CAMELLIA_SP1110 a ^^^ CAMELLIA_SP0222 b ^^^ CAMELLIA_SP3033 c ^^^ CAMELLIA_SP4404 d
      = CAMELLIA_SP1110 a' ^^^ CAMELLIA_SP0222 b' ^^^ CAMELLIA_SP3033 c' ^^^ CAMELLIA_SP4404 d') :
    a = a' ∧ b = b' ∧ c = c' ∧ d = d' := by
  have ta := (sp_tables_eq a ha).1
  have tb := (sp_tables_eq b hb).2.1
  have tc := (sp_tables_eq c hc).2.2.1
  have td := (sp_tables_eq d hd).2.2.2
  have ta' := (sp_tables_eq a' ha').1
  have tb' := (sp_tables_eq b' hb').2.1
  have tc' := (sp_tables_eq c' hc').2.2.1
  have td' := (sp_tables_eq d' hd').2.2.2
  have s1 := (sbox_lt a ha).1
  have s2 := (sbox_lt b hb).2.1
  have s3 := (sbox_lt c hc).2.2.1
  have s4 := (sbox_lt d hd).2.2.2
  have s1' := (sbox_lt a' ha').1
  have s2' := (sbox_lt b' hb').2.1
  have s3' := (sbox_lt c' hc').2.2.1
  have s4' := (sbox_lt d' hd').2.2.2
  rw [ta, tb, tc, td, ta', tb', tc', td', sp_sum_bytes s1 s2 s3 s4,
    sp_sum_bytes s1' s2' s3' s4'] at h
  obtain ⟨e1, e2, e3, e4⟩ := bytes4_inj
    (byte_xor_lt (byte_xor_lt s1 s2) s4) (byte_xor_lt (byte_xor_lt s1 s2) s3)
    (byte_xor_lt (byte_xor_lt s2 s3) s4)
    (byte_xor_lt (byte_xor_lt s1' s2') s4') (byte_xor_lt (byte_xor_lt s1' s2') s3')
    (byte_xor_lt (byte_xor_lt s2' s3') s4') h
  obtain ⟨k1, k2, k3, k4⟩ :=
    xorP_cancel (Ref.sbox1 a) (Ref.sbox2 b) (Ref.sbox3 c) (Ref.sbox4 d)
  obtain ⟨k1', k2', k3', k4'⟩ :=
    xorP_cancel (Ref.sbox1 a') (Ref.sbox2 b') (Ref.sbox3 c') (Ref.sbox4 d')
  rw [e1, e2, e3, k1'] at k1
  rw [e2, e3, e4, k2'] at k2
  rw [e1, e3, e4, k3'] at k3
  rw [e1, e2, e4, k4'] at k4
  refine ⟨CAMELLIA_SP1110_inj ha ha' ?_, CAMELLIA_SP0222_inj hb hb' ?_,
    CAMELLIA_SP3033_inj hc hc' ?_, CAMELLIA_SP4404_inj hd hd' ?_⟩
  · rw [ta, ta', ← k1]
  · rw [tb, tb', ← k2]
  · rw [tc, tc', ← k3]
  · rw [td, td', ← k4]

theorem and_byte_eq (x : Nat) : x &&& 0xff = x % 256 := and_255 x

/-- A 32-bit word is determined by the four bytes that the round macros index with. -/
theorem word_of_bytes_inj {x y : Nat} (hx : W32 x) (hy : W32 y)
    (h0 : x &&& 0xff = y &&& 0xff) (h1 : (x >>> 8) &&& 0xff = (y >>> 8) &&& 0xff)
    (h2 : (x >>> 16) &&& 0xff = (y >>> 16) &&& 0xff)
    (h3 : (x >>> 24) &&& 0xff = (y >>> 24) &&& 0xff) : x = y := by
  have a := W32_lt hx
  have b := W32_lt hy
  simp only [and_255, Nat.shiftRight_eq_div_pow] at h0 h1 h2 h3
  omega

theorem CAMELLIA_RL8_RR8 {a : Nat} (ha : W32 a) : CAMELLIA_RL8 (CAMELLIA_RR8 a) = a := by
  apply Nat.eq_of_testBit_eq
  intro j
  rw [testBit_RL8 (W32_RR8 a)]
  by_cases h1 : j < 8
  · rw [if_pos h1, testBit_RR8 ha, if_neg (by omega)]
    have : 24 + j - 24 = j := by omega
    simp [this]; omega
  · rw [if_neg h1]
    by_cases h2 : j < 32
    · rw [testBit_RR8 ha, if_pos (by omega)]
      have : 8 + (j - 8) = j := by omega
      simp [this, h2]
    · simp [h2, testBit_of_W32 ha (show 32 ≤ j by omega)]

/-- `CAMELLIA_F` with a zero subkey is one-to-one on pairs of 32-bit words. -/
theorem CAMELLIA_F_zero_inj {xl xr xl2 xr2 : Nat} (hxl : W32 xl) (hxr : W32 xr)
    (hxl2 : W32 xl2) (hxr2 : W32 xr2) (h : CAMELLIA_F xl xr 0 0 = CAMELLIA_F xl2 xr2 0 0) :
    xl = xl2 ∧ xr = xr2 := by
  rw [CAMELLIA_F_zero, CAMELLIA_F_zero] at h
  have hA : ∀ x, W32 (CAMELLIA_SP1110 (x &&& 0xff) ^^^ CAMELLIA_SP0222 ((x >>> 24) &&& 0xff)
      ^^^ CAMELLIA_SP3033 ((x >>> 16) &&& 0xff) ^^^ CAMELLIA_SP4404 ((x >>> 8) &&& 0xff)) :=
    fun x => W32_xor (W32_xor (W32_xor (W32_SP1110 _) (W32_SP0222 _)) (W32_SP3033 _))
      (W32_SP4404 _)
  have hB : ∀ x, W32 (CAMELLIA_SP1110 ((x >>> 24) &&& 0xff)
      ^^^ CAMELLIA_SP0222 ((x >>> 16) &&& 0xff)
      ^^^ CAMELLIA_SP3033 ((x >>> 8) &&& 0xff) ^^^ CAMELLIA_SP4404 (x &&& 0xff)) :=
    fun x => W32_xor (W32_xor (W32_xor (W32_SP1110 _) (W32_SP0222 _)) (W32_SP3033 _))
      (W32_SP4404 _)
  have h1 := congrArg Prod.fst h
  have h2 := congrArg Prod.snd h
  simp only [] at h1 h2
  rw [h1] at h2
  have h3 := Nat.xor_left_inj.mp h2
  have hBeq := congrArg CAMELLIA_RL8 h3
  rw [CAMELLIA_RL8_RR8 (hB xl), CAMELLIA_RL8_RR8 (hB xl2)] at hBeq
  rw [hBeq] at h1
  have hAeq := Nat.xor_left_inj.mp h1
  obtain ⟨a0, a3, a2, a1⟩ := sp_sum_inj (and_byte_lt _) (and_byte_lt _) (and_byte_lt _)
    (and_byte_lt _) (and_byte_lt _) (and_byte_lt _) (and_byte_lt _) (and_byte_lt _) hAeq
  obtain ⟨b3, b2, b1, b0⟩ := sp_sum_inj (and_byte_lt _) (and_byte_lt _) (and_byte_lt _)
    (and_byte_lt _) (and_byte_lt _) (and_byte_lt _) (and_byte_lt _) (and_byte_lt _) hBeq
  exact ⟨word_of_bytes_inj hxl hxl2 b0 b1 b2 b3, word_of_bytes_inj hxr hxr2 a0 a1 a2 a3⟩

/-- `CAMELLIA_F` is one-to-one on pairs of 32-bit words, for every 32-bit subkey. -/
theorem CAMELLIA_F_inj {xl xr xl2 xr2 kl kr : Nat} (hxl : W32 xl) (hxr : W32 xr)
    (hxl2 : W32 xl2) (hxr2 : W32 xr2) (hkl : W32 kl) (hkr : W32 kr)
    (h : CAMELLIA_F xl xr kl kr = CAMELLIA_F xl2 xr2 kl kr) : xl = xl2 ∧ xr = xr2 := by
  rw [CAMELLIA_F_key xl xr, CAMELLIA_F_key xl2 xr2] at h
  obtain ⟨e1, e2⟩ := CAMELLIA_F_zero_inj (W32_xor hxl hkl) (W32_xor hxr hkr)
    (W32_xor hxl2 hkl) (W32_xor hxr2 hkr) h
  exact ⟨Nat.xor_left_inj.mp e1, Nat.xor_left_inj.mp e2⟩

/-- Claim C24, as stated, fails: there is no 32-bit subkey `(kl, kr)` with two distinct
64-bit inputs `(xl, xr)` and `(xl2, xr2)` on which `CAMELLIA_F` returns the same output
pair. -/
theorem C24_counterexample :
    ¬ ∃ kl kr xl xr xl2 xr2 : Nat, W32 kl ∧ W32 kr ∧ W32 xl ∧ W32 xr ∧ W32 xl2 ∧ W32 xr2
        ∧ (xl, xr) ≠ (xl2, xr2) ∧ CAMELLIA_F xl xr kl kr = CAMELLIA_F xl2 xr2 kl kr := by
  rintro ⟨kl, kr, xl, xr, xl2, xr2, hkl, hkr, hxl, hxr, hxl2, hxr2, hne, h⟩
  obtain ⟨e1, e2⟩ := CAMELLIA_F_inj hxl hxr hxl2 hxr2 hkl hkr h
  exact hne (by rw [e1, e2])

/-- Claim C24 (amended). The round function is invertible: for every 32-bit subkey
`(kl, kr)` and any two distinct 64-bit inputs `(xl, xr)` and `(xl2, xr2)`, `CAMELLIA_F`
returns different output pairs `(yl, yr)`. -/
theorem C24_round_function_injective (kl kr xl xr xl2 xr2 : Nat) (hkl : W32 kl)
    (hkr : W32 kr) (hxl : W32 xl) (hxr : W32 xr) (hxl2 : W32 xl2) (hxr2 : W32 xr2)
    (hne : (xl, xr) ≠ (xl2, xr2)) :
    CAMELLIA_F xl xr kl kr ≠ CAMELLIA_F xl2 xr2 kl kr := by
  intro h
  obtain ⟨e1, e2⟩ := CAMELLIA_F_inj hxl hxr hxl2 hxr2 hkl hkr h
  exact hne (by rw [e1, e2])

theorem C24_round_function_injective_witness :
    CAMELLIA_F 0 0 0 0 ≠ CAMELLIA_F 0 1 0 0 :=
  C24_round_function_injective 0 0 0 0 0 1 (by unfold W32; decide) (by unfold W32; decide)
    (by unfold W32; decide) (by unfold W32; decide) (by unfold W32; decide)
    (by unfold W32; decide) (by decide)

/-! ## The tables of 64-bit words and the wide round function (claim C27) -/

set_option maxRecDepth 1000000 in
/-- Each entry of the first four 64-bit tables holds the entry `w` of the 32-bit table of
the same S-box in its low word and `RR8(w) ^ w` in its high word; each entry of the last
four holds `w` in both words. -/
theorem sp64_tables_eq :
    camellia_sp10011110 = camellia_sp1110.map (fun w => pack64 (CAMELLIA_RR8 w ^^^ w, w))
      ∧ camellia_sp22000222 = camellia_sp0222.map (fun w => pack64 (CAMELLIA_RR8 w ^^^ w, w))
      ∧ camellia_sp03303033 = camellia_sp3033.map (fun w => pack64 (CAMELLIA_RR8 w ^^^ w, w))
      ∧ camellia_sp00444404 = camellia_sp4404.map (fun w => pack64 (CAMELLIA_RR8 w ^^^ w, w))
      ∧ camellia_sp02220222 = camellia_sp0222.map (fun w => pack64 (w, w))
      ∧ camellia_sp30333033 = camellia_sp3033.map (fun w => pack64 (w, w))
      ∧ camellia_sp44044404 = camellia_sp4404.map (fun w => pack64 (w, w))
      ∧ camellia_sp11101110 = camellia_sp1110.map (fun w => pack64 (w, w)) := by
  decide

theorem getD_map_hi (T : List Nat) (z : Nat) :
    (T.map (fun w => pack64 (CAMELLIA_RR8 w ^^^ w, w))).getD z 0
      = pack64 (CAMELLIA_RR8 (T.getD z 0) ^^^ T.getD z 0, T.getD z 0) := by
  have e : pack64 (CAMELLIA_RR8 0 ^^^ 0, 0) = 0 := by decide
  have h := List.getD_map T 0 (n := z) (fun w => pack64 (CAMELLIA_RR8 w ^^^ w, w))
  rw [e] at h
  exact h

theorem getD_map_both (T : List Nat) (z : Nat) :
    (T.map (fun w => pack64 (w, w))).getD z 0 = pack64 (T.getD z 0, T.getD z 0) := by
  have e : pack64 (0, 0) = 0 := by decide
  have h := List.getD_map T 0 (n := z) (fun w => pack64 (w, w))
  rw [e] at h
  exact h

theorem pack64_xor (a c : Nat) {b d : Nat} (hb : W32 b) (hd : W32 d) :
    pack64 (a, b) ^^^ pack64 (c, d) = pack64 (a ^^^ c, b ^^^ d) := by
  unfold pack64
  exact xor_pack a c (W32_lt hb) (W32_lt hd)

theorem bytes4_bytes {w x y z : Nat} (hw : w < 256) (hx : x < 256) (hy : y < 256)
    (hz : z < 256) :
    (bytes4 w x y z >>> 24) &&& 0xff = w ∧ (bytes4 w x y z >>> 16) &&& 0xff = x
      ∧ (bytes4 w x y z >>> 8) &&& 0xff = y ∧ bytes4 w x y z &&& 0xff = z := by
  simp only [and_255, Nat.shiftRight_eq_div_pow, bytes4]
  omega

/-- XOR of one entry of each of the eight 64-bit tables, in terms of the 32-bit tables. -/
theorem wide_sum_eq (z1 z2 z3 z4 z5 z6 z7 z8 : Nat) :
    camellia_sp10011110.getD z1 0 ^^^ camellia_sp22000222.getD z2 0
        ^^^ camellia_sp03303033.getD z3 0 ^^^ camellia_sp00444404.getD z4 0
        ^^^ camellia_sp02220222.getD z5 0 ^^^ camellia_sp30333033.getD z6 0
        ^^^ camellia_sp44044404.getD z7 0 ^^^ camellia_sp11101110.getD z8 0
      = pack64
          (CAMELLIA_RR8 (CAMELLIA_SP1110 z1 ^^^ CAMELLIA_SP0222 z2 ^^^ CAMELLIA_SP3033 z3
              ^^^ CAMELLIA_SP4404 z4)
            ^^^ ((CAMELLIA_SP1110 z8 ^^^ CAMELLIA_SP0222 z5 ^^^ CAMELLIA_SP3033 z6
                ^^^ CAMELLIA_SP4404 z7)
              ^^^ (CAMELLIA_SP1110 z1 ^^^ CAMELLIA_SP0222 z2 ^^^ CAMELLIA_SP3033 z3
                ^^^ CAMELLIA_SP4404 z4)),
           (CAMELLIA_SP1110 z8 ^^^ CAMELLIA_SP0222 z5 ^^^ CAMELLIA_SP3033 z6
                ^^^ CAMELLIA_SP4404 z7)
              ^^^ (CAMELLIA_SP1110 z1 ^^^ CAMELLIA_SP0222 z2 ^^^ CAMELLIA_SP3033 z3
                ^^^ CAMELLIA_SP4404 z4)) := by
  obtain ⟨t1, t2, t3, t4, t5, t6, t7, t8⟩ := sp64_tables_eq
  rw [t1, t2, t3, t4, t5, t6, t7, t8]
  simp only [getD_map_hi, getD_map_both]
  have hb1 := W32_SP1110 z1
  have hb2 := W32_SP0222 z2
  have hb3 := W32_SP3033 z3
  have hb4 := W32_SP4404 z4
  have ha5 := W32_SP0222 z5
  have ha6 := W32_SP3033 z6
  have ha7 := W32_SP4404 z7
  have ha8 := W32_SP1110 z8
  change pack64 (CAMELLIA_RR8 (CAMELLIA_SP1110 z1) ^^^ CAMELLIA_SP1110 z1, CAMELLIA_SP1110 z1)
      ^^^ pack64 (CAMELLIA_RR8 (CAMELLIA_SP0222 z2) ^^^ CAMELLIA_SP0222 z2, CAMELLIA_SP0222 z2)
      ^^^ pack64 (CAMELLIA_RR8 (CAMELLIA_SP3033 z3) ^^^ CAMELLIA_SP3033 z3, CAMELLIA_SP3033 z3)
      ^^^ pack64 (CAMELLIA_RR8 (CAMELLIA_SP4404 z4) ^^^ CAMELLIA_SP4404 z4, CAMELLIA_SP4404 z4)
      ^^^ pack64 (CAMELLIA_SP0222 z5, CAMELLIA_SP0222 z5)
      ^^^ pack64 (CAMELLIA_SP3033 z6, CAMELLIA_SP3033 z6)
      ^^^ pack64 (CAMELLIA_SP4404 z7, CAMELLIA_SP4404 z7)
      ^^^ pack64 (CAMELLIA_SP1110 z8, CAMELLIA_SP1110 z8) = _
  generalize CAMELLIA_SP1110 z1 = b1 at *
  generalize CAMELLIA_SP0222 z2 = b2 at *
  generalize CAMELLIA_SP3033 z3 = b3 at *
  generalize CAMELLIA_SP4404 z4 = b4 at *
  generalize CAMELLIA_SP0222 z5 = a5 at *
  generalize CAMELLIA_SP3033 z6 = a6 at *
  generalize CAMELLIA_SP4404 z7 = a7 at *
  generalize CAMELLIA_SP1110 z8 = a8 at *
  have h12 := W32_xor hb1 hb2
  have h123 := W32_xor h12 hb3
  have h1234 := W32_xor h123 hb4
  have h5 := W32_xor h1234 ha5
  have h6 := W32_xor h5 ha6
  have h7 := W32_xor h6 ha7
  rw [pack64_xor _ _ hb1 hb2, pack64_xor _ _ h12 hb3, pack64_xor _ _ h123 hb4,
    pack64_xor _ _ h1234 ha5, pack64_xor _ _ h5 ha6, pack64_xor _ _ h6 ha7,
    pack64_xor _ _ h7 ha8, CAMELLIA_RR8_xor h123 hb4, CAMELLIA_RR8_xor h12 hb3,
    CAMELLIA_RR8_xor hb1 hb2]
  generalize CAMELLIA_RR8 b1 = r1
  generalize CAMELLIA_RR8 b2 = r2
  generalize CAMELLIA_RR8 b3 = r3
  generalize CAMELLIA_RR8 b4 = r4
  have eL : b1 ^^^ b2 ^^^ b3 ^^^ b4 ^^^ a5 ^^^ a6 ^^^ a7 ^^^ a8
      = (a8 ^^^ a5 ^^^ a6 ^^^ a7) ^^^ (b1 ^^^ b2 ^^^ b3 ^^^ b4) := by ac_rfl
  have eH : r1 ^^^ b1 ^^^ (r2 ^^^ b2) ^^^ (r3 ^^^ b3) ^^^ (r4 ^^^ b4) ^^^ a5 ^^^ a6 ^^^ a7 ^^^ a8
      = r1 ^^^ r2 ^^^ r3 ^^^ r4
        ^^^ ((a8 ^^^ a5 ^^^ a6 ^^^ a7) ^^^ (b1 ^^^ b2 ^^^ b3 ^^^ b4)) := by ac_rfl
  rw [eL, eH]

set_option maxRecDepth 1000000 in
/-- The low 32 bits of the first four 64-bit tables are the four 32-bit tables. -/
theorem sp64_low_words :
    camellia_sp10011110.map (fun w => w % 2 ^ 32) = camellia_sp1110
      ∧ camellia_sp22000222.map (fun w => w % 2 ^ 32) = camellia_sp0222
      ∧ camellia_sp03303033.map (fun w => w % 2 ^ 32) = camellia_sp3033
      ∧ camellia_sp00444404.map (fun w => w % 2 ^ 32) = camellia_sp4404 := by
  decide

/-- Claim C27. Wide round function from the 64-bit tables: for all bytes `z1..z8`,
`camellia_sp10011110[z1] xor camellia_sp22000222[z2] xor camellia_sp03303033[z3] xor
camellia_sp00444404[z4] xor camellia_sp02220222[z5] xor camellia_sp30333033[z6] xor
camellia_sp44044404[z7] xor camellia_sp11101110[z8]` equals `yr * 2^32 + yl`, where
`(yl, yr)` is the output of `CAMELLIA_F(xl, xr, 0, 0)` for `xl = z1 z2 z3 z4` and
`xr = z5 z6 z7 z8` (big-endian); and the low 32 bits of the first four 64-bit tables equal
`camellia_sp1110`, `camellia_sp0222`, `camellia_sp3033`, `camellia_sp4404` entry by
entry. -/
theorem C27_wide_round_function (z1 z2 z3 z4 z5 z6 z7 z8 : Nat) (h1 : z1 < 256)
    (h2 : z2 < 256) (h3 : z3 < 256) (h4 : z4 < 256) (h5 : z5 < 256) (h6 : z6 < 256)
    (h7 : z7 < 256) (h8 : z8 < 256) :
    camellia_sp10011110.getD z1 0 ^^^ camellia_sp22000222.getD z2 0
        ^^^ camellia_sp03303033.getD z3 0 ^^^ camellia_sp00444404.getD z4 0
        ^^^ camellia_sp02220222.getD z5 0 ^^^ camellia_sp30333033.getD z6 0
        ^^^ camellia_sp44044404.getD z7 0 ^^^ camellia_sp11101110.getD z8 0
        = (CAMELLIA_F (bytes4 z1 z2 z3 z4) (bytes4 z5 z6 z7 z8) 0 0).2 * 2 ^ 32
          + (CAMELLIA_F (bytes4 z1 z2 z3 z4) (bytes4 z5 z6 z7 z8) 0 0).1
      ∧ camellia_sp10011110.map (fun w => w % 2 ^ 32) = camellia_sp1110
      ∧ camellia_sp22000222.map (fun w => w % 2 ^ 32) = camellia_sp0222
      ∧ camellia_sp03303033.map (fun w => w % 2 ^ 32) = camellia_sp3033
      ∧ camellia_sp00444404.map (fun w => w % 2 ^ 32) = camellia_sp4404 := by
  refine ⟨?_, sp64_low_words⟩
  obtain ⟨l3, l2, l1, l0⟩ := bytes4_bytes h1 h2 h3 h4
  obtain ⟨r3, r2, r1, r0⟩ := bytes4_bytes h5 h6 h7 h8
  rw [wide_sum_eq, CAMELLIA_F_zero, l3, l2, l1, l0, r3, r2, r1, r0]
  rfl

theorem C27_wide_round_function_witness :
    camellia_sp10011110.getD 0x01 0 ^^^ camellia_sp22000222.getD 0x23 0
        ^^^ camellia_sp03303033.getD 0x45 0 ^^^ camellia_sp00444404.getD 0x67 0
        ^^^ camellia_sp02220222.getD 0x89 0 ^^^ camellia_sp30333033.getD 0xab 0
        ^^^ camellia_sp44044404.getD 0xcd 0 ^^^ camellia_sp11101110.getD 0xef 0
        = (CAMELLIA_F (bytes4 0x01 0x23 0x45 0x67) (bytes4 0x89 0xab 0xcd 0xef) 0 0).2 * 2 ^ 32
          + (CAMELLIA_F (bytes4 0x01 0x23 0x45 0x67) (bytes4 0x89 0xab 0xcd 0xef) 0 0).1
      ∧ camellia_sp10011110.map (fun w => w % 2 ^ 32) = camellia_sp1110
      ∧ camellia_sp22000222.map (fun w => w % 2 ^ 32) = camellia_sp0222
      ∧ camellia_sp03303033.map (fun w => w % 2 ^ 32) = camellia_sp3033
      ∧ camellia_sp00444404.map (fun w => w % 2 ^ 32) = camellia_sp4404 :=
  C27_wide_round_function 0x01 0x23 0x45 0x67 0x89 0xab 0xcd 0xef (by decide) (by decide)
    (by decide) (by decide) (by decide) (by decide) (by decide) (by decide)

/-! ## Encryption undoes decryption (claim C29); unsupported selectors (claim C30) -/

/-- For every subkey table, `camellia_encrypt128` undoes `camellia_decrypt128`. -/
theorem camellia_encrypt128_decrypt128 (S : Words) (io : Quad) :
    camellia_encrypt128 S (camellia_decrypt128 S io) = io := by
  obtain ⟨r0, r24, r⟩ := pairAt_reversedPairs128 S
  have hA : ∀ x, camellia_decrypt128 S x = camellia_encrypt128 (reversedPairs128 S) x :=
    camellia_decrypt128_eq_encrypt r0 r24 r
  have hB : ∀ x, camellia_decrypt128 (reversedPairs128 S) x = camellia_encrypt128 S x :=
    camellia_decrypt128_eq_encrypt r24.symm r0.symm (fun i h1 h2 => by
      rw [r (25 - i) (by omega) (by omega), show 25 - (25 - i) = i from by omega])
  rw [hA, ← hB, camellia_decrypt128_encrypt128]

/-- For every subkey table, `camellia_encrypt256` undoes `camellia_decrypt256`. -/
theorem camellia_encrypt256_decrypt256 (S : Words) (io : Quad) :
    camellia_encrypt256 S (camellia_decrypt256 S io) = io := by
  obtain ⟨r0, r32, r⟩ := pairAt_reversedPairs256 S
  have hA : ∀ x, camellia_decrypt256 S x = camellia_encrypt256 (reversedPairs256 S) x :=
    camellia_decrypt256_eq_encrypt r0 r32 r
  have hB : ∀ x, camellia_decrypt256 (reversedPairs256 S) x = camellia_encrypt256 S x :=
    camellia_decrypt256_eq_encrypt r32.symm r0.symm (fun i h1 h2 => by
      rw [r (33 - i) (by omega) (by omega), show 33 - (33 - i) = i from by omega])
  rw [hA, ← hB, camellia_decrypt256_encrypt256]

theorem PairsW32_reversedPairs128 {S : Words}
    (hS : PairsW32 [0, 2, 3, 4, 5, 6, 7, 8, 9, 10, 11, 12, 13, 14, 15, 16, 17, 18, 19, 20,
      21, 22, 23, 24] S) :
    PairsW32 [0, 2, 3, 4, 5, 6, 7, 8, 9, 10, 11, 12, 13, 14, 15, 16, 17, 18, 19, 20,
      21, 22, 23, 24] (reversedPairs128 S) := by
  obtain ⟨r0, r24, r⟩ := pairAt_reversedPairs128 S
  have key : ∀ i j, pairAt (reversedPairs128 S) i = pairAt S j →
      j ∈ [0, 2, 3, 4, 5, 6, 7, 8, 9, 10, 11, 12, 13, 14, 15, 16, 17, 18, 19, 20,
        21, 22, 23, 24] →
      W32 (CamelliaSubkeyL (reversedPairs128 S) i) ∧ W32 (CamelliaSubkeyR (reversedPairs128 S) i) := by
    intro i j e hj
    have h := hS j hj
    have e1 := congrArg Prod.fst e
    have e2 := congrArg Prod.snd e
    simp only [pairAt] at e1 e2
    rw [e1, e2]
    exact h
  intro i hi
  simp only [List.mem_cons, List.mem_singleton, List.not_mem_nil, or_false] at hi
  have hc : i = 0 ∨ i = 24 ∨ (2 ≤ i ∧ i ≤ 23) := by omega
  rcases hc with rfl | rfl | ⟨h1, h2⟩
  · exact key 0 24 r0 (by decide)
  · exact key 24 0 r24 (by decide)
  · refine key i (25 - i) (r i h1 h2) ?_
    have : 2 ≤ 25 - i ∧ 25 - i ≤ 23 := by omega
    generalize 25 - i = j at this
    obtain ⟨a, b⟩ := this
    interval_cases j <;> decide

theorem PairsW32_reversedPairs256 {S : Words}
    (hS : PairsW32 [0, 2, 3, 4, 5, 6, 7, 8, 9, 10, 11, 12, 13, 14, 15, 16, 17, 18, 19, 20,
      21, 22, 23, 24, 25, 26, 27, 28, 29, 30, 31, 32] S) :
    PairsW32 [0, 2, 3, 4, 5, 6, 7, 8, 9, 10, 11, 12, 13, 14, 15, 16, 17, 18, 19, 20,
      21, 22, 23, 24, 25, 26, 27, 28, 29, 30, 31, 32] (reversedPairs256 S) := by
  obtain ⟨r0, r32, r⟩ := pairAt_reversedPairs256 S
  have key : ∀ i j, pairAt (reversedPairs256 S) i = pairAt S j →
      j ∈ [0, 2, 3, 4, 5, 6, 7, 8, 9, 10, 11, 12, 13, 14, 15, 16, 17, 18, 19, 20,
        21, 22, 23, 24, 25, 26, 27, 28, 29, 30, 31, 32] →
      W32 (CamelliaSubkeyL (reversedPairs256 S) i) ∧ W32 (CamelliaSubkeyR (reversedPairs256 S) i) := by
    intro i j e hj
    have h := hS j hj
    have e1 := congrArg Prod.fst e
    have e2 := congrArg Prod.snd e
    simp only [pairAt] at e1 e2
    rw [e1, e2]
    exact h
  intro i hi
  simp only [List.mem_cons, List.mem_singleton, List.not_mem_nil, or_false] at hi
  have hc : i = 0 ∨ i = 32 ∨ (2 ≤ i ∧ i ≤ 31) := by omega
  rcases hc with rfl | rfl | ⟨h1, h2⟩
  · exact key 0 32 r0 (by decide)
  · exact key 32 0 r32 (by decide)
  · refine key i (33 - i) (r i h1 h2) ?_
    have : 2 ≤ 33 - i ∧ 33 - i ≤ 31 := by omega
    generalize 33 - i = j at this
    obtain ⟨a, b⟩ := this
    interval_cases j <;> decide

theorem camellia_decrypt128_W32 {S : Words} {io : Quad}
    (hS : PairsW32 [0, 2, 3, 4, 5, 6, 7, 8, 9, 10, 11, 12, 13, 14, 15, 16, 17, 18, 19, 20,
      21, 22, 23, 24] S) (hio : io.W32) : (camellia_decrypt128 S io).W32 := by
  obtain ⟨r0, r24, r⟩ := pairAt_reversedPairs128 S
  rw [camellia_decrypt128_eq_encrypt r0 r24 r]
  exact camellia_encrypt128_W32 (PairsW32_reversedPairs128 hS) hio

theorem camellia_decrypt256_W32 {S : Words} {io : Quad}
    (hS : PairsW32 [0, 2, 3, 4, 5, 6, 7, 8, 9, 10, 11, 12, 13, 14, 15, 16, 17, 18, 19, 20,
      21, 22, 23, 24, 25, 26, 27, 28, 29, 30, 31, 32] S) (hio : io.W32) :
    (camellia_decrypt256 S io).W32 := by
  obtain ⟨r0, r32, r⟩ := pairAt_reversedPairs256 S
  rw [camellia_decrypt256_eq_encrypt r0 r32 r]
  exact camellia_encrypt256_W32 (PairsW32_reversedPairs256 hS) hio

/-- Encrypting the decryption gives the block back (128-bit transform). -/
theorem roundtrip128_converse {S : Words}
    (hS : PairsW32 [0, 2, 3, 4, 5, 6, 7, 8, 9, 10, 11, 12, 13, 14, 15, 16, 17, 18, 19, 20,
      21, 22, 23, 24] S) {c : List Nat} (hc : IsBytes 16 c) {ct pt : List Nat}
    (hct : ct.length = 16) (hpt : pt.length = 16) :
    Camellia_EncryptBlock 128 (Camellia_DecryptBlock 128 c S pt) S ct = c := by
  simp only [Camellia_EncryptBlock, Camellia_DecryptBlock, if_true]
  rw [storeBlock_eq ct hct, storeBlock_eq pt hpt,
    loadBlock_blockBytes (camellia_decrypt128_W32 hS (loadBlock_W32 c)),
    camellia_encrypt128_decrypt128, blockBytes_loadBlock hc]

/-- Encrypting the decryption gives the block back (256-bit transform, which also serves
selector 192). -/
theorem roundtrip256_converse {S : Words}
    (hS : PairsW32 [0, 2, 3, 4, 5, 6, 7, 8, 9, 10, 11, 12, 13, 14, 15, 16, 17, 18, 19, 20,
      21, 22, 23, 24, 25, 26, 27, 28, 29, 30, 31, 32] S) {c : List Nat} (hc : IsBytes 16 c)
    {ct pt : List Nat} (hct : ct.length = 16) (hpt : pt.length = 16) (bits : Int)
    (hbits : bits = 192 ∨ bits = 256) :
    Camellia_EncryptBlock bits (Camellia_DecryptBlock bits c S pt) S ct = c := by
  have h128 : bits ≠ 128 := by omega
  simp only [Camellia_EncryptBlock, Camellia_DecryptBlock, if_neg h128, if_pos hbits]
  rw [storeBlock_eq ct hct, storeBlock_eq pt hpt,
    loadBlock_blockBytes (camellia_decrypt256_W32 hS (loadBlock_W32 c)),
    camellia_encrypt256_decrypt256, blockBytes_loadBlock hc]

theorem blockBytes_IsBytes (tmp : Quad) : IsBytes 16 (blockBytes tmp) := by
  refine ⟨rfl, ?_⟩
  intro b hb
  simp only [blockBytes, List.mem_cons, List.mem_singleton, List.not_mem_nil, or_false] at hb
  rcases hb with h | h | h | h | h | h | h | h | h | h | h | h | h | h | h | h <;>
  · rw [h]
    exact Nat.mod_lt _ (by norm_num)

theorem Camellia_EncryptBlock_IsBytes (bits : Int) (p : List Nat) (S : Words) {ct : List Nat}
    (hct : ct.length = 16) : IsBytes 16 (Camellia_EncryptBlock bits p S ct) := by
  simp only [Camellia_EncryptBlock]
  rw [storeBlock_eq ct hct]
  exact blockBytes_IsBytes _

theorem Camellia_DecryptBlock_IsBytes (bits : Int) (c : List Nat) (S : Words) {pt : List Nat}
    (hpt : pt.length = 16) : IsBytes 16 (Camellia_DecryptBlock bits c S pt) := by
  simp only [Camellia_DecryptBlock]
  rw [storeBlock_eq pt hpt]
  exact blockBytes_IsBytes _

/-- Claim C29. Encryption is a bijection on blocks: for every supported key size `bits`,
key `k` with table `T = Camellia_Ekeygen(bits, k)` (from any prior table contents, on
either host byte order) and every 16-byte block `c`,
`Camellia_EncryptBlock(bits, Camellia_DecryptBlock(bits, c, T), T) = c` (the converse
direction of the round trip); together with the round trip itself and the fact that both
functions write a 16-byte block, encryption and decryption under a fixed key are mutually
inverse permutations of the `2^128` blocks.  Output buffers are any 16-byte buffers. -/
theorem C29_encrypt_decrypt_inverse (o : ByteOrder) (bits : Int)
    (hbits : bits = 128 ∨ bits = 192 ∨ bits = 256) (k : List Nat) (c : List Nat)
    (hc : IsBytes 16 c) (T0 : Words) (ct pt : List Nat) (hct : ct.length = 16)
    (hpt : pt.length = 16) :
    Camellia_EncryptBlock bits
        (Camellia_DecryptBlock bits c (Camellia_Ekeygen o bits k T0) pt)
        (Camellia_Ekeygen o bits k T0) ct = c
      ∧ Camellia_DecryptBlock bits
        (Camellia_EncryptBlock bits c (Camellia_Ekeygen o bits k T0) ct)
        (Camellia_Ekeygen o bits k T0) pt = c
      ∧ IsBytes 16 (Camellia_EncryptBlock bits c (Camellia_Ekeygen o bits k T0) ct)
      ∧ IsBytes 16 (Camellia_DecryptBlock bits c (Camellia_Ekeygen o bits k T0) pt) := by
  refine ⟨?_, ?_, Camellia_EncryptBlock_IsBytes bits c _ hct,
    Camellia_DecryptBlock_IsBytes bits c _ hpt⟩
  · rcases hbits with h | h | h
    · subst h
      exact roundtrip128_converse (PairsW32_128 o k T0) hc hct hpt
    · subst h
      rw [Camellia_Ekeygen_192]
      exact roundtrip256_converse (PairsW32_256 _ T0) hc hct hpt 192 (Or.inl rfl)
    · subst h
      rw [Camellia_Ekeygen_256]
      exact roundtrip256_converse (PairsW32_256 _ T0) hc hct hpt 256 (Or.inr rfl)
  · rcases hbits with h | h | h
    · subst h
      exact roundtrip128 (PairsW32_128 o k T0) hc hct hpt
    · subst h
      rw [Camellia_Ekeygen_192]
      exact roundtrip256 (PairsW32_256 _ T0) hc hct hpt 192 (Or.inl rfl)
    · subst h
      rw [Camellia_Ekeygen_256]
      exact roundtrip256 (PairsW32_256 _ T0) hc hct hpt 256 (Or.inr rfl)

theorem C29_encrypt_decrypt_inverse_witness :
    Camellia_EncryptBlock 256
        (Camellia_DecryptBlock 256 kat_plaintext
          (Camellia_Ekeygen ByteOrder.big 256 kat_key256 zeroTable) zeroBlock)
        (Camellia_Ekeygen ByteOrder.big 256 kat_key256 zeroTable) zeroBlock = kat_plaintext
      ∧ Camellia_DecryptBlock 256
        (Camellia_EncryptBlock 256 kat_plaintext
          (Camellia_Ekeygen ByteOrder.big 256 kat_key256 zeroTable) zeroBlock)
        (Camellia_Ekeygen ByteOrder.big 256 kat_key256 zeroTable) zeroBlock = kat_plaintext
      ∧ IsBytes 16 (Camellia_EncryptBlock 256 kat_plaintext
          (Camellia_Ekeygen ByteOrder.big 256 kat_key256 zeroTable) zeroBlock)
      ∧ IsBytes 16 (Camellia_DecryptBlock 256 kat_plaintext
          (Camellia_Ekeygen ByteOrder.big 256 kat_key256 zeroTable) zeroBlock) :=
  C29_encrypt_decrypt_inverse ByteOrder.big 256 (Or.inr (Or.inr rfl)) kat_key256 kat_plaintext
    (by decide) zeroTable zeroBlock zeroBlock (by decide) (by decide)

/-- The sixteen stores of `storeBlock` into a buffer of at least sixteen bytes: the first
sixteen bytes become the bytes of the four words, the others are kept. -/
theorem storeBlock_long {dst : List Nat} (h : 16 ≤ dst.length) (tmp : Quad) :
    storeBlock dst tmp = blockBytes tmp ++ dst.drop 16 := by
  obtain ⟨a, b, rfl, hl⟩ : ∃ a b, dst = a ++ b ∧ a.length = 16 :=
    ⟨dst.take 16, dst.drop 16, (List.take_append_drop 16 dst).symm, by
      rw [List.length_take]; omega⟩
  rw [List.drop_left' hl]
  match a, hl with
  | [_, _, _, _, _, _, _, _, _, _, _, _, _, _, _, _], _ =>
    simp [storeBlock, PUTU32, blockBytes]

/-- Claim C30. Unsupported selector returns the input block: for every `keyBitLength`
other than 128, 192 and 256, every key table and every 16-byte input `x`, the 16 bytes
that `Camellia_EncryptBlock` writes to its output equal `x`, and the same holds for
`Camellia_DecryptBlock`: the output buffer, of at least 16 bytes, holds `x` in its first
16 bytes and keeps the others, so a 16-byte output buffer holds exactly `x`. -/
theorem C30_unsupported_selector_returns_input (keyBitLength : Int)
    (h128 : keyBitLength ≠ 128) (h192 : keyBitLength ≠ 192) (h256 : keyBitLength ≠ 256)
    (x : List Nat) (hx : IsBytes 16 x) (keyTable : Words) (dst : List Nat)
    (hdst : 16 ≤ dst.length) :
    (Camellia_EncryptBlock keyBitLength x keyTable dst).take 16 = x
      ∧ (Camellia_DecryptBlock keyBitLength x keyTable dst).take 16 = x
      ∧ Camellia_EncryptBlock keyBitLength x keyTable dst = x ++ dst.drop 16
      ∧ Camellia_DecryptBlock keyBitLength x keyTable dst = x ++ dst.drop 16
      ∧ (dst.length = 16 → Camellia_EncryptBlock keyBitLength x keyTable dst = x
          ∧ Camellia_DecryptBlock keyBitLength x keyTable dst = x) := by
  have hor : ¬ (keyBitLength = 192 ∨ keyBitLength = 256) := by omega
  have he : Camellia_EncryptBlock keyBitLength x keyTable dst = x ++ dst.drop 16 := by
    simp only [Camellia_EncryptBlock, if_neg h128, if_neg hor]
    rw [storeBlock_long hdst, blockBytes_loadBlock hx]
  have hd : Camellia_DecryptBlock keyBitLength x keyTable dst = x ++ dst.drop 16 := by
    simp only [Camellia_DecryptBlock, if_neg h128, if_neg hor]
    rw [storeBlock_long hdst, blockBytes_loadBlock hx]
  refine ⟨?_, ?_, he, hd, fun h16 => ?_⟩
  · rw [he, List.take_left' hx.1]
  · rw [hd, List.take_left' hx.1]
  · have e : dst.drop 16 = [] := List.drop_eq_nil_of_le (le_of_eq h16)
    rw [he, hd, e, List.append_nil]
    exact ⟨rfl, rfl⟩

theorem C30_unsupported_selector_returns_input_witness :
    (Camellia_EncryptBlock 64 kat_plaintext zeroTable (zeroBlock ++ [7, 7])).take 16
        = kat_plaintext
      ∧ (Camellia_DecryptBlock 64 kat_plaintext zeroTable (zeroBlock ++ [7, 7])).take 16
        = kat_plaintext
      ∧ Camellia_EncryptBlock 64 kat_plaintext zeroTable (zeroBlock ++ [7, 7])
        = kat_plaintext ++ (zeroBlock ++ [7, 7]).drop 16
      ∧ Camellia_DecryptBlock 64 kat_plaintext zeroTable (zeroBlock ++ [7, 7])
        = kat_plaintext ++ (zeroBlock ++ [7, 7]).drop 16
      ∧ ((zeroBlock ++ [7, 7]).length = 16 →
          Camellia_EncryptBlock 64 kat_plaintext zeroTable (zeroBlock ++ [7, 7]) = kat_plaintext
          ∧ Camellia_DecryptBlock 64 kat_plaintext zeroTable (zeroBlock ++ [7, 7])
            = kat_plaintext) :=
  C30_unsupported_selector_returns_input 64 (by decide) (by decide) (by decide) kat_plaintext
    (by decide) zeroTable (zeroBlock ++ [7, 7]) (by decide)

/-! ## Algebra of the FL layer (claims C31, C32) -/

/-- Claim C31. The FL layer is undone by the FL layer with halves and subkey pairs
swapped: for all words `ll, lr, rl, rr` and subkeys `kll, klr, krl, krr`, if
`(ll', lr', rl', rr')` is the result of `CAMELLIA_FLS(ll, lr, rl, rr, kll, klr, krl, krr)`,
then `CAMELLIA_FLS` applied to `(rl', rr', ll', lr')` with subkeys `(krl, krr, kll, klr)`
yields `(rl, rr, ll, lr)`.  For the calls of the block transforms: the call with the
subkey pairs `(j, i)` on the swapped result of the call with the pairs `(i, j)` gives the
swapped block back, which is how the decrypt routines use pairs `(17, 16)` and `(9, 8)`
(and `(25, 24)`) where encryption used `(8, 9)` and `(16, 17)` (and `(24, 25)`). -/
theorem C31_FL_layer_undone_by_swapped (ll lr rl rr kll klr krl krr : Nat) (S : Words)
    (i j : Nat) (io : Quad) :
    CAMELLIA_FLS
        { ll := (CAMELLIA_FLS { ll := ll, lr := lr, rl := rl, rr := rr } kll klr krl krr).rl,
          lr := (CAMELLIA_FLS { ll := ll, lr := lr, rl := rl, rr := rr } kll klr krl krr).rr,
          rl := (CAMELLIA_FLS { ll := ll, lr := lr, rl := rl, rr := rr } kll klr krl krr).ll,
          rr := (CAMELLIA_FLS { ll := ll, lr := lr, rl := rl, rr := rr } kll klr krl krr).lr }
        krl krr kll klr
        = { ll := rl, lr := rr, rl := ll, rr := lr }
      ∧ fls S j i (swapHalves (fls S i j io)) = swapHalves io
      ∧ fls S 17 16 (swapHalves (fls S 16 17 io)) = swapHalves io
      ∧ fls S 9 8 (swapHalves (fls S 8 9 io)) = swapHalves io
      ∧ fls S 25 24 (swapHalves (fls S 24 25 io)) = swapHalves io := by
  refine ⟨?_, fls_swap_fls S i j io, fls_swap_fls S 16 17 io, fls_swap_fls S 8 9 io,
    fls_swap_fls S 24 25 io⟩
  simp only [CAMELLIA_FLS, Nat.xor_cancel_right]

theorem or_xor3 (k u v w : Nat) :
    k ||| (u ^^^ v ^^^ w) = (k ||| u) ^^^ (k ||| v) ^^^ (k ||| w) := by
  apply Nat.eq_of_testBit_eq
  intro i
  simp only [Nat.testBit_or, Nat.testBit_xor]
  cases k.testBit i <;> cases u.testBit i <;> cases v.testBit i <;> cases w.testBit i <;> rfl

theorem and_xor3 (k u v w : Nat) :
    k &&& (u ^^^ v ^^^ w) = (k &&& u) ^^^ (k &&& v) ^^^ (k &&& w) := by
  rw [Nat.and_xor_distrib_left, Nat.and_xor_distrib_left]

theorem CAMELLIA_RL1_xor3 {a b c : Nat} (ha : W32 a) (hb : W32 b) (hc : W32 c) :
    CAMELLIA_RL1 (a ^^^ b ^^^ c) = CAMELLIA_RL1 a ^^^ CAMELLIA_RL1 b ^^^ CAMELLIA_RL1 c := by
  rw [CAMELLIA_RL1_xor (W32_xor ha hb) hc, CAMELLIA_RL1_xor ha hb]

/-- Rearrangement of a XOR of three pairs. -/
theorem xor3_pairs (a b c p q r : Nat) :
    a ^^^ b ^^^ c ^^^ (p ^^^ q ^^^ r) = (a ^^^ p) ^^^ (b ^^^ q) ^^^ (c ^^^ r) := by
  ac_rfl

/-- For fixed subkeys `CAMELLIA_FLS` maps the XOR of three blocks to the XOR of the three
results. -/
theorem CAMELLIA_FLS_xor3 (x y z : Quad) {kll krl : Nat} (klr krr : Nat) (hkll : W32 kll)
    (hkrl : W32 krl) :
    CAMELLIA_FLS
        { ll := x.ll ^^^ y.ll ^^^ z.ll, lr := x.lr ^^^ y.lr ^^^ z.lr,
          rl := x.rl ^^^ y.rl ^^^ z.rl, rr := x.rr ^^^ y.rr ^^^ z.rr } kll klr krl krr
      = { ll := (CAMELLIA_FLS x kll klr krl krr).ll ^^^ (CAMELLIA_FLS y kll klr krl krr).ll
            ^^^ (CAMELLIA_FLS z kll klr krl krr).ll,
          lr := (CAMELLIA_FLS x kll klr krl krr).lr ^^^ (CAMELLIA_FLS y kll klr krl krr).lr
            ^^^ (CAMELLIA_FLS z kll klr krl krr).lr,
          rl := (CAMELLIA_FLS x kll klr krl krr).rl ^^^ (CAMELLIA_FLS y kll klr krl krr).rl
            ^^^ (CAMELLIA_FLS z kll klr krl krr).rl,
          rr := (CAMELLIA_FLS x kll klr krl krr).rr ^^^ (CAMELLIA_FLS y kll klr krl krr).rr
            ^^^ (CAMELLIA_FLS z kll klr krl krr).rr } := by
  have w := fun a => W32_and_left a hkll
  have w' := fun a => W32_and_left a hkrl
  have e1 : x.lr ^^^ y.lr ^^^ z.lr ^^^ CAMELLIA_RL1 (kll &&& (x.ll ^^^ y.ll ^^^ z.ll))
      = (x.lr ^^^ CAMELLIA_RL1 (kll &&& x.ll)) ^^^ (y.lr ^^^ CAMELLIA_RL1 (kll &&& y.ll))
        ^^^ (z.lr ^^^ CAMELLIA_RL1 (kll &&& z.ll)) := by
    rw [and_xor3, CAMELLIA_RL1_xor3 (w _) (w _) (w _), xor3_pairs]
  have e3 : x.rl ^^^ y.rl ^^^ z.rl ^^^ (krr ||| (x.rr ^^^ y.rr ^^^ z.rr))
      = (x.rl ^^^ (krr ||| x.rr)) ^^^ (y.rl ^^^ (krr ||| y.rr))
        ^^^ (z.rl ^^^ (krr ||| z.rr)) := by
    rw [or_xor3, xor3_pairs]
  simp only [CAMELLIA_FLS, Quad.mk.injEq]
  refine ⟨?_, e1, e3, ?_⟩
  · rw [e1, or_xor3, xor3_pairs]
  · rw [e3, and_xor3, CAMELLIA_RL1_xor3 (w' _) (w' _) (w' _), xor3_pairs]

/-- A pair XORed into the right half before `CAMELLIA_FLS` comes out as
`(a_l', a_r')` XORed into the right half after it. -/
theorem CAMELLIA_FLS_right_mask (q : Quad) (kll klr : Nat) {krl : Nat} (krr : Nat) (al : Nat)
    {ar : Nat} (hkrl : W32 krl) (har : W32 ar) :
    CAMELLIA_FLS { ll := q.ll, lr := q.lr, rl := q.rl ^^^ al, rr := q.rr ^^^ ar }
        kll klr krl krr
      = { ll := (CAMELLIA_FLS q kll klr krl krr).ll,
          lr := (CAMELLIA_FLS q kll klr krl krr).lr,
          rl := (CAMELLIA_FLS q kll klr krl krr).rl ^^^ (al ^^^ (ar &&& NOT32 krr)),
          rr := (CAMELLIA_FLS q kll klr krl krr).rr
            ^^^ (ar ^^^ CAMELLIA_RL1 ((al ^^^ (ar &&& NOT32 krr)) &&& krl)) } := by
  have e3 : q.rl ^^^ al ^^^ (krr ||| (q.rr ^^^ ar))
      = (q.rl ^^^ (krr ||| q.rr)) ^^^ (al ^^^ (ar &&& NOT32 krr)) := by
    rw [or_xor_eq har]
    simp only [Nat.xor_assoc, Nat.xor_comm al, xor_left_comm al]
  simp only [CAMELLIA_FLS, Quad.mk.injEq]
  refine ⟨trivial, trivial, e3, ?_⟩
  rw [e3, Nat.and_xor_distrib_left,
    CAMELLIA_RL1_xor (W32_and_left _ hkrl) (W32_and_left _ hkrl),
    Nat.and_comm krl (al ^^^ (ar &&& NOT32 krr))]
  simp only [Nat.xor_assoc, Nat.xor_comm ar, xor_left_comm ar]

/-- Claim C32. For fixed 32-bit subkeys the FL layer is affine over XOR in the data
words: for all 4-word blocks `x, y, z`, `FLS_k(x xor y xor z)
= FLS_k(x) xor FLS_k(y) xor FLS_k(z)`.  In particular, XORing a constant `(a_l, a_r)` into
the right half before the layer equals XORing `(a_l', a_r')` after it, with
`a_l' = a_l xor (a_r and not krr)` and `a_r' = a_r xor rotl32(a_l' and krl, 1)`, which is
the update that the statements `kw4_step` and `kw2_step` of the key schedules apply to the
absorbed whitening key at an FL position whose scratch pair holds `(krl, krr)`. -/
theorem C32_FL_layer_affine (x y z : Quad) (kll klr krl krr al ar : Nat) (hkll : W32 kll)
    (hkrl : W32 krl) (har : W32 ar) :
    CAMELLIA_FLS
        { ll := x.ll ^^^ y.ll ^^^ z.ll, lr := x.lr ^^^ y.lr ^^^ z.lr,
          rl := x.rl ^^^ y.rl ^^^ z.rl, rr := x.rr ^^^ y.rr ^^^ z.rr } kll klr krl krr
        = { ll := (CAMELLIA_FLS x kll klr krl krr).ll ^^^ (CAMELLIA_FLS y kll klr krl krr).ll
              ^^^ (CAMELLIA_FLS z kll klr krl krr).ll,
            lr := (CAMELLIA_FLS x kll klr krl krr).lr ^^^ (CAMELLIA_FLS y kll klr krl krr).lr
              ^^^ (CAMELLIA_FLS z kll klr krl krr).lr,
            rl := (CAMELLIA_FLS x kll klr krl krr).rl ^^^ (CAMELLIA_FLS y kll klr krl krr).rl
              ^^^ (CAMELLIA_FLS z kll klr krl krr).rl,
            rr := (CAMELLIA_FLS x kll klr krl krr).rr ^^^ (CAMELLIA_FLS y kll klr krl krr).rr
              ^^^ (CAMELLIA_FLS z kll klr krl krr).rr }
      ∧ CAMELLIA_FLS { ll := x.ll, lr := x.lr, rl := x.rl ^^^ al, rr := x.rr ^^^ ar }
          kll klr krl krr
        = { ll := (CAMELLIA_FLS x kll klr krl krr).ll,
            lr := (CAMELLIA_FLS x kll klr krl krr).lr,
            rl := (CAMELLIA_FLS x kll klr krl krr).rl ^^^ (al ^^^ (ar &&& NOT32 krr)),
            rr := (CAMELLIA_FLS x kll klr krl krr).rr
              ^^^ (ar ^^^ Ref.rotl32 ((al ^^^ (ar &&& NOT32 krr)) &&& krl) 1) }
      ∧ (∀ (s : Scratch) (i : Nat), subl s i = krl → subr s i = krr →
          kw4_step s (al, ar) i
            = (al ^^^ (ar &&& NOT32 krr),
                ar ^^^ Ref.rotl32 ((al ^^^ (ar &&& NOT32 krr)) &&& krl) 1))
      ∧ (∀ (s : Scratch) (i : Nat), i ≠ 1 → subl s i = krl → subr s i = krr →
          subl s 1 = al → subr s 1 = ar →
          scratchPair (kw2_step s i) 1
            = (al ^^^ (ar &&& NOT32 krr),
                ar ^^^ Ref.rotl32 ((al ^^^ (ar &&& NOT32 krr)) &&& krl) 1)) := by
  have hr : Ref.rotl32 ((al ^^^ (ar &&& NOT32 krr)) &&& krl) 1
      = CAMELLIA_RL1 ((al ^^^ (ar &&& NOT32 krr)) &&& krl) :=
    rotl32_one (W32_and_right _ hkrl)
  rw [hr]
  refine ⟨CAMELLIA_FLS_xor3 x y z klr krr hkll hkrl,
    CAMELLIA_FLS_right_mask x kll klr krr al hkrl har, fun s i h1 h2 => ?_,
    fun s i hi h1 h2 h3 h4 => ?_⟩
  · rw [kw4_step_eq]
    simp only [FLfold, scratchPair, h1, h2]
  · rw [scratchPair_kw2_step s i 1 hi, if_pos rfl]
    simp only [FLfold, scratchPair, h1, h2, h3, h4]

theorem C32_FL_layer_affine_witness :
    CAMELLIA_FLS
        { ll := 1 ^^^ 2 ^^^ 3, lr := 4 ^^^ 5 ^^^ 6, rl := 7 ^^^ 8 ^^^ 9,
          rr := 10 ^^^ 11 ^^^ 12 } 0xffffffff 0x0f0f0f0f 0x80000001 0xf0f0f0f0
      = { ll := (CAMELLIA_FLS { ll := 1, lr := 4, rl := 7, rr := 10 }
                  0xffffffff 0x0f0f0f0f 0x80000001 0xf0f0f0f0).ll
              ^^^ (CAMELLIA_FLS { ll := 2, lr := 5, rl := 8, rr := 11 }
                  0xffffffff 0x0f0f0f0f 0x80000001 0xf0f0f0f0).ll
              ^^^ (CAMELLIA_FLS { ll := 3, lr := 6, rl := 9, rr := 12 }
                  0xffffffff 0x0f0f0f0f 0x80000001 0xf0f0f0f0).ll,
          lr := (CAMELLIA_FLS { ll := 1, lr := 4, rl := 7, rr := 10 }
                  0xffffffff 0x0f0f0f0f 0x80000001 0xf0f0f0f0).lr
              ^^^ (CAMELLIA_FLS { ll := 2, lr := 5, rl := 8, rr := 11 }
                  0xffffffff 0x0f0f0f0f 0x80000001 0xf0f0f0f0).lr
              ^^^ (CAMELLIA_FLS { ll := 3, lr := 6, rl := 9, rr := 12 }
                  0xffffffff 0x0f0f0f0f 0x80000001 0xf0f0f0f0).lr,
          rl := (CAMELLIA_FLS { ll := 1, lr := 4, rl := 7, rr := 10 }
                  0xffffffff 0x0f0f0f0f 0x80000001 0xf0f0f0f0).rl
              ^^^ (CAMELLIA_FLS { ll := 2, lr := 5, rl := 8, rr := 11 }
                  0xffffffff 0x0f0f0f0f 0x80000001 0xf0f0f0f0).rl
              ^^^ (CAMELLIA_FLS { ll := 3, lr := 6, rl := 9, rr := 12 }
                  0xffffffff 0x0f0f0f0f 0x80000001 0xf0f0f0f0).rl,
          rr := (CAMELLIA_FLS { ll := 1, lr := 4, rl := 7, rr := 10 }
                  0xffffffff 0x0f0f0f0f 0x80000001 0xf0f0f0f0).rr
              ^^^ (CAMELLIA_FLS { ll := 2, lr := 5, rl := 8, rr := 11 }
                  0xffffffff 0x0f0f0f0f 0x80000001 0xf0f0f0f0).rr
              ^^^ (CAMELLIA_FLS { ll := 3, lr := 6, rl := 9, rr := 12 }
                  0xffffffff 0x0f0f0f0f 0x80000001 0xf0f0f0f0).rr } :=
  (C32_FL_layer_affine { ll := 1, lr := 4, rl := 7, rr := 10 }
    { ll := 2, lr := 5, rl := 8, rr := 11 } { ll := 3, lr := 6, rl := 9, rr := 12 }
    0xffffffff 0x0f0f0f0f 0x80000001 0xf0f0f0f0 0 0 (by unfold W32; decide)
    (by unfold W32; decide) (by unfold W32; decide)).1

/-! ## FL subkeys taken from the raw key (claims C33, C36) -/

/-- Pairs 8 and 9 of the table of `camellia_setup256` hold KR rotated left by 30 bits. -/
theorem camellia_setup256_pairs_8_9 (key : List Nat) (T : Words) :
    Ref.rotl128 (pack128 (loadQuad key 16)) 30 >>> 64
        = pack64 (pairAt (camellia_setup256 key T) 8)
      ∧ Ref.rotl128 (pack128 (loadQuad key 16)) 30 &&& Ref.MASK64
        = pack64 (pairAt (camellia_setup256 key T) 9) := by
  have hk := loadQuad_W32 key 0
  have hkr := loadQuad_W32 key 16
  have h1 := setup256_KL_W32 hk Scratch.init_W32
  have h2 := setup256_KR_W32 (loadQuad key 16) h1
  have e2 := setup256_KR_snd hkr (setup256_KL (loadQuad key 0) Scratch.init)
  have hka := setup256_KA_W32 (setup256_KR (loadQuad key 16)
    (setup256_KL (loadQuad key 0) Scratch.init)).1 hkr
  have hkb := setup256_KB_W32 hka hkr
  have hs := setup256_KBsub_W32 hkb (setup256_KAsub_W32 (setup256_KA (setup256_KR
    (loadQuad key 16) (setup256_KL (loadQuad key 0) Scratch.init)).1 (loadQuad key 16)) h2.1)
  unfold camellia_setup256
  simp only [e2]
  rw [setup256_table _ hs T 8 (by decide), setup256_table _ hs T 9 (by decide)]
  exact ⟨setup256_pairs hk hkr hka hkb Scratch.init 8 (by decide),
    setup256_pairs hk hkr hka hkb Scratch.init 9 (by decide)⟩

/-- A 128-bit number whose halves are two subkey pairs has the four words of the pairs. -/
theorem words128_of_pairs {V : Nat} {p q : Nat × Nat} (hp : PW32 p) (hq : PW32 q)
    (h1 : V >>> 64 = pack64 p) (h2 : V &&& Ref.MASK64 = pack64 q) :
    words128 V = { ll := p.1, lr := p.2, rl := q.1, rr := q.2 } := by
  have hW : Quad.W32 { ll := p.1, lr := p.2, rl := q.1, rr := q.2 } :=
    ⟨hp.1, hp.2, hq.1, hq.2⟩
  have e : V = pack128 { ll := p.1, lr := p.2, rl := q.1, rr := q.2 } := by
    rw [and_MASK64] at h2
    rw [Nat.shiftRight_eq_div_pow] at h1
    show V = pack64 (p.1, p.2) * 2 ^ 64 + pack64 (q.1, q.2)
    have e1 : pack64 (p.1, p.2) = pack64 p := rfl
    have e2 : pack64 (q.1, q.2) = pack64 q := rfl
    rw [e1, e2, ← h1, ← h2]
    omega
  rw [e, words128_pack128 hW]

/-- The same for two consecutive subkey pairs `i`, `i + 1` of a key table. -/
theorem words128_of_table {V : Nat} (S : Words) (i : Nat)
    (hi : W32 (CamelliaSubkeyL S i) ∧ W32 (CamelliaSubkeyR S i))
    (hj : W32 (CamelliaSubkeyL S (i + 1)) ∧ W32 (CamelliaSubkeyR S (i + 1)))
    (h1 : V >>> 64 = pack64 (pairAt S i)) (h2 : V &&& Ref.MASK64 = pack64 (pairAt S (i + 1))) :
    words128 V = { ll := S.word (i * 2), lr := S.word (i * 2 + 1),
                   rl := S.word ((i + 1) * 2), rr := S.word ((i + 1) * 2 + 1) } :=
  words128_of_pairs (p := pairAt S i) (q := pairAt S (i + 1)) hi hj h1 h2

theorem loadQuad_append_left {a : List Nat} (ha : a.length = 16) (b : List Nat) :
    loadQuad (a ++ b) 0 = loadQuad a 0 := by
  match a, ha with
  | [_, _, _, _, _, _, _, _, _, _, _, _, _, _, _, _], _ =>
    simp [loadQuad, GETU32]

theorem loadQuad_append_right {a : List Nat} (ha : a.length = 16) (b : List Nat) :
    loadQuad (a ++ b) 16 = loadQuad b 0 := by
  match a, ha with
  | [_, _, _, _, _, _, _, _, _, _, _, _, _, _, _, _], _ =>
    simp [loadQuad, GETU32]

/-- Claim C33. FL subkeys taken from the raw key are emitted as plain rotations: for every
16-byte key `k`, words 32..35 (pairs 16 and 17) of the table from
`Camellia_Ekeygen(128, k)` are the four big-endian words of `k` rotated left by 77 bits as
a 128-bit value; for every 32-byte key `KL || KR`, the table from
`Camellia_Ekeygen(256, .)` has words 16..19 (pairs 8, 9) equal to `KR` rotated left by 30
bits and words 32..35 (pairs 16, 17) equal to `KL` rotated left by 60 bits.  The table is
scheduled from any prior contents `T`, on either host byte order. -/
theorem C33_FL_subkeys_are_rotations (o : ByteOrder) (k KL KR : List Nat)
    (hk : IsBytes 16 k) (hKL : IsBytes 16 KL) (hKR : IsBytes 16 KR) (T : Words) :
    words128 (Ref.rotl128 (Ref.be_nat k) 77)
        = { ll := (Camellia_Ekeygen o 128 k T).word 32,
            lr := (Camellia_Ekeygen o 128 k T).word 33,
            rl := (Camellia_Ekeygen o 128 k T).word 34,
            rr := (Camellia_Ekeygen o 128 k T).word 35 }
      ∧ words128 (Ref.rotl128 (Ref.be_nat KR) 30)
        = { ll := (Camellia_Ekeygen o 256 (KL ++ KR) T).word 16,
            lr := (Camellia_Ekeygen o 256 (KL ++ KR) T).word 17,
            rl := (Camellia_Ekeygen o 256 (KL ++ KR) T).word 18,
            rr := (Camellia_Ekeygen o 256 (KL ++ KR) T).word 19 }
      ∧ words128 (Ref.rotl128 (Ref.be_nat KL) 60)
        = { ll := (Camellia_Ekeygen o 256 (KL ++ KR) T).word 32,
            lr := (Camellia_Ekeygen o 256 (KL ++ KR) T).word 33,
            rl := (Camellia_Ekeygen o 256 (KL ++ KR) T).word 34,
            rr := (Camellia_Ekeygen o 256 (KL ++ KR) T).word 35 } := by
  rw [Camellia_Ekeygen_128, Camellia_Ekeygen_256, be_nat_16 hk, be_nat_16 hKL, be_nat_16 hKR,
    ← loadQuad_append_left hKL.1 KR, ← loadQuad_append_right hKL.1 KR]
  have P1 := camellia_setup128_Pairs k T
  have P2 := camellia_setup256_Pairs (KL ++ KR) T
  obtain ⟨a1, a2⟩ := camellia_setup128_pairs_16_17 k T
  obtain ⟨b1, b2⟩ := camellia_setup256_pairs_8_9 (KL ++ KR) T
  obtain ⟨c1, c2⟩ := camellia_setup256_pairs_16_17 (KL ++ KR) T
  exact ⟨words128_of_table (camellia_setup128 k T) 16 (P1 16 (by decide)) (P1 17 (by decide))
      a1 a2,
    words128_of_table (camellia_setup256 (KL ++ KR) T) 8 (P2 8 (by decide))
      (P2 9 (by decide)) b1 b2,
    words128_of_table (camellia_setup256 (KL ++ KR) T) 16 (P2 16 (by decide))
      (P2 17 (by decide)) c1 c2⟩

theorem C33_FL_subkeys_are_rotations_witness :
    words128 (Ref.rotl128 (Ref.be_nat kat_key128) 77)
        = { ll := (Camellia_Ekeygen ByteOrder.little 128 kat_key128 zeroTable).word 32,
            lr := (Camellia_Ekeygen ByteOrder.little 128 kat_key128 zeroTable).word 33,
            rl := (Camellia_Ekeygen ByteOrder.little 128 kat_key128 zeroTable).word 34,
            rr := (Camellia_Ekeygen ByteOrder.little 128 kat_key128 zeroTable).word 35 }
      ∧ words128 (Ref.rotl128 (Ref.be_nat zeroBlock) 30)
        = { ll := (Camellia_Ekeygen ByteOrder.little 256 (kat_key128 ++ zeroBlock)
              zeroTable).word 16,
            lr := (Camellia_Ekeygen ByteOrder.little 256 (kat_key128 ++ zeroBlock)
              zeroTable).word 17,
            rl := (Camellia_Ekeygen ByteOrder.little 256 (kat_key128 ++ zeroBlock)
              zeroTable).word 18,
            rr := (Camellia_Ekeygen ByteOrder.little 256 (kat_key128 ++ zeroBlock)
              zeroTable).word 19 }
      ∧ words128 (Ref.rotl128 (Ref.be_nat kat_key128) 60)
        = { ll := (Camellia_Ekeygen ByteOrder.little 256 (kat_key128 ++ zeroBlock)
              zeroTable).word 32,
            lr := (Camellia_Ekeygen ByteOrder.little 256 (kat_key128 ++ zeroBlock)
              zeroTable).word 33,
            rl := (Camellia_Ekeygen ByteOrder.little 256 (kat_key128 ++ zeroBlock)
              zeroTable).word 34,
            rr := (Camellia_Ekeygen ByteOrder.little 256 (kat_key128 ++ zeroBlock)
              zeroTable).word 35 } :=
  C33_FL_subkeys_are_rotations ByteOrder.little kat_key128 kat_key128 zeroBlock (by decide)
    (by decide) (by decide) zeroTable

/-- Claim C36. In `camellia_setup256` the five in-place rotations of the key's right half
(15, 15, 30, 34 and 34 bits) sum to 128 bits, so when KA is generated the variables
`krll, krlr, krrl, krrr` again hold the words loaded big-endian from key bytes 16..31, for
every key: the second component of `setup256_KR`, which `camellia_setup256` hands to
`setup256_KA`, is the five rotations applied to the loaded words, and it equals the loaded
words. -/
theorem C36_KR_restored_after_rotations (key : List Nat) (s : Scratch) (T : Words) :
    15 + 15 + 30 + 34 + 34 = 128
      ∧ (setup256_KR (loadQuad key 16) s).2
        = CAMELLIA_ROLDQo32 (CAMELLIA_ROLDQo32 (CAMELLIA_ROLDQ (CAMELLIA_ROLDQ
            (CAMELLIA_ROLDQ (loadQuad key 16) 15) 15) 30) 34) 34
      ∧ CAMELLIA_ROLDQo32 (CAMELLIA_ROLDQo32 (CAMELLIA_ROLDQ (CAMELLIA_ROLDQ
            (CAMELLIA_ROLDQ (loadQuad key 16) 15) 15) 30) 34) 34
        = { ll := GETU32 key 16, lr := GETU32 key 20, rl := GETU32 key 24,
            rr := GETU32 key 28 }
      ∧ (setup256_KR (loadQuad key 16) s).2 = loadQuad key 16
      ∧ pack128 (CAMELLIA_ROLDQo32 (CAMELLIA_ROLDQ (CAMELLIA_ROLDQ
            (CAMELLIA_ROLDQ (loadQuad key 16) 15) 15) 30) 34)
        = Ref.rotl128 (pack128 (loadQuad key 16)) 94
      ∧ camellia_setup256 key T
        = setup256_invP (setup256_emit (setup256_kw4 (setup256_kw2
            (setup256_KBsub
              (setup256_KB
                (setup256_KA (setup256_KR (loadQuad key 16)
                  (setup256_KL (loadQuad key 0) Scratch.init)).1 (loadQuad key 16))
                (loadQuad key 16))
              (setup256_KAsub
                (setup256_KA (setup256_KR (loadQuad key 16)
                  (setup256_KL (loadQuad key 0) Scratch.init)).1 (loadQuad key 16))
                (setup256_KR (loadQuad key 16)
                  (setup256_KL (loadQuad key 0) Scratch.init)).1)))) T) := by
  have hkr := loadQuad_W32 key 16
  have e := setup256_KR_snd hkr s
  have e0 := setup256_KR_snd hkr (setup256_KL (loadQuad key 0) Scratch.init)
  have hR := pack128_lt hkr
  refine ⟨rfl, rfl, ?_, e, ?_, ?_⟩
  · exact e
  · rw [pack128_ROLDQo32 (ROLDQ_W32 _ _) (by norm_num) (by norm_num),
      pack128_ROLDQ (ROLDQ_W32 _ _) (by norm_num), pack128_ROLDQ (ROLDQ_W32 _ _) (by norm_num),
      pack128_ROLDQ hkr (by norm_num), rotl128_add hR (by norm_num),
      rotl128_add hR (by norm_num), rotl128_add hR (by norm_num)]
  · unfold camellia_setup256
    simp only [e0]

/-! ## The schedule is one-to-one in the key, and its frame (claims C34, C35) -/

theorem rotl128_inj {X Y n : Nat} (hX : X < 2 ^ 128) (hY : Y < 2 ^ 128) (hn : n ≤ 128)
    (h : Ref.rotl128 X n = Ref.rotl128 Y n) : X = Y := by
  have e := congrArg (fun v => Ref.rotl128 v (128 - n)) h
  simp only [] at e
  rw [rotl128_add hX (by omega), rotl128_add hY (by omega),
    show n + (128 - n) = 128 from by omega, rotl128_full hX, rotl128_full hY] at e
  exact e

/-- Sixteen bytes are determined by the four words loaded from them. -/
theorem loadQuad_inj {k k' : List Nat} (hk : IsBytes 16 k) (hk' : IsBytes 16 k')
    (h : loadQuad k 0 = loadQuad k' 0) : k = k' := by
  have e : loadBlock k = loadBlock k' := h
  rw [← blockBytes_loadBlock hk, ← blockBytes_loadBlock hk', e]

/-- Two tables that hold the same words in two consecutive pairs hold the same 128-bit
number there. -/
theorem eq_of_pairs {V V' : Nat} {S S' : Words} {i : Nat}
    (h1 : V >>> 64 = pack64 (pairAt S i)) (h2 : V &&& Ref.MASK64 = pack64 (pairAt S (i + 1)))
    (h1' : V' >>> 64 = pack64 (pairAt S' i))
    (h2' : V' &&& Ref.MASK64 = pack64 (pairAt S' (i + 1)))
    (e0 : S.word (i * 2) = S'.word (i * 2)) (e1 : S.word (i * 2 + 1) = S'.word (i * 2 + 1))
    (e2 : S.word ((i + 1) * 2) = S'.word ((i + 1) * 2))
    (e3 : S.word ((i + 1) * 2 + 1) = S'.word ((i + 1) * 2 + 1)) : V = V' := by
  have p1 : pairAt S i = pairAt S' i := Prod.ext e0 e1
  have p2 : pairAt S (i + 1) = pairAt S' (i + 1) := Prod.ext e2 e3
  exact eq_of_halves (by rw [h1, h1', p1]) (by rw [h2, h2', p2])

/-- The 16-byte key can be read back from words 32..35 of its table. -/
theorem camellia_setup128_key_inj {k k' : List Nat} (hk : IsBytes 16 k) (hk' : IsBytes 16 k')
    (T T' : Words)
    (h : ∀ j, 32 ≤ j → j ≤ 35 → (camellia_setup128 k T).word j = (camellia_setup128 k' T').word j) :
    k = k' := by
  obtain ⟨a1, a2⟩ := camellia_setup128_pairs_16_17 k T
  obtain ⟨b1, b2⟩ := camellia_setup128_pairs_16_17 k' T'
  have e := eq_of_pairs (i := 16) a1 a2 b1 b2 (h 32 (by norm_num) (by norm_num))
    (h 33 (by norm_num) (by norm_num)) (h 34 (by norm_num) (by norm_num))
    (h 35 (by norm_num) (by norm_num))
  have e' := rotl128_inj (pack128_lt (loadQuad_W32 k 0)) (pack128_lt (loadQuad_W32 k' 0))
    (by norm_num) e
  exact loadQuad_inj hk hk' (pack128_inj (loadQuad_W32 k 0) (loadQuad_W32 k' 0) e')

theorem IsBytes_take_drop {k : List Nat} (hk : IsBytes 32 k) :
    IsBytes 16 (k.take 16) ∧ IsBytes 16 (k.drop 16) := by
  obtain ⟨hl, hb⟩ := hk
  refine ⟨⟨by rw [List.length_take]; omega, fun b h => hb b (List.mem_of_mem_take h)⟩,
    ⟨by rw [List.length_drop]; omega, fun b h => hb b (List.mem_of_mem_drop h)⟩⟩

/-- The 32-byte key can be read back from words 16..19 and 32..35 of its table. -/
theorem camellia_setup256_key_inj {k k' : List Nat} (hk : IsBytes 32 k) (hk' : IsBytes 32 k')
    (T T' : Words)
    (h : ∀ j, (16 ≤ j ∧ j ≤ 19) ∨ (32 ≤ j ∧ j ≤ 35) →
      (camellia_setup256 k T).word j = (camellia_setup256 k' T').word j) :
    k = k' := by
  obtain ⟨a1, a2⟩ := camellia_setup256_pairs_16_17 k T
  obtain ⟨b1, b2⟩ := camellia_setup256_pairs_16_17 k' T'
  obtain ⟨c1, c2⟩ := camellia_setup256_pairs_8_9 k T
  obtain ⟨d1, d2⟩ := camellia_setup256_pairs_8_9 k' T'
  have eL := rotl128_inj (pack128_lt (loadQuad_W32 k 0)) (pack128_lt (loadQuad_W32 k' 0))
    (by norm_num)
    (eq_of_pairs (i := 16) a1 a2 b1 b2 (h 32 (by omega)) (h 33 (by omega)) (h 34 (by omega))
      (h 35 (by omega)))
  have eR := rotl128_inj (pack128_lt (loadQuad_W32 k 16)) (pack128_lt (loadQuad_W32 k' 16))
    (by norm_num)
    (eq_of_pairs (i := 8) c1 c2 d1 d2 (h 16 (by omega)) (h 17 (by omega)) (h 18 (by omega))
      (h 19 (by omega)))
  have qL := pack128_inj (loadQuad_W32 k 0) (loadQuad_W32 k' 0) eL
  have qR := pack128_inj (loadQuad_W32 k 16) (loadQuad_W32 k' 16) eR
  obtain ⟨t, d⟩ := IsBytes_take_drop hk
  obtain ⟨t', d'⟩ := IsBytes_take_drop hk'
  have sk : k = k.take 16 ++ k.drop 16 := (List.take_append_drop 16 k).symm
  have sk' : k' = k'.take 16 ++ k'.drop 16 := (List.take_append_drop 16 k').symm
  rw [sk, sk', loadQuad_append_left t.1, loadQuad_append_left t'.1] at qL
  rw [sk, sk', loadQuad_append_right t.1, loadQuad_append_right t'.1] at qR
  rw [sk, sk', loadQuad_inj t t' qL, loadQuad_inj d d' qR]

theorem IsBytes_key192_extended {k : List Nat} (hk : IsBytes 24 k) :
    IsBytes 32 (key192_extended k) := by
  obtain ⟨hl, hb⟩ := hk
  refine ⟨by simp [key192_extended, hl], fun b h => ?_⟩
  simp only [key192_extended, List.mem_append, List.mem_map] at h
  rcases h with h | ⟨a, _, rfl⟩
  · exact hb b h
  · omega

theorem key192_extended_inj {k k' : List Nat} (hk : IsBytes 24 k) (hk' : IsBytes 24 k')
    (h : key192_extended k = key192_extended k') : k = k' :=
  (List.append_inj h (by rw [hk.1, hk'.1])).1

/-- Claim C34. The key schedule is injective: for each supported key size, two distinct
keys of that size (`bits / 8` bytes) give subkey tables that differ in at least one word
written by the schedule, namely in one of the words of the emitted FL subkeys from which
the key can be read back: words 32..35 (pairs 16, 17), or, for 192 and 256 bits, words
16..19 (pairs 8, 9).  The two tables may start from any contents, in particular from the
same, on either host byte order. -/
theorem C34_schedule_injective (o : ByteOrder) (bits : Int)
    (hbits : bits = 128 ∨ bits = 192 ∨ bits = 256) (k k' : List Nat)
    (hk : IsBytes (bits / 8).toNat k) (hk' : IsBytes (bits / 8).toNat k') (hne : k ≠ k')
    (T T' : Words) :
    ∃ j, ((32 ≤ j ∧ j ≤ 35) ∨ (bits ≠ 128 ∧ 16 ≤ j ∧ j ≤ 19))
      ∧ (j < (if bits = 128 then 50 else 66) ∧ j ≠ 2 ∧ j ≠ 3)
      ∧ (Camellia_Ekeygen o bits k T).word j ≠ (Camellia_Ekeygen o bits k' T').word j := by
  by_contra hc
  have hall : ∀ j, ((32 ≤ j ∧ j ≤ 35) ∨ (bits ≠ 128 ∧ 16 ≤ j ∧ j ≤ 19)) →
      (Camellia_Ekeygen o bits k T).word j = (Camellia_Ekeygen o bits k' T').word j := by
    intro j hj
    by_contra hw
    refine hc ⟨j, hj, ⟨?_, ?_, ?_⟩, hw⟩
    · split <;> omega
    · omega
    · omega
  apply hne
  rcases hbits with h | h | h
  · subst h
    have e : ((128 : Int) / 8).toNat = 16 := by decide
    rw [e] at hk hk'
    refine camellia_setup128_key_inj hk hk' T T' (fun j h1 h2 => ?_)
    have := hall j (Or.inl ⟨h1, h2⟩)
    rwa [Camellia_Ekeygen_128, Camellia_Ekeygen_128] at this
  · subst h
    have e : ((192 : Int) / 8).toNat = 24 := by decide
    rw [e] at hk hk'
    refine key192_extended_inj hk hk' (camellia_setup256_key_inj
      (IsBytes_key192_extended hk) (IsBytes_key192_extended hk') T T' (fun j hj => ?_))
    have := hall j (by omega)
    rwa [Camellia_Ekeygen_192, Camellia_Ekeygen_192, setup192_kk_eq o hk,
      setup192_kk_eq o hk'] at this
  · subst h
    have e : ((256 : Int) / 8).toNat = 32 := by decide
    rw [e] at hk hk'
    refine camellia_setup256_key_inj hk hk' T T' (fun j hj => ?_)
    have := hall j (by omega)
    rwa [Camellia_Ekeygen_256, Camellia_Ekeygen_256] at this

theorem C34_schedule_injective_witness :
    ∃ j, ((32 ≤ j ∧ j ≤ 35) ∨ ((192 : Int) ≠ 128 ∧ 16 ≤ j ∧ j ≤ 19))
      ∧ (j < (if (192 : Int) = 128 then 50 else 66) ∧ j ≠ 2 ∧ j ≠ 3)
      ∧ (Camellia_Ekeygen ByteOrder.little 192 kat_key192 zeroTable).word j
        ≠ (Camellia_Ekeygen ByteOrder.little 192 (List.replicate 24 0) zeroTable).word j :=
  C34_schedule_injective ByteOrder.little 192 (Or.inr (Or.inl rfl)) kat_key192
    (List.replicate 24 0) (by decide) (by decide) (by decide) zeroTable zeroTable

/-- Claim C35. Frame of the schedule: `Camellia_Ekeygen(128, k, T)` changes at most the
words 0, 1 and 4..49 of `T` and leaves words 2, 3 (subkey pair 1) and every word from
index 50 on exactly as they were; `Camellia_Ekeygen(192 or 256, k, T)` changes at most the
words 0, 1 and 4..65 and leaves words 2, 3 and every word from index 66 on unchanged. -/
theorem C35_schedule_frame (o : ByteOrder) (bits : Int)
    (hbits : bits = 128 ∨ bits = 192 ∨ bits = 256) (k : List Nat) (T : Words) :
    (∀ j, (j = 2 ∨ j = 3 ∨ (if bits = 128 then 50 else 66) ≤ j) →
        (Camellia_Ekeygen o bits k T).word j = T.word j)
      ∧ (∀ j, (Camellia_Ekeygen o bits k T).word j ≠ T.word j →
        j = 0 ∨ j = 1 ∨ (4 ≤ j ∧ j ≤ (if bits = 128 then 49 else 65))) := by
  have hf : ∀ j, (j = 2 ∨ j = 3 ∨ (if bits = 128 then 50 else 66) ≤ j) →
      (Camellia_Ekeygen o bits k T).word j = T.word j := by
    intro j hj
    rcases hbits with h | h
    · subst h
      rw [if_pos rfl] at hj
      rw [Camellia_Ekeygen_128]
      exact camellia_setup128_frame k T j (fun hm => by
        have := (pairs128_words j).1 hm
        omega)
    · obtain ⟨kk, hkk⟩ := Camellia_Ekeygen_256_class o bits h k
      have h128 : bits ≠ 128 := by omega
      rw [if_neg h128] at hj
      rw [hkk]
      exact camellia_setup256_frame kk T j (fun hm => by
        have := (pairs256_words j).1 hm
        omega)
  refine ⟨hf, fun j hj => ?_⟩
  by_contra hc
  apply hj
  apply hf
  split at hc <;> split <;> omega

theorem C35_schedule_frame_witness :
    (∀ j, (j = 2 ∨ j = 3 ∨ (if (256 : Int) = 128 then 50 else 66) ≤ j) →
        (Camellia_Ekeygen ByteOrder.big 256 kat_key256 (store zeroTable 2 1)).word j
          = (store zeroTable 2 1).word j)
      ∧ (∀ j, (Camellia_Ekeygen ByteOrder.big 256 kat_key256 (store zeroTable 2 1)).word j
          ≠ (store zeroTable 2 1).word j →
        j = 0 ∨ j = 1 ∨ (4 ≤ j ∧ j ≤ (if (256 : Int) = 128 then 49 else 65))) :=
  C35_schedule_frame ByteOrder.big 256 (Or.inr (Or.inr rfl)) kat_key256 (store zeroTable 2 1)

end Camellia
